import Mathlib

/-!
Verification of the tic-tac-toe core of `zero_x_game.py`: the board model,
the outcome evaluator (`wins`, `game_over`, `evaluate`), move application
(`valid_move`, `set_move`) and the `minimax` search engine.

The Python program keeps a global 3×3 list-of-lists board and mutates it in
place; here the board is a nine-field structure passed explicitly, and
`minimax` returns the final board alongside its result, so the speculative
place/revert discipline of the search is visible and provable.  Python's
`-infinity` / `+infinity` float sentinels become the `XScore` type, which
carries the exact comparison behaviour of the source (`fin a < fin b` iff
`a < b`, `negInf` below everything else, `posInf` above everything else).
-/

namespace ZeroX

/-- Cell marker and signed weight of the human player (`HUMAN = -1`). -/
def HUMAN : Int := -1

/-- Cell marker and signed weight of the computer player (`COMP = +1`). -/
def COMP : Int := 1

/-- The 3×3 board; field `aXY` is Python's `state[X][Y]`.  Cells hold `0`
(empty), `HUMAN` or `COMP`; the type does not restrict the values, just as
the Python lists do not. -/
structure Board where
  a00 : Int
  a01 : Int
  a02 : Int
  a10 : Int
  a11 : Int
  a12 : Int
  a20 : Int
  a21 : Int
  a22 : Int
deriving DecidableEq, Repr

/-- The initial board of the program: all nine cells empty. -/
def board : Board := ⟨0, 0, 0, 0, 0, 0, 0, 0, 0⟩

/-- A full drawn board: no winning line and no empty cell. -/
def fullDraw : Board := ⟨1, -1, 1, 1, -1, -1, -1, 1, 1⟩

/-- A board, unreachable in play but representable, where both players have
complete lines. -/
def bothWin : Board := ⟨1, 1, 1, -1, -1, -1, 0, 0, 0⟩

/-- A non-terminal board with exactly two empty cells all of whose
completions are drawn: searching it deeper than its empty-cell count makes
the sentinel scores surface. -/
def cB : Board := ⟨0, 0, 1, 1, -1, -1, -1, 1, 1⟩

/-- Scenario 1 of the specification: the computer completes the top row. -/
def sc1 : Board := ⟨1, 1, 0, -1, -1, 0, 0, 0, 0⟩

/-- The eight candidate winning lines of `wins`: three rows, three columns,
two diagonals, in the source's order. -/
def win_state (s : Board) : List (List Int) :=
  [[s.a00, s.a01, s.a02],
   [s.a10, s.a11, s.a12],
   [s.a20, s.a21, s.a22],
   [s.a00, s.a10, s.a20],
   [s.a01, s.a11, s.a21],
   [s.a02, s.a12, s.a22],
   [s.a00, s.a11, s.a22],
   [s.a20, s.a11, s.a02]]

/-- `wins(state, player)`: true iff `[player, player, player]` occurs among
the eight lines of `win_state`. -/
def wins (s : Board) (player : Int) : Bool :=
  decide ([player, player, player] ∈ win_state s)

/-- `evaluate(state)`: `+1` if the computer has a line, else `-1` if the
human has a line, else `0`. -/
def evaluate (s : Board) : Int :=
  if wins s COMP then 1
  else if wins s HUMAN then -1
  else 0

/-- `game_over(state)`: `wins(state, HUMAN) or wins(state, COMP)`. -/
def game_over (s : Board) : Bool :=
  wins s HUMAN || wins s COMP

/-- `empty_cells(state)`: the coordinates of the empty cells, in the
row-major order of the source's nested loops. -/
def empty_cells (s : Board) : List (Int × Int) :=
  (if s.a00 = 0 then [((0 : Int), (0 : Int))] else []) ++
  (if s.a01 = 0 then [((0 : Int), (1 : Int))] else []) ++
  (if s.a02 = 0 then [((0 : Int), (2 : Int))] else []) ++
  (if s.a10 = 0 then [((1 : Int), (0 : Int))] else []) ++
  (if s.a11 = 0 then [((1 : Int), (1 : Int))] else []) ++
  (if s.a12 = 0 then [((1 : Int), (2 : Int))] else []) ++
  (if s.a20 = 0 then [((2 : Int), (0 : Int))] else []) ++
  (if s.a21 = 0 then [((2 : Int), (1 : Int))] else []) ++
  (if s.a22 = 0 then [((2 : Int), (2 : Int))] else [])

/-- `valid_move(x, y)`: membership of `[x, y]` in `empty_cells` (the Python
function reads the global board; here the board is an argument). -/
def valid_move (b : Board) (x y : Int) : Bool :=
  decide ((x, y) ∈ empty_cells b)

/-- Writing one cell of the board: the embedding of Python's
`state[x][y] = v` for the in-range coordinates the program uses.  Out-of-range
coordinates leave the board unchanged (the program never writes out of
range: `set_move` is guarded by `valid_move`, and `minimax` only writes at
members of `empty_cells`). -/
def setCell (b : Board) (x y v : Int) : Board :=
  if x = 0 ∧ y = 0 then { b with a00 := v }
  else if x = 0 ∧ y = 1 then { b with a01 := v }
  else if x = 0 ∧ y = 2 then { b with a02 := v }
  else if x = 1 ∧ y = 0 then { b with a10 := v }
  else if x = 1 ∧ y = 1 then { b with a11 := v }
  else if x = 1 ∧ y = 2 then { b with a12 := v }
  else if x = 2 ∧ y = 0 then { b with a20 := v }
  else if x = 2 ∧ y = 1 then { b with a21 := v }
  else if x = 2 ∧ y = 2 then { b with a22 := v }
  else b

/-- Reading one cell of the board: the embedding of Python's `state[x][y]`
at the in-range coordinates. -/
def getCell (b : Board) (x y : Int) : Int :=
  if x = 0 ∧ y = 0 then b.a00
  else if x = 0 ∧ y = 1 then b.a01
  else if x = 0 ∧ y = 2 then b.a02
  else if x = 1 ∧ y = 0 then b.a10
  else if x = 1 ∧ y = 1 then b.a11
  else if x = 1 ∧ y = 2 then b.a12
  else if x = 2 ∧ y = 0 then b.a20
  else if x = 2 ∧ y = 1 then b.a21
  else if x = 2 ∧ y = 2 then b.a22
  else 0

/-- `set_move(x, y, player)`: if the move is valid, write the cell and
report `true`; otherwise report `false`.  The pair carries the returned
Boolean and the board after the call (the Python function mutates the
global board). -/
def set_move (b : Board) (x y player : Int) : Bool × Board :=
  if valid_move b x y then (true, setCell b x y player) else (false, b)

/-- Scores as the source manipulates them: an exact integer, or one of the
float sentinels `-infinity` / `+infinity` used to initialise `best`. -/
inductive XScore where
  | negInf : XScore
  | fin : Int → XScore
  | posInf : XScore
deriving DecidableEq, Repr

/-- The strict order on scores, exactly as Python compares ints with the
two infinities. -/
def XScore.lt : XScore → XScore → Bool
  | .negInf, .negInf => false
  | .negInf, _ => true
  | .fin _, .negInf => false
  | .fin a, .fin b => decide (a < b)
  | .fin _, .posInf => true
  | .posInf, _ => false

/-- The non-strict order on scores, matching `Python`'s `<=` on ints and
the two infinities; used to state bounds on search values. -/
def XScore.ble : XScore → XScore → Bool
  | .negInf, _ => true
  | .fin _, .negInf => false
  | .fin a, .fin b => decide (a ≤ b)
  | .fin _, .posInf => true
  | .posInf, .posInf => true
  | .posInf, _ => false

/-- Whether a score is an exact integer (no sentinel). -/
def XScore.isFin : XScore → Bool
  | .fin _ => true
  | _ => false

/-- The initial `best` of a `minimax` node: `[-1, -1, -infinity]` for the
maximising computer, `[-1, -1, +infinity]` otherwise. -/
def mmInit (player : Int) : Int × Int × XScore :=
  if player = COMP then (-1, -1, XScore.negInf) else (-1, -1, XScore.posInf)

/-- The candidate loop of `minimax`: for each cell, speculatively place the
player's mark, recurse through `recur`, erase the mark, stamp the cell's
coordinates on the child's score, and keep it when it strictly improves on
`best`.  The board is threaded through explicitly, mirroring the in-place
mutation of the source. -/
def mmStep (recur : Board → Int → (Int × Int × XScore) × Board) (player : Int) :
    List (Int × Int) → (Int × Int × XScore) → Board → (Int × Int × XScore) × Board
  | [], best, state => (best, state)
  | (x, y) :: rest, best, state =>
    let state1 := setCell state x y player
    let r := recur state1 (-player)
    let state2 := setCell r.2 x y 0
    let cand : Int × Int × XScore := (x, y, r.1.2.2)
    let best2 :=
      if player = COMP then (if XScore.lt best.2.2 cand.2.2 then cand else best)
      else (if XScore.lt cand.2.2 best.2.2 then cand else best)
    mmStep recur player rest best2 state2

/-- `minimax(state, depth, player)`: leaf `[-1, -1, evaluate(state)]` when
`depth == 0 or game_over(state)`, otherwise the candidate loop over
`empty_cells(state)`.  The second component is the board when the call
returns. -/
def minimax : Nat → Board → Int → (Int × Int × XScore) × Board
  | 0, state, _ => ((-1, -1, XScore.fin (evaluate state)), state)
  | d + 1, state, player =>
    if game_over state then ((-1, -1, XScore.fin (evaluate state)), state)
    else mmStep (minimax d) player (empty_cells state) (mmInit player) state

/-- The selection step of the candidate loop: keep `cand` when it strictly
improves on `best` for `player`. -/
def mmPick (player : Int) (best cand : Int × Int × XScore) : Int × Int × XScore :=
  if player = COMP then (if XScore.lt best.2.2 cand.2.2 then cand else best)
  else (if XScore.lt cand.2.2 best.2.2 then cand else best)

/-- The boards reached by placing player `p` on each empty cell of `s`,
in row-major order. -/
def childBoards (p : Int) (s : Board) : List Board :=
  (empty_cells s).map (fun c => setCell s c.1 c.2 p)

/-- Conjunction of upper bounds on the values of a list of child boards,
searched at depth `e` with player `q` to move. -/
def AllLE (e : Nat) (q : Int) (v : XScore) : List Board → Prop
  | [] => True
  | b :: rest => (XScore.ble ((minimax e b q).1.2.2) v = true) ∧ AllLE e q v rest

/-- Conjunction of lower bounds on the values of a list of child boards. -/
def AllGE (e : Nat) (q : Int) (v : XScore) : List Board → Prop
  | [] => True
  | b :: rest => (XScore.ble v ((minimax e b q).1.2.2) = true) ∧ AllGE e q v rest

/-- The nine in-range coordinate pairs of the board. -/
def allCoords : List (Int × Int) :=
  [(0, 0), (0, 1), (0, 2), (1, 0), (1, 1), (1, 2), (2, 0), (2, 1), (2, 2)]

end ZeroX

namespace ZeroX

/-! ### Order facts about `XScore` -/

theorem XScore.ble_refl (a : XScore) : XScore.ble a a = true := by
  cases a <;> simp [XScore.ble]

theorem XScore.lt_eq_false_iff (a b : XScore) :
    XScore.lt a b = false ↔ XScore.ble b a = true := by
  cases a <;> cases b <;> simp [XScore.lt, XScore.ble] <;> omega

theorem XScore.lt_imp_ble (a b : XScore) (h : XScore.lt a b = true) :
    XScore.ble a b = true := by
  cases a <;> cases b <;> simp_all [XScore.lt, XScore.ble] <;> omega

theorem XScore.ble_trans (a b c : XScore) (h1 : XScore.ble a b = true)
    (h2 : XScore.ble b c = true) : XScore.ble a c = true := by
  cases a <;> cases b <;> cases c <;> simp_all [XScore.ble] <;> omega

theorem XScore.ble_antisymm (a b : XScore) (h1 : XScore.ble a b = true)
    (h2 : XScore.ble b a = true) : a = b := by
  cases a <;> cases b <;> simp_all [XScore.ble] <;> omega

theorem XScore.ble_negInf (a : XScore) : XScore.ble XScore.negInf a = true := by
  cases a <;> simp [XScore.ble]

theorem XScore.ble_posInf (a : XScore) : XScore.ble a XScore.posInf = true := by
  cases a <;> simp [XScore.ble]

/-! ### Cell membership and `setCell` -/

theorem mem_ite_single {α : Type} (c : Prop) [Decidable c] (a b : α) :
    (a ∈ if c then [b] else []) ↔ c ∧ a = b := by
  split_ifs with h <;> simp [h]

theorem mem_empty_cells (s : Board) (x y : Int) :
    (x, y) ∈ empty_cells s ↔
      ((s.a00 = 0 ∧ x = 0 ∧ y = 0) ∨ (s.a01 = 0 ∧ x = 0 ∧ y = 1) ∨
       (s.a02 = 0 ∧ x = 0 ∧ y = 2) ∨ (s.a10 = 0 ∧ x = 1 ∧ y = 0) ∨
       (s.a11 = 0 ∧ x = 1 ∧ y = 1) ∨ (s.a12 = 0 ∧ x = 1 ∧ y = 2) ∨
       (s.a20 = 0 ∧ x = 2 ∧ y = 0) ∨ (s.a21 = 0 ∧ x = 2 ∧ y = 1) ∨
       (s.a22 = 0 ∧ x = 2 ∧ y = 2)) := by
  simp [empty_cells, List.mem_append, mem_ite_single, Prod.mk.injEq]

theorem setCell_revert (s : Board) (x y v : Int) (h : (x, y) ∈ empty_cells s) :
    setCell (setCell s x y v) x y 0 = s := by
  obtain ⟨a00, a01, a02, a10, a11, a12, a20, a21, a22⟩ := s
  rw [mem_empty_cells] at h
  rcases h with h | h | h | h | h | h | h | h | h <;>
    (obtain ⟨h0, hx, hy⟩ := h; subst hx; subst hy; simp_all [setCell])

end ZeroX

namespace ZeroX

/-- Writing `0` into an already-empty cell leaves the board unchanged. -/
theorem setCell_zero_of_empty (s : Board) (x y : Int)
    (h : (x, y) ∈ empty_cells s) : setCell s x y 0 = s := by
  obtain ⟨a00, a01, a02, a10, a11, a12, a20, a21, a22⟩ := s
  rw [mem_empty_cells] at h
  rcases h with h | h | h | h | h | h | h | h | h <;>
    (obtain ⟨h0, hx, hy⟩ := h; subst hx; subst hy; simp_all [setCell])

/-- Placing a mark on an empty cell removes at most that one cell from
`empty_cells`. -/
theorem length_empty_cells_setCell (s : Board) (x y v : Int)
    (h : (x, y) ∈ empty_cells s) :
    (empty_cells s).length ≤ (empty_cells (setCell s x y v)).length + 1 := by
  obtain ⟨a00, a01, a02, a10, a11, a12, a20, a21, a22⟩ := s
  rw [mem_empty_cells] at h
  rcases h with h | h | h | h | h | h | h | h | h <;>
    (obtain ⟨h0, hx, hy⟩ := h; subst hx; subst hy; subst h0;
     simp [setCell, empty_cells, List.length_append] <;> omega)

/-- The candidate loop leaves the board as it found it, provided the
recursive call does and every listed cell is an empty cell of the board. -/
theorem mmStep_state (recur : Board → Int → (Int × Int × XScore) × Board)
    (p : Int) (cells : List (Int × Int)) (best : Int × Int × XScore) (s : Board)
    (hrec : ∀ s1 p1, (recur s1 p1).2 = s1)
    (hcells : ∀ c ∈ cells, c ∈ empty_cells s) :
    (mmStep recur p cells best s).2 = s := by
  induction cells generalizing best with
  | nil => rfl
  | cons c rest ih =>
    obtain ⟨x, y⟩ := c
    have hm : (x, y) ∈ empty_cells s := hcells _ (List.mem_cons_self _ _)
    simp only [mmStep, hrec, setCell_revert s x y p hm]
    exact ih _ (fun c hc => hcells c (List.mem_cons_of_mem _ hc))

/-- After any `minimax` call the board equals the board before the call. -/
theorem minimax_state (d : Nat) (s : Board) (p : Int) : (minimax d s p).2 = s := by
  induction d generalizing s p with
  | zero => rfl
  | succ d ih =>
    simp only [minimax]
    split
    · rfl
    · exact mmStep_state _ _ _ _ _ (fun s1 p1 => ih s1 p1) (fun c hc => hc)

end ZeroX

namespace ZeroX

/-- Unfolding: the candidate loop on an empty list returns `best`. -/
theorem mmStep_nil (recur : Board → Int → (Int × Int × XScore) × Board)
    (p : Int) (best : Int × Int × XScore) (s : Board) :
    mmStep recur p [] best s = (best, s) := rfl

/-- Unfolding: one iteration of the candidate loop. -/
theorem mmStep_cons (recur : Board → Int → (Int × Int × XScore) × Board)
    (p x y : Int) (rest : List (Int × Int)) (best : Int × Int × XScore) (s : Board) :
    mmStep recur p ((x, y) :: rest) best s =
      mmStep recur p rest
        (if p = COMP then
           (if XScore.lt best.2.2 ((recur (setCell s x y p) (-p)).1.2.2) then
              (x, y, (recur (setCell s x y p) (-p)).1.2.2) else best)
         else
           (if XScore.lt ((recur (setCell s x y p) (-p)).1.2.2) best.2.2 then
              (x, y, (recur (setCell s x y p) (-p)).1.2.2) else best))
        (setCell (recur (setCell s x y p) (-p)).2 x y 0) := rfl

/-- For the maximising player the loop's result never drops below `best`. -/
theorem mmStep_comp_ge_best (recur : Board → Int → (Int × Int × XScore) × Board) :
    ∀ (cells : List (Int × Int)) (best : Int × Int × XScore) (s : Board),
      XScore.ble best.2.2 ((mmStep recur COMP cells best s).1.2.2) = true := by
  intro cells
  induction cells with
  | nil => intro best s; simpa [mmStep_nil] using XScore.ble_refl best.2.2
  | cons c rest ih =>
    intro best s
    obtain ⟨x, y⟩ := c
    rw [mmStep_cons]
    simp only [eq_self_iff_true, if_true]
    split_ifs with hlt
    · exact XScore.ble_trans _ _ _ (XScore.lt_imp_ble _ _ hlt)
        (ih (x, y, (recur (setCell s x y COMP) (-COMP)).1.2.2)
          (setCell (recur (setCell s x y COMP) (-COMP)).2 x y 0))
    · exact ih _ _

/-- For the minimising player the loop's result never rises above `best`. -/
theorem mmStep_human_le_best (recur : Board → Int → (Int × Int × XScore) × Board) :
    ∀ (cells : List (Int × Int)) (best : Int × Int × XScore) (s : Board),
      XScore.ble ((mmStep recur HUMAN cells best s).1.2.2) best.2.2 = true := by
  intro cells
  induction cells with
  | nil => intro best s; simpa [mmStep_nil] using XScore.ble_refl best.2.2
  | cons c rest ih =>
    intro best s
    obtain ⟨x, y⟩ := c
    rw [mmStep_cons]
    simp only [HUMAN, COMP, show ((-1 : Int) = 1) = False by simp, if_false]
    split_ifs with hlt
    · exact XScore.ble_trans _ _ _
        (ih (x, y, (recur (setCell s x y (-1)) (-(-1))).1.2.2)
          (setCell (recur (setCell s x y (-1)) (-(-1))).2 x y 0))
        (XScore.lt_imp_ble _ _ hlt)
    · exact ih _ _

end ZeroX

namespace ZeroX

/-- Upper bound for the maximising player: if `best` and every candidate's
recursive score are at most `v`, the loop's result is at most `v`. -/
theorem mmStep_comp_le (recur : Board → Int → (Int × Int × XScore) × Board)
    (v : XScore) (hrec : ∀ s1 p1, (recur s1 p1).2 = s1) :
    ∀ (cells : List (Int × Int)) (best : Int × Int × XScore) (s : Board),
      (∀ c ∈ cells, c ∈ empty_cells s) →
      XScore.ble best.2.2 v = true →
      (∀ c ∈ cells, XScore.ble ((recur (setCell s c.1 c.2 COMP) (-COMP)).1.2.2) v = true) →
      XScore.ble ((mmStep recur COMP cells best s).1.2.2) v = true := by
  intro cells
  induction cells with
  | nil => intro best s _ hbest _; simpa [mmStep_nil] using hbest
  | cons c rest ih =>
    intro best s hcells hbest hcand
    obtain ⟨x, y⟩ := c
    have hm : (x, y) ∈ empty_cells s := hcells _ (List.mem_cons_self _ _)
    rw [mmStep_cons, hrec, setCell_revert s x y COMP hm]
    simp only [eq_self_iff_true, if_true]
    apply ih _ s (fun c hc => hcells c (List.mem_cons_of_mem _ hc)) ?_
      (fun c hc => hcand c (List.mem_cons_of_mem _ hc))
    split_ifs with hlt
    · exact hcand (x, y) (List.mem_cons_self _ _)
    · exact hbest

/-- Lower bound for the minimising player: if `best` and every candidate's
recursive score are at least `v`, the loop's result is at least `v`. -/
theorem mmStep_human_ge (recur : Board → Int → (Int × Int × XScore) × Board)
    (v : XScore) (hrec : ∀ s1 p1, (recur s1 p1).2 = s1) :
    ∀ (cells : List (Int × Int)) (best : Int × Int × XScore) (s : Board),
      (∀ c ∈ cells, c ∈ empty_cells s) →
      XScore.ble v best.2.2 = true →
      (∀ c ∈ cells, XScore.ble v ((recur (setCell s c.1 c.2 HUMAN) (-HUMAN)).1.2.2) = true) →
      XScore.ble v ((mmStep recur HUMAN cells best s).1.2.2) = true := by
  intro cells
  induction cells with
  | nil => intro best s _ hbest _; simpa [mmStep_nil] using hbest
  | cons c rest ih =>
    intro best s hcells hbest hcand
    obtain ⟨x, y⟩ := c
    have hm : (x, y) ∈ empty_cells s := hcells _ (List.mem_cons_self _ _)
    rw [mmStep_cons, hrec, setCell_revert s x y HUMAN hm]
    simp only [HUMAN, COMP, show ((-1 : Int) = 1) = False by simp, if_false]
    apply ih _ s (fun c hc => hcells c (List.mem_cons_of_mem _ hc)) ?_
      (fun c hc => hcand c (List.mem_cons_of_mem _ hc))
    split_ifs with hlt
    · exact hcand (x, y) (List.mem_cons_self _ _)
    · exact hbest

/-- Lower bound for the maximising player: one candidate whose recursive
score is at least `v` forces the loop's result to be at least `v`. -/
theorem mmStep_comp_ge (recur : Board → Int → (Int × Int × XScore) × Board)
    (v : XScore) (hrec : ∀ s1 p1, (recur s1 p1).2 = s1) :
    ∀ (cells : List (Int × Int)) (best : Int × Int × XScore) (s : Board) (x y : Int),
      (∀ c ∈ cells, c ∈ empty_cells s) →
      (x, y) ∈ cells →
      XScore.ble v ((recur (setCell s x y COMP) (-COMP)).1.2.2) = true →
      XScore.ble v ((mmStep recur COMP cells best s).1.2.2) = true := by
  intro cells
  induction cells with
  | nil => intro best s x y _ hmem _; cases hmem
  | cons c rest ih =>
    intro best s x y hcells hmem hchild
    obtain ⟨cx, cy⟩ := c
    have hm : (cx, cy) ∈ empty_cells s := hcells _ (List.mem_cons_self _ _)
    rw [mmStep_cons, hrec, setCell_revert s cx cy COMP hm]
    simp only [eq_self_iff_true, if_true]
    rcases List.mem_cons.1 hmem with hhead | htail
    · obtain ⟨hx, hy⟩ := Prod.mk.injEq .. ▸ hhead
      subst hx; subst hy
      refine XScore.ble_trans _ _ _ ?_ (mmStep_comp_ge_best recur rest _ s)
      split_ifs with hlt
      · exact hchild
      · exact XScore.ble_trans _ _ _ hchild
          ((XScore.lt_eq_false_iff _ _).1 (Bool.eq_false_iff.2 hlt))
    · exact ih _ s x y (fun c hc => hcells c (List.mem_cons_of_mem _ hc)) htail hchild

/-- Upper bound for the minimising player: one candidate whose recursive
score is at most `v` forces the loop's result to be at most `v`. -/
theorem mmStep_human_le (recur : Board → Int → (Int × Int × XScore) × Board)
    (v : XScore) (hrec : ∀ s1 p1, (recur s1 p1).2 = s1) :
    ∀ (cells : List (Int × Int)) (best : Int × Int × XScore) (s : Board) (x y : Int),
      (∀ c ∈ cells, c ∈ empty_cells s) →
      (x, y) ∈ cells →
      XScore.ble ((recur (setCell s x y HUMAN) (-HUMAN)).1.2.2) v = true →
      XScore.ble ((mmStep recur HUMAN cells best s).1.2.2) v = true := by
  intro cells
  induction cells with
  | nil => intro best s x y _ hmem _; cases hmem
  | cons c rest ih =>
    intro best s x y hcells hmem hchild
    obtain ⟨cx, cy⟩ := c
    have hm : (cx, cy) ∈ empty_cells s := hcells _ (List.mem_cons_self _ _)
    rw [mmStep_cons, hrec, setCell_revert s cx cy HUMAN hm]
    simp only [HUMAN, COMP, show ((-1 : Int) = 1) = False by simp, if_false]
    rcases List.mem_cons.1 hmem with hhead | htail
    · obtain ⟨hx, hy⟩ := Prod.mk.injEq .. ▸ hhead
      subst hx; subst hy
      refine XScore.ble_trans _ _ _ (mmStep_human_le_best recur rest _ s) ?_
      split_ifs with hlt
      · exact hchild
      · exact XScore.ble_trans _ _ _
          ((XScore.lt_eq_false_iff _ _).1 (Bool.eq_false_iff.2 hlt)) hchild
    · exact ih _ s x y (fun c hc => hcells c (List.mem_cons_of_mem _ hc)) htail hchild

end ZeroX

namespace ZeroX

/-- Unfolding: a non-terminal node of positive depth runs the candidate
loop over its empty cells. -/
theorem minimax_succ (d : Nat) (s : Board) (p : Int) (h : game_over s = false) :
    minimax (d + 1) s p = mmStep (minimax d) p (empty_cells s) (mmInit p) s := by
  simp [minimax, h]

/-- A leaf (`depth == 0 or game_over(state)`) returns
`[-1, -1, evaluate(state)]`. -/
theorem minimax_leaf (d : Nat) (s : Board) (p : Int)
    (h : d = 0 ∨ game_over s = true) :
    (minimax d s p).1 = (-1, -1, XScore.fin (evaluate s)) := by
  cases d with
  | zero => rfl
  | succ d =>
    rcases h with h | h
    · cases h
    · simp [minimax, h]

/-- The score of `mmInit COMP`. -/
theorem mmInit_comp : mmInit COMP = (-1, -1, XScore.negInf) := by
  simp [mmInit]

/-- The score of `mmInit HUMAN`. -/
theorem mmInit_human : mmInit HUMAN = (-1, -1, XScore.posInf) := by
  simp [mmInit, HUMAN, COMP]

theorem AllLE_forall (e : Nat) (q : Int) (v : XScore) :
    ∀ l, AllLE e q v l →
      ∀ b ∈ l, XScore.ble ((minimax e b q).1.2.2) v = true := by
  intro l
  induction l with
  | nil => intro _ b hb; cases hb
  | cons b rest ih =>
    intro h b1 hb1
    rcases List.mem_cons.1 hb1 with h1 | h1
    · subst h1; exact h.1
    · exact ih h.2 b1 h1

theorem AllGE_forall (e : Nat) (q : Int) (v : XScore) :
    ∀ l, AllGE e q v l →
      ∀ b ∈ l, XScore.ble v ((minimax e b q).1.2.2) = true := by
  intro l
  induction l with
  | nil => intro _ b hb; cases hb
  | cons b rest ih =>
    intro h b1 hb1
    rcases List.mem_cons.1 hb1 with h1 | h1
    · subst h1; exact h.1
    · exact ih h.2 b1 h1

/-- Certificate step, computer to move, upper bound: if every child board's
value is at most `v`, the node's value is at most `v`. -/
theorem nodeCompLE (d e : Nat) (s : Board) (v : XScore) (bs : List Board)
    (hde : d = e + 1)
    (hgo : game_over s = false)
    (hbs : childBoards COMP s = bs)
    (hall : AllLE e HUMAN v bs) :
    XScore.ble ((minimax d s COMP).1.2.2) v = true := by
  subst hde; subst hbs
  rw [minimax_succ e s COMP hgo]
  refine mmStep_comp_le (minimax e) v (fun s1 p1 => minimax_state e s1 p1)
    (empty_cells s) (mmInit COMP) s (fun c hc => hc) ?_ ?_
  · rw [mmInit_comp]
    exact XScore.ble_negInf v
  · intro c hc
    exact AllLE_forall e HUMAN v (childBoards COMP s) hall _
      (List.mem_map_of_mem _ hc)

/-- Certificate step, human to move, lower bound: if every child board's
value is at least `v`, the node's value is at least `v`. -/
theorem nodeHumanGE (d e : Nat) (s : Board) (v : XScore) (bs : List Board)
    (hde : d = e + 1)
    (hgo : game_over s = false)
    (hbs : childBoards HUMAN s = bs)
    (hall : AllGE e COMP v bs) :
    XScore.ble v ((minimax d s HUMAN).1.2.2) = true := by
  subst hde; subst hbs
  rw [minimax_succ e s HUMAN hgo]
  refine mmStep_human_ge (minimax e) v (fun s1 p1 => minimax_state e s1 p1)
    (empty_cells s) (mmInit HUMAN) s (fun c hc => hc) ?_ ?_
  · rw [mmInit_human]
    exact XScore.ble_posInf v
  · intro c hc
    exact AllGE_forall e COMP v (childBoards HUMAN s) hall _
      (List.mem_map_of_mem _ hc)

/-- Certificate step, computer to move, lower bound: one child board whose
value is at least `v` suffices. -/
theorem nodeCompGE (d e : Nat) (s s2 : Board) (v : XScore) (x y : Int)
    (hde : d = e + 1)
    (hgo : game_over s = false)
    (hmem : (x, y) ∈ empty_cells s)
    (hs2 : setCell s x y COMP = s2)
    (hchild : XScore.ble v ((minimax e s2 HUMAN).1.2.2) = true) :
    XScore.ble v ((minimax d s COMP).1.2.2) = true := by
  subst hde; subst hs2
  rw [minimax_succ e s COMP hgo]
  exact mmStep_comp_ge (minimax e) v (fun s1 p1 => minimax_state e s1 p1)
    (empty_cells s) (mmInit COMP) s x y (fun c hc => hc) hmem hchild

/-- Certificate step, human to move, upper bound: one child board whose
value is at most `v` suffices. -/
theorem nodeHumanLE (d e : Nat) (s s2 : Board) (v : XScore) (x y : Int)
    (hde : d = e + 1)
    (hgo : game_over s = false)
    (hmem : (x, y) ∈ empty_cells s)
    (hs2 : setCell s x y HUMAN = s2)
    (hchild : XScore.ble ((minimax e s2 COMP).1.2.2) v = true) :
    XScore.ble ((minimax d s HUMAN).1.2.2) v = true := by
  subst hde; subst hs2
  rw [minimax_succ e s HUMAN hgo]
  exact mmStep_human_le (minimax e) v (fun s1 p1 => minimax_state e s1 p1)
    (empty_cells s) (mmInit HUMAN) s x y (fun c hc => hc) hmem hchild

/-- A leaf's score bounded above, for certificate leaves. -/
theorem leafLE (d : Nat) (s : Board) (p : Int) (v : XScore)
    (h : d = 0 ∨ game_over s = true)
    (he : XScore.ble (XScore.fin (evaluate s)) v = true) :
    XScore.ble ((minimax d s p).1.2.2) v = true := by
  rw [minimax_leaf d s p h]
  exact he

/-- A leaf's score bounded below, for certificate leaves. -/
theorem leafGE (d : Nat) (s : Board) (p : Int) (v : XScore)
    (h : d = 0 ∨ game_over s = true)
    (he : XScore.ble v (XScore.fin (evaluate s)) = true) :
    XScore.ble v ((minimax d s p).1.2.2) = true := by
  rw [minimax_leaf d s p h]
  exact he

end ZeroX

namespace ZeroX

/-- Unfolding of one loop iteration through `mmPick`. -/
theorem mmStep_cons_pick (recur : Board → Int → (Int × Int × XScore) × Board)
    (p x y : Int) (rest : List (Int × Int)) (best : Int × Int × XScore) (s : Board) :
    mmStep recur p ((x, y) :: rest) best s =
      mmStep recur p rest
        (mmPick p best (x, y, (recur (setCell s x y p) (-p)).1.2.2))
        (setCell (recur (setCell s x y p) (-p)).2 x y 0) := rfl

/-- The selection keeps either the old `best` or the new candidate. -/
theorem mmPick_cases (p : Int) (best cand : Int × Int × XScore) :
    mmPick p best cand = best ∨ mmPick p best cand = cand := by
  unfold mmPick
  split_ifs <;> simp

/-- A finite candidate always replaces the initial sentinel. -/
theorem mmPick_init (p : Int) (cand : Int × Int × XScore)
    (h : (cand.2.2).isFin = true) : mmPick p (mmInit p) cand = cand := by
  obtain ⟨cx, cy, sc⟩ := cand
  cases sc with
  | fin n =>
    by_cases hp : p = COMP
    · simp [mmPick, mmInit, hp, XScore.lt]
    · simp [mmPick, mmInit, hp, XScore.lt]
  | negInf => simp [XScore.isFin] at h
  | posInf => simp [XScore.isFin] at h

/-- Finiteness is preserved by the selection step. -/
theorem mmPick_fin (p : Int) (best cand : Int × Int × XScore)
    (hb : (best.2.2).isFin = true) (hc : (cand.2.2).isFin = true) :
    ((mmPick p best cand).2.2).isFin = true := by
  rcases mmPick_cases p best cand with h | h <;> rw [h]
  · exact hb
  · exact hc

/-- The loop's result is the initial `best` or carries the coordinates of
one of the listed cells. -/
theorem mmStep_coords (recur : Board → Int → (Int × Int × XScore) × Board)
    (p : Int) :
    ∀ (cells : List (Int × Int)) (best : Int × Int × XScore) (s : Board),
      (mmStep recur p cells best s).1 = best ∨
        ∃ x y, (x, y) ∈ cells ∧
          ((mmStep recur p cells best s).1.1,
            (mmStep recur p cells best s).1.2.1) = (x, y) := by
  intro cells
  induction cells with
  | nil => intro best s; left; rfl
  | cons c rest ih =>
    intro best s
    obtain ⟨x, y⟩ := c
    rw [mmStep_cons_pick]
    rcases ih (mmPick p best (x, y, (recur (setCell s x y p) (-p)).1.2.2))
        (setCell (recur (setCell s x y p) (-p)).2 x y 0) with h | ⟨a, b, hmem, hco⟩
    · rcases mmPick_cases p best (x, y, (recur (setCell s x y p) (-p)).1.2.2)
          with hb | hb
      · left
        rw [h, hb]
      · right
        exact ⟨x, y, List.mem_cons_self _ _, by rw [h, hb]⟩
    · right
      exact ⟨a, b, List.mem_cons_of_mem _ hmem, hco⟩

/-- If every candidate's recursive score is finite and `best` is finite or
the initial sentinel with at least one cell to try, the loop's result score
is finite. -/
theorem mmStep_fin (recur : Board → Int → (Int × Int × XScore) × Board)
    (p : Int) (hrec : ∀ s1 p1, (recur s1 p1).2 = s1) :
    ∀ (cells : List (Int × Int)) (best : Int × Int × XScore) (s : Board),
      (∀ c ∈ cells, c ∈ empty_cells s) →
      (∀ c ∈ cells, (((recur (setCell s c.1 c.2 p) (-p)).1.2.2)).isFin = true) →
      ((best.2.2).isFin = true ∨ (cells ≠ [] ∧ best = mmInit p)) →
      (((mmStep recur p cells best s).1.2.2)).isFin = true := by
  intro cells
  induction cells with
  | nil =>
    intro best s _ _ hbest
    rcases hbest with hb | ⟨hne, _⟩
    · simpa [mmStep_nil] using hb
    · exact absurd rfl hne
  | cons c rest ih =>
    intro best s hcells hcand hbest
    obtain ⟨x, y⟩ := c
    have hm : (x, y) ∈ empty_cells s := hcells _ (List.mem_cons_self _ _)
    rw [mmStep_cons_pick, hrec, setCell_revert s x y p hm]
    have hcf : (((x, y, (recur (setCell s x y p) (-p)).1.2.2) :
        Int × Int × XScore).2.2).isFin = true :=
      hcand (x, y) (List.mem_cons_self _ _)
    rcases hbest with hb | ⟨_, hb⟩
    · exact ih _ s (fun c hc => hcells c (List.mem_cons_of_mem _ hc))
        (fun c hc => hcand c (List.mem_cons_of_mem _ hc))
        (Or.inl (mmPick_fin p best _ hb hcf))
    · subst hb
      rw [mmPick_init p _ hcf]
      exact ih _ s (fun c hc => hcells c (List.mem_cons_of_mem _ hc))
        (fun c hc => hcand c (List.mem_cons_of_mem _ hc))
        (Or.inl hcf)

/-- Searched no deeper than the number of empty cells, `minimax` always
returns an exact integer score, never a sentinel. -/
theorem minimax_fin : ∀ (d : Nat) (s : Board) (p : Int),
    d ≤ (empty_cells s).length → (((minimax d s p).1.2.2)).isFin = true := by
  intro d
  induction d with
  | zero => intro s p _; rfl
  | succ d ih =>
    intro s p hd
    by_cases hgo : game_over s = true
    · rw [minimax_leaf (d + 1) s p (Or.inr hgo)]
      rfl
    · have hgo2 : game_over s = false := by
        simpa using hgo
      rw [minimax_succ d s p hgo2]
      refine mmStep_fin (minimax d) p (fun s1 p1 => minimax_state d s1 p1)
        (empty_cells s) (mmInit p) s (fun c hc => hc) ?_ ?_
      · intro c hc
        refine ih (setCell s c.1 c.2 p) (-p) ?_
        have := length_empty_cells_setCell s c.1 c.2 p hc
        omega
      · refine Or.inr ⟨?_, rfl⟩
        intro hnil
        rw [hnil] at hd
        simp at hd

end ZeroX

namespace ZeroX

/-- Reading back the cell just written (the written cell is a member of
`empty_cells`, hence in range). -/
theorem getCell_setCell_same (b : Board) (x y p : Int)
    (h : (x, y) ∈ empty_cells b) : getCell (setCell b x y p) x y = p := by
  rw [mem_empty_cells] at h
  rcases h with h | h | h | h | h | h | h | h | h <;>
    (obtain ⟨h0, hx, hy⟩ := h; subst hx; subst hy; simp [setCell, getCell])

/-- Out-of-range reads return the default `0` on every board. -/
theorem getCell_oob (B : Board) (u v : Int) (hmem : (u, v) ∉ allCoords) :
    getCell B u v = 0 := by
  unfold getCell
  split_ifs <;>
    first
      | rfl
      | (rename_i hc; exact absurd (by rw [hc.1, hc.2]; decide) hmem)

/-- Writing one in-range cell leaves every other in-range cell's value
unchanged. -/
theorem getCell_setCell_other (b : Board) (x y p u v : Int)
    (h : (x, y) ∈ empty_cells b) (hco : (u, v) ∈ allCoords)
    (huv : ¬(u = x ∧ v = y)) :
    getCell (setCell b x y p) u v = getCell b u v := by
  rw [mem_empty_cells] at h
  simp only [allCoords, List.mem_cons, List.not_mem_nil, or_false,
    Prod.mk.injEq] at hco
  rcases h with h | h | h | h | h | h | h | h | h <;>
    (obtain ⟨h0, hx, hy⟩ := h; subst hx; subst hy) <;>
    (rcases hco with ⟨hu, hv⟩ | ⟨hu, hv⟩ | ⟨hu, hv⟩ | ⟨hu, hv⟩ | ⟨hu, hv⟩ |
        ⟨hu, hv⟩ | ⟨hu, hv⟩ | ⟨hu, hv⟩ | ⟨hu, hv⟩) <;>
    (subst hu; subst hv) <;>
    (first
      | (simp [setCell, getCell]; done)
      | omega)

end ZeroX

namespace ZeroX

theorem certLE0001 : XScore.ble ((minimax 3 (⟨1, 1, -1, 1, -1, 0, -1, 0, 0⟩ : Board) COMP).1.2.2) (XScore.fin 0) = true :=
  leafLE 3 (⟨1, 1, -1, 1, -1, 0, -1, 0, 0⟩ : Board) COMP (XScore.fin 0) (Or.inr rfl) rfl

theorem certLE0002 : XScore.ble ((minimax 4 (⟨1, 1, -1, 1, -1, 0, 0, 0, 0⟩ : Board) HUMAN).1.2.2) (XScore.fin 0) = true :=
  nodeHumanLE 4 3 (⟨1, 1, -1, 1, -1, 0, 0, 0, 0⟩ : Board) (⟨1, 1, -1, 1, -1, 0, -1, 0, 0⟩ : Board) (XScore.fin 0) 2 0 rfl rfl (of_decide_eq_true rfl) rfl
    certLE0001

theorem certLE0003 : XScore.ble ((minimax 0 (⟨1, 1, -1, -1, -1, 1, 1, -1, 1⟩ : Board) HUMAN).1.2.2) (XScore.fin 0) = true :=
  leafLE 0 (⟨1, 1, -1, -1, -1, 1, 1, -1, 1⟩ : Board) HUMAN (XScore.fin 0) (Or.inl rfl) rfl

theorem certLE0004 : XScore.ble ((minimax 1 (⟨1, 1, -1, -1, -1, 1, 1, -1, 0⟩ : Board) COMP).1.2.2) (XScore.fin 0) = true :=
  nodeCompLE 1 0 (⟨1, 1, -1, -1, -1, 1, 1, -1, 0⟩ : Board) (XScore.fin 0)
    [(⟨1, 1, -1, -1, -1, 1, 1, -1, 1⟩ : Board)]
    rfl rfl rfl
    ⟨certLE0003, True.intro⟩

theorem certLE0005 : XScore.ble ((minimax 2 (⟨1, 1, -1, -1, -1, 1, 1, 0, 0⟩ : Board) HUMAN).1.2.2) (XScore.fin 0) = true :=
  nodeHumanLE 2 1 (⟨1, 1, -1, -1, -1, 1, 1, 0, 0⟩ : Board) (⟨1, 1, -1, -1, -1, 1, 1, -1, 0⟩ : Board) (XScore.fin 0) 2 1 rfl rfl (of_decide_eq_true rfl) rfl
    certLE0004

theorem certLE0006 : XScore.ble ((minimax 1 (⟨1, 1, -1, -1, -1, 1, -1, 1, 0⟩ : Board) COMP).1.2.2) (XScore.fin 0) = true :=
  leafLE 1 (⟨1, 1, -1, -1, -1, 1, -1, 1, 0⟩ : Board) COMP (XScore.fin 0) (Or.inr rfl) rfl

theorem certLE0007 : XScore.ble ((minimax 2 (⟨1, 1, -1, -1, -1, 1, 0, 1, 0⟩ : Board) HUMAN).1.2.2) (XScore.fin 0) = true :=
  nodeHumanLE 2 1 (⟨1, 1, -1, -1, -1, 1, 0, 1, 0⟩ : Board) (⟨1, 1, -1, -1, -1, 1, -1, 1, 0⟩ : Board) (XScore.fin 0) 2 0 rfl rfl (of_decide_eq_true rfl) rfl
    certLE0006

theorem certLE0008 : XScore.ble ((minimax 1 (⟨1, 1, -1, -1, -1, 1, -1, 0, 1⟩ : Board) COMP).1.2.2) (XScore.fin 0) = true :=
  leafLE 1 (⟨1, 1, -1, -1, -1, 1, -1, 0, 1⟩ : Board) COMP (XScore.fin 0) (Or.inr rfl) rfl

theorem certLE0009 : XScore.ble ((minimax 2 (⟨1, 1, -1, -1, -1, 1, 0, 0, 1⟩ : Board) HUMAN).1.2.2) (XScore.fin 0) = true :=
  nodeHumanLE 2 1 (⟨1, 1, -1, -1, -1, 1, 0, 0, 1⟩ : Board) (⟨1, 1, -1, -1, -1, 1, -1, 0, 1⟩ : Board) (XScore.fin 0) 2 0 rfl rfl (of_decide_eq_true rfl) rfl
    certLE0008

theorem certLE0010 : XScore.ble ((minimax 3 (⟨1, 1, -1, -1, -1, 1, 0, 0, 0⟩ : Board) COMP).1.2.2) (XScore.fin 0) = true :=
  nodeCompLE 3 2 (⟨1, 1, -1, -1, -1, 1, 0, 0, 0⟩ : Board) (XScore.fin 0)
    [(⟨1, 1, -1, -1, -1, 1, 1, 0, 0⟩ : Board),
     (⟨1, 1, -1, -1, -1, 1, 0, 1, 0⟩ : Board),
     (⟨1, 1, -1, -1, -1, 1, 0, 0, 1⟩ : Board)]
    rfl rfl rfl
    ⟨certLE0005, certLE0007, certLE0009, True.intro⟩

theorem certLE0011 : XScore.ble ((minimax 4 (⟨1, 1, -1, 0, -1, 1, 0, 0, 0⟩ : Board) HUMAN).1.2.2) (XScore.fin 0) = true :=
  nodeHumanLE 4 3 (⟨1, 1, -1, 0, -1, 1, 0, 0, 0⟩ : Board) (⟨1, 1, -1, -1, -1, 1, 0, 0, 0⟩ : Board) (XScore.fin 0) 1 0 rfl rfl (of_decide_eq_true rfl) rfl
    certLE0010

theorem certLE0012 : XScore.ble ((minimax 1 (⟨1, 1, -1, -1, -1, -1, 1, 1, 0⟩ : Board) COMP).1.2.2) (XScore.fin 0) = true :=
  leafLE 1 (⟨1, 1, -1, -1, -1, -1, 1, 1, 0⟩ : Board) COMP (XScore.fin 0) (Or.inr rfl) rfl

theorem certLE0013 : XScore.ble ((minimax 2 (⟨1, 1, -1, -1, -1, 0, 1, 1, 0⟩ : Board) HUMAN).1.2.2) (XScore.fin 0) = true :=
  nodeHumanLE 2 1 (⟨1, 1, -1, -1, -1, 0, 1, 1, 0⟩ : Board) (⟨1, 1, -1, -1, -1, -1, 1, 1, 0⟩ : Board) (XScore.fin 0) 1 2 rfl rfl (of_decide_eq_true rfl) rfl
    certLE0012

theorem certLE0014 : XScore.ble ((minimax 1 (⟨1, 1, -1, -1, -1, -1, 1, 0, 1⟩ : Board) COMP).1.2.2) (XScore.fin 0) = true :=
  leafLE 1 (⟨1, 1, -1, -1, -1, -1, 1, 0, 1⟩ : Board) COMP (XScore.fin 0) (Or.inr rfl) rfl

theorem certLE0015 : XScore.ble ((minimax 2 (⟨1, 1, -1, -1, -1, 0, 1, 0, 1⟩ : Board) HUMAN).1.2.2) (XScore.fin 0) = true :=
  nodeHumanLE 2 1 (⟨1, 1, -1, -1, -1, 0, 1, 0, 1⟩ : Board) (⟨1, 1, -1, -1, -1, -1, 1, 0, 1⟩ : Board) (XScore.fin 0) 1 2 rfl rfl (of_decide_eq_true rfl) rfl
    certLE0014

theorem certLE0016 : XScore.ble ((minimax 3 (⟨1, 1, -1, -1, -1, 0, 1, 0, 0⟩ : Board) COMP).1.2.2) (XScore.fin 0) = true :=
  nodeCompLE 3 2 (⟨1, 1, -1, -1, -1, 0, 1, 0, 0⟩ : Board) (XScore.fin 0)
    [(⟨1, 1, -1, -1, -1, 1, 1, 0, 0⟩ : Board),
     (⟨1, 1, -1, -1, -1, 0, 1, 1, 0⟩ : Board),
     (⟨1, 1, -1, -1, -1, 0, 1, 0, 1⟩ : Board)]
    rfl rfl rfl
    ⟨certLE0005, certLE0013, certLE0015, True.intro⟩

theorem certLE0017 : XScore.ble ((minimax 4 (⟨1, 1, -1, 0, -1, 0, 1, 0, 0⟩ : Board) HUMAN).1.2.2) (XScore.fin 0) = true :=
  nodeHumanLE 4 3 (⟨1, 1, -1, 0, -1, 0, 1, 0, 0⟩ : Board) (⟨1, 1, -1, -1, -1, 0, 1, 0, 0⟩ : Board) (XScore.fin 0) 1 0 rfl rfl (of_decide_eq_true rfl) rfl
    certLE0016

theorem certLE0018 : XScore.ble ((minimax 1 (⟨1, 1, -1, -1, -1, -1, 0, 1, 1⟩ : Board) COMP).1.2.2) (XScore.fin 0) = true :=
  leafLE 1 (⟨1, 1, -1, -1, -1, -1, 0, 1, 1⟩ : Board) COMP (XScore.fin 0) (Or.inr rfl) rfl

theorem certLE0019 : XScore.ble ((minimax 2 (⟨1, 1, -1, -1, -1, 0, 0, 1, 1⟩ : Board) HUMAN).1.2.2) (XScore.fin 0) = true :=
  nodeHumanLE 2 1 (⟨1, 1, -1, -1, -1, 0, 0, 1, 1⟩ : Board) (⟨1, 1, -1, -1, -1, -1, 0, 1, 1⟩ : Board) (XScore.fin 0) 1 2 rfl rfl (of_decide_eq_true rfl) rfl
    certLE0018

theorem certLE0020 : XScore.ble ((minimax 3 (⟨1, 1, -1, -1, -1, 0, 0, 1, 0⟩ : Board) COMP).1.2.2) (XScore.fin 0) = true :=
  nodeCompLE 3 2 (⟨1, 1, -1, -1, -1, 0, 0, 1, 0⟩ : Board) (XScore.fin 0)
    [(⟨1, 1, -1, -1, -1, 1, 0, 1, 0⟩ : Board),
     (⟨1, 1, -1, -1, -1, 0, 1, 1, 0⟩ : Board),
     (⟨1, 1, -1, -1, -1, 0, 0, 1, 1⟩ : Board)]
    rfl rfl rfl
    ⟨certLE0007, certLE0013, certLE0019, True.intro⟩

theorem certLE0021 : XScore.ble ((minimax 4 (⟨1, 1, -1, 0, -1, 0, 0, 1, 0⟩ : Board) HUMAN).1.2.2) (XScore.fin 0) = true :=
  nodeHumanLE 4 3 (⟨1, 1, -1, 0, -1, 0, 0, 1, 0⟩ : Board) (⟨1, 1, -1, -1, -1, 0, 0, 1, 0⟩ : Board) (XScore.fin 0) 1 0 rfl rfl (of_decide_eq_true rfl) rfl
    certLE0020

theorem certLE0022 : XScore.ble ((minimax 3 (⟨1, 1, -1, -1, -1, 0, 0, 0, 1⟩ : Board) COMP).1.2.2) (XScore.fin 0) = true :=
  nodeCompLE 3 2 (⟨1, 1, -1, -1, -1, 0, 0, 0, 1⟩ : Board) (XScore.fin 0)
    [(⟨1, 1, -1, -1, -1, 1, 0, 0, 1⟩ : Board),
     (⟨1, 1, -1, -1, -1, 0, 1, 0, 1⟩ : Board),
     (⟨1, 1, -1, -1, -1, 0, 0, 1, 1⟩ : Board)]
    rfl rfl rfl
    ⟨certLE0009, certLE0015, certLE0019, True.intro⟩

theorem certLE0023 : XScore.ble ((minimax 4 (⟨1, 1, -1, 0, -1, 0, 0, 0, 1⟩ : Board) HUMAN).1.2.2) (XScore.fin 0) = true :=
  nodeHumanLE 4 3 (⟨1, 1, -1, 0, -1, 0, 0, 0, 1⟩ : Board) (⟨1, 1, -1, -1, -1, 0, 0, 0, 1⟩ : Board) (XScore.fin 0) 1 0 rfl rfl (of_decide_eq_true rfl) rfl
    certLE0022

theorem certLE0024 : XScore.ble ((minimax 5 (⟨1, 1, -1, 0, -1, 0, 0, 0, 0⟩ : Board) COMP).1.2.2) (XScore.fin 0) = true :=
  nodeCompLE 5 4 (⟨1, 1, -1, 0, -1, 0, 0, 0, 0⟩ : Board) (XScore.fin 0)
    [(⟨1, 1, -1, 1, -1, 0, 0, 0, 0⟩ : Board),
     (⟨1, 1, -1, 0, -1, 1, 0, 0, 0⟩ : Board),
     (⟨1, 1, -1, 0, -1, 0, 1, 0, 0⟩ : Board),
     (⟨1, 1, -1, 0, -1, 0, 0, 1, 0⟩ : Board),
     (⟨1, 1, -1, 0, -1, 0, 0, 0, 1⟩ : Board)]
    rfl rfl rfl
    ⟨certLE0002, certLE0011, certLE0017, certLE0021, certLE0023, True.intro⟩

theorem certLE0025 : XScore.ble ((minimax 6 (⟨1, 1, 0, 0, -1, 0, 0, 0, 0⟩ : Board) HUMAN).1.2.2) (XScore.fin 0) = true :=
  nodeHumanLE 6 5 (⟨1, 1, 0, 0, -1, 0, 0, 0, 0⟩ : Board) (⟨1, 1, -1, 0, -1, 0, 0, 0, 0⟩ : Board) (XScore.fin 0) 0 2 rfl rfl (of_decide_eq_true rfl) rfl
    certLE0024

theorem certLE0026 : XScore.ble ((minimax 1 (⟨1, -1, 1, 1, -1, 1, -1, -1, 0⟩ : Board) COMP).1.2.2) (XScore.fin 0) = true :=
  leafLE 1 (⟨1, -1, 1, 1, -1, 1, -1, -1, 0⟩ : Board) COMP (XScore.fin 0) (Or.inr rfl) rfl

theorem certLE0027 : XScore.ble ((minimax 2 (⟨1, -1, 1, 1, -1, 1, -1, 0, 0⟩ : Board) HUMAN).1.2.2) (XScore.fin 0) = true :=
  nodeHumanLE 2 1 (⟨1, -1, 1, 1, -1, 1, -1, 0, 0⟩ : Board) (⟨1, -1, 1, 1, -1, 1, -1, -1, 0⟩ : Board) (XScore.fin 0) 2 1 rfl rfl (of_decide_eq_true rfl) rfl
    certLE0026

theorem certLE0028 : XScore.ble ((minimax 0 (⟨1, -1, 1, 1, -1, -1, -1, 1, 1⟩ : Board) HUMAN).1.2.2) (XScore.fin 0) = true :=
  leafLE 0 (⟨1, -1, 1, 1, -1, -1, -1, 1, 1⟩ : Board) HUMAN (XScore.fin 0) (Or.inl rfl) rfl

theorem certLE0029 : XScore.ble ((minimax 1 (⟨1, -1, 1, 1, -1, -1, -1, 1, 0⟩ : Board) COMP).1.2.2) (XScore.fin 0) = true :=
  nodeCompLE 1 0 (⟨1, -1, 1, 1, -1, -1, -1, 1, 0⟩ : Board) (XScore.fin 0)
    [(⟨1, -1, 1, 1, -1, -1, -1, 1, 1⟩ : Board)]
    rfl rfl rfl
    ⟨certLE0028, True.intro⟩

theorem certLE0030 : XScore.ble ((minimax 2 (⟨1, -1, 1, 1, -1, 0, -1, 1, 0⟩ : Board) HUMAN).1.2.2) (XScore.fin 0) = true :=
  nodeHumanLE 2 1 (⟨1, -1, 1, 1, -1, 0, -1, 1, 0⟩ : Board) (⟨1, -1, 1, 1, -1, -1, -1, 1, 0⟩ : Board) (XScore.fin 0) 1 2 rfl rfl (of_decide_eq_true rfl) rfl
    certLE0029

theorem certLE0031 : XScore.ble ((minimax 1 (⟨1, -1, 1, 1, -1, -1, -1, 0, 1⟩ : Board) COMP).1.2.2) (XScore.fin 0) = true :=
  nodeCompLE 1 0 (⟨1, -1, 1, 1, -1, -1, -1, 0, 1⟩ : Board) (XScore.fin 0)
    [(⟨1, -1, 1, 1, -1, -1, -1, 1, 1⟩ : Board)]
    rfl rfl rfl
    ⟨certLE0028, True.intro⟩

theorem certLE0032 : XScore.ble ((minimax 2 (⟨1, -1, 1, 1, -1, 0, -1, 0, 1⟩ : Board) HUMAN).1.2.2) (XScore.fin 0) = true :=
  nodeHumanLE 2 1 (⟨1, -1, 1, 1, -1, 0, -1, 0, 1⟩ : Board) (⟨1, -1, 1, 1, -1, -1, -1, 0, 1⟩ : Board) (XScore.fin 0) 1 2 rfl rfl (of_decide_eq_true rfl) rfl
    certLE0031

theorem certLE0033 : XScore.ble ((minimax 3 (⟨1, -1, 1, 1, -1, 0, -1, 0, 0⟩ : Board) COMP).1.2.2) (XScore.fin 0) = true :=
  nodeCompLE 3 2 (⟨1, -1, 1, 1, -1, 0, -1, 0, 0⟩ : Board) (XScore.fin 0)
    [(⟨1, -1, 1, 1, -1, 1, -1, 0, 0⟩ : Board),
     (⟨1, -1, 1, 1, -1, 0, -1, 1, 0⟩ : Board),
     (⟨1, -1, 1, 1, -1, 0, -1, 0, 1⟩ : Board)]
    rfl rfl rfl
    ⟨certLE0027, certLE0030, certLE0032, True.intro⟩

theorem certLE0034 : XScore.ble ((minimax 4 (⟨1, -1, 1, 1, -1, 0, 0, 0, 0⟩ : Board) HUMAN).1.2.2) (XScore.fin 0) = true :=
  nodeHumanLE 4 3 (⟨1, -1, 1, 1, -1, 0, 0, 0, 0⟩ : Board) (⟨1, -1, 1, 1, -1, 0, -1, 0, 0⟩ : Board) (XScore.fin 0) 2 0 rfl rfl (of_decide_eq_true rfl) rfl
    certLE0033

theorem certLE0035 : XScore.ble ((minimax 3 (⟨1, -1, 1, 0, -1, 1, 0, -1, 0⟩ : Board) COMP).1.2.2) (XScore.fin 0) = true :=
  leafLE 3 (⟨1, -1, 1, 0, -1, 1, 0, -1, 0⟩ : Board) COMP (XScore.fin 0) (Or.inr rfl) rfl

theorem certLE0036 : XScore.ble ((minimax 4 (⟨1, -1, 1, 0, -1, 1, 0, 0, 0⟩ : Board) HUMAN).1.2.2) (XScore.fin 0) = true :=
  nodeHumanLE 4 3 (⟨1, -1, 1, 0, -1, 1, 0, 0, 0⟩ : Board) (⟨1, -1, 1, 0, -1, 1, 0, -1, 0⟩ : Board) (XScore.fin 0) 2 1 rfl rfl (of_decide_eq_true rfl) rfl
    certLE0035

theorem certLE0037 : XScore.ble ((minimax 1 (⟨1, -1, 1, -1, -1, 1, 1, -1, 0⟩ : Board) COMP).1.2.2) (XScore.fin 0) = true :=
  leafLE 1 (⟨1, -1, 1, -1, -1, 1, 1, -1, 0⟩ : Board) COMP (XScore.fin 0) (Or.inr rfl) rfl

theorem certLE0038 : XScore.ble ((minimax 2 (⟨1, -1, 1, -1, -1, 1, 1, 0, 0⟩ : Board) HUMAN).1.2.2) (XScore.fin 0) = true :=
  nodeHumanLE 2 1 (⟨1, -1, 1, -1, -1, 1, 1, 0, 0⟩ : Board) (⟨1, -1, 1, -1, -1, 1, 1, -1, 0⟩ : Board) (XScore.fin 0) 2 1 rfl rfl (of_decide_eq_true rfl) rfl
    certLE0037

theorem certLE0039 : XScore.ble ((minimax 1 (⟨1, -1, 1, -1, -1, -1, 1, 1, 0⟩ : Board) COMP).1.2.2) (XScore.fin 0) = true :=
  leafLE 1 (⟨1, -1, 1, -1, -1, -1, 1, 1, 0⟩ : Board) COMP (XScore.fin 0) (Or.inr rfl) rfl

theorem certLE0040 : XScore.ble ((minimax 2 (⟨1, -1, 1, -1, -1, 0, 1, 1, 0⟩ : Board) HUMAN).1.2.2) (XScore.fin 0) = true :=
  nodeHumanLE 2 1 (⟨1, -1, 1, -1, -1, 0, 1, 1, 0⟩ : Board) (⟨1, -1, 1, -1, -1, -1, 1, 1, 0⟩ : Board) (XScore.fin 0) 1 2 rfl rfl (of_decide_eq_true rfl) rfl
    certLE0039

theorem certLE0041 : XScore.ble ((minimax 1 (⟨1, -1, 1, -1, -1, -1, 1, 0, 1⟩ : Board) COMP).1.2.2) (XScore.fin 0) = true :=
  leafLE 1 (⟨1, -1, 1, -1, -1, -1, 1, 0, 1⟩ : Board) COMP (XScore.fin 0) (Or.inr rfl) rfl

theorem certLE0042 : XScore.ble ((minimax 2 (⟨1, -1, 1, -1, -1, 0, 1, 0, 1⟩ : Board) HUMAN).1.2.2) (XScore.fin 0) = true :=
  nodeHumanLE 2 1 (⟨1, -1, 1, -1, -1, 0, 1, 0, 1⟩ : Board) (⟨1, -1, 1, -1, -1, -1, 1, 0, 1⟩ : Board) (XScore.fin 0) 1 2 rfl rfl (of_decide_eq_true rfl) rfl
    certLE0041

theorem certLE0043 : XScore.ble ((minimax 3 (⟨1, -1, 1, -1, -1, 0, 1, 0, 0⟩ : Board) COMP).1.2.2) (XScore.fin 0) = true :=
  nodeCompLE 3 2 (⟨1, -1, 1, -1, -1, 0, 1, 0, 0⟩ : Board) (XScore.fin 0)
    [(⟨1, -1, 1, -1, -1, 1, 1, 0, 0⟩ : Board),
     (⟨1, -1, 1, -1, -1, 0, 1, 1, 0⟩ : Board),
     (⟨1, -1, 1, -1, -1, 0, 1, 0, 1⟩ : Board)]
    rfl rfl rfl
    ⟨certLE0038, certLE0040, certLE0042, True.intro⟩

theorem certLE0044 : XScore.ble ((minimax 4 (⟨1, -1, 1, 0, -1, 0, 1, 0, 0⟩ : Board) HUMAN).1.2.2) (XScore.fin 0) = true :=
  nodeHumanLE 4 3 (⟨1, -1, 1, 0, -1, 0, 1, 0, 0⟩ : Board) (⟨1, -1, 1, -1, -1, 0, 1, 0, 0⟩ : Board) (XScore.fin 0) 1 0 rfl rfl (of_decide_eq_true rfl) rfl
    certLE0043

theorem certLE0045 : XScore.ble ((minimax 0 (⟨1, -1, 1, -1, -1, 1, 1, 1, -1⟩ : Board) HUMAN).1.2.2) (XScore.fin 0) = true :=
  leafLE 0 (⟨1, -1, 1, -1, -1, 1, 1, 1, -1⟩ : Board) HUMAN (XScore.fin 0) (Or.inl rfl) rfl

theorem certLE0046 : XScore.ble ((minimax 1 (⟨1, -1, 1, -1, -1, 1, 0, 1, -1⟩ : Board) COMP).1.2.2) (XScore.fin 0) = true :=
  nodeCompLE 1 0 (⟨1, -1, 1, -1, -1, 1, 0, 1, -1⟩ : Board) (XScore.fin 0)
    [(⟨1, -1, 1, -1, -1, 1, 1, 1, -1⟩ : Board)]
    rfl rfl rfl
    ⟨certLE0045, True.intro⟩

theorem certLE0047 : XScore.ble ((minimax 2 (⟨1, -1, 1, -1, -1, 1, 0, 1, 0⟩ : Board) HUMAN).1.2.2) (XScore.fin 0) = true :=
  nodeHumanLE 2 1 (⟨1, -1, 1, -1, -1, 1, 0, 1, 0⟩ : Board) (⟨1, -1, 1, -1, -1, 1, 0, 1, -1⟩ : Board) (XScore.fin 0) 2 2 rfl rfl (of_decide_eq_true rfl) rfl
    certLE0046

theorem certLE0048 : XScore.ble ((minimax 1 (⟨1, -1, 1, -1, -1, -1, 0, 1, 1⟩ : Board) COMP).1.2.2) (XScore.fin 0) = true :=
  leafLE 1 (⟨1, -1, 1, -1, -1, -1, 0, 1, 1⟩ : Board) COMP (XScore.fin 0) (Or.inr rfl) rfl

theorem certLE0049 : XScore.ble ((minimax 2 (⟨1, -1, 1, -1, -1, 0, 0, 1, 1⟩ : Board) HUMAN).1.2.2) (XScore.fin 0) = true :=
  nodeHumanLE 2 1 (⟨1, -1, 1, -1, -1, 0, 0, 1, 1⟩ : Board) (⟨1, -1, 1, -1, -1, -1, 0, 1, 1⟩ : Board) (XScore.fin 0) 1 2 rfl rfl (of_decide_eq_true rfl) rfl
    certLE0048

theorem certLE0050 : XScore.ble ((minimax 3 (⟨1, -1, 1, -1, -1, 0, 0, 1, 0⟩ : Board) COMP).1.2.2) (XScore.fin 0) = true :=
  nodeCompLE 3 2 (⟨1, -1, 1, -1, -1, 0, 0, 1, 0⟩ : Board) (XScore.fin 0)
    [(⟨1, -1, 1, -1, -1, 1, 0, 1, 0⟩ : Board),
     (⟨1, -1, 1, -1, -1, 0, 1, 1, 0⟩ : Board),
     (⟨1, -1, 1, -1, -1, 0, 0, 1, 1⟩ : Board)]
    rfl rfl rfl
    ⟨certLE0047, certLE0040, certLE0049, True.intro⟩

theorem certLE0051 : XScore.ble ((minimax 4 (⟨1, -1, 1, 0, -1, 0, 0, 1, 0⟩ : Board) HUMAN).1.2.2) (XScore.fin 0) = true :=
  nodeHumanLE 4 3 (⟨1, -1, 1, 0, -1, 0, 0, 1, 0⟩ : Board) (⟨1, -1, 1, -1, -1, 0, 0, 1, 0⟩ : Board) (XScore.fin 0) 1 0 rfl rfl (of_decide_eq_true rfl) rfl
    certLE0050

theorem certLE0052 : XScore.ble ((minimax 2 (⟨1, -1, 1, 1, -1, -1, 0, 0, 1⟩ : Board) HUMAN).1.2.2) (XScore.fin 0) = true :=
  nodeHumanLE 2 1 (⟨1, -1, 1, 1, -1, -1, 0, 0, 1⟩ : Board) (⟨1, -1, 1, 1, -1, -1, -1, 0, 1⟩ : Board) (XScore.fin 0) 2 0 rfl rfl (of_decide_eq_true rfl) rfl
    certLE0031

theorem certLE0053 : XScore.ble ((minimax 2 (⟨1, -1, 1, 0, -1, -1, 1, 0, 1⟩ : Board) HUMAN).1.2.2) (XScore.fin 0) = true :=
  nodeHumanLE 2 1 (⟨1, -1, 1, 0, -1, -1, 1, 0, 1⟩ : Board) (⟨1, -1, 1, -1, -1, -1, 1, 0, 1⟩ : Board) (XScore.fin 0) 1 0 rfl rfl (of_decide_eq_true rfl) rfl
    certLE0041

theorem certLE0054 : XScore.ble ((minimax 2 (⟨1, -1, 1, 0, -1, -1, 0, 1, 1⟩ : Board) HUMAN).1.2.2) (XScore.fin 0) = true :=
  nodeHumanLE 2 1 (⟨1, -1, 1, 0, -1, -1, 0, 1, 1⟩ : Board) (⟨1, -1, 1, -1, -1, -1, 0, 1, 1⟩ : Board) (XScore.fin 0) 1 0 rfl rfl (of_decide_eq_true rfl) rfl
    certLE0048

theorem certLE0055 : XScore.ble ((minimax 3 (⟨1, -1, 1, 0, -1, -1, 0, 0, 1⟩ : Board) COMP).1.2.2) (XScore.fin 0) = true :=
  nodeCompLE 3 2 (⟨1, -1, 1, 0, -1, -1, 0, 0, 1⟩ : Board) (XScore.fin 0)
    [(⟨1, -1, 1, 1, -1, -1, 0, 0, 1⟩ : Board),
     (⟨1, -1, 1, 0, -1, -1, 1, 0, 1⟩ : Board),
     (⟨1, -1, 1, 0, -1, -1, 0, 1, 1⟩ : Board)]
    rfl rfl rfl
    ⟨certLE0052, certLE0053, certLE0054, True.intro⟩

theorem certLE0056 : XScore.ble ((minimax 4 (⟨1, -1, 1, 0, -1, 0, 0, 0, 1⟩ : Board) HUMAN).1.2.2) (XScore.fin 0) = true :=
  nodeHumanLE 4 3 (⟨1, -1, 1, 0, -1, 0, 0, 0, 1⟩ : Board) (⟨1, -1, 1, 0, -1, -1, 0, 0, 1⟩ : Board) (XScore.fin 0) 1 2 rfl rfl (of_decide_eq_true rfl) rfl
    certLE0055

theorem certLE0057 : XScore.ble ((minimax 5 (⟨1, -1, 1, 0, -1, 0, 0, 0, 0⟩ : Board) COMP).1.2.2) (XScore.fin 0) = true :=
  nodeCompLE 5 4 (⟨1, -1, 1, 0, -1, 0, 0, 0, 0⟩ : Board) (XScore.fin 0)
    [(⟨1, -1, 1, 1, -1, 0, 0, 0, 0⟩ : Board),
     (⟨1, -1, 1, 0, -1, 1, 0, 0, 0⟩ : Board),
     (⟨1, -1, 1, 0, -1, 0, 1, 0, 0⟩ : Board),
     (⟨1, -1, 1, 0, -1, 0, 0, 1, 0⟩ : Board),
     (⟨1, -1, 1, 0, -1, 0, 0, 0, 1⟩ : Board)]
    rfl rfl rfl
    ⟨certLE0034, certLE0036, certLE0044, certLE0051, certLE0056, True.intro⟩

theorem certLE0058 : XScore.ble ((minimax 6 (⟨1, 0, 1, 0, -1, 0, 0, 0, 0⟩ : Board) HUMAN).1.2.2) (XScore.fin 0) = true :=
  nodeHumanLE 6 5 (⟨1, 0, 1, 0, -1, 0, 0, 0, 0⟩ : Board) (⟨1, -1, 1, 0, -1, 0, 0, 0, 0⟩ : Board) (XScore.fin 0) 0 1 rfl rfl (of_decide_eq_true rfl) rfl
    certLE0057

theorem certLE0059 : XScore.ble ((minimax 4 (⟨1, 1, 0, 1, -1, 0, -1, 0, 0⟩ : Board) HUMAN).1.2.2) (XScore.fin 0) = true :=
  nodeHumanLE 4 3 (⟨1, 1, 0, 1, -1, 0, -1, 0, 0⟩ : Board) (⟨1, 1, -1, 1, -1, 0, -1, 0, 0⟩ : Board) (XScore.fin 0) 0 2 rfl rfl (of_decide_eq_true rfl) rfl
    certLE0001

theorem certLE0060 : XScore.ble ((minimax 4 (⟨1, 0, 1, 1, -1, 0, -1, 0, 0⟩ : Board) HUMAN).1.2.2) (XScore.fin 0) = true :=
  nodeHumanLE 4 3 (⟨1, 0, 1, 1, -1, 0, -1, 0, 0⟩ : Board) (⟨1, -1, 1, 1, -1, 0, -1, 0, 0⟩ : Board) (XScore.fin 0) 0 1 rfl rfl (of_decide_eq_true rfl) rfl
    certLE0033

theorem certLE0061 : XScore.ble ((minimax 1 (⟨1, -1, -1, 1, -1, 1, -1, 1, 0⟩ : Board) COMP).1.2.2) (XScore.fin 0) = true :=
  leafLE 1 (⟨1, -1, -1, 1, -1, 1, -1, 1, 0⟩ : Board) COMP (XScore.fin 0) (Or.inr rfl) rfl

theorem certLE0062 : XScore.ble ((minimax 2 (⟨1, -1, 0, 1, -1, 1, -1, 1, 0⟩ : Board) HUMAN).1.2.2) (XScore.fin 0) = true :=
  nodeHumanLE 2 1 (⟨1, -1, 0, 1, -1, 1, -1, 1, 0⟩ : Board) (⟨1, -1, -1, 1, -1, 1, -1, 1, 0⟩ : Board) (XScore.fin 0) 0 2 rfl rfl (of_decide_eq_true rfl) rfl
    certLE0061

theorem certLE0063 : XScore.ble ((minimax 1 (⟨1, -1, -1, 1, -1, 1, -1, 0, 1⟩ : Board) COMP).1.2.2) (XScore.fin 0) = true :=
  leafLE 1 (⟨1, -1, -1, 1, -1, 1, -1, 0, 1⟩ : Board) COMP (XScore.fin 0) (Or.inr rfl) rfl

theorem certLE0064 : XScore.ble ((minimax 2 (⟨1, -1, 0, 1, -1, 1, -1, 0, 1⟩ : Board) HUMAN).1.2.2) (XScore.fin 0) = true :=
  nodeHumanLE 2 1 (⟨1, -1, 0, 1, -1, 1, -1, 0, 1⟩ : Board) (⟨1, -1, -1, 1, -1, 1, -1, 0, 1⟩ : Board) (XScore.fin 0) 0 2 rfl rfl (of_decide_eq_true rfl) rfl
    certLE0063

theorem certLE0065 : XScore.ble ((minimax 3 (⟨1, -1, 0, 1, -1, 1, -1, 0, 0⟩ : Board) COMP).1.2.2) (XScore.fin 0) = true :=
  nodeCompLE 3 2 (⟨1, -1, 0, 1, -1, 1, -1, 0, 0⟩ : Board) (XScore.fin 0)
    [(⟨1, -1, 1, 1, -1, 1, -1, 0, 0⟩ : Board),
     (⟨1, -1, 0, 1, -1, 1, -1, 1, 0⟩ : Board),
     (⟨1, -1, 0, 1, -1, 1, -1, 0, 1⟩ : Board)]
    rfl rfl rfl
    ⟨certLE0027, certLE0062, certLE0064, True.intro⟩

theorem certLE0066 : XScore.ble ((minimax 4 (⟨1, 0, 0, 1, -1, 1, -1, 0, 0⟩ : Board) HUMAN).1.2.2) (XScore.fin 0) = true :=
  nodeHumanLE 4 3 (⟨1, 0, 0, 1, -1, 1, -1, 0, 0⟩ : Board) (⟨1, -1, 0, 1, -1, 1, -1, 0, 0⟩ : Board) (XScore.fin 0) 0 1 rfl rfl (of_decide_eq_true rfl) rfl
    certLE0065

theorem certLE0067 : XScore.ble ((minimax 1 (⟨1, -1, -1, 1, -1, 0, -1, 1, 1⟩ : Board) COMP).1.2.2) (XScore.fin 0) = true :=
  leafLE 1 (⟨1, -1, -1, 1, -1, 0, -1, 1, 1⟩ : Board) COMP (XScore.fin 0) (Or.inr rfl) rfl

theorem certLE0068 : XScore.ble ((minimax 2 (⟨1, -1, 0, 1, -1, 0, -1, 1, 1⟩ : Board) HUMAN).1.2.2) (XScore.fin 0) = true :=
  nodeHumanLE 2 1 (⟨1, -1, 0, 1, -1, 0, -1, 1, 1⟩ : Board) (⟨1, -1, -1, 1, -1, 0, -1, 1, 1⟩ : Board) (XScore.fin 0) 0 2 rfl rfl (of_decide_eq_true rfl) rfl
    certLE0067

theorem certLE0069 : XScore.ble ((minimax 3 (⟨1, -1, 0, 1, -1, 0, -1, 1, 0⟩ : Board) COMP).1.2.2) (XScore.fin 0) = true :=
  nodeCompLE 3 2 (⟨1, -1, 0, 1, -1, 0, -1, 1, 0⟩ : Board) (XScore.fin 0)
    [(⟨1, -1, 1, 1, -1, 0, -1, 1, 0⟩ : Board),
     (⟨1, -1, 0, 1, -1, 1, -1, 1, 0⟩ : Board),
     (⟨1, -1, 0, 1, -1, 0, -1, 1, 1⟩ : Board)]
    rfl rfl rfl
    ⟨certLE0030, certLE0062, certLE0068, True.intro⟩

theorem certLE0070 : XScore.ble ((minimax 4 (⟨1, 0, 0, 1, -1, 0, -1, 1, 0⟩ : Board) HUMAN).1.2.2) (XScore.fin 0) = true :=
  nodeHumanLE 4 3 (⟨1, 0, 0, 1, -1, 0, -1, 1, 0⟩ : Board) (⟨1, -1, 0, 1, -1, 0, -1, 1, 0⟩ : Board) (XScore.fin 0) 0 1 rfl rfl (of_decide_eq_true rfl) rfl
    certLE0069

theorem certLE0071 : XScore.ble ((minimax 3 (⟨1, -1, 0, 1, -1, 0, -1, 0, 1⟩ : Board) COMP).1.2.2) (XScore.fin 0) = true :=
  nodeCompLE 3 2 (⟨1, -1, 0, 1, -1, 0, -1, 0, 1⟩ : Board) (XScore.fin 0)
    [(⟨1, -1, 1, 1, -1, 0, -1, 0, 1⟩ : Board),
     (⟨1, -1, 0, 1, -1, 1, -1, 0, 1⟩ : Board),
     (⟨1, -1, 0, 1, -1, 0, -1, 1, 1⟩ : Board)]
    rfl rfl rfl
    ⟨certLE0032, certLE0064, certLE0068, True.intro⟩

theorem certLE0072 : XScore.ble ((minimax 4 (⟨1, 0, 0, 1, -1, 0, -1, 0, 1⟩ : Board) HUMAN).1.2.2) (XScore.fin 0) = true :=
  nodeHumanLE 4 3 (⟨1, 0, 0, 1, -1, 0, -1, 0, 1⟩ : Board) (⟨1, -1, 0, 1, -1, 0, -1, 0, 1⟩ : Board) (XScore.fin 0) 0 1 rfl rfl (of_decide_eq_true rfl) rfl
    certLE0071

theorem certLE0073 : XScore.ble ((minimax 5 (⟨1, 0, 0, 1, -1, 0, -1, 0, 0⟩ : Board) COMP).1.2.2) (XScore.fin 0) = true :=
  nodeCompLE 5 4 (⟨1, 0, 0, 1, -1, 0, -1, 0, 0⟩ : Board) (XScore.fin 0)
    [(⟨1, 1, 0, 1, -1, 0, -1, 0, 0⟩ : Board),
     (⟨1, 0, 1, 1, -1, 0, -1, 0, 0⟩ : Board),
     (⟨1, 0, 0, 1, -1, 1, -1, 0, 0⟩ : Board),
     (⟨1, 0, 0, 1, -1, 0, -1, 1, 0⟩ : Board),
     (⟨1, 0, 0, 1, -1, 0, -1, 0, 1⟩ : Board)]
    rfl rfl rfl
    ⟨certLE0059, certLE0060, certLE0066, certLE0070, certLE0072, True.intro⟩

theorem certLE0074 : XScore.ble ((minimax 6 (⟨1, 0, 0, 1, -1, 0, 0, 0, 0⟩ : Board) HUMAN).1.2.2) (XScore.fin 0) = true :=
  nodeHumanLE 6 5 (⟨1, 0, 0, 1, -1, 0, 0, 0, 0⟩ : Board) (⟨1, 0, 0, 1, -1, 0, -1, 0, 0⟩ : Board) (XScore.fin 0) 2 0 rfl rfl (of_decide_eq_true rfl) rfl
    certLE0073

theorem certLE0075 : XScore.ble ((minimax 4 (⟨1, -1, 0, 1, -1, 1, 0, 0, 0⟩ : Board) HUMAN).1.2.2) (XScore.fin 0) = true :=
  nodeHumanLE 4 3 (⟨1, -1, 0, 1, -1, 1, 0, 0, 0⟩ : Board) (⟨1, -1, 0, 1, -1, 1, -1, 0, 0⟩ : Board) (XScore.fin 0) 2 0 rfl rfl (of_decide_eq_true rfl) rfl
    certLE0065

theorem certLE0076 : XScore.ble ((minimax 1 (⟨1, -1, 0, -1, -1, 1, 1, 1, -1⟩ : Board) COMP).1.2.2) (XScore.fin 0) = true :=
  nodeCompLE 1 0 (⟨1, -1, 0, -1, -1, 1, 1, 1, -1⟩ : Board) (XScore.fin 0)
    [(⟨1, -1, 1, -1, -1, 1, 1, 1, -1⟩ : Board)]
    rfl rfl rfl
    ⟨certLE0045, True.intro⟩

theorem certLE0077 : XScore.ble ((minimax 2 (⟨1, -1, 0, -1, -1, 1, 1, 1, 0⟩ : Board) HUMAN).1.2.2) (XScore.fin 0) = true :=
  nodeHumanLE 2 1 (⟨1, -1, 0, -1, -1, 1, 1, 1, 0⟩ : Board) (⟨1, -1, 0, -1, -1, 1, 1, 1, -1⟩ : Board) (XScore.fin 0) 2 2 rfl rfl (of_decide_eq_true rfl) rfl
    certLE0076

theorem certLE0078 : XScore.ble ((minimax 1 (⟨1, -1, 0, -1, -1, 1, 1, -1, 1⟩ : Board) COMP).1.2.2) (XScore.fin 0) = true :=
  leafLE 1 (⟨1, -1, 0, -1, -1, 1, 1, -1, 1⟩ : Board) COMP (XScore.fin 0) (Or.inr rfl) rfl

theorem certLE0079 : XScore.ble ((minimax 2 (⟨1, -1, 0, -1, -1, 1, 1, 0, 1⟩ : Board) HUMAN).1.2.2) (XScore.fin 0) = true :=
  nodeHumanLE 2 1 (⟨1, -1, 0, -1, -1, 1, 1, 0, 1⟩ : Board) (⟨1, -1, 0, -1, -1, 1, 1, -1, 1⟩ : Board) (XScore.fin 0) 2 1 rfl rfl (of_decide_eq_true rfl) rfl
    certLE0078

theorem certLE0080 : XScore.ble ((minimax 3 (⟨1, -1, 0, -1, -1, 1, 1, 0, 0⟩ : Board) COMP).1.2.2) (XScore.fin 0) = true :=
  nodeCompLE 3 2 (⟨1, -1, 0, -1, -1, 1, 1, 0, 0⟩ : Board) (XScore.fin 0)
    [(⟨1, -1, 1, -1, -1, 1, 1, 0, 0⟩ : Board),
     (⟨1, -1, 0, -1, -1, 1, 1, 1, 0⟩ : Board),
     (⟨1, -1, 0, -1, -1, 1, 1, 0, 1⟩ : Board)]
    rfl rfl rfl
    ⟨certLE0038, certLE0077, certLE0079, True.intro⟩

theorem certLE0081 : XScore.ble ((minimax 4 (⟨1, -1, 0, 0, -1, 1, 1, 0, 0⟩ : Board) HUMAN).1.2.2) (XScore.fin 0) = true :=
  nodeHumanLE 4 3 (⟨1, -1, 0, 0, -1, 1, 1, 0, 0⟩ : Board) (⟨1, -1, 0, -1, -1, 1, 1, 0, 0⟩ : Board) (XScore.fin 0) 1 0 rfl rfl (of_decide_eq_true rfl) rfl
    certLE0080

theorem certLE0082 : XScore.ble ((minimax 0 (⟨1, -1, 1, 1, -1, 1, -1, 1, -1⟩ : Board) HUMAN).1.2.2) (XScore.fin 0) = true :=
  leafLE 0 (⟨1, -1, 1, 1, -1, 1, -1, 1, -1⟩ : Board) HUMAN (XScore.fin 0) (Or.inl rfl) rfl

theorem certLE0083 : XScore.ble ((minimax 1 (⟨1, -1, 1, 0, -1, 1, -1, 1, -1⟩ : Board) COMP).1.2.2) (XScore.fin 0) = true :=
  nodeCompLE 1 0 (⟨1, -1, 1, 0, -1, 1, -1, 1, -1⟩ : Board) (XScore.fin 0)
    [(⟨1, -1, 1, 1, -1, 1, -1, 1, -1⟩ : Board)]
    rfl rfl rfl
    ⟨certLE0082, True.intro⟩

theorem certLE0084 : XScore.ble ((minimax 2 (⟨1, -1, 1, 0, -1, 1, -1, 1, 0⟩ : Board) HUMAN).1.2.2) (XScore.fin 0) = true :=
  nodeHumanLE 2 1 (⟨1, -1, 1, 0, -1, 1, -1, 1, 0⟩ : Board) (⟨1, -1, 1, 0, -1, 1, -1, 1, -1⟩ : Board) (XScore.fin 0) 2 2 rfl rfl (of_decide_eq_true rfl) rfl
    certLE0083

theorem certLE0085 : XScore.ble ((minimax 1 (⟨1, -1, -1, 0, -1, 1, -1, 1, 1⟩ : Board) COMP).1.2.2) (XScore.fin 0) = true :=
  leafLE 1 (⟨1, -1, -1, 0, -1, 1, -1, 1, 1⟩ : Board) COMP (XScore.fin 0) (Or.inr rfl) rfl

theorem certLE0086 : XScore.ble ((minimax 2 (⟨1, -1, 0, 0, -1, 1, -1, 1, 1⟩ : Board) HUMAN).1.2.2) (XScore.fin 0) = true :=
  nodeHumanLE 2 1 (⟨1, -1, 0, 0, -1, 1, -1, 1, 1⟩ : Board) (⟨1, -1, -1, 0, -1, 1, -1, 1, 1⟩ : Board) (XScore.fin 0) 0 2 rfl rfl (of_decide_eq_true rfl) rfl
    certLE0085

theorem certLE0087 : XScore.ble ((minimax 3 (⟨1, -1, 0, 0, -1, 1, -1, 1, 0⟩ : Board) COMP).1.2.2) (XScore.fin 0) = true :=
  nodeCompLE 3 2 (⟨1, -1, 0, 0, -1, 1, -1, 1, 0⟩ : Board) (XScore.fin 0)
    [(⟨1, -1, 1, 0, -1, 1, -1, 1, 0⟩ : Board),
     (⟨1, -1, 0, 1, -1, 1, -1, 1, 0⟩ : Board),
     (⟨1, -1, 0, 0, -1, 1, -1, 1, 1⟩ : Board)]
    rfl rfl rfl
    ⟨certLE0084, certLE0062, certLE0086, True.intro⟩

theorem certLE0088 : XScore.ble ((minimax 4 (⟨1, -1, 0, 0, -1, 1, 0, 1, 0⟩ : Board) HUMAN).1.2.2) (XScore.fin 0) = true :=
  nodeHumanLE 4 3 (⟨1, -1, 0, 0, -1, 1, 0, 1, 0⟩ : Board) (⟨1, -1, 0, 0, -1, 1, -1, 1, 0⟩ : Board) (XScore.fin 0) 2 0 rfl rfl (of_decide_eq_true rfl) rfl
    certLE0087

theorem certLE0089 : XScore.ble ((minimax 2 (⟨1, -1, -1, 1, -1, 1, 0, 0, 1⟩ : Board) HUMAN).1.2.2) (XScore.fin 0) = true :=
  nodeHumanLE 2 1 (⟨1, -1, -1, 1, -1, 1, 0, 0, 1⟩ : Board) (⟨1, -1, -1, 1, -1, 1, -1, 0, 1⟩ : Board) (XScore.fin 0) 2 0 rfl rfl (of_decide_eq_true rfl) rfl
    certLE0063

theorem certLE0090 : XScore.ble ((minimax 1 (⟨1, -1, -1, 0, -1, 1, 1, -1, 1⟩ : Board) COMP).1.2.2) (XScore.fin 0) = true :=
  leafLE 1 (⟨1, -1, -1, 0, -1, 1, 1, -1, 1⟩ : Board) COMP (XScore.fin 0) (Or.inr rfl) rfl

theorem certLE0091 : XScore.ble ((minimax 2 (⟨1, -1, -1, 0, -1, 1, 1, 0, 1⟩ : Board) HUMAN).1.2.2) (XScore.fin 0) = true :=
  nodeHumanLE 2 1 (⟨1, -1, -1, 0, -1, 1, 1, 0, 1⟩ : Board) (⟨1, -1, -1, 0, -1, 1, 1, -1, 1⟩ : Board) (XScore.fin 0) 2 1 rfl rfl (of_decide_eq_true rfl) rfl
    certLE0090

theorem certLE0092 : XScore.ble ((minimax 2 (⟨1, -1, -1, 0, -1, 1, 0, 1, 1⟩ : Board) HUMAN).1.2.2) (XScore.fin 0) = true :=
  nodeHumanLE 2 1 (⟨1, -1, -1, 0, -1, 1, 0, 1, 1⟩ : Board) (⟨1, -1, -1, 0, -1, 1, -1, 1, 1⟩ : Board) (XScore.fin 0) 2 0 rfl rfl (of_decide_eq_true rfl) rfl
    certLE0085

theorem certLE0093 : XScore.ble ((minimax 3 (⟨1, -1, -1, 0, -1, 1, 0, 0, 1⟩ : Board) COMP).1.2.2) (XScore.fin 0) = true :=
  nodeCompLE 3 2 (⟨1, -1, -1, 0, -1, 1, 0, 0, 1⟩ : Board) (XScore.fin 0)
    [(⟨1, -1, -1, 1, -1, 1, 0, 0, 1⟩ : Board),
     (⟨1, -1, -1, 0, -1, 1, 1, 0, 1⟩ : Board),
     (⟨1, -1, -1, 0, -1, 1, 0, 1, 1⟩ : Board)]
    rfl rfl rfl
    ⟨certLE0089, certLE0091, certLE0092, True.intro⟩

theorem certLE0094 : XScore.ble ((minimax 4 (⟨1, -1, 0, 0, -1, 1, 0, 0, 1⟩ : Board) HUMAN).1.2.2) (XScore.fin 0) = true :=
  nodeHumanLE 4 3 (⟨1, -1, 0, 0, -1, 1, 0, 0, 1⟩ : Board) (⟨1, -1, -1, 0, -1, 1, 0, 0, 1⟩ : Board) (XScore.fin 0) 0 2 rfl rfl (of_decide_eq_true rfl) rfl
    certLE0093

theorem certLE0095 : XScore.ble ((minimax 5 (⟨1, -1, 0, 0, -1, 1, 0, 0, 0⟩ : Board) COMP).1.2.2) (XScore.fin 0) = true :=
  nodeCompLE 5 4 (⟨1, -1, 0, 0, -1, 1, 0, 0, 0⟩ : Board) (XScore.fin 0)
    [(⟨1, -1, 1, 0, -1, 1, 0, 0, 0⟩ : Board),
     (⟨1, -1, 0, 1, -1, 1, 0, 0, 0⟩ : Board),
     (⟨1, -1, 0, 0, -1, 1, 1, 0, 0⟩ : Board),
     (⟨1, -1, 0, 0, -1, 1, 0, 1, 0⟩ : Board),
     (⟨1, -1, 0, 0, -1, 1, 0, 0, 1⟩ : Board)]
    rfl rfl rfl
    ⟨certLE0036, certLE0075, certLE0081, certLE0088, certLE0094, True.intro⟩

theorem certLE0096 : XScore.ble ((minimax 6 (⟨1, 0, 0, 0, -1, 1, 0, 0, 0⟩ : Board) HUMAN).1.2.2) (XScore.fin 0) = true :=
  nodeHumanLE 6 5 (⟨1, 0, 0, 0, -1, 1, 0, 0, 0⟩ : Board) (⟨1, -1, 0, 0, -1, 1, 0, 0, 0⟩ : Board) (XScore.fin 0) 0 1 rfl rfl (of_decide_eq_true rfl) rfl
    certLE0095

theorem certLE0097 : XScore.ble ((minimax 4 (⟨1, 1, 0, -1, -1, 0, 1, 0, 0⟩ : Board) HUMAN).1.2.2) (XScore.fin 0) = true :=
  nodeHumanLE 4 3 (⟨1, 1, 0, -1, -1, 0, 1, 0, 0⟩ : Board) (⟨1, 1, -1, -1, -1, 0, 1, 0, 0⟩ : Board) (XScore.fin 0) 0 2 rfl rfl (of_decide_eq_true rfl) rfl
    certLE0016

theorem certLE0098 : XScore.ble ((minimax 4 (⟨1, 0, 1, -1, -1, 0, 1, 0, 0⟩ : Board) HUMAN).1.2.2) (XScore.fin 0) = true :=
  nodeHumanLE 4 3 (⟨1, 0, 1, -1, -1, 0, 1, 0, 0⟩ : Board) (⟨1, -1, 1, -1, -1, 0, 1, 0, 0⟩ : Board) (XScore.fin 0) 0 1 rfl rfl (of_decide_eq_true rfl) rfl
    certLE0043

theorem certLE0099 : XScore.ble ((minimax 4 (⟨1, 0, 0, -1, -1, 1, 1, 0, 0⟩ : Board) HUMAN).1.2.2) (XScore.fin 0) = true :=
  nodeHumanLE 4 3 (⟨1, 0, 0, -1, -1, 1, 1, 0, 0⟩ : Board) (⟨1, -1, 0, -1, -1, 1, 1, 0, 0⟩ : Board) (XScore.fin 0) 0 1 rfl rfl (of_decide_eq_true rfl) rfl
    certLE0080

theorem certLE0100 : XScore.ble ((minimax 3 (⟨1, 0, 0, -1, -1, -1, 1, 1, 0⟩ : Board) COMP).1.2.2) (XScore.fin 0) = true :=
  leafLE 3 (⟨1, 0, 0, -1, -1, -1, 1, 1, 0⟩ : Board) COMP (XScore.fin 0) (Or.inr rfl) rfl

theorem certLE0101 : XScore.ble ((minimax 4 (⟨1, 0, 0, -1, -1, 0, 1, 1, 0⟩ : Board) HUMAN).1.2.2) (XScore.fin 0) = true :=
  nodeHumanLE 4 3 (⟨1, 0, 0, -1, -1, 0, 1, 1, 0⟩ : Board) (⟨1, 0, 0, -1, -1, -1, 1, 1, 0⟩ : Board) (XScore.fin 0) 1 2 rfl rfl (of_decide_eq_true rfl) rfl
    certLE0100

theorem certLE0102 : XScore.ble ((minimax 3 (⟨1, 0, 0, -1, -1, -1, 1, 0, 1⟩ : Board) COMP).1.2.2) (XScore.fin 0) = true :=
  leafLE 3 (⟨1, 0, 0, -1, -1, -1, 1, 0, 1⟩ : Board) COMP (XScore.fin 0) (Or.inr rfl) rfl

theorem certLE0103 : XScore.ble ((minimax 4 (⟨1, 0, 0, -1, -1, 0, 1, 0, 1⟩ : Board) HUMAN).1.2.2) (XScore.fin 0) = true :=
  nodeHumanLE 4 3 (⟨1, 0, 0, -1, -1, 0, 1, 0, 1⟩ : Board) (⟨1, 0, 0, -1, -1, -1, 1, 0, 1⟩ : Board) (XScore.fin 0) 1 2 rfl rfl (of_decide_eq_true rfl) rfl
    certLE0102

theorem certLE0104 : XScore.ble ((minimax 5 (⟨1, 0, 0, -1, -1, 0, 1, 0, 0⟩ : Board) COMP).1.2.2) (XScore.fin 0) = true :=
  nodeCompLE 5 4 (⟨1, 0, 0, -1, -1, 0, 1, 0, 0⟩ : Board) (XScore.fin 0)
    [(⟨1, 1, 0, -1, -1, 0, 1, 0, 0⟩ : Board),
     (⟨1, 0, 1, -1, -1, 0, 1, 0, 0⟩ : Board),
     (⟨1, 0, 0, -1, -1, 1, 1, 0, 0⟩ : Board),
     (⟨1, 0, 0, -1, -1, 0, 1, 1, 0⟩ : Board),
     (⟨1, 0, 0, -1, -1, 0, 1, 0, 1⟩ : Board)]
    rfl rfl rfl
    ⟨certLE0097, certLE0098, certLE0099, certLE0101, certLE0103, True.intro⟩

theorem certLE0105 : XScore.ble ((minimax 6 (⟨1, 0, 0, 0, -1, 0, 1, 0, 0⟩ : Board) HUMAN).1.2.2) (XScore.fin 0) = true :=
  nodeHumanLE 6 5 (⟨1, 0, 0, 0, -1, 0, 1, 0, 0⟩ : Board) (⟨1, 0, 0, -1, -1, 0, 1, 0, 0⟩ : Board) (XScore.fin 0) 1 0 rfl rfl (of_decide_eq_true rfl) rfl
    certLE0104

theorem certLE0106 : XScore.ble ((minimax 4 (⟨1, 1, 0, -1, -1, 0, 0, 1, 0⟩ : Board) HUMAN).1.2.2) (XScore.fin 0) = true :=
  nodeHumanLE 4 3 (⟨1, 1, 0, -1, -1, 0, 0, 1, 0⟩ : Board) (⟨1, 1, -1, -1, -1, 0, 0, 1, 0⟩ : Board) (XScore.fin 0) 0 2 rfl rfl (of_decide_eq_true rfl) rfl
    certLE0020

theorem certLE0107 : XScore.ble ((minimax 4 (⟨1, 0, 1, -1, -1, 0, 0, 1, 0⟩ : Board) HUMAN).1.2.2) (XScore.fin 0) = true :=
  nodeHumanLE 4 3 (⟨1, 0, 1, -1, -1, 0, 0, 1, 0⟩ : Board) (⟨1, -1, 1, -1, -1, 0, 0, 1, 0⟩ : Board) (XScore.fin 0) 0 1 rfl rfl (of_decide_eq_true rfl) rfl
    certLE0050

theorem certLE0108 : XScore.ble ((minimax 0 (⟨1, 1, -1, -1, -1, 1, 1, 1, -1⟩ : Board) HUMAN).1.2.2) (XScore.fin 0) = true :=
  leafLE 0 (⟨1, 1, -1, -1, -1, 1, 1, 1, -1⟩ : Board) HUMAN (XScore.fin 0) (Or.inl rfl) rfl

theorem certLE0109 : XScore.ble ((minimax 1 (⟨1, 0, -1, -1, -1, 1, 1, 1, -1⟩ : Board) COMP).1.2.2) (XScore.fin 0) = true :=
  nodeCompLE 1 0 (⟨1, 0, -1, -1, -1, 1, 1, 1, -1⟩ : Board) (XScore.fin 0)
    [(⟨1, 1, -1, -1, -1, 1, 1, 1, -1⟩ : Board)]
    rfl rfl rfl
    ⟨certLE0108, True.intro⟩

theorem certLE0110 : XScore.ble ((minimax 2 (⟨1, 0, -1, -1, -1, 1, 1, 1, 0⟩ : Board) HUMAN).1.2.2) (XScore.fin 0) = true :=
  nodeHumanLE 2 1 (⟨1, 0, -1, -1, -1, 1, 1, 1, 0⟩ : Board) (⟨1, 0, -1, -1, -1, 1, 1, 1, -1⟩ : Board) (XScore.fin 0) 2 2 rfl rfl (of_decide_eq_true rfl) rfl
    certLE0109

theorem certLE0111 : XScore.ble ((minimax 1 (⟨1, 0, -1, -1, -1, 1, -1, 1, 1⟩ : Board) COMP).1.2.2) (XScore.fin 0) = true :=
  leafLE 1 (⟨1, 0, -1, -1, -1, 1, -1, 1, 1⟩ : Board) COMP (XScore.fin 0) (Or.inr rfl) rfl

theorem certLE0112 : XScore.ble ((minimax 2 (⟨1, 0, -1, -1, -1, 1, 0, 1, 1⟩ : Board) HUMAN).1.2.2) (XScore.fin 0) = true :=
  nodeHumanLE 2 1 (⟨1, 0, -1, -1, -1, 1, 0, 1, 1⟩ : Board) (⟨1, 0, -1, -1, -1, 1, -1, 1, 1⟩ : Board) (XScore.fin 0) 2 0 rfl rfl (of_decide_eq_true rfl) rfl
    certLE0111

theorem certLE0113 : XScore.ble ((minimax 3 (⟨1, 0, -1, -1, -1, 1, 0, 1, 0⟩ : Board) COMP).1.2.2) (XScore.fin 0) = true :=
  nodeCompLE 3 2 (⟨1, 0, -1, -1, -1, 1, 0, 1, 0⟩ : Board) (XScore.fin 0)
    [(⟨1, 1, -1, -1, -1, 1, 0, 1, 0⟩ : Board),
     (⟨1, 0, -1, -1, -1, 1, 1, 1, 0⟩ : Board),
     (⟨1, 0, -1, -1, -1, 1, 0, 1, 1⟩ : Board)]
    rfl rfl rfl
    ⟨certLE0007, certLE0110, certLE0112, True.intro⟩

theorem certLE0114 : XScore.ble ((minimax 4 (⟨1, 0, 0, -1, -1, 1, 0, 1, 0⟩ : Board) HUMAN).1.2.2) (XScore.fin 0) = true :=
  nodeHumanLE 4 3 (⟨1, 0, 0, -1, -1, 1, 0, 1, 0⟩ : Board) (⟨1, 0, -1, -1, -1, 1, 0, 1, 0⟩ : Board) (XScore.fin 0) 0 2 rfl rfl (of_decide_eq_true rfl) rfl
    certLE0113

theorem certLE0115 : XScore.ble ((minimax 3 (⟨1, 0, 0, -1, -1, -1, 0, 1, 1⟩ : Board) COMP).1.2.2) (XScore.fin 0) = true :=
  leafLE 3 (⟨1, 0, 0, -1, -1, -1, 0, 1, 1⟩ : Board) COMP (XScore.fin 0) (Or.inr rfl) rfl

theorem certLE0116 : XScore.ble ((minimax 4 (⟨1, 0, 0, -1, -1, 0, 0, 1, 1⟩ : Board) HUMAN).1.2.2) (XScore.fin 0) = true :=
  nodeHumanLE 4 3 (⟨1, 0, 0, -1, -1, 0, 0, 1, 1⟩ : Board) (⟨1, 0, 0, -1, -1, -1, 0, 1, 1⟩ : Board) (XScore.fin 0) 1 2 rfl rfl (of_decide_eq_true rfl) rfl
    certLE0115

theorem certLE0117 : XScore.ble ((minimax 5 (⟨1, 0, 0, -1, -1, 0, 0, 1, 0⟩ : Board) COMP).1.2.2) (XScore.fin 0) = true :=
  nodeCompLE 5 4 (⟨1, 0, 0, -1, -1, 0, 0, 1, 0⟩ : Board) (XScore.fin 0)
    [(⟨1, 1, 0, -1, -1, 0, 0, 1, 0⟩ : Board),
     (⟨1, 0, 1, -1, -1, 0, 0, 1, 0⟩ : Board),
     (⟨1, 0, 0, -1, -1, 1, 0, 1, 0⟩ : Board),
     (⟨1, 0, 0, -1, -1, 0, 1, 1, 0⟩ : Board),
     (⟨1, 0, 0, -1, -1, 0, 0, 1, 1⟩ : Board)]
    rfl rfl rfl
    ⟨certLE0106, certLE0107, certLE0114, certLE0101, certLE0116, True.intro⟩

theorem certLE0118 : XScore.ble ((minimax 6 (⟨1, 0, 0, 0, -1, 0, 0, 1, 0⟩ : Board) HUMAN).1.2.2) (XScore.fin 0) = true :=
  nodeHumanLE 6 5 (⟨1, 0, 0, 0, -1, 0, 0, 1, 0⟩ : Board) (⟨1, 0, 0, -1, -1, 0, 0, 1, 0⟩ : Board) (XScore.fin 0) 1 0 rfl rfl (of_decide_eq_true rfl) rfl
    certLE0117

theorem certLE0119 : XScore.ble ((minimax 4 (⟨1, -1, 0, 1, -1, 0, 0, 0, 1⟩ : Board) HUMAN).1.2.2) (XScore.fin 0) = true :=
  nodeHumanLE 4 3 (⟨1, -1, 0, 1, -1, 0, 0, 0, 1⟩ : Board) (⟨1, -1, 0, 1, -1, 0, -1, 0, 1⟩ : Board) (XScore.fin 0) 2 0 rfl rfl (of_decide_eq_true rfl) rfl
    certLE0071

theorem certLE0120 : XScore.ble ((minimax 3 (⟨1, -1, 0, 0, -1, 0, 1, -1, 1⟩ : Board) COMP).1.2.2) (XScore.fin 0) = true :=
  leafLE 3 (⟨1, -1, 0, 0, -1, 0, 1, -1, 1⟩ : Board) COMP (XScore.fin 0) (Or.inr rfl) rfl

theorem certLE0121 : XScore.ble ((minimax 4 (⟨1, -1, 0, 0, -1, 0, 1, 0, 1⟩ : Board) HUMAN).1.2.2) (XScore.fin 0) = true :=
  nodeHumanLE 4 3 (⟨1, -1, 0, 0, -1, 0, 1, 0, 1⟩ : Board) (⟨1, -1, 0, 0, -1, 0, 1, -1, 1⟩ : Board) (XScore.fin 0) 2 1 rfl rfl (of_decide_eq_true rfl) rfl
    certLE0120

theorem certLE0122 : XScore.ble ((minimax 1 (⟨1, -1, 1, 0, -1, -1, -1, 1, 1⟩ : Board) COMP).1.2.2) (XScore.fin 0) = true :=
  nodeCompLE 1 0 (⟨1, -1, 1, 0, -1, -1, -1, 1, 1⟩ : Board) (XScore.fin 0)
    [(⟨1, -1, 1, 1, -1, -1, -1, 1, 1⟩ : Board)]
    rfl rfl rfl
    ⟨certLE0028, True.intro⟩

theorem certLE0123 : XScore.ble ((minimax 2 (⟨1, -1, 1, 0, -1, 0, -1, 1, 1⟩ : Board) HUMAN).1.2.2) (XScore.fin 0) = true :=
  nodeHumanLE 2 1 (⟨1, -1, 1, 0, -1, 0, -1, 1, 1⟩ : Board) (⟨1, -1, 1, 0, -1, -1, -1, 1, 1⟩ : Board) (XScore.fin 0) 1 2 rfl rfl (of_decide_eq_true rfl) rfl
    certLE0122

theorem certLE0124 : XScore.ble ((minimax 3 (⟨1, -1, 0, 0, -1, 0, -1, 1, 1⟩ : Board) COMP).1.2.2) (XScore.fin 0) = true :=
  nodeCompLE 3 2 (⟨1, -1, 0, 0, -1, 0, -1, 1, 1⟩ : Board) (XScore.fin 0)
    [(⟨1, -1, 1, 0, -1, 0, -1, 1, 1⟩ : Board),
     (⟨1, -1, 0, 1, -1, 0, -1, 1, 1⟩ : Board),
     (⟨1, -1, 0, 0, -1, 1, -1, 1, 1⟩ : Board)]
    rfl rfl rfl
    ⟨certLE0123, certLE0068, certLE0086, True.intro⟩

theorem certLE0125 : XScore.ble ((minimax 4 (⟨1, -1, 0, 0, -1, 0, 0, 1, 1⟩ : Board) HUMAN).1.2.2) (XScore.fin 0) = true :=
  nodeHumanLE 4 3 (⟨1, -1, 0, 0, -1, 0, 0, 1, 1⟩ : Board) (⟨1, -1, 0, 0, -1, 0, -1, 1, 1⟩ : Board) (XScore.fin 0) 2 0 rfl rfl (of_decide_eq_true rfl) rfl
    certLE0124

theorem certLE0126 : XScore.ble ((minimax 5 (⟨1, -1, 0, 0, -1, 0, 0, 0, 1⟩ : Board) COMP).1.2.2) (XScore.fin 0) = true :=
  nodeCompLE 5 4 (⟨1, -1, 0, 0, -1, 0, 0, 0, 1⟩ : Board) (XScore.fin 0)
    [(⟨1, -1, 1, 0, -1, 0, 0, 0, 1⟩ : Board),
     (⟨1, -1, 0, 1, -1, 0, 0, 0, 1⟩ : Board),
     (⟨1, -1, 0, 0, -1, 1, 0, 0, 1⟩ : Board),
     (⟨1, -1, 0, 0, -1, 0, 1, 0, 1⟩ : Board),
     (⟨1, -1, 0, 0, -1, 0, 0, 1, 1⟩ : Board)]
    rfl rfl rfl
    ⟨certLE0056, certLE0119, certLE0094, certLE0121, certLE0125, True.intro⟩

theorem certLE0127 : XScore.ble ((minimax 6 (⟨1, 0, 0, 0, -1, 0, 0, 0, 1⟩ : Board) HUMAN).1.2.2) (XScore.fin 0) = true :=
  nodeHumanLE 6 5 (⟨1, 0, 0, 0, -1, 0, 0, 0, 1⟩ : Board) (⟨1, -1, 0, 0, -1, 0, 0, 0, 1⟩ : Board) (XScore.fin 0) 0 1 rfl rfl (of_decide_eq_true rfl) rfl
    certLE0126

theorem certLE0128 : XScore.ble ((minimax 7 (⟨1, 0, 0, 0, -1, 0, 0, 0, 0⟩ : Board) COMP).1.2.2) (XScore.fin 0) = true :=
  nodeCompLE 7 6 (⟨1, 0, 0, 0, -1, 0, 0, 0, 0⟩ : Board) (XScore.fin 0)
    [(⟨1, 1, 0, 0, -1, 0, 0, 0, 0⟩ : Board),
     (⟨1, 0, 1, 0, -1, 0, 0, 0, 0⟩ : Board),
     (⟨1, 0, 0, 1, -1, 0, 0, 0, 0⟩ : Board),
     (⟨1, 0, 0, 0, -1, 1, 0, 0, 0⟩ : Board),
     (⟨1, 0, 0, 0, -1, 0, 1, 0, 0⟩ : Board),
     (⟨1, 0, 0, 0, -1, 0, 0, 1, 0⟩ : Board),
     (⟨1, 0, 0, 0, -1, 0, 0, 0, 1⟩ : Board)]
    rfl rfl rfl
    ⟨certLE0025, certLE0058, certLE0074, certLE0096, certLE0105, certLE0118, certLE0127, True.intro⟩

theorem certLE0129 : XScore.ble ((minimax 8 (⟨1, 0, 0, 0, 0, 0, 0, 0, 0⟩ : Board) HUMAN).1.2.2) (XScore.fin 0) = true :=
  nodeHumanLE 8 7 (⟨1, 0, 0, 0, 0, 0, 0, 0, 0⟩ : Board) (⟨1, 0, 0, 0, -1, 0, 0, 0, 0⟩ : Board) (XScore.fin 0) 1 1 rfl rfl (of_decide_eq_true rfl) rfl
    certLE0128

theorem certLE0130 : XScore.ble ((minimax 3 (⟨-1, 1, 1, -1, 1, 0, -1, 0, 0⟩ : Board) COMP).1.2.2) (XScore.fin 0) = true :=
  leafLE 3 (⟨-1, 1, 1, -1, 1, 0, -1, 0, 0⟩ : Board) COMP (XScore.fin 0) (Or.inr rfl) rfl

theorem certLE0131 : XScore.ble ((minimax 4 (⟨-1, 1, 1, -1, 1, 0, 0, 0, 0⟩ : Board) HUMAN).1.2.2) (XScore.fin 0) = true :=
  nodeHumanLE 4 3 (⟨-1, 1, 1, -1, 1, 0, 0, 0, 0⟩ : Board) (⟨-1, 1, 1, -1, 1, 0, -1, 0, 0⟩ : Board) (XScore.fin 0) 2 0 rfl rfl (of_decide_eq_true rfl) rfl
    certLE0130

theorem certLE0132 : XScore.ble ((minimax 3 (⟨-1, 1, 1, -1, 0, 1, -1, 0, 0⟩ : Board) COMP).1.2.2) (XScore.fin 0) = true :=
  leafLE 3 (⟨-1, 1, 1, -1, 0, 1, -1, 0, 0⟩ : Board) COMP (XScore.fin 0) (Or.inr rfl) rfl

theorem certLE0133 : XScore.ble ((minimax 4 (⟨-1, 1, 1, -1, 0, 1, 0, 0, 0⟩ : Board) HUMAN).1.2.2) (XScore.fin 0) = true :=
  nodeHumanLE 4 3 (⟨-1, 1, 1, -1, 0, 1, 0, 0, 0⟩ : Board) (⟨-1, 1, 1, -1, 0, 1, -1, 0, 0⟩ : Board) (XScore.fin 0) 2 0 rfl rfl (of_decide_eq_true rfl) rfl
    certLE0132

theorem certLE0134 : XScore.ble ((minimax 1 (⟨-1, 1, 1, -1, -1, 1, 1, 0, -1⟩ : Board) COMP).1.2.2) (XScore.fin 0) = true :=
  leafLE 1 (⟨-1, 1, 1, -1, -1, 1, 1, 0, -1⟩ : Board) COMP (XScore.fin 0) (Or.inr rfl) rfl

theorem certLE0135 : XScore.ble ((minimax 2 (⟨-1, 1, 1, -1, -1, 1, 1, 0, 0⟩ : Board) HUMAN).1.2.2) (XScore.fin 0) = true :=
  nodeHumanLE 2 1 (⟨-1, 1, 1, -1, -1, 1, 1, 0, 0⟩ : Board) (⟨-1, 1, 1, -1, -1, 1, 1, 0, -1⟩ : Board) (XScore.fin 0) 2 2 rfl rfl (of_decide_eq_true rfl) rfl
    certLE0134

theorem certLE0136 : XScore.ble ((minimax 1 (⟨-1, 1, 1, -1, -1, -1, 1, 1, 0⟩ : Board) COMP).1.2.2) (XScore.fin 0) = true :=
  leafLE 1 (⟨-1, 1, 1, -1, -1, -1, 1, 1, 0⟩ : Board) COMP (XScore.fin 0) (Or.inr rfl) rfl

theorem certLE0137 : XScore.ble ((minimax 2 (⟨-1, 1, 1, -1, -1, 0, 1, 1, 0⟩ : Board) HUMAN).1.2.2) (XScore.fin 0) = true :=
  nodeHumanLE 2 1 (⟨-1, 1, 1, -1, -1, 0, 1, 1, 0⟩ : Board) (⟨-1, 1, 1, -1, -1, -1, 1, 1, 0⟩ : Board) (XScore.fin 0) 1 2 rfl rfl (of_decide_eq_true rfl) rfl
    certLE0136

theorem certLE0138 : XScore.ble ((minimax 1 (⟨-1, 1, 1, -1, -1, -1, 1, 0, 1⟩ : Board) COMP).1.2.2) (XScore.fin 0) = true :=
  leafLE 1 (⟨-1, 1, 1, -1, -1, -1, 1, 0, 1⟩ : Board) COMP (XScore.fin 0) (Or.inr rfl) rfl

theorem certLE0139 : XScore.ble ((minimax 2 (⟨-1, 1, 1, -1, -1, 0, 1, 0, 1⟩ : Board) HUMAN).1.2.2) (XScore.fin 0) = true :=
  nodeHumanLE 2 1 (⟨-1, 1, 1, -1, -1, 0, 1, 0, 1⟩ : Board) (⟨-1, 1, 1, -1, -1, -1, 1, 0, 1⟩ : Board) (XScore.fin 0) 1 2 rfl rfl (of_decide_eq_true rfl) rfl
    certLE0138

theorem certLE0140 : XScore.ble ((minimax 3 (⟨-1, 1, 1, -1, -1, 0, 1, 0, 0⟩ : Board) COMP).1.2.2) (XScore.fin 0) = true :=
  nodeCompLE 3 2 (⟨-1, 1, 1, -1, -1, 0, 1, 0, 0⟩ : Board) (XScore.fin 0)
    [(⟨-1, 1, 1, -1, -1, 1, 1, 0, 0⟩ : Board),
     (⟨-1, 1, 1, -1, -1, 0, 1, 1, 0⟩ : Board),
     (⟨-1, 1, 1, -1, -1, 0, 1, 0, 1⟩ : Board)]
    rfl rfl rfl
    ⟨certLE0135, certLE0137, certLE0139, True.intro⟩

theorem certLE0141 : XScore.ble ((minimax 4 (⟨-1, 1, 1, -1, 0, 0, 1, 0, 0⟩ : Board) HUMAN).1.2.2) (XScore.fin 0) = true :=
  nodeHumanLE 4 3 (⟨-1, 1, 1, -1, 0, 0, 1, 0, 0⟩ : Board) (⟨-1, 1, 1, -1, -1, 0, 1, 0, 0⟩ : Board) (XScore.fin 0) 1 1 rfl rfl (of_decide_eq_true rfl) rfl
    certLE0140

theorem certLE0142 : XScore.ble ((minimax 1 (⟨-1, 1, 1, -1, -1, 1, -1, 1, 0⟩ : Board) COMP).1.2.2) (XScore.fin 0) = true :=
  leafLE 1 (⟨-1, 1, 1, -1, -1, 1, -1, 1, 0⟩ : Board) COMP (XScore.fin 0) (Or.inr rfl) rfl

theorem certLE0143 : XScore.ble ((minimax 2 (⟨-1, 1, 1, -1, -1, 1, 0, 1, 0⟩ : Board) HUMAN).1.2.2) (XScore.fin 0) = true :=
  nodeHumanLE 2 1 (⟨-1, 1, 1, -1, -1, 1, 0, 1, 0⟩ : Board) (⟨-1, 1, 1, -1, -1, 1, -1, 1, 0⟩ : Board) (XScore.fin 0) 2 0 rfl rfl (of_decide_eq_true rfl) rfl
    certLE0142

theorem certLE0144 : XScore.ble ((minimax 1 (⟨-1, 1, 1, -1, -1, -1, 0, 1, 1⟩ : Board) COMP).1.2.2) (XScore.fin 0) = true :=
  leafLE 1 (⟨-1, 1, 1, -1, -1, -1, 0, 1, 1⟩ : Board) COMP (XScore.fin 0) (Or.inr rfl) rfl

theorem certLE0145 : XScore.ble ((minimax 2 (⟨-1, 1, 1, -1, -1, 0, 0, 1, 1⟩ : Board) HUMAN).1.2.2) (XScore.fin 0) = true :=
  nodeHumanLE 2 1 (⟨-1, 1, 1, -1, -1, 0, 0, 1, 1⟩ : Board) (⟨-1, 1, 1, -1, -1, -1, 0, 1, 1⟩ : Board) (XScore.fin 0) 1 2 rfl rfl (of_decide_eq_true rfl) rfl
    certLE0144

theorem certLE0146 : XScore.ble ((minimax 3 (⟨-1, 1, 1, -1, -1, 0, 0, 1, 0⟩ : Board) COMP).1.2.2) (XScore.fin 0) = true :=
  nodeCompLE 3 2 (⟨-1, 1, 1, -1, -1, 0, 0, 1, 0⟩ : Board) (XScore.fin 0)
    [(⟨-1, 1, 1, -1, -1, 1, 0, 1, 0⟩ : Board),
     (⟨-1, 1, 1, -1, -1, 0, 1, 1, 0⟩ : Board),
     (⟨-1, 1, 1, -1, -1, 0, 0, 1, 1⟩ : Board)]
    rfl rfl rfl
    ⟨certLE0143, certLE0137, certLE0145, True.intro⟩

theorem certLE0147 : XScore.ble ((minimax 4 (⟨-1, 1, 1, -1, 0, 0, 0, 1, 0⟩ : Board) HUMAN).1.2.2) (XScore.fin 0) = true :=
  nodeHumanLE 4 3 (⟨-1, 1, 1, -1, 0, 0, 0, 1, 0⟩ : Board) (⟨-1, 1, 1, -1, -1, 0, 0, 1, 0⟩ : Board) (XScore.fin 0) 1 1 rfl rfl (of_decide_eq_true rfl) rfl
    certLE0146

theorem certLE0148 : XScore.ble ((minimax 1 (⟨-1, 1, 1, -1, 1, -1, -1, 0, 1⟩ : Board) COMP).1.2.2) (XScore.fin 0) = true :=
  leafLE 1 (⟨-1, 1, 1, -1, 1, -1, -1, 0, 1⟩ : Board) COMP (XScore.fin 0) (Or.inr rfl) rfl

theorem certLE0149 : XScore.ble ((minimax 2 (⟨-1, 1, 1, -1, 1, -1, 0, 0, 1⟩ : Board) HUMAN).1.2.2) (XScore.fin 0) = true :=
  nodeHumanLE 2 1 (⟨-1, 1, 1, -1, 1, -1, 0, 0, 1⟩ : Board) (⟨-1, 1, 1, -1, 1, -1, -1, 0, 1⟩ : Board) (XScore.fin 0) 2 0 rfl rfl (of_decide_eq_true rfl) rfl
    certLE0148

theorem certLE0150 : XScore.ble ((minimax 2 (⟨-1, 1, 1, -1, 0, -1, 1, 0, 1⟩ : Board) HUMAN).1.2.2) (XScore.fin 0) = true :=
  nodeHumanLE 2 1 (⟨-1, 1, 1, -1, 0, -1, 1, 0, 1⟩ : Board) (⟨-1, 1, 1, -1, -1, -1, 1, 0, 1⟩ : Board) (XScore.fin 0) 1 1 rfl rfl (of_decide_eq_true rfl) rfl
    certLE0138

theorem certLE0151 : XScore.ble ((minimax 2 (⟨-1, 1, 1, -1, 0, -1, 0, 1, 1⟩ : Board) HUMAN).1.2.2) (XScore.fin 0) = true :=
  nodeHumanLE 2 1 (⟨-1, 1, 1, -1, 0, -1, 0, 1, 1⟩ : Board) (⟨-1, 1, 1, -1, -1, -1, 0, 1, 1⟩ : Board) (XScore.fin 0) 1 1 rfl rfl (of_decide_eq_true rfl) rfl
    certLE0144

theorem certLE0152 : XScore.ble ((minimax 3 (⟨-1, 1, 1, -1, 0, -1, 0, 0, 1⟩ : Board) COMP).1.2.2) (XScore.fin 0) = true :=
  nodeCompLE 3 2 (⟨-1, 1, 1, -1, 0, -1, 0, 0, 1⟩ : Board) (XScore.fin 0)
    [(⟨-1, 1, 1, -1, 1, -1, 0, 0, 1⟩ : Board),
     (⟨-1, 1, 1, -1, 0, -1, 1, 0, 1⟩ : Board),
     (⟨-1, 1, 1, -1, 0, -1, 0, 1, 1⟩ : Board)]
    rfl rfl rfl
    ⟨certLE0149, certLE0150, certLE0151, True.intro⟩

theorem certLE0153 : XScore.ble ((minimax 4 (⟨-1, 1, 1, -1, 0, 0, 0, 0, 1⟩ : Board) HUMAN).1.2.2) (XScore.fin 0) = true :=
  nodeHumanLE 4 3 (⟨-1, 1, 1, -1, 0, 0, 0, 0, 1⟩ : Board) (⟨-1, 1, 1, -1, 0, -1, 0, 0, 1⟩ : Board) (XScore.fin 0) 1 2 rfl rfl (of_decide_eq_true rfl) rfl
    certLE0152

theorem certLE0154 : XScore.ble ((minimax 5 (⟨-1, 1, 1, -1, 0, 0, 0, 0, 0⟩ : Board) COMP).1.2.2) (XScore.fin 0) = true :=
  nodeCompLE 5 4 (⟨-1, 1, 1, -1, 0, 0, 0, 0, 0⟩ : Board) (XScore.fin 0)
    [(⟨-1, 1, 1, -1, 1, 0, 0, 0, 0⟩ : Board),
     (⟨-1, 1, 1, -1, 0, 1, 0, 0, 0⟩ : Board),
     (⟨-1, 1, 1, -1, 0, 0, 1, 0, 0⟩ : Board),
     (⟨-1, 1, 1, -1, 0, 0, 0, 1, 0⟩ : Board),
     (⟨-1, 1, 1, -1, 0, 0, 0, 0, 1⟩ : Board)]
    rfl rfl rfl
    ⟨certLE0131, certLE0133, certLE0141, certLE0147, certLE0153, True.intro⟩

theorem certLE0155 : XScore.ble ((minimax 6 (⟨-1, 1, 1, 0, 0, 0, 0, 0, 0⟩ : Board) HUMAN).1.2.2) (XScore.fin 0) = true :=
  nodeHumanLE 6 5 (⟨-1, 1, 1, 0, 0, 0, 0, 0, 0⟩ : Board) (⟨-1, 1, 1, -1, 0, 0, 0, 0, 0⟩ : Board) (XScore.fin 0) 1 0 rfl rfl (of_decide_eq_true rfl) rfl
    certLE0154

theorem certLE0156 : XScore.ble ((minimax 0 (⟨-1, 1, 1, 1, -1, -1, 1, -1, 1⟩ : Board) HUMAN).1.2.2) (XScore.fin 0) = true :=
  leafLE 0 (⟨-1, 1, 1, 1, -1, -1, 1, -1, 1⟩ : Board) HUMAN (XScore.fin 0) (Or.inl rfl) rfl

theorem certLE0157 : XScore.ble ((minimax 1 (⟨-1, 1, 1, 1, -1, -1, 1, -1, 0⟩ : Board) COMP).1.2.2) (XScore.fin 0) = true :=
  nodeCompLE 1 0 (⟨-1, 1, 1, 1, -1, -1, 1, -1, 0⟩ : Board) (XScore.fin 0)
    [(⟨-1, 1, 1, 1, -1, -1, 1, -1, 1⟩ : Board)]
    rfl rfl rfl
    ⟨certLE0156, True.intro⟩

theorem certLE0158 : XScore.ble ((minimax 2 (⟨-1, 1, 1, 1, -1, -1, 1, 0, 0⟩ : Board) HUMAN).1.2.2) (XScore.fin 0) = true :=
  nodeHumanLE 2 1 (⟨-1, 1, 1, 1, -1, -1, 1, 0, 0⟩ : Board) (⟨-1, 1, 1, 1, -1, -1, 1, -1, 0⟩ : Board) (XScore.fin 0) 2 1 rfl rfl (of_decide_eq_true rfl) rfl
    certLE0157

theorem certLE0159 : XScore.ble ((minimax 0 (⟨-1, 1, 1, 1, -1, -1, -1, 1, 1⟩ : Board) HUMAN).1.2.2) (XScore.fin 0) = true :=
  leafLE 0 (⟨-1, 1, 1, 1, -1, -1, -1, 1, 1⟩ : Board) HUMAN (XScore.fin 0) (Or.inl rfl) rfl

theorem certLE0160 : XScore.ble ((minimax 1 (⟨-1, 1, 1, 1, -1, -1, -1, 1, 0⟩ : Board) COMP).1.2.2) (XScore.fin 0) = true :=
  nodeCompLE 1 0 (⟨-1, 1, 1, 1, -1, -1, -1, 1, 0⟩ : Board) (XScore.fin 0)
    [(⟨-1, 1, 1, 1, -1, -1, -1, 1, 1⟩ : Board)]
    rfl rfl rfl
    ⟨certLE0159, True.intro⟩

theorem certLE0161 : XScore.ble ((minimax 2 (⟨-1, 1, 1, 1, -1, -1, 0, 1, 0⟩ : Board) HUMAN).1.2.2) (XScore.fin 0) = true :=
  nodeHumanLE 2 1 (⟨-1, 1, 1, 1, -1, -1, 0, 1, 0⟩ : Board) (⟨-1, 1, 1, 1, -1, -1, -1, 1, 0⟩ : Board) (XScore.fin 0) 2 0 rfl rfl (of_decide_eq_true rfl) rfl
    certLE0160

theorem certLE0162 : XScore.ble ((minimax 1 (⟨-1, 1, 1, 1, -1, -1, -1, 0, 1⟩ : Board) COMP).1.2.2) (XScore.fin 0) = true :=
  nodeCompLE 1 0 (⟨-1, 1, 1, 1, -1, -1, -1, 0, 1⟩ : Board) (XScore.fin 0)
    [(⟨-1, 1, 1, 1, -1, -1, -1, 1, 1⟩ : Board)]
    rfl rfl rfl
    ⟨certLE0159, True.intro⟩

theorem certLE0163 : XScore.ble ((minimax 2 (⟨-1, 1, 1, 1, -1, -1, 0, 0, 1⟩ : Board) HUMAN).1.2.2) (XScore.fin 0) = true :=
  nodeHumanLE 2 1 (⟨-1, 1, 1, 1, -1, -1, 0, 0, 1⟩ : Board) (⟨-1, 1, 1, 1, -1, -1, -1, 0, 1⟩ : Board) (XScore.fin 0) 2 0 rfl rfl (of_decide_eq_true rfl) rfl
    certLE0162

theorem certLE0164 : XScore.ble ((minimax 3 (⟨-1, 1, 1, 1, -1, -1, 0, 0, 0⟩ : Board) COMP).1.2.2) (XScore.fin 0) = true :=
  nodeCompLE 3 2 (⟨-1, 1, 1, 1, -1, -1, 0, 0, 0⟩ : Board) (XScore.fin 0)
    [(⟨-1, 1, 1, 1, -1, -1, 1, 0, 0⟩ : Board),
     (⟨-1, 1, 1, 1, -1, -1, 0, 1, 0⟩ : Board),
     (⟨-1, 1, 1, 1, -1, -1, 0, 0, 1⟩ : Board)]
    rfl rfl rfl
    ⟨certLE0158, certLE0161, certLE0163, True.intro⟩

theorem certLE0165 : XScore.ble ((minimax 4 (⟨-1, 1, 1, 1, -1, 0, 0, 0, 0⟩ : Board) HUMAN).1.2.2) (XScore.fin 0) = true :=
  nodeHumanLE 4 3 (⟨-1, 1, 1, 1, -1, 0, 0, 0, 0⟩ : Board) (⟨-1, 1, 1, 1, -1, -1, 0, 0, 0⟩ : Board) (XScore.fin 0) 1 2 rfl rfl (of_decide_eq_true rfl) rfl
    certLE0164

theorem certLE0166 : XScore.ble ((minimax 0 (⟨-1, 1, -1, 1, -1, 1, 1, -1, 1⟩ : Board) HUMAN).1.2.2) (XScore.fin 0) = true :=
  leafLE 0 (⟨-1, 1, -1, 1, -1, 1, 1, -1, 1⟩ : Board) HUMAN (XScore.fin 0) (Or.inl rfl) rfl

theorem certLE0167 : XScore.ble ((minimax 1 (⟨-1, 1, -1, 1, -1, 1, 1, -1, 0⟩ : Board) COMP).1.2.2) (XScore.fin 0) = true :=
  nodeCompLE 1 0 (⟨-1, 1, -1, 1, -1, 1, 1, -1, 0⟩ : Board) (XScore.fin 0)
    [(⟨-1, 1, -1, 1, -1, 1, 1, -1, 1⟩ : Board)]
    rfl rfl rfl
    ⟨certLE0166, True.intro⟩

theorem certLE0168 : XScore.ble ((minimax 2 (⟨-1, 1, -1, 1, -1, 1, 1, 0, 0⟩ : Board) HUMAN).1.2.2) (XScore.fin 0) = true :=
  nodeHumanLE 2 1 (⟨-1, 1, -1, 1, -1, 1, 1, 0, 0⟩ : Board) (⟨-1, 1, -1, 1, -1, 1, 1, -1, 0⟩ : Board) (XScore.fin 0) 2 1 rfl rfl (of_decide_eq_true rfl) rfl
    certLE0167

theorem certLE0169 : XScore.ble ((minimax 1 (⟨-1, 1, -1, 1, -1, 1, -1, 1, 0⟩ : Board) COMP).1.2.2) (XScore.fin 0) = true :=
  leafLE 1 (⟨-1, 1, -1, 1, -1, 1, -1, 1, 0⟩ : Board) COMP (XScore.fin 0) (Or.inr rfl) rfl

theorem certLE0170 : XScore.ble ((minimax 2 (⟨-1, 1, -1, 1, -1, 1, 0, 1, 0⟩ : Board) HUMAN).1.2.2) (XScore.fin 0) = true :=
  nodeHumanLE 2 1 (⟨-1, 1, -1, 1, -1, 1, 0, 1, 0⟩ : Board) (⟨-1, 1, -1, 1, -1, 1, -1, 1, 0⟩ : Board) (XScore.fin 0) 2 0 rfl rfl (of_decide_eq_true rfl) rfl
    certLE0169

theorem certLE0171 : XScore.ble ((minimax 1 (⟨-1, 1, -1, 1, -1, 1, -1, 0, 1⟩ : Board) COMP).1.2.2) (XScore.fin 0) = true :=
  leafLE 1 (⟨-1, 1, -1, 1, -1, 1, -1, 0, 1⟩ : Board) COMP (XScore.fin 0) (Or.inr rfl) rfl

theorem certLE0172 : XScore.ble ((minimax 2 (⟨-1, 1, -1, 1, -1, 1, 0, 0, 1⟩ : Board) HUMAN).1.2.2) (XScore.fin 0) = true :=
  nodeHumanLE 2 1 (⟨-1, 1, -1, 1, -1, 1, 0, 0, 1⟩ : Board) (⟨-1, 1, -1, 1, -1, 1, -1, 0, 1⟩ : Board) (XScore.fin 0) 2 0 rfl rfl (of_decide_eq_true rfl) rfl
    certLE0171

theorem certLE0173 : XScore.ble ((minimax 3 (⟨-1, 1, -1, 1, -1, 1, 0, 0, 0⟩ : Board) COMP).1.2.2) (XScore.fin 0) = true :=
  nodeCompLE 3 2 (⟨-1, 1, -1, 1, -1, 1, 0, 0, 0⟩ : Board) (XScore.fin 0)
    [(⟨-1, 1, -1, 1, -1, 1, 1, 0, 0⟩ : Board),
     (⟨-1, 1, -1, 1, -1, 1, 0, 1, 0⟩ : Board),
     (⟨-1, 1, -1, 1, -1, 1, 0, 0, 1⟩ : Board)]
    rfl rfl rfl
    ⟨certLE0168, certLE0170, certLE0172, True.intro⟩

theorem certLE0174 : XScore.ble ((minimax 4 (⟨-1, 1, 0, 1, -1, 1, 0, 0, 0⟩ : Board) HUMAN).1.2.2) (XScore.fin 0) = true :=
  nodeHumanLE 4 3 (⟨-1, 1, 0, 1, -1, 1, 0, 0, 0⟩ : Board) (⟨-1, 1, -1, 1, -1, 1, 0, 0, 0⟩ : Board) (XScore.fin 0) 0 2 rfl rfl (of_decide_eq_true rfl) rfl
    certLE0173

theorem certLE0175 : XScore.ble ((minimax 1 (⟨-1, 1, -1, 1, -1, 0, 1, 1, -1⟩ : Board) COMP).1.2.2) (XScore.fin 0) = true :=
  leafLE 1 (⟨-1, 1, -1, 1, -1, 0, 1, 1, -1⟩ : Board) COMP (XScore.fin 0) (Or.inr rfl) rfl

theorem certLE0176 : XScore.ble ((minimax 2 (⟨-1, 1, -1, 1, -1, 0, 1, 1, 0⟩ : Board) HUMAN).1.2.2) (XScore.fin 0) = true :=
  nodeHumanLE 2 1 (⟨-1, 1, -1, 1, -1, 0, 1, 1, 0⟩ : Board) (⟨-1, 1, -1, 1, -1, 0, 1, 1, -1⟩ : Board) (XScore.fin 0) 2 2 rfl rfl (of_decide_eq_true rfl) rfl
    certLE0175

theorem certLE0177 : XScore.ble ((minimax 1 (⟨-1, 1, -1, 1, -1, 0, 1, -1, 1⟩ : Board) COMP).1.2.2) (XScore.fin 0) = true :=
  nodeCompLE 1 0 (⟨-1, 1, -1, 1, -1, 0, 1, -1, 1⟩ : Board) (XScore.fin 0)
    [(⟨-1, 1, -1, 1, -1, 1, 1, -1, 1⟩ : Board)]
    rfl rfl rfl
    ⟨certLE0166, True.intro⟩

theorem certLE0178 : XScore.ble ((minimax 2 (⟨-1, 1, -1, 1, -1, 0, 1, 0, 1⟩ : Board) HUMAN).1.2.2) (XScore.fin 0) = true :=
  nodeHumanLE 2 1 (⟨-1, 1, -1, 1, -1, 0, 1, 0, 1⟩ : Board) (⟨-1, 1, -1, 1, -1, 0, 1, -1, 1⟩ : Board) (XScore.fin 0) 2 1 rfl rfl (of_decide_eq_true rfl) rfl
    certLE0177

theorem certLE0179 : XScore.ble ((minimax 3 (⟨-1, 1, -1, 1, -1, 0, 1, 0, 0⟩ : Board) COMP).1.2.2) (XScore.fin 0) = true :=
  nodeCompLE 3 2 (⟨-1, 1, -1, 1, -1, 0, 1, 0, 0⟩ : Board) (XScore.fin 0)
    [(⟨-1, 1, -1, 1, -1, 1, 1, 0, 0⟩ : Board),
     (⟨-1, 1, -1, 1, -1, 0, 1, 1, 0⟩ : Board),
     (⟨-1, 1, -1, 1, -1, 0, 1, 0, 1⟩ : Board)]
    rfl rfl rfl
    ⟨certLE0168, certLE0176, certLE0178, True.intro⟩

theorem certLE0180 : XScore.ble ((minimax 4 (⟨-1, 1, 0, 1, -1, 0, 1, 0, 0⟩ : Board) HUMAN).1.2.2) (XScore.fin 0) = true :=
  nodeHumanLE 4 3 (⟨-1, 1, 0, 1, -1, 0, 1, 0, 0⟩ : Board) (⟨-1, 1, -1, 1, -1, 0, 1, 0, 0⟩ : Board) (XScore.fin 0) 0 2 rfl rfl (of_decide_eq_true rfl) rfl
    certLE0179

theorem certLE0181 : XScore.ble ((minimax 1 (⟨-1, 1, -1, 1, -1, 0, -1, 1, 1⟩ : Board) COMP).1.2.2) (XScore.fin 0) = true :=
  leafLE 1 (⟨-1, 1, -1, 1, -1, 0, -1, 1, 1⟩ : Board) COMP (XScore.fin 0) (Or.inr rfl) rfl

theorem certLE0182 : XScore.ble ((minimax 2 (⟨-1, 1, -1, 1, -1, 0, 0, 1, 1⟩ : Board) HUMAN).1.2.2) (XScore.fin 0) = true :=
  nodeHumanLE 2 1 (⟨-1, 1, -1, 1, -1, 0, 0, 1, 1⟩ : Board) (⟨-1, 1, -1, 1, -1, 0, -1, 1, 1⟩ : Board) (XScore.fin 0) 2 0 rfl rfl (of_decide_eq_true rfl) rfl
    certLE0181

theorem certLE0183 : XScore.ble ((minimax 3 (⟨-1, 1, -1, 1, -1, 0, 0, 1, 0⟩ : Board) COMP).1.2.2) (XScore.fin 0) = true :=
  nodeCompLE 3 2 (⟨-1, 1, -1, 1, -1, 0, 0, 1, 0⟩ : Board) (XScore.fin 0)
    [(⟨-1, 1, -1, 1, -1, 1, 0, 1, 0⟩ : Board),
     (⟨-1, 1, -1, 1, -1, 0, 1, 1, 0⟩ : Board),
     (⟨-1, 1, -1, 1, -1, 0, 0, 1, 1⟩ : Board)]
    rfl rfl rfl
    ⟨certLE0170, certLE0176, certLE0182, True.intro⟩

theorem certLE0184 : XScore.ble ((minimax 4 (⟨-1, 1, 0, 1, -1, 0, 0, 1, 0⟩ : Board) HUMAN).1.2.2) (XScore.fin 0) = true :=
  nodeHumanLE 4 3 (⟨-1, 1, 0, 1, -1, 0, 0, 1, 0⟩ : Board) (⟨-1, 1, -1, 1, -1, 0, 0, 1, 0⟩ : Board) (XScore.fin 0) 0 2 rfl rfl (of_decide_eq_true rfl) rfl
    certLE0183

theorem certLE0185 : XScore.ble ((minimax 3 (⟨-1, 1, -1, 1, -1, 0, 0, 0, 1⟩ : Board) COMP).1.2.2) (XScore.fin 0) = true :=
  nodeCompLE 3 2 (⟨-1, 1, -1, 1, -1, 0, 0, 0, 1⟩ : Board) (XScore.fin 0)
    [(⟨-1, 1, -1, 1, -1, 1, 0, 0, 1⟩ : Board),
     (⟨-1, 1, -1, 1, -1, 0, 1, 0, 1⟩ : Board),
     (⟨-1, 1, -1, 1, -1, 0, 0, 1, 1⟩ : Board)]
    rfl rfl rfl
    ⟨certLE0172, certLE0178, certLE0182, True.intro⟩

theorem certLE0186 : XScore.ble ((minimax 4 (⟨-1, 1, 0, 1, -1, 0, 0, 0, 1⟩ : Board) HUMAN).1.2.2) (XScore.fin 0) = true :=
  nodeHumanLE 4 3 (⟨-1, 1, 0, 1, -1, 0, 0, 0, 1⟩ : Board) (⟨-1, 1, -1, 1, -1, 0, 0, 0, 1⟩ : Board) (XScore.fin 0) 0 2 rfl rfl (of_decide_eq_true rfl) rfl
    certLE0185

theorem certLE0187 : XScore.ble ((minimax 5 (⟨-1, 1, 0, 1, -1, 0, 0, 0, 0⟩ : Board) COMP).1.2.2) (XScore.fin 0) = true :=
  nodeCompLE 5 4 (⟨-1, 1, 0, 1, -1, 0, 0, 0, 0⟩ : Board) (XScore.fin 0)
    [(⟨-1, 1, 1, 1, -1, 0, 0, 0, 0⟩ : Board),
     (⟨-1, 1, 0, 1, -1, 1, 0, 0, 0⟩ : Board),
     (⟨-1, 1, 0, 1, -1, 0, 1, 0, 0⟩ : Board),
     (⟨-1, 1, 0, 1, -1, 0, 0, 1, 0⟩ : Board),
     (⟨-1, 1, 0, 1, -1, 0, 0, 0, 1⟩ : Board)]
    rfl rfl rfl
    ⟨certLE0165, certLE0174, certLE0180, certLE0184, certLE0186, True.intro⟩

theorem certLE0188 : XScore.ble ((minimax 6 (⟨-1, 1, 0, 1, 0, 0, 0, 0, 0⟩ : Board) HUMAN).1.2.2) (XScore.fin 0) = true :=
  nodeHumanLE 6 5 (⟨-1, 1, 0, 1, 0, 0, 0, 0, 0⟩ : Board) (⟨-1, 1, 0, 1, -1, 0, 0, 0, 0⟩ : Board) (XScore.fin 0) 1 1 rfl rfl (of_decide_eq_true rfl) rfl
    certLE0187

theorem certLE0189 : XScore.ble ((minimax 0 (⟨-1, 1, 1, 1, 1, -1, -1, -1, 1⟩ : Board) HUMAN).1.2.2) (XScore.fin 0) = true :=
  leafLE 0 (⟨-1, 1, 1, 1, 1, -1, -1, -1, 1⟩ : Board) HUMAN (XScore.fin 0) (Or.inl rfl) rfl

theorem certLE0190 : XScore.ble ((minimax 1 (⟨-1, 1, 1, 1, 1, -1, -1, -1, 0⟩ : Board) COMP).1.2.2) (XScore.fin 0) = true :=
  nodeCompLE 1 0 (⟨-1, 1, 1, 1, 1, -1, -1, -1, 0⟩ : Board) (XScore.fin 0)
    [(⟨-1, 1, 1, 1, 1, -1, -1, -1, 1⟩ : Board)]
    rfl rfl rfl
    ⟨certLE0189, True.intro⟩

theorem certLE0191 : XScore.ble ((minimax 2 (⟨-1, 1, 1, 1, 1, 0, -1, -1, 0⟩ : Board) HUMAN).1.2.2) (XScore.fin 0) = true :=
  nodeHumanLE 2 1 (⟨-1, 1, 1, 1, 1, 0, -1, -1, 0⟩ : Board) (⟨-1, 1, 1, 1, 1, -1, -1, -1, 0⟩ : Board) (XScore.fin 0) 1 2 rfl rfl (of_decide_eq_true rfl) rfl
    certLE0190

theorem certLE0192 : XScore.ble ((minimax 1 (⟨-1, 1, 1, -1, 1, 1, -1, -1, 0⟩ : Board) COMP).1.2.2) (XScore.fin 0) = true :=
  leafLE 1 (⟨-1, 1, 1, -1, 1, 1, -1, -1, 0⟩ : Board) COMP (XScore.fin 0) (Or.inr rfl) rfl

theorem certLE0193 : XScore.ble ((minimax 2 (⟨-1, 1, 1, 0, 1, 1, -1, -1, 0⟩ : Board) HUMAN).1.2.2) (XScore.fin 0) = true :=
  nodeHumanLE 2 1 (⟨-1, 1, 1, 0, 1, 1, -1, -1, 0⟩ : Board) (⟨-1, 1, 1, -1, 1, 1, -1, -1, 0⟩ : Board) (XScore.fin 0) 1 0 rfl rfl (of_decide_eq_true rfl) rfl
    certLE0192

theorem certLE0194 : XScore.ble ((minimax 1 (⟨-1, 1, 1, -1, 1, 0, -1, -1, 1⟩ : Board) COMP).1.2.2) (XScore.fin 0) = true :=
  leafLE 1 (⟨-1, 1, 1, -1, 1, 0, -1, -1, 1⟩ : Board) COMP (XScore.fin 0) (Or.inr rfl) rfl

theorem certLE0195 : XScore.ble ((minimax 2 (⟨-1, 1, 1, 0, 1, 0, -1, -1, 1⟩ : Board) HUMAN).1.2.2) (XScore.fin 0) = true :=
  nodeHumanLE 2 1 (⟨-1, 1, 1, 0, 1, 0, -1, -1, 1⟩ : Board) (⟨-1, 1, 1, -1, 1, 0, -1, -1, 1⟩ : Board) (XScore.fin 0) 1 0 rfl rfl (of_decide_eq_true rfl) rfl
    certLE0194

theorem certLE0196 : XScore.ble ((minimax 3 (⟨-1, 1, 1, 0, 1, 0, -1, -1, 0⟩ : Board) COMP).1.2.2) (XScore.fin 0) = true :=
  nodeCompLE 3 2 (⟨-1, 1, 1, 0, 1, 0, -1, -1, 0⟩ : Board) (XScore.fin 0)
    [(⟨-1, 1, 1, 1, 1, 0, -1, -1, 0⟩ : Board),
     (⟨-1, 1, 1, 0, 1, 1, -1, -1, 0⟩ : Board),
     (⟨-1, 1, 1, 0, 1, 0, -1, -1, 1⟩ : Board)]
    rfl rfl rfl
    ⟨certLE0191, certLE0193, certLE0195, True.intro⟩

theorem certLE0197 : XScore.ble ((minimax 4 (⟨-1, 1, 1, 0, 1, 0, 0, -1, 0⟩ : Board) HUMAN).1.2.2) (XScore.fin 0) = true :=
  nodeHumanLE 4 3 (⟨-1, 1, 1, 0, 1, 0, 0, -1, 0⟩ : Board) (⟨-1, 1, 1, 0, 1, 0, -1, -1, 0⟩ : Board) (XScore.fin 0) 2 0 rfl rfl (of_decide_eq_true rfl) rfl
    certLE0196

theorem certLE0198 : XScore.ble ((minimax 2 (⟨-1, 1, 1, 1, 1, -1, 0, -1, 0⟩ : Board) HUMAN).1.2.2) (XScore.fin 0) = true :=
  nodeHumanLE 2 1 (⟨-1, 1, 1, 1, 1, -1, 0, -1, 0⟩ : Board) (⟨-1, 1, 1, 1, 1, -1, -1, -1, 0⟩ : Board) (XScore.fin 0) 2 0 rfl rfl (of_decide_eq_true rfl) rfl
    certLE0190

theorem certLE0199 : XScore.ble ((minimax 0 (⟨-1, 1, -1, 1, 1, -1, 1, -1, 1⟩ : Board) HUMAN).1.2.2) (XScore.fin 0) = true :=
  leafLE 0 (⟨-1, 1, -1, 1, 1, -1, 1, -1, 1⟩ : Board) HUMAN (XScore.fin 0) (Or.inl rfl) rfl

theorem certLE0200 : XScore.ble ((minimax 1 (⟨-1, 1, -1, 1, 1, -1, 1, -1, 0⟩ : Board) COMP).1.2.2) (XScore.fin 0) = true :=
  nodeCompLE 1 0 (⟨-1, 1, -1, 1, 1, -1, 1, -1, 0⟩ : Board) (XScore.fin 0)
    [(⟨-1, 1, -1, 1, 1, -1, 1, -1, 1⟩ : Board)]
    rfl rfl rfl
    ⟨certLE0199, True.intro⟩

theorem certLE0201 : XScore.ble ((minimax 2 (⟨-1, 1, 0, 1, 1, -1, 1, -1, 0⟩ : Board) HUMAN).1.2.2) (XScore.fin 0) = true :=
  nodeHumanLE 2 1 (⟨-1, 1, 0, 1, 1, -1, 1, -1, 0⟩ : Board) (⟨-1, 1, -1, 1, 1, -1, 1, -1, 0⟩ : Board) (XScore.fin 0) 0 2 rfl rfl (of_decide_eq_true rfl) rfl
    certLE0200

theorem certLE0202 : XScore.ble ((minimax 1 (⟨-1, 1, -1, 1, 1, -1, 0, -1, 1⟩ : Board) COMP).1.2.2) (XScore.fin 0) = true :=
  nodeCompLE 1 0 (⟨-1, 1, -1, 1, 1, -1, 0, -1, 1⟩ : Board) (XScore.fin 0)
    [(⟨-1, 1, -1, 1, 1, -1, 1, -1, 1⟩ : Board)]
    rfl rfl rfl
    ⟨certLE0199, True.intro⟩

theorem certLE0203 : XScore.ble ((minimax 2 (⟨-1, 1, 0, 1, 1, -1, 0, -1, 1⟩ : Board) HUMAN).1.2.2) (XScore.fin 0) = true :=
  nodeHumanLE 2 1 (⟨-1, 1, 0, 1, 1, -1, 0, -1, 1⟩ : Board) (⟨-1, 1, -1, 1, 1, -1, 0, -1, 1⟩ : Board) (XScore.fin 0) 0 2 rfl rfl (of_decide_eq_true rfl) rfl
    certLE0202

theorem certLE0204 : XScore.ble ((minimax 3 (⟨-1, 1, 0, 1, 1, -1, 0, -1, 0⟩ : Board) COMP).1.2.2) (XScore.fin 0) = true :=
  nodeCompLE 3 2 (⟨-1, 1, 0, 1, 1, -1, 0, -1, 0⟩ : Board) (XScore.fin 0)
    [(⟨-1, 1, 1, 1, 1, -1, 0, -1, 0⟩ : Board),
     (⟨-1, 1, 0, 1, 1, -1, 1, -1, 0⟩ : Board),
     (⟨-1, 1, 0, 1, 1, -1, 0, -1, 1⟩ : Board)]
    rfl rfl rfl
    ⟨certLE0198, certLE0201, certLE0203, True.intro⟩

theorem certLE0205 : XScore.ble ((minimax 4 (⟨-1, 1, 0, 1, 1, 0, 0, -1, 0⟩ : Board) HUMAN).1.2.2) (XScore.fin 0) = true :=
  nodeHumanLE 4 3 (⟨-1, 1, 0, 1, 1, 0, 0, -1, 0⟩ : Board) (⟨-1, 1, 0, 1, 1, -1, 0, -1, 0⟩ : Board) (XScore.fin 0) 1 2 rfl rfl (of_decide_eq_true rfl) rfl
    certLE0204

theorem certLE0206 : XScore.ble ((minimax 2 (⟨-1, 1, 1, -1, 1, 1, 0, -1, 0⟩ : Board) HUMAN).1.2.2) (XScore.fin 0) = true :=
  nodeHumanLE 2 1 (⟨-1, 1, 1, -1, 1, 1, 0, -1, 0⟩ : Board) (⟨-1, 1, 1, -1, 1, 1, -1, -1, 0⟩ : Board) (XScore.fin 0) 2 0 rfl rfl (of_decide_eq_true rfl) rfl
    certLE0192

theorem certLE0207 : XScore.ble ((minimax 0 (⟨-1, 1, -1, -1, 1, 1, 1, -1, 1⟩ : Board) HUMAN).1.2.2) (XScore.fin 0) = true :=
  leafLE 0 (⟨-1, 1, -1, -1, 1, 1, 1, -1, 1⟩ : Board) HUMAN (XScore.fin 0) (Or.inl rfl) rfl

theorem certLE0208 : XScore.ble ((minimax 1 (⟨-1, 1, -1, -1, 1, 1, 1, -1, 0⟩ : Board) COMP).1.2.2) (XScore.fin 0) = true :=
  nodeCompLE 1 0 (⟨-1, 1, -1, -1, 1, 1, 1, -1, 0⟩ : Board) (XScore.fin 0)
    [(⟨-1, 1, -1, -1, 1, 1, 1, -1, 1⟩ : Board)]
    rfl rfl rfl
    ⟨certLE0207, True.intro⟩

theorem certLE0209 : XScore.ble ((minimax 2 (⟨-1, 1, 0, -1, 1, 1, 1, -1, 0⟩ : Board) HUMAN).1.2.2) (XScore.fin 0) = true :=
  nodeHumanLE 2 1 (⟨-1, 1, 0, -1, 1, 1, 1, -1, 0⟩ : Board) (⟨-1, 1, -1, -1, 1, 1, 1, -1, 0⟩ : Board) (XScore.fin 0) 0 2 rfl rfl (of_decide_eq_true rfl) rfl
    certLE0208

theorem certLE0210 : XScore.ble ((minimax 1 (⟨-1, 1, -1, -1, 1, 1, 0, -1, 1⟩ : Board) COMP).1.2.2) (XScore.fin 0) = true :=
  nodeCompLE 1 0 (⟨-1, 1, -1, -1, 1, 1, 0, -1, 1⟩ : Board) (XScore.fin 0)
    [(⟨-1, 1, -1, -1, 1, 1, 1, -1, 1⟩ : Board)]
    rfl rfl rfl
    ⟨certLE0207, True.intro⟩

theorem certLE0211 : XScore.ble ((minimax 2 (⟨-1, 1, 0, -1, 1, 1, 0, -1, 1⟩ : Board) HUMAN).1.2.2) (XScore.fin 0) = true :=
  nodeHumanLE 2 1 (⟨-1, 1, 0, -1, 1, 1, 0, -1, 1⟩ : Board) (⟨-1, 1, -1, -1, 1, 1, 0, -1, 1⟩ : Board) (XScore.fin 0) 0 2 rfl rfl (of_decide_eq_true rfl) rfl
    certLE0210

theorem certLE0212 : XScore.ble ((minimax 3 (⟨-1, 1, 0, -1, 1, 1, 0, -1, 0⟩ : Board) COMP).1.2.2) (XScore.fin 0) = true :=
  nodeCompLE 3 2 (⟨-1, 1, 0, -1, 1, 1, 0, -1, 0⟩ : Board) (XScore.fin 0)
    [(⟨-1, 1, 1, -1, 1, 1, 0, -1, 0⟩ : Board),
     (⟨-1, 1, 0, -1, 1, 1, 1, -1, 0⟩ : Board),
     (⟨-1, 1, 0, -1, 1, 1, 0, -1, 1⟩ : Board)]
    rfl rfl rfl
    ⟨certLE0206, certLE0209, certLE0211, True.intro⟩

theorem certLE0213 : XScore.ble ((minimax 4 (⟨-1, 1, 0, 0, 1, 1, 0, -1, 0⟩ : Board) HUMAN).1.2.2) (XScore.fin 0) = true :=
  nodeHumanLE 4 3 (⟨-1, 1, 0, 0, 1, 1, 0, -1, 0⟩ : Board) (⟨-1, 1, 0, -1, 1, 1, 0, -1, 0⟩ : Board) (XScore.fin 0) 1 0 rfl rfl (of_decide_eq_true rfl) rfl
    certLE0212

theorem certLE0214 : XScore.ble ((minimax 2 (⟨-1, 1, -1, 1, 1, 0, 1, -1, 0⟩ : Board) HUMAN).1.2.2) (XScore.fin 0) = true :=
  nodeHumanLE 2 1 (⟨-1, 1, -1, 1, 1, 0, 1, -1, 0⟩ : Board) (⟨-1, 1, -1, 1, 1, -1, 1, -1, 0⟩ : Board) (XScore.fin 0) 1 2 rfl rfl (of_decide_eq_true rfl) rfl
    certLE0200

theorem certLE0215 : XScore.ble ((minimax 2 (⟨-1, 1, -1, 0, 1, 1, 1, -1, 0⟩ : Board) HUMAN).1.2.2) (XScore.fin 0) = true :=
  nodeHumanLE 2 1 (⟨-1, 1, -1, 0, 1, 1, 1, -1, 0⟩ : Board) (⟨-1, 1, -1, -1, 1, 1, 1, -1, 0⟩ : Board) (XScore.fin 0) 1 0 rfl rfl (of_decide_eq_true rfl) rfl
    certLE0208

theorem certLE0216 : XScore.ble ((minimax 1 (⟨-1, 1, -1, -1, 1, 0, 1, -1, 1⟩ : Board) COMP).1.2.2) (XScore.fin 0) = true :=
  nodeCompLE 1 0 (⟨-1, 1, -1, -1, 1, 0, 1, -1, 1⟩ : Board) (XScore.fin 0)
    [(⟨-1, 1, -1, -1, 1, 1, 1, -1, 1⟩ : Board)]
    rfl rfl rfl
    ⟨certLE0207, True.intro⟩

theorem certLE0217 : XScore.ble ((minimax 2 (⟨-1, 1, -1, 0, 1, 0, 1, -1, 1⟩ : Board) HUMAN).1.2.2) (XScore.fin 0) = true :=
  nodeHumanLE 2 1 (⟨-1, 1, -1, 0, 1, 0, 1, -1, 1⟩ : Board) (⟨-1, 1, -1, -1, 1, 0, 1, -1, 1⟩ : Board) (XScore.fin 0) 1 0 rfl rfl (of_decide_eq_true rfl) rfl
    certLE0216

theorem certLE0218 : XScore.ble ((minimax 3 (⟨-1, 1, -1, 0, 1, 0, 1, -1, 0⟩ : Board) COMP).1.2.2) (XScore.fin 0) = true :=
  nodeCompLE 3 2 (⟨-1, 1, -1, 0, 1, 0, 1, -1, 0⟩ : Board) (XScore.fin 0)
    [(⟨-1, 1, -1, 1, 1, 0, 1, -1, 0⟩ : Board),
     (⟨-1, 1, -1, 0, 1, 1, 1, -1, 0⟩ : Board),
     (⟨-1, 1, -1, 0, 1, 0, 1, -1, 1⟩ : Board)]
    rfl rfl rfl
    ⟨certLE0214, certLE0215, certLE0217, True.intro⟩

theorem certLE0219 : XScore.ble ((minimax 4 (⟨-1, 1, 0, 0, 1, 0, 1, -1, 0⟩ : Board) HUMAN).1.2.2) (XScore.fin 0) = true :=
  nodeHumanLE 4 3 (⟨-1, 1, 0, 0, 1, 0, 1, -1, 0⟩ : Board) (⟨-1, 1, -1, 0, 1, 0, 1, -1, 0⟩ : Board) (XScore.fin 0) 0 2 rfl rfl (of_decide_eq_true rfl) rfl
    certLE0218

theorem certLE0220 : XScore.ble ((minimax 2 (⟨-1, 1, -1, 1, 1, 0, 0, -1, 1⟩ : Board) HUMAN).1.2.2) (XScore.fin 0) = true :=
  nodeHumanLE 2 1 (⟨-1, 1, -1, 1, 1, 0, 0, -1, 1⟩ : Board) (⟨-1, 1, -1, 1, 1, -1, 0, -1, 1⟩ : Board) (XScore.fin 0) 1 2 rfl rfl (of_decide_eq_true rfl) rfl
    certLE0202

theorem certLE0221 : XScore.ble ((minimax 2 (⟨-1, 1, -1, 0, 1, 1, 0, -1, 1⟩ : Board) HUMAN).1.2.2) (XScore.fin 0) = true :=
  nodeHumanLE 2 1 (⟨-1, 1, -1, 0, 1, 1, 0, -1, 1⟩ : Board) (⟨-1, 1, -1, -1, 1, 1, 0, -1, 1⟩ : Board) (XScore.fin 0) 1 0 rfl rfl (of_decide_eq_true rfl) rfl
    certLE0210

theorem certLE0222 : XScore.ble ((minimax 3 (⟨-1, 1, -1, 0, 1, 0, 0, -1, 1⟩ : Board) COMP).1.2.2) (XScore.fin 0) = true :=
  nodeCompLE 3 2 (⟨-1, 1, -1, 0, 1, 0, 0, -1, 1⟩ : Board) (XScore.fin 0)
    [(⟨-1, 1, -1, 1, 1, 0, 0, -1, 1⟩ : Board),
     (⟨-1, 1, -1, 0, 1, 1, 0, -1, 1⟩ : Board),
     (⟨-1, 1, -1, 0, 1, 0, 1, -1, 1⟩ : Board)]
    rfl rfl rfl
    ⟨certLE0220, certLE0221, certLE0217, True.intro⟩

theorem certLE0223 : XScore.ble ((minimax 4 (⟨-1, 1, 0, 0, 1, 0, 0, -1, 1⟩ : Board) HUMAN).1.2.2) (XScore.fin 0) = true :=
  nodeHumanLE 4 3 (⟨-1, 1, 0, 0, 1, 0, 0, -1, 1⟩ : Board) (⟨-1, 1, -1, 0, 1, 0, 0, -1, 1⟩ : Board) (XScore.fin 0) 0 2 rfl rfl (of_decide_eq_true rfl) rfl
    certLE0222

theorem certLE0224 : XScore.ble ((minimax 5 (⟨-1, 1, 0, 0, 1, 0, 0, -1, 0⟩ : Board) COMP).1.2.2) (XScore.fin 0) = true :=
  nodeCompLE 5 4 (⟨-1, 1, 0, 0, 1, 0, 0, -1, 0⟩ : Board) (XScore.fin 0)
    [(⟨-1, 1, 1, 0, 1, 0, 0, -1, 0⟩ : Board),
     (⟨-1, 1, 0, 1, 1, 0, 0, -1, 0⟩ : Board),
     (⟨-1, 1, 0, 0, 1, 1, 0, -1, 0⟩ : Board),
     (⟨-1, 1, 0, 0, 1, 0, 1, -1, 0⟩ : Board),
     (⟨-1, 1, 0, 0, 1, 0, 0, -1, 1⟩ : Board)]
    rfl rfl rfl
    ⟨certLE0197, certLE0205, certLE0213, certLE0219, certLE0223, True.intro⟩

theorem certLE0225 : XScore.ble ((minimax 6 (⟨-1, 1, 0, 0, 1, 0, 0, 0, 0⟩ : Board) HUMAN).1.2.2) (XScore.fin 0) = true :=
  nodeHumanLE 6 5 (⟨-1, 1, 0, 0, 1, 0, 0, 0, 0⟩ : Board) (⟨-1, 1, 0, 0, 1, 0, 0, -1, 0⟩ : Board) (XScore.fin 0) 2 1 rfl rfl (of_decide_eq_true rfl) rfl
    certLE0224

theorem certLE0226 : XScore.ble ((minimax 3 (⟨-1, 1, 1, 0, -1, 1, 0, 0, -1⟩ : Board) COMP).1.2.2) (XScore.fin 0) = true :=
  leafLE 3 (⟨-1, 1, 1, 0, -1, 1, 0, 0, -1⟩ : Board) COMP (XScore.fin 0) (Or.inr rfl) rfl

theorem certLE0227 : XScore.ble ((minimax 4 (⟨-1, 1, 1, 0, -1, 1, 0, 0, 0⟩ : Board) HUMAN).1.2.2) (XScore.fin 0) = true :=
  nodeHumanLE 4 3 (⟨-1, 1, 1, 0, -1, 1, 0, 0, 0⟩ : Board) (⟨-1, 1, 1, 0, -1, 1, 0, 0, -1⟩ : Board) (XScore.fin 0) 2 2 rfl rfl (of_decide_eq_true rfl) rfl
    certLE0226

theorem certLE0228 : XScore.ble ((minimax 1 (⟨-1, 1, -1, 0, -1, 1, 1, 1, -1⟩ : Board) COMP).1.2.2) (XScore.fin 0) = true :=
  leafLE 1 (⟨-1, 1, -1, 0, -1, 1, 1, 1, -1⟩ : Board) COMP (XScore.fin 0) (Or.inr rfl) rfl

theorem certLE0229 : XScore.ble ((minimax 2 (⟨-1, 1, -1, 0, -1, 1, 1, 1, 0⟩ : Board) HUMAN).1.2.2) (XScore.fin 0) = true :=
  nodeHumanLE 2 1 (⟨-1, 1, -1, 0, -1, 1, 1, 1, 0⟩ : Board) (⟨-1, 1, -1, 0, -1, 1, 1, 1, -1⟩ : Board) (XScore.fin 0) 2 2 rfl rfl (of_decide_eq_true rfl) rfl
    certLE0228

theorem certLE0230 : XScore.ble ((minimax 1 (⟨-1, 1, -1, 0, -1, 1, 1, -1, 1⟩ : Board) COMP).1.2.2) (XScore.fin 0) = true :=
  nodeCompLE 1 0 (⟨-1, 1, -1, 0, -1, 1, 1, -1, 1⟩ : Board) (XScore.fin 0)
    [(⟨-1, 1, -1, 1, -1, 1, 1, -1, 1⟩ : Board)]
    rfl rfl rfl
    ⟨certLE0166, True.intro⟩

theorem certLE0231 : XScore.ble ((minimax 2 (⟨-1, 1, -1, 0, -1, 1, 1, 0, 1⟩ : Board) HUMAN).1.2.2) (XScore.fin 0) = true :=
  nodeHumanLE 2 1 (⟨-1, 1, -1, 0, -1, 1, 1, 0, 1⟩ : Board) (⟨-1, 1, -1, 0, -1, 1, 1, -1, 1⟩ : Board) (XScore.fin 0) 2 1 rfl rfl (of_decide_eq_true rfl) rfl
    certLE0230

theorem certLE0232 : XScore.ble ((minimax 3 (⟨-1, 1, -1, 0, -1, 1, 1, 0, 0⟩ : Board) COMP).1.2.2) (XScore.fin 0) = true :=
  nodeCompLE 3 2 (⟨-1, 1, -1, 0, -1, 1, 1, 0, 0⟩ : Board) (XScore.fin 0)
    [(⟨-1, 1, -1, 1, -1, 1, 1, 0, 0⟩ : Board),
     (⟨-1, 1, -1, 0, -1, 1, 1, 1, 0⟩ : Board),
     (⟨-1, 1, -1, 0, -1, 1, 1, 0, 1⟩ : Board)]
    rfl rfl rfl
    ⟨certLE0168, certLE0229, certLE0231, True.intro⟩

theorem certLE0233 : XScore.ble ((minimax 4 (⟨-1, 1, 0, 0, -1, 1, 1, 0, 0⟩ : Board) HUMAN).1.2.2) (XScore.fin 0) = true :=
  nodeHumanLE 4 3 (⟨-1, 1, 0, 0, -1, 1, 1, 0, 0⟩ : Board) (⟨-1, 1, -1, 0, -1, 1, 1, 0, 0⟩ : Board) (XScore.fin 0) 0 2 rfl rfl (of_decide_eq_true rfl) rfl
    certLE0232

theorem certLE0234 : XScore.ble ((minimax 1 (⟨-1, 1, -1, 0, -1, 1, -1, 1, 1⟩ : Board) COMP).1.2.2) (XScore.fin 0) = true :=
  leafLE 1 (⟨-1, 1, -1, 0, -1, 1, -1, 1, 1⟩ : Board) COMP (XScore.fin 0) (Or.inr rfl) rfl

theorem certLE0235 : XScore.ble ((minimax 2 (⟨-1, 1, -1, 0, -1, 1, 0, 1, 1⟩ : Board) HUMAN).1.2.2) (XScore.fin 0) = true :=
  nodeHumanLE 2 1 (⟨-1, 1, -1, 0, -1, 1, 0, 1, 1⟩ : Board) (⟨-1, 1, -1, 0, -1, 1, -1, 1, 1⟩ : Board) (XScore.fin 0) 2 0 rfl rfl (of_decide_eq_true rfl) rfl
    certLE0234

theorem certLE0236 : XScore.ble ((minimax 3 (⟨-1, 1, -1, 0, -1, 1, 0, 1, 0⟩ : Board) COMP).1.2.2) (XScore.fin 0) = true :=
  nodeCompLE 3 2 (⟨-1, 1, -1, 0, -1, 1, 0, 1, 0⟩ : Board) (XScore.fin 0)
    [(⟨-1, 1, -1, 1, -1, 1, 0, 1, 0⟩ : Board),
     (⟨-1, 1, -1, 0, -1, 1, 1, 1, 0⟩ : Board),
     (⟨-1, 1, -1, 0, -1, 1, 0, 1, 1⟩ : Board)]
    rfl rfl rfl
    ⟨certLE0170, certLE0229, certLE0235, True.intro⟩

theorem certLE0237 : XScore.ble ((minimax 4 (⟨-1, 1, 0, 0, -1, 1, 0, 1, 0⟩ : Board) HUMAN).1.2.2) (XScore.fin 0) = true :=
  nodeHumanLE 4 3 (⟨-1, 1, 0, 0, -1, 1, 0, 1, 0⟩ : Board) (⟨-1, 1, -1, 0, -1, 1, 0, 1, 0⟩ : Board) (XScore.fin 0) 0 2 rfl rfl (of_decide_eq_true rfl) rfl
    certLE0236

theorem certLE0238 : XScore.ble ((minimax 3 (⟨-1, 1, -1, 0, -1, 1, 0, 0, 1⟩ : Board) COMP).1.2.2) (XScore.fin 0) = true :=
  nodeCompLE 3 2 (⟨-1, 1, -1, 0, -1, 1, 0, 0, 1⟩ : Board) (XScore.fin 0)
    [(⟨-1, 1, -1, 1, -1, 1, 0, 0, 1⟩ : Board),
     (⟨-1, 1, -1, 0, -1, 1, 1, 0, 1⟩ : Board),
     (⟨-1, 1, -1, 0, -1, 1, 0, 1, 1⟩ : Board)]
    rfl rfl rfl
    ⟨certLE0172, certLE0231, certLE0235, True.intro⟩

theorem certLE0239 : XScore.ble ((minimax 4 (⟨-1, 1, 0, 0, -1, 1, 0, 0, 1⟩ : Board) HUMAN).1.2.2) (XScore.fin 0) = true :=
  nodeHumanLE 4 3 (⟨-1, 1, 0, 0, -1, 1, 0, 0, 1⟩ : Board) (⟨-1, 1, -1, 0, -1, 1, 0, 0, 1⟩ : Board) (XScore.fin 0) 0 2 rfl rfl (of_decide_eq_true rfl) rfl
    certLE0238

theorem certLE0240 : XScore.ble ((minimax 5 (⟨-1, 1, 0, 0, -1, 1, 0, 0, 0⟩ : Board) COMP).1.2.2) (XScore.fin 0) = true :=
  nodeCompLE 5 4 (⟨-1, 1, 0, 0, -1, 1, 0, 0, 0⟩ : Board) (XScore.fin 0)
    [(⟨-1, 1, 1, 0, -1, 1, 0, 0, 0⟩ : Board),
     (⟨-1, 1, 0, 1, -1, 1, 0, 0, 0⟩ : Board),
     (⟨-1, 1, 0, 0, -1, 1, 1, 0, 0⟩ : Board),
     (⟨-1, 1, 0, 0, -1, 1, 0, 1, 0⟩ : Board),
     (⟨-1, 1, 0, 0, -1, 1, 0, 0, 1⟩ : Board)]
    rfl rfl rfl
    ⟨certLE0227, certLE0174, certLE0233, certLE0237, certLE0239, True.intro⟩

theorem certLE0241 : XScore.ble ((minimax 6 (⟨-1, 1, 0, 0, 0, 1, 0, 0, 0⟩ : Board) HUMAN).1.2.2) (XScore.fin 0) = true :=
  nodeHumanLE 6 5 (⟨-1, 1, 0, 0, 0, 1, 0, 0, 0⟩ : Board) (⟨-1, 1, 0, 0, -1, 1, 0, 0, 0⟩ : Board) (XScore.fin 0) 1 1 rfl rfl (of_decide_eq_true rfl) rfl
    certLE0240

theorem certLE0242 : XScore.ble ((minimax 4 (⟨-1, 1, 1, 0, -1, 0, 1, 0, 0⟩ : Board) HUMAN).1.2.2) (XScore.fin 0) = true :=
  nodeHumanLE 4 3 (⟨-1, 1, 1, 0, -1, 0, 1, 0, 0⟩ : Board) (⟨-1, 1, 1, -1, -1, 0, 1, 0, 0⟩ : Board) (XScore.fin 0) 1 0 rfl rfl (of_decide_eq_true rfl) rfl
    certLE0140

theorem certLE0243 : XScore.ble ((minimax 3 (⟨-1, 1, 0, 0, -1, 0, 1, 1, -1⟩ : Board) COMP).1.2.2) (XScore.fin 0) = true :=
  leafLE 3 (⟨-1, 1, 0, 0, -1, 0, 1, 1, -1⟩ : Board) COMP (XScore.fin 0) (Or.inr rfl) rfl

theorem certLE0244 : XScore.ble ((minimax 4 (⟨-1, 1, 0, 0, -1, 0, 1, 1, 0⟩ : Board) HUMAN).1.2.2) (XScore.fin 0) = true :=
  nodeHumanLE 4 3 (⟨-1, 1, 0, 0, -1, 0, 1, 1, 0⟩ : Board) (⟨-1, 1, 0, 0, -1, 0, 1, 1, -1⟩ : Board) (XScore.fin 0) 2 2 rfl rfl (of_decide_eq_true rfl) rfl
    certLE0243

theorem certLE0245 : XScore.ble ((minimax 1 (⟨-1, 1, 1, 0, -1, -1, 1, -1, 1⟩ : Board) COMP).1.2.2) (XScore.fin 0) = true :=
  nodeCompLE 1 0 (⟨-1, 1, 1, 0, -1, -1, 1, -1, 1⟩ : Board) (XScore.fin 0)
    [(⟨-1, 1, 1, 1, -1, -1, 1, -1, 1⟩ : Board)]
    rfl rfl rfl
    ⟨certLE0156, True.intro⟩

theorem certLE0246 : XScore.ble ((minimax 2 (⟨-1, 1, 1, 0, -1, 0, 1, -1, 1⟩ : Board) HUMAN).1.2.2) (XScore.fin 0) = true :=
  nodeHumanLE 2 1 (⟨-1, 1, 1, 0, -1, 0, 1, -1, 1⟩ : Board) (⟨-1, 1, 1, 0, -1, -1, 1, -1, 1⟩ : Board) (XScore.fin 0) 1 2 rfl rfl (of_decide_eq_true rfl) rfl
    certLE0245

theorem certLE0247 : XScore.ble ((minimax 2 (⟨-1, 1, 0, 1, -1, 0, 1, -1, 1⟩ : Board) HUMAN).1.2.2) (XScore.fin 0) = true :=
  nodeHumanLE 2 1 (⟨-1, 1, 0, 1, -1, 0, 1, -1, 1⟩ : Board) (⟨-1, 1, -1, 1, -1, 0, 1, -1, 1⟩ : Board) (XScore.fin 0) 0 2 rfl rfl (of_decide_eq_true rfl) rfl
    certLE0177

theorem certLE0248 : XScore.ble ((minimax 2 (⟨-1, 1, 0, 0, -1, 1, 1, -1, 1⟩ : Board) HUMAN).1.2.2) (XScore.fin 0) = true :=
  nodeHumanLE 2 1 (⟨-1, 1, 0, 0, -1, 1, 1, -1, 1⟩ : Board) (⟨-1, 1, -1, 0, -1, 1, 1, -1, 1⟩ : Board) (XScore.fin 0) 0 2 rfl rfl (of_decide_eq_true rfl) rfl
    certLE0230

theorem certLE0249 : XScore.ble ((minimax 3 (⟨-1, 1, 0, 0, -1, 0, 1, -1, 1⟩ : Board) COMP).1.2.2) (XScore.fin 0) = true :=
  nodeCompLE 3 2 (⟨-1, 1, 0, 0, -1, 0, 1, -1, 1⟩ : Board) (XScore.fin 0)
    [(⟨-1, 1, 1, 0, -1, 0, 1, -1, 1⟩ : Board),
     (⟨-1, 1, 0, 1, -1, 0, 1, -1, 1⟩ : Board),
     (⟨-1, 1, 0, 0, -1, 1, 1, -1, 1⟩ : Board)]
    rfl rfl rfl
    ⟨certLE0246, certLE0247, certLE0248, True.intro⟩

theorem certLE0250 : XScore.ble ((minimax 4 (⟨-1, 1, 0, 0, -1, 0, 1, 0, 1⟩ : Board) HUMAN).1.2.2) (XScore.fin 0) = true :=
  nodeHumanLE 4 3 (⟨-1, 1, 0, 0, -1, 0, 1, 0, 1⟩ : Board) (⟨-1, 1, 0, 0, -1, 0, 1, -1, 1⟩ : Board) (XScore.fin 0) 2 1 rfl rfl (of_decide_eq_true rfl) rfl
    certLE0249

theorem certLE0251 : XScore.ble ((minimax 5 (⟨-1, 1, 0, 0, -1, 0, 1, 0, 0⟩ : Board) COMP).1.2.2) (XScore.fin 0) = true :=
  nodeCompLE 5 4 (⟨-1, 1, 0, 0, -1, 0, 1, 0, 0⟩ : Board) (XScore.fin 0)
    [(⟨-1, 1, 1, 0, -1, 0, 1, 0, 0⟩ : Board),
     (⟨-1, 1, 0, 1, -1, 0, 1, 0, 0⟩ : Board),
     (⟨-1, 1, 0, 0, -1, 1, 1, 0, 0⟩ : Board),
     (⟨-1, 1, 0, 0, -1, 0, 1, 1, 0⟩ : Board),
     (⟨-1, 1, 0, 0, -1, 0, 1, 0, 1⟩ : Board)]
    rfl rfl rfl
    ⟨certLE0242, certLE0180, certLE0233, certLE0244, certLE0250, True.intro⟩

theorem certLE0252 : XScore.ble ((minimax 6 (⟨-1, 1, 0, 0, 0, 0, 1, 0, 0⟩ : Board) HUMAN).1.2.2) (XScore.fin 0) = true :=
  nodeHumanLE 6 5 (⟨-1, 1, 0, 0, 0, 0, 1, 0, 0⟩ : Board) (⟨-1, 1, 0, 0, -1, 0, 1, 0, 0⟩ : Board) (XScore.fin 0) 1 1 rfl rfl (of_decide_eq_true rfl) rfl
    certLE0251

theorem certLE0253 : XScore.ble ((minimax 4 (⟨-1, 1, 1, 0, -1, 0, 0, 1, 0⟩ : Board) HUMAN).1.2.2) (XScore.fin 0) = true :=
  nodeHumanLE 4 3 (⟨-1, 1, 1, 0, -1, 0, 0, 1, 0⟩ : Board) (⟨-1, 1, 1, -1, -1, 0, 0, 1, 0⟩ : Board) (XScore.fin 0) 1 0 rfl rfl (of_decide_eq_true rfl) rfl
    certLE0146

theorem certLE0254 : XScore.ble ((minimax 1 (⟨-1, 1, 1, -1, -1, 0, -1, 1, 1⟩ : Board) COMP).1.2.2) (XScore.fin 0) = true :=
  leafLE 1 (⟨-1, 1, 1, -1, -1, 0, -1, 1, 1⟩ : Board) COMP (XScore.fin 0) (Or.inr rfl) rfl

theorem certLE0255 : XScore.ble ((minimax 2 (⟨-1, 1, 1, 0, -1, 0, -1, 1, 1⟩ : Board) HUMAN).1.2.2) (XScore.fin 0) = true :=
  nodeHumanLE 2 1 (⟨-1, 1, 1, 0, -1, 0, -1, 1, 1⟩ : Board) (⟨-1, 1, 1, -1, -1, 0, -1, 1, 1⟩ : Board) (XScore.fin 0) 1 0 rfl rfl (of_decide_eq_true rfl) rfl
    certLE0254

theorem certLE0256 : XScore.ble ((minimax 2 (⟨-1, 1, 0, 1, -1, 0, -1, 1, 1⟩ : Board) HUMAN).1.2.2) (XScore.fin 0) = true :=
  nodeHumanLE 2 1 (⟨-1, 1, 0, 1, -1, 0, -1, 1, 1⟩ : Board) (⟨-1, 1, -1, 1, -1, 0, -1, 1, 1⟩ : Board) (XScore.fin 0) 0 2 rfl rfl (of_decide_eq_true rfl) rfl
    certLE0181

theorem certLE0257 : XScore.ble ((minimax 2 (⟨-1, 1, 0, 0, -1, 1, -1, 1, 1⟩ : Board) HUMAN).1.2.2) (XScore.fin 0) = true :=
  nodeHumanLE 2 1 (⟨-1, 1, 0, 0, -1, 1, -1, 1, 1⟩ : Board) (⟨-1, 1, -1, 0, -1, 1, -1, 1, 1⟩ : Board) (XScore.fin 0) 0 2 rfl rfl (of_decide_eq_true rfl) rfl
    certLE0234

theorem certLE0258 : XScore.ble ((minimax 3 (⟨-1, 1, 0, 0, -1, 0, -1, 1, 1⟩ : Board) COMP).1.2.2) (XScore.fin 0) = true :=
  nodeCompLE 3 2 (⟨-1, 1, 0, 0, -1, 0, -1, 1, 1⟩ : Board) (XScore.fin 0)
    [(⟨-1, 1, 1, 0, -1, 0, -1, 1, 1⟩ : Board),
     (⟨-1, 1, 0, 1, -1, 0, -1, 1, 1⟩ : Board),
     (⟨-1, 1, 0, 0, -1, 1, -1, 1, 1⟩ : Board)]
    rfl rfl rfl
    ⟨certLE0255, certLE0256, certLE0257, True.intro⟩

theorem certLE0259 : XScore.ble ((minimax 4 (⟨-1, 1, 0, 0, -1, 0, 0, 1, 1⟩ : Board) HUMAN).1.2.2) (XScore.fin 0) = true :=
  nodeHumanLE 4 3 (⟨-1, 1, 0, 0, -1, 0, 0, 1, 1⟩ : Board) (⟨-1, 1, 0, 0, -1, 0, -1, 1, 1⟩ : Board) (XScore.fin 0) 2 0 rfl rfl (of_decide_eq_true rfl) rfl
    certLE0258

theorem certLE0260 : XScore.ble ((minimax 5 (⟨-1, 1, 0, 0, -1, 0, 0, 1, 0⟩ : Board) COMP).1.2.2) (XScore.fin 0) = true :=
  nodeCompLE 5 4 (⟨-1, 1, 0, 0, -1, 0, 0, 1, 0⟩ : Board) (XScore.fin 0)
    [(⟨-1, 1, 1, 0, -1, 0, 0, 1, 0⟩ : Board),
     (⟨-1, 1, 0, 1, -1, 0, 0, 1, 0⟩ : Board),
     (⟨-1, 1, 0, 0, -1, 1, 0, 1, 0⟩ : Board),
     (⟨-1, 1, 0, 0, -1, 0, 1, 1, 0⟩ : Board),
     (⟨-1, 1, 0, 0, -1, 0, 0, 1, 1⟩ : Board)]
    rfl rfl rfl
    ⟨certLE0253, certLE0184, certLE0237, certLE0244, certLE0259, True.intro⟩

theorem certLE0261 : XScore.ble ((minimax 6 (⟨-1, 1, 0, 0, 0, 0, 0, 1, 0⟩ : Board) HUMAN).1.2.2) (XScore.fin 0) = true :=
  nodeHumanLE 6 5 (⟨-1, 1, 0, 0, 0, 0, 0, 1, 0⟩ : Board) (⟨-1, 1, 0, 0, -1, 0, 0, 1, 0⟩ : Board) (XScore.fin 0) 1 1 rfl rfl (of_decide_eq_true rfl) rfl
    certLE0260

theorem certLE0262 : XScore.ble ((minimax 2 (⟨-1, 1, 1, 0, -1, -1, 1, 0, 1⟩ : Board) HUMAN).1.2.2) (XScore.fin 0) = true :=
  nodeHumanLE 2 1 (⟨-1, 1, 1, 0, -1, -1, 1, 0, 1⟩ : Board) (⟨-1, 1, 1, -1, -1, -1, 1, 0, 1⟩ : Board) (XScore.fin 0) 1 0 rfl rfl (of_decide_eq_true rfl) rfl
    certLE0138

theorem certLE0263 : XScore.ble ((minimax 2 (⟨-1, 1, 1, 0, -1, -1, 0, 1, 1⟩ : Board) HUMAN).1.2.2) (XScore.fin 0) = true :=
  nodeHumanLE 2 1 (⟨-1, 1, 1, 0, -1, -1, 0, 1, 1⟩ : Board) (⟨-1, 1, 1, -1, -1, -1, 0, 1, 1⟩ : Board) (XScore.fin 0) 1 0 rfl rfl (of_decide_eq_true rfl) rfl
    certLE0144

theorem certLE0264 : XScore.ble ((minimax 3 (⟨-1, 1, 1, 0, -1, -1, 0, 0, 1⟩ : Board) COMP).1.2.2) (XScore.fin 0) = true :=
  nodeCompLE 3 2 (⟨-1, 1, 1, 0, -1, -1, 0, 0, 1⟩ : Board) (XScore.fin 0)
    [(⟨-1, 1, 1, 1, -1, -1, 0, 0, 1⟩ : Board),
     (⟨-1, 1, 1, 0, -1, -1, 1, 0, 1⟩ : Board),
     (⟨-1, 1, 1, 0, -1, -1, 0, 1, 1⟩ : Board)]
    rfl rfl rfl
    ⟨certLE0163, certLE0262, certLE0263, True.intro⟩

theorem certLE0265 : XScore.ble ((minimax 4 (⟨-1, 1, 1, 0, -1, 0, 0, 0, 1⟩ : Board) HUMAN).1.2.2) (XScore.fin 0) = true :=
  nodeHumanLE 4 3 (⟨-1, 1, 1, 0, -1, 0, 0, 0, 1⟩ : Board) (⟨-1, 1, 1, 0, -1, -1, 0, 0, 1⟩ : Board) (XScore.fin 0) 1 2 rfl rfl (of_decide_eq_true rfl) rfl
    certLE0264

theorem certLE0266 : XScore.ble ((minimax 5 (⟨-1, 1, 0, 0, -1, 0, 0, 0, 1⟩ : Board) COMP).1.2.2) (XScore.fin 0) = true :=
  nodeCompLE 5 4 (⟨-1, 1, 0, 0, -1, 0, 0, 0, 1⟩ : Board) (XScore.fin 0)
    [(⟨-1, 1, 1, 0, -1, 0, 0, 0, 1⟩ : Board),
     (⟨-1, 1, 0, 1, -1, 0, 0, 0, 1⟩ : Board),
     (⟨-1, 1, 0, 0, -1, 1, 0, 0, 1⟩ : Board),
     (⟨-1, 1, 0, 0, -1, 0, 1, 0, 1⟩ : Board),
     (⟨-1, 1, 0, 0, -1, 0, 0, 1, 1⟩ : Board)]
    rfl rfl rfl
    ⟨certLE0265, certLE0186, certLE0239, certLE0250, certLE0259, True.intro⟩

theorem certLE0267 : XScore.ble ((minimax 6 (⟨-1, 1, 0, 0, 0, 0, 0, 0, 1⟩ : Board) HUMAN).1.2.2) (XScore.fin 0) = true :=
  nodeHumanLE 6 5 (⟨-1, 1, 0, 0, 0, 0, 0, 0, 1⟩ : Board) (⟨-1, 1, 0, 0, -1, 0, 0, 0, 1⟩ : Board) (XScore.fin 0) 1 1 rfl rfl (of_decide_eq_true rfl) rfl
    certLE0266

theorem certLE0268 : XScore.ble ((minimax 7 (⟨-1, 1, 0, 0, 0, 0, 0, 0, 0⟩ : Board) COMP).1.2.2) (XScore.fin 0) = true :=
  nodeCompLE 7 6 (⟨-1, 1, 0, 0, 0, 0, 0, 0, 0⟩ : Board) (XScore.fin 0)
    [(⟨-1, 1, 1, 0, 0, 0, 0, 0, 0⟩ : Board),
     (⟨-1, 1, 0, 1, 0, 0, 0, 0, 0⟩ : Board),
     (⟨-1, 1, 0, 0, 1, 0, 0, 0, 0⟩ : Board),
     (⟨-1, 1, 0, 0, 0, 1, 0, 0, 0⟩ : Board),
     (⟨-1, 1, 0, 0, 0, 0, 1, 0, 0⟩ : Board),
     (⟨-1, 1, 0, 0, 0, 0, 0, 1, 0⟩ : Board),
     (⟨-1, 1, 0, 0, 0, 0, 0, 0, 1⟩ : Board)]
    rfl rfl rfl
    ⟨certLE0155, certLE0188, certLE0225, certLE0241, certLE0252, certLE0261, certLE0267, True.intro⟩

theorem certLE0269 : XScore.ble ((minimax 8 (⟨0, 1, 0, 0, 0, 0, 0, 0, 0⟩ : Board) HUMAN).1.2.2) (XScore.fin 0) = true :=
  nodeHumanLE 8 7 (⟨0, 1, 0, 0, 0, 0, 0, 0, 0⟩ : Board) (⟨-1, 1, 0, 0, 0, 0, 0, 0, 0⟩ : Board) (XScore.fin 0) 0 0 rfl rfl (of_decide_eq_true rfl) rfl
    certLE0268

theorem certLE0270 : XScore.ble ((minimax 5 (⟨-1, 1, 1, 0, -1, 0, 0, 0, 0⟩ : Board) COMP).1.2.2) (XScore.fin 0) = true :=
  nodeCompLE 5 4 (⟨-1, 1, 1, 0, -1, 0, 0, 0, 0⟩ : Board) (XScore.fin 0)
    [(⟨-1, 1, 1, 1, -1, 0, 0, 0, 0⟩ : Board),
     (⟨-1, 1, 1, 0, -1, 1, 0, 0, 0⟩ : Board),
     (⟨-1, 1, 1, 0, -1, 0, 1, 0, 0⟩ : Board),
     (⟨-1, 1, 1, 0, -1, 0, 0, 1, 0⟩ : Board),
     (⟨-1, 1, 1, 0, -1, 0, 0, 0, 1⟩ : Board)]
    rfl rfl rfl
    ⟨certLE0165, certLE0227, certLE0242, certLE0253, certLE0265, True.intro⟩

theorem certLE0271 : XScore.ble ((minimax 6 (⟨0, 1, 1, 0, -1, 0, 0, 0, 0⟩ : Board) HUMAN).1.2.2) (XScore.fin 0) = true :=
  nodeHumanLE 6 5 (⟨0, 1, 1, 0, -1, 0, 0, 0, 0⟩ : Board) (⟨-1, 1, 1, 0, -1, 0, 0, 0, 0⟩ : Board) (XScore.fin 0) 0 0 rfl rfl (of_decide_eq_true rfl) rfl
    certLE0270

theorem certLE0272 : XScore.ble ((minimax 3 (⟨-1, 0, 1, 1, -1, 1, 0, 0, -1⟩ : Board) COMP).1.2.2) (XScore.fin 0) = true :=
  leafLE 3 (⟨-1, 0, 1, 1, -1, 1, 0, 0, -1⟩ : Board) COMP (XScore.fin 0) (Or.inr rfl) rfl

theorem certLE0273 : XScore.ble ((minimax 4 (⟨-1, 0, 1, 1, -1, 1, 0, 0, 0⟩ : Board) HUMAN).1.2.2) (XScore.fin 0) = true :=
  nodeHumanLE 4 3 (⟨-1, 0, 1, 1, -1, 1, 0, 0, 0⟩ : Board) (⟨-1, 0, 1, 1, -1, 1, 0, 0, -1⟩ : Board) (XScore.fin 0) 2 2 rfl rfl (of_decide_eq_true rfl) rfl
    certLE0272

theorem certLE0274 : XScore.ble ((minimax 1 (⟨-1, -1, 1, 1, -1, 1, 1, -1, 0⟩ : Board) COMP).1.2.2) (XScore.fin 0) = true :=
  leafLE 1 (⟨-1, -1, 1, 1, -1, 1, 1, -1, 0⟩ : Board) COMP (XScore.fin 0) (Or.inr rfl) rfl

theorem certLE0275 : XScore.ble ((minimax 2 (⟨-1, -1, 1, 1, -1, 1, 1, 0, 0⟩ : Board) HUMAN).1.2.2) (XScore.fin 0) = true :=
  nodeHumanLE 2 1 (⟨-1, -1, 1, 1, -1, 1, 1, 0, 0⟩ : Board) (⟨-1, -1, 1, 1, -1, 1, 1, -1, 0⟩ : Board) (XScore.fin 0) 2 1 rfl rfl (of_decide_eq_true rfl) rfl
    certLE0274

theorem certLE0276 : XScore.ble ((minimax 1 (⟨-1, -1, 1, 1, -1, 0, 1, 1, -1⟩ : Board) COMP).1.2.2) (XScore.fin 0) = true :=
  leafLE 1 (⟨-1, -1, 1, 1, -1, 0, 1, 1, -1⟩ : Board) COMP (XScore.fin 0) (Or.inr rfl) rfl

theorem certLE0277 : XScore.ble ((minimax 2 (⟨-1, -1, 1, 1, -1, 0, 1, 1, 0⟩ : Board) HUMAN).1.2.2) (XScore.fin 0) = true :=
  nodeHumanLE 2 1 (⟨-1, -1, 1, 1, -1, 0, 1, 1, 0⟩ : Board) (⟨-1, -1, 1, 1, -1, 0, 1, 1, -1⟩ : Board) (XScore.fin 0) 2 2 rfl rfl (of_decide_eq_true rfl) rfl
    certLE0276

theorem certLE0278 : XScore.ble ((minimax 1 (⟨-1, -1, 1, 1, -1, 0, 1, -1, 1⟩ : Board) COMP).1.2.2) (XScore.fin 0) = true :=
  leafLE 1 (⟨-1, -1, 1, 1, -1, 0, 1, -1, 1⟩ : Board) COMP (XScore.fin 0) (Or.inr rfl) rfl

theorem certLE0279 : XScore.ble ((minimax 2 (⟨-1, -1, 1, 1, -1, 0, 1, 0, 1⟩ : Board) HUMAN).1.2.2) (XScore.fin 0) = true :=
  nodeHumanLE 2 1 (⟨-1, -1, 1, 1, -1, 0, 1, 0, 1⟩ : Board) (⟨-1, -1, 1, 1, -1, 0, 1, -1, 1⟩ : Board) (XScore.fin 0) 2 1 rfl rfl (of_decide_eq_true rfl) rfl
    certLE0278

theorem certLE0280 : XScore.ble ((minimax 3 (⟨-1, -1, 1, 1, -1, 0, 1, 0, 0⟩ : Board) COMP).1.2.2) (XScore.fin 0) = true :=
  nodeCompLE 3 2 (⟨-1, -1, 1, 1, -1, 0, 1, 0, 0⟩ : Board) (XScore.fin 0)
    [(⟨-1, -1, 1, 1, -1, 1, 1, 0, 0⟩ : Board),
     (⟨-1, -1, 1, 1, -1, 0, 1, 1, 0⟩ : Board),
     (⟨-1, -1, 1, 1, -1, 0, 1, 0, 1⟩ : Board)]
    rfl rfl rfl
    ⟨certLE0275, certLE0277, certLE0279, True.intro⟩

theorem certLE0281 : XScore.ble ((minimax 4 (⟨-1, 0, 1, 1, -1, 0, 1, 0, 0⟩ : Board) HUMAN).1.2.2) (XScore.fin 0) = true :=
  nodeHumanLE 4 3 (⟨-1, 0, 1, 1, -1, 0, 1, 0, 0⟩ : Board) (⟨-1, -1, 1, 1, -1, 0, 1, 0, 0⟩ : Board) (XScore.fin 0) 0 1 rfl rfl (of_decide_eq_true rfl) rfl
    certLE0280

theorem certLE0282 : XScore.ble ((minimax 1 (⟨-1, 0, 1, 1, -1, -1, 1, 1, -1⟩ : Board) COMP).1.2.2) (XScore.fin 0) = true :=
  leafLE 1 (⟨-1, 0, 1, 1, -1, -1, 1, 1, -1⟩ : Board) COMP (XScore.fin 0) (Or.inr rfl) rfl

theorem certLE0283 : XScore.ble ((minimax 2 (⟨-1, 0, 1, 1, -1, -1, 1, 1, 0⟩ : Board) HUMAN).1.2.2) (XScore.fin 0) = true :=
  nodeHumanLE 2 1 (⟨-1, 0, 1, 1, -1, -1, 1, 1, 0⟩ : Board) (⟨-1, 0, 1, 1, -1, -1, 1, 1, -1⟩ : Board) (XScore.fin 0) 2 2 rfl rfl (of_decide_eq_true rfl) rfl
    certLE0282

theorem certLE0284 : XScore.ble ((minimax 1 (⟨-1, 0, 1, 1, -1, -1, -1, 1, 1⟩ : Board) COMP).1.2.2) (XScore.fin 0) = true :=
  nodeCompLE 1 0 (⟨-1, 0, 1, 1, -1, -1, -1, 1, 1⟩ : Board) (XScore.fin 0)
    [(⟨-1, 1, 1, 1, -1, -1, -1, 1, 1⟩ : Board)]
    rfl rfl rfl
    ⟨certLE0159, True.intro⟩

theorem certLE0285 : XScore.ble ((minimax 2 (⟨-1, 0, 1, 1, -1, -1, 0, 1, 1⟩ : Board) HUMAN).1.2.2) (XScore.fin 0) = true :=
  nodeHumanLE 2 1 (⟨-1, 0, 1, 1, -1, -1, 0, 1, 1⟩ : Board) (⟨-1, 0, 1, 1, -1, -1, -1, 1, 1⟩ : Board) (XScore.fin 0) 2 0 rfl rfl (of_decide_eq_true rfl) rfl
    certLE0284

theorem certLE0286 : XScore.ble ((minimax 3 (⟨-1, 0, 1, 1, -1, -1, 0, 1, 0⟩ : Board) COMP).1.2.2) (XScore.fin 0) = true :=
  nodeCompLE 3 2 (⟨-1, 0, 1, 1, -1, -1, 0, 1, 0⟩ : Board) (XScore.fin 0)
    [(⟨-1, 1, 1, 1, -1, -1, 0, 1, 0⟩ : Board),
     (⟨-1, 0, 1, 1, -1, -1, 1, 1, 0⟩ : Board),
     (⟨-1, 0, 1, 1, -1, -1, 0, 1, 1⟩ : Board)]
    rfl rfl rfl
    ⟨certLE0161, certLE0283, certLE0285, True.intro⟩

theorem certLE0287 : XScore.ble ((minimax 4 (⟨-1, 0, 1, 1, -1, 0, 0, 1, 0⟩ : Board) HUMAN).1.2.2) (XScore.fin 0) = true :=
  nodeHumanLE 4 3 (⟨-1, 0, 1, 1, -1, 0, 0, 1, 0⟩ : Board) (⟨-1, 0, 1, 1, -1, -1, 0, 1, 0⟩ : Board) (XScore.fin 0) 1 2 rfl rfl (of_decide_eq_true rfl) rfl
    certLE0286

theorem certLE0288 : XScore.ble ((minimax 1 (⟨-1, 0, 1, 1, -1, -1, 1, -1, 1⟩ : Board) COMP).1.2.2) (XScore.fin 0) = true :=
  nodeCompLE 1 0 (⟨-1, 0, 1, 1, -1, -1, 1, -1, 1⟩ : Board) (XScore.fin 0)
    [(⟨-1, 1, 1, 1, -1, -1, 1, -1, 1⟩ : Board)]
    rfl rfl rfl
    ⟨certLE0156, True.intro⟩

theorem certLE0289 : XScore.ble ((minimax 2 (⟨-1, 0, 1, 1, -1, -1, 1, 0, 1⟩ : Board) HUMAN).1.2.2) (XScore.fin 0) = true :=
  nodeHumanLE 2 1 (⟨-1, 0, 1, 1, -1, -1, 1, 0, 1⟩ : Board) (⟨-1, 0, 1, 1, -1, -1, 1, -1, 1⟩ : Board) (XScore.fin 0) 2 1 rfl rfl (of_decide_eq_true rfl) rfl
    certLE0288

theorem certLE0290 : XScore.ble ((minimax 3 (⟨-1, 0, 1, 1, -1, -1, 0, 0, 1⟩ : Board) COMP).1.2.2) (XScore.fin 0) = true :=
  nodeCompLE 3 2 (⟨-1, 0, 1, 1, -1, -1, 0, 0, 1⟩ : Board) (XScore.fin 0)
    [(⟨-1, 1, 1, 1, -1, -1, 0, 0, 1⟩ : Board),
     (⟨-1, 0, 1, 1, -1, -1, 1, 0, 1⟩ : Board),
     (⟨-1, 0, 1, 1, -1, -1, 0, 1, 1⟩ : Board)]
    rfl rfl rfl
    ⟨certLE0163, certLE0289, certLE0285, True.intro⟩

theorem certLE0291 : XScore.ble ((minimax 4 (⟨-1, 0, 1, 1, -1, 0, 0, 0, 1⟩ : Board) HUMAN).1.2.2) (XScore.fin 0) = true :=
  nodeHumanLE 4 3 (⟨-1, 0, 1, 1, -1, 0, 0, 0, 1⟩ : Board) (⟨-1, 0, 1, 1, -1, -1, 0, 0, 1⟩ : Board) (XScore.fin 0) 1 2 rfl rfl (of_decide_eq_true rfl) rfl
    certLE0290

theorem certLE0292 : XScore.ble ((minimax 5 (⟨-1, 0, 1, 1, -1, 0, 0, 0, 0⟩ : Board) COMP).1.2.2) (XScore.fin 0) = true :=
  nodeCompLE 5 4 (⟨-1, 0, 1, 1, -1, 0, 0, 0, 0⟩ : Board) (XScore.fin 0)
    [(⟨-1, 1, 1, 1, -1, 0, 0, 0, 0⟩ : Board),
     (⟨-1, 0, 1, 1, -1, 1, 0, 0, 0⟩ : Board),
     (⟨-1, 0, 1, 1, -1, 0, 1, 0, 0⟩ : Board),
     (⟨-1, 0, 1, 1, -1, 0, 0, 1, 0⟩ : Board),
     (⟨-1, 0, 1, 1, -1, 0, 0, 0, 1⟩ : Board)]
    rfl rfl rfl
    ⟨certLE0165, certLE0273, certLE0281, certLE0287, certLE0291, True.intro⟩

theorem certLE0293 : XScore.ble ((minimax 6 (⟨0, 0, 1, 1, -1, 0, 0, 0, 0⟩ : Board) HUMAN).1.2.2) (XScore.fin 0) = true :=
  nodeHumanLE 6 5 (⟨0, 0, 1, 1, -1, 0, 0, 0, 0⟩ : Board) (⟨-1, 0, 1, 1, -1, 0, 0, 0, 0⟩ : Board) (XScore.fin 0) 0 0 rfl rfl (of_decide_eq_true rfl) rfl
    certLE0292

theorem certLE0294 : XScore.ble ((minimax 1 (⟨1, -1, 1, 1, -1, 1, -1, 0, -1⟩ : Board) COMP).1.2.2) (XScore.fin 0) = true :=
  nodeCompLE 1 0 (⟨1, -1, 1, 1, -1, 1, -1, 0, -1⟩ : Board) (XScore.fin 0)
    [(⟨1, -1, 1, 1, -1, 1, -1, 1, -1⟩ : Board)]
    rfl rfl rfl
    ⟨certLE0082, True.intro⟩

theorem certLE0295 : XScore.ble ((minimax 2 (⟨1, -1, 1, 1, -1, 1, 0, 0, -1⟩ : Board) HUMAN).1.2.2) (XScore.fin 0) = true :=
  nodeHumanLE 2 1 (⟨1, -1, 1, 1, -1, 1, 0, 0, -1⟩ : Board) (⟨1, -1, 1, 1, -1, 1, -1, 0, -1⟩ : Board) (XScore.fin 0) 2 0 rfl rfl (of_decide_eq_true rfl) rfl
    certLE0294

theorem certLE0296 : XScore.ble ((minimax 1 (⟨1, -1, 1, -1, -1, 1, 1, 0, -1⟩ : Board) COMP).1.2.2) (XScore.fin 0) = true :=
  nodeCompLE 1 0 (⟨1, -1, 1, -1, -1, 1, 1, 0, -1⟩ : Board) (XScore.fin 0)
    [(⟨1, -1, 1, -1, -1, 1, 1, 1, -1⟩ : Board)]
    rfl rfl rfl
    ⟨certLE0045, True.intro⟩

theorem certLE0297 : XScore.ble ((minimax 2 (⟨1, -1, 1, 0, -1, 1, 1, 0, -1⟩ : Board) HUMAN).1.2.2) (XScore.fin 0) = true :=
  nodeHumanLE 2 1 (⟨1, -1, 1, 0, -1, 1, 1, 0, -1⟩ : Board) (⟨1, -1, 1, -1, -1, 1, 1, 0, -1⟩ : Board) (XScore.fin 0) 1 0 rfl rfl (of_decide_eq_true rfl) rfl
    certLE0296

theorem certLE0298 : XScore.ble ((minimax 2 (⟨1, -1, 1, 0, -1, 1, 0, 1, -1⟩ : Board) HUMAN).1.2.2) (XScore.fin 0) = true :=
  nodeHumanLE 2 1 (⟨1, -1, 1, 0, -1, 1, 0, 1, -1⟩ : Board) (⟨1, -1, 1, -1, -1, 1, 0, 1, -1⟩ : Board) (XScore.fin 0) 1 0 rfl rfl (of_decide_eq_true rfl) rfl
    certLE0046

theorem certLE0299 : XScore.ble ((minimax 3 (⟨1, -1, 1, 0, -1, 1, 0, 0, -1⟩ : Board) COMP).1.2.2) (XScore.fin 0) = true :=
  nodeCompLE 3 2 (⟨1, -1, 1, 0, -1, 1, 0, 0, -1⟩ : Board) (XScore.fin 0)
    [(⟨1, -1, 1, 1, -1, 1, 0, 0, -1⟩ : Board),
     (⟨1, -1, 1, 0, -1, 1, 1, 0, -1⟩ : Board),
     (⟨1, -1, 1, 0, -1, 1, 0, 1, -1⟩ : Board)]
    rfl rfl rfl
    ⟨certLE0295, certLE0297, certLE0298, True.intro⟩

theorem certLE0300 : XScore.ble ((minimax 4 (⟨1, 0, 1, 0, -1, 1, 0, 0, -1⟩ : Board) HUMAN).1.2.2) (XScore.fin 0) = true :=
  nodeHumanLE 4 3 (⟨1, 0, 1, 0, -1, 1, 0, 0, -1⟩ : Board) (⟨1, -1, 1, 0, -1, 1, 0, 0, -1⟩ : Board) (XScore.fin 0) 0 1 rfl rfl (of_decide_eq_true rfl) rfl
    certLE0299

theorem certLE0301 : XScore.ble ((minimax 4 (⟨0, 1, 1, 0, -1, 1, 0, 0, -1⟩ : Board) HUMAN).1.2.2) (XScore.fin 0) = true :=
  nodeHumanLE 4 3 (⟨0, 1, 1, 0, -1, 1, 0, 0, -1⟩ : Board) (⟨-1, 1, 1, 0, -1, 1, 0, 0, -1⟩ : Board) (XScore.fin 0) 0 0 rfl rfl (of_decide_eq_true rfl) rfl
    certLE0226

theorem certLE0302 : XScore.ble ((minimax 4 (⟨0, 0, 1, 1, -1, 1, 0, 0, -1⟩ : Board) HUMAN).1.2.2) (XScore.fin 0) = true :=
  nodeHumanLE 4 3 (⟨0, 0, 1, 1, -1, 1, 0, 0, -1⟩ : Board) (⟨-1, 0, 1, 1, -1, 1, 0, 0, -1⟩ : Board) (XScore.fin 0) 0 0 rfl rfl (of_decide_eq_true rfl) rfl
    certLE0272

theorem certLE0303 : XScore.ble ((minimax 3 (⟨-1, 0, 1, 0, -1, 1, 1, 0, -1⟩ : Board) COMP).1.2.2) (XScore.fin 0) = true :=
  leafLE 3 (⟨-1, 0, 1, 0, -1, 1, 1, 0, -1⟩ : Board) COMP (XScore.fin 0) (Or.inr rfl) rfl

theorem certLE0304 : XScore.ble ((minimax 4 (⟨0, 0, 1, 0, -1, 1, 1, 0, -1⟩ : Board) HUMAN).1.2.2) (XScore.fin 0) = true :=
  nodeHumanLE 4 3 (⟨0, 0, 1, 0, -1, 1, 1, 0, -1⟩ : Board) (⟨-1, 0, 1, 0, -1, 1, 1, 0, -1⟩ : Board) (XScore.fin 0) 0 0 rfl rfl (of_decide_eq_true rfl) rfl
    certLE0303

theorem certLE0305 : XScore.ble ((minimax 3 (⟨-1, 0, 1, 0, -1, 1, 0, 1, -1⟩ : Board) COMP).1.2.2) (XScore.fin 0) = true :=
  leafLE 3 (⟨-1, 0, 1, 0, -1, 1, 0, 1, -1⟩ : Board) COMP (XScore.fin 0) (Or.inr rfl) rfl

theorem certLE0306 : XScore.ble ((minimax 4 (⟨0, 0, 1, 0, -1, 1, 0, 1, -1⟩ : Board) HUMAN).1.2.2) (XScore.fin 0) = true :=
  nodeHumanLE 4 3 (⟨0, 0, 1, 0, -1, 1, 0, 1, -1⟩ : Board) (⟨-1, 0, 1, 0, -1, 1, 0, 1, -1⟩ : Board) (XScore.fin 0) 0 0 rfl rfl (of_decide_eq_true rfl) rfl
    certLE0305

theorem certLE0307 : XScore.ble ((minimax 5 (⟨0, 0, 1, 0, -1, 1, 0, 0, -1⟩ : Board) COMP).1.2.2) (XScore.fin 0) = true :=
  nodeCompLE 5 4 (⟨0, 0, 1, 0, -1, 1, 0, 0, -1⟩ : Board) (XScore.fin 0)
    [(⟨1, 0, 1, 0, -1, 1, 0, 0, -1⟩ : Board),
     (⟨0, 1, 1, 0, -1, 1, 0, 0, -1⟩ : Board),
     (⟨0, 0, 1, 1, -1, 1, 0, 0, -1⟩ : Board),
     (⟨0, 0, 1, 0, -1, 1, 1, 0, -1⟩ : Board),
     (⟨0, 0, 1, 0, -1, 1, 0, 1, -1⟩ : Board)]
    rfl rfl rfl
    ⟨certLE0300, certLE0301, certLE0302, certLE0304, certLE0306, True.intro⟩

theorem certLE0308 : XScore.ble ((minimax 6 (⟨0, 0, 1, 0, -1, 1, 0, 0, 0⟩ : Board) HUMAN).1.2.2) (XScore.fin 0) = true :=
  nodeHumanLE 6 5 (⟨0, 0, 1, 0, -1, 1, 0, 0, 0⟩ : Board) (⟨0, 0, 1, 0, -1, 1, 0, 0, -1⟩ : Board) (XScore.fin 0) 2 2 rfl rfl (of_decide_eq_true rfl) rfl
    certLE0307

theorem certLE0309 : XScore.ble ((minimax 4 (⟨0, -1, 1, 1, -1, 0, 1, 0, 0⟩ : Board) HUMAN).1.2.2) (XScore.fin 0) = true :=
  nodeHumanLE 4 3 (⟨0, -1, 1, 1, -1, 0, 1, 0, 0⟩ : Board) (⟨-1, -1, 1, 1, -1, 0, 1, 0, 0⟩ : Board) (XScore.fin 0) 0 0 rfl rfl (of_decide_eq_true rfl) rfl
    certLE0280

theorem certLE0310 : XScore.ble ((minimax 3 (⟨0, -1, 1, 0, -1, 1, 1, -1, 0⟩ : Board) COMP).1.2.2) (XScore.fin 0) = true :=
  leafLE 3 (⟨0, -1, 1, 0, -1, 1, 1, -1, 0⟩ : Board) COMP (XScore.fin 0) (Or.inr rfl) rfl

theorem certLE0311 : XScore.ble ((minimax 4 (⟨0, -1, 1, 0, -1, 1, 1, 0, 0⟩ : Board) HUMAN).1.2.2) (XScore.fin 0) = true :=
  nodeHumanLE 4 3 (⟨0, -1, 1, 0, -1, 1, 1, 0, 0⟩ : Board) (⟨0, -1, 1, 0, -1, 1, 1, -1, 0⟩ : Board) (XScore.fin 0) 2 1 rfl rfl (of_decide_eq_true rfl) rfl
    certLE0310

theorem certLE0312 : XScore.ble ((minimax 1 (⟨1, -1, 1, -1, -1, 0, 1, 1, -1⟩ : Board) COMP).1.2.2) (XScore.fin 0) = true :=
  nodeCompLE 1 0 (⟨1, -1, 1, -1, -1, 0, 1, 1, -1⟩ : Board) (XScore.fin 0)
    [(⟨1, -1, 1, -1, -1, 1, 1, 1, -1⟩ : Board)]
    rfl rfl rfl
    ⟨certLE0045, True.intro⟩

theorem certLE0313 : XScore.ble ((minimax 2 (⟨1, -1, 1, 0, -1, 0, 1, 1, -1⟩ : Board) HUMAN).1.2.2) (XScore.fin 0) = true :=
  nodeHumanLE 2 1 (⟨1, -1, 1, 0, -1, 0, 1, 1, -1⟩ : Board) (⟨1, -1, 1, -1, -1, 0, 1, 1, -1⟩ : Board) (XScore.fin 0) 1 0 rfl rfl (of_decide_eq_true rfl) rfl
    certLE0312

theorem certLE0314 : XScore.ble ((minimax 2 (⟨0, -1, 1, 1, -1, 0, 1, 1, -1⟩ : Board) HUMAN).1.2.2) (XScore.fin 0) = true :=
  nodeHumanLE 2 1 (⟨0, -1, 1, 1, -1, 0, 1, 1, -1⟩ : Board) (⟨-1, -1, 1, 1, -1, 0, 1, 1, -1⟩ : Board) (XScore.fin 0) 0 0 rfl rfl (of_decide_eq_true rfl) rfl
    certLE0276

theorem certLE0315 : XScore.ble ((minimax 1 (⟨-1, -1, 1, 0, -1, 1, 1, 1, -1⟩ : Board) COMP).1.2.2) (XScore.fin 0) = true :=
  leafLE 1 (⟨-1, -1, 1, 0, -1, 1, 1, 1, -1⟩ : Board) COMP (XScore.fin 0) (Or.inr rfl) rfl

theorem certLE0316 : XScore.ble ((minimax 2 (⟨0, -1, 1, 0, -1, 1, 1, 1, -1⟩ : Board) HUMAN).1.2.2) (XScore.fin 0) = true :=
  nodeHumanLE 2 1 (⟨0, -1, 1, 0, -1, 1, 1, 1, -1⟩ : Board) (⟨-1, -1, 1, 0, -1, 1, 1, 1, -1⟩ : Board) (XScore.fin 0) 0 0 rfl rfl (of_decide_eq_true rfl) rfl
    certLE0315

theorem certLE0317 : XScore.ble ((minimax 3 (⟨0, -1, 1, 0, -1, 0, 1, 1, -1⟩ : Board) COMP).1.2.2) (XScore.fin 0) = true :=
  nodeCompLE 3 2 (⟨0, -1, 1, 0, -1, 0, 1, 1, -1⟩ : Board) (XScore.fin 0)
    [(⟨1, -1, 1, 0, -1, 0, 1, 1, -1⟩ : Board),
     (⟨0, -1, 1, 1, -1, 0, 1, 1, -1⟩ : Board),
     (⟨0, -1, 1, 0, -1, 1, 1, 1, -1⟩ : Board)]
    rfl rfl rfl
    ⟨certLE0313, certLE0314, certLE0316, True.intro⟩

theorem certLE0318 : XScore.ble ((minimax 4 (⟨0, -1, 1, 0, -1, 0, 1, 1, 0⟩ : Board) HUMAN).1.2.2) (XScore.fin 0) = true :=
  nodeHumanLE 4 3 (⟨0, -1, 1, 0, -1, 0, 1, 1, 0⟩ : Board) (⟨0, -1, 1, 0, -1, 0, 1, 1, -1⟩ : Board) (XScore.fin 0) 2 2 rfl rfl (of_decide_eq_true rfl) rfl
    certLE0317

theorem certLE0319 : XScore.ble ((minimax 3 (⟨0, -1, 1, 0, -1, 0, 1, -1, 1⟩ : Board) COMP).1.2.2) (XScore.fin 0) = true :=
  leafLE 3 (⟨0, -1, 1, 0, -1, 0, 1, -1, 1⟩ : Board) COMP (XScore.fin 0) (Or.inr rfl) rfl

theorem certLE0320 : XScore.ble ((minimax 4 (⟨0, -1, 1, 0, -1, 0, 1, 0, 1⟩ : Board) HUMAN).1.2.2) (XScore.fin 0) = true :=
  nodeHumanLE 4 3 (⟨0, -1, 1, 0, -1, 0, 1, 0, 1⟩ : Board) (⟨0, -1, 1, 0, -1, 0, 1, -1, 1⟩ : Board) (XScore.fin 0) 2 1 rfl rfl (of_decide_eq_true rfl) rfl
    certLE0319

theorem certLE0321 : XScore.ble ((minimax 5 (⟨0, -1, 1, 0, -1, 0, 1, 0, 0⟩ : Board) COMP).1.2.2) (XScore.fin 0) = true :=
  nodeCompLE 5 4 (⟨0, -1, 1, 0, -1, 0, 1, 0, 0⟩ : Board) (XScore.fin 0)
    [(⟨1, -1, 1, 0, -1, 0, 1, 0, 0⟩ : Board),
     (⟨0, -1, 1, 1, -1, 0, 1, 0, 0⟩ : Board),
     (⟨0, -1, 1, 0, -1, 1, 1, 0, 0⟩ : Board),
     (⟨0, -1, 1, 0, -1, 0, 1, 1, 0⟩ : Board),
     (⟨0, -1, 1, 0, -1, 0, 1, 0, 1⟩ : Board)]
    rfl rfl rfl
    ⟨certLE0044, certLE0309, certLE0311, certLE0318, certLE0320, True.intro⟩

theorem certLE0322 : XScore.ble ((minimax 6 (⟨0, 0, 1, 0, -1, 0, 1, 0, 0⟩ : Board) HUMAN).1.2.2) (XScore.fin 0) = true :=
  nodeHumanLE 6 5 (⟨0, 0, 1, 0, -1, 0, 1, 0, 0⟩ : Board) (⟨0, -1, 1, 0, -1, 0, 1, 0, 0⟩ : Board) (XScore.fin 0) 0 1 rfl rfl (of_decide_eq_true rfl) rfl
    certLE0321

theorem certLE0323 : XScore.ble ((minimax 4 (⟨0, 1, 1, -1, -1, 0, 0, 1, 0⟩ : Board) HUMAN).1.2.2) (XScore.fin 0) = true :=
  nodeHumanLE 4 3 (⟨0, 1, 1, -1, -1, 0, 0, 1, 0⟩ : Board) (⟨-1, 1, 1, -1, -1, 0, 0, 1, 0⟩ : Board) (XScore.fin 0) 0 0 rfl rfl (of_decide_eq_true rfl) rfl
    certLE0146

theorem certLE0324 : XScore.ble ((minimax 2 (⟨1, 0, 1, -1, -1, 1, 0, 1, -1⟩ : Board) HUMAN).1.2.2) (XScore.fin 0) = true :=
  nodeHumanLE 2 1 (⟨1, 0, 1, -1, -1, 1, 0, 1, -1⟩ : Board) (⟨1, -1, 1, -1, -1, 1, 0, 1, -1⟩ : Board) (XScore.fin 0) 0 1 rfl rfl (of_decide_eq_true rfl) rfl
    certLE0046

theorem certLE0325 : XScore.ble ((minimax 1 (⟨-1, 1, 1, -1, -1, 1, 0, 1, -1⟩ : Board) COMP).1.2.2) (XScore.fin 0) = true :=
  leafLE 1 (⟨-1, 1, 1, -1, -1, 1, 0, 1, -1⟩ : Board) COMP (XScore.fin 0) (Or.inr rfl) rfl

theorem certLE0326 : XScore.ble ((minimax 2 (⟨0, 1, 1, -1, -1, 1, 0, 1, -1⟩ : Board) HUMAN).1.2.2) (XScore.fin 0) = true :=
  nodeHumanLE 2 1 (⟨0, 1, 1, -1, -1, 1, 0, 1, -1⟩ : Board) (⟨-1, 1, 1, -1, -1, 1, 0, 1, -1⟩ : Board) (XScore.fin 0) 0 0 rfl rfl (of_decide_eq_true rfl) rfl
    certLE0325

theorem certLE0327 : XScore.ble ((minimax 1 (⟨-1, 0, 1, -1, -1, 1, 1, 1, -1⟩ : Board) COMP).1.2.2) (XScore.fin 0) = true :=
  leafLE 1 (⟨-1, 0, 1, -1, -1, 1, 1, 1, -1⟩ : Board) COMP (XScore.fin 0) (Or.inr rfl) rfl

theorem certLE0328 : XScore.ble ((minimax 2 (⟨0, 0, 1, -1, -1, 1, 1, 1, -1⟩ : Board) HUMAN).1.2.2) (XScore.fin 0) = true :=
  nodeHumanLE 2 1 (⟨0, 0, 1, -1, -1, 1, 1, 1, -1⟩ : Board) (⟨-1, 0, 1, -1, -1, 1, 1, 1, -1⟩ : Board) (XScore.fin 0) 0 0 rfl rfl (of_decide_eq_true rfl) rfl
    certLE0327

theorem certLE0329 : XScore.ble ((minimax 3 (⟨0, 0, 1, -1, -1, 1, 0, 1, -1⟩ : Board) COMP).1.2.2) (XScore.fin 0) = true :=
  nodeCompLE 3 2 (⟨0, 0, 1, -1, -1, 1, 0, 1, -1⟩ : Board) (XScore.fin 0)
    [(⟨1, 0, 1, -1, -1, 1, 0, 1, -1⟩ : Board),
     (⟨0, 1, 1, -1, -1, 1, 0, 1, -1⟩ : Board),
     (⟨0, 0, 1, -1, -1, 1, 1, 1, -1⟩ : Board)]
    rfl rfl rfl
    ⟨certLE0324, certLE0326, certLE0328, True.intro⟩

theorem certLE0330 : XScore.ble ((minimax 4 (⟨0, 0, 1, -1, -1, 1, 0, 1, 0⟩ : Board) HUMAN).1.2.2) (XScore.fin 0) = true :=
  nodeHumanLE 4 3 (⟨0, 0, 1, -1, -1, 1, 0, 1, 0⟩ : Board) (⟨0, 0, 1, -1, -1, 1, 0, 1, -1⟩ : Board) (XScore.fin 0) 2 2 rfl rfl (of_decide_eq_true rfl) rfl
    certLE0329

theorem certLE0331 : XScore.ble ((minimax 3 (⟨0, 0, 1, -1, -1, -1, 1, 1, 0⟩ : Board) COMP).1.2.2) (XScore.fin 0) = true :=
  leafLE 3 (⟨0, 0, 1, -1, -1, -1, 1, 1, 0⟩ : Board) COMP (XScore.fin 0) (Or.inr rfl) rfl

theorem certLE0332 : XScore.ble ((minimax 4 (⟨0, 0, 1, -1, -1, 0, 1, 1, 0⟩ : Board) HUMAN).1.2.2) (XScore.fin 0) = true :=
  nodeHumanLE 4 3 (⟨0, 0, 1, -1, -1, 0, 1, 1, 0⟩ : Board) (⟨0, 0, 1, -1, -1, -1, 1, 1, 0⟩ : Board) (XScore.fin 0) 1 2 rfl rfl (of_decide_eq_true rfl) rfl
    certLE0331

theorem certLE0333 : XScore.ble ((minimax 3 (⟨0, 0, 1, -1, -1, -1, 0, 1, 1⟩ : Board) COMP).1.2.2) (XScore.fin 0) = true :=
  leafLE 3 (⟨0, 0, 1, -1, -1, -1, 0, 1, 1⟩ : Board) COMP (XScore.fin 0) (Or.inr rfl) rfl

theorem certLE0334 : XScore.ble ((minimax 4 (⟨0, 0, 1, -1, -1, 0, 0, 1, 1⟩ : Board) HUMAN).1.2.2) (XScore.fin 0) = true :=
  nodeHumanLE 4 3 (⟨0, 0, 1, -1, -1, 0, 0, 1, 1⟩ : Board) (⟨0, 0, 1, -1, -1, -1, 0, 1, 1⟩ : Board) (XScore.fin 0) 1 2 rfl rfl (of_decide_eq_true rfl) rfl
    certLE0333

theorem certLE0335 : XScore.ble ((minimax 5 (⟨0, 0, 1, -1, -1, 0, 0, 1, 0⟩ : Board) COMP).1.2.2) (XScore.fin 0) = true :=
  nodeCompLE 5 4 (⟨0, 0, 1, -1, -1, 0, 0, 1, 0⟩ : Board) (XScore.fin 0)
    [(⟨1, 0, 1, -1, -1, 0, 0, 1, 0⟩ : Board),
     (⟨0, 1, 1, -1, -1, 0, 0, 1, 0⟩ : Board),
     (⟨0, 0, 1, -1, -1, 1, 0, 1, 0⟩ : Board),
     (⟨0, 0, 1, -1, -1, 0, 1, 1, 0⟩ : Board),
     (⟨0, 0, 1, -1, -1, 0, 0, 1, 1⟩ : Board)]
    rfl rfl rfl
    ⟨certLE0107, certLE0323, certLE0330, certLE0332, certLE0334, True.intro⟩

theorem certLE0336 : XScore.ble ((minimax 6 (⟨0, 0, 1, 0, -1, 0, 0, 1, 0⟩ : Board) HUMAN).1.2.2) (XScore.fin 0) = true :=
  nodeHumanLE 6 5 (⟨0, 0, 1, 0, -1, 0, 0, 1, 0⟩ : Board) (⟨0, 0, 1, -1, -1, 0, 0, 1, 0⟩ : Board) (XScore.fin 0) 1 0 rfl rfl (of_decide_eq_true rfl) rfl
    certLE0335

theorem certLE0337 : XScore.ble ((minimax 4 (⟨1, 0, 1, 0, -1, -1, 0, 0, 1⟩ : Board) HUMAN).1.2.2) (XScore.fin 0) = true :=
  nodeHumanLE 4 3 (⟨1, 0, 1, 0, -1, -1, 0, 0, 1⟩ : Board) (⟨1, -1, 1, 0, -1, -1, 0, 0, 1⟩ : Board) (XScore.fin 0) 0 1 rfl rfl (of_decide_eq_true rfl) rfl
    certLE0055

theorem certLE0338 : XScore.ble ((minimax 4 (⟨0, 1, 1, 0, -1, -1, 0, 0, 1⟩ : Board) HUMAN).1.2.2) (XScore.fin 0) = true :=
  nodeHumanLE 4 3 (⟨0, 1, 1, 0, -1, -1, 0, 0, 1⟩ : Board) (⟨-1, 1, 1, 0, -1, -1, 0, 0, 1⟩ : Board) (XScore.fin 0) 0 0 rfl rfl (of_decide_eq_true rfl) rfl
    certLE0264

theorem certLE0339 : XScore.ble ((minimax 4 (⟨0, 0, 1, 1, -1, -1, 0, 0, 1⟩ : Board) HUMAN).1.2.2) (XScore.fin 0) = true :=
  nodeHumanLE 4 3 (⟨0, 0, 1, 1, -1, -1, 0, 0, 1⟩ : Board) (⟨-1, 0, 1, 1, -1, -1, 0, 0, 1⟩ : Board) (XScore.fin 0) 0 0 rfl rfl (of_decide_eq_true rfl) rfl
    certLE0290

theorem certLE0340 : XScore.ble ((minimax 3 (⟨0, 0, 1, -1, -1, -1, 1, 0, 1⟩ : Board) COMP).1.2.2) (XScore.fin 0) = true :=
  leafLE 3 (⟨0, 0, 1, -1, -1, -1, 1, 0, 1⟩ : Board) COMP (XScore.fin 0) (Or.inr rfl) rfl

theorem certLE0341 : XScore.ble ((minimax 4 (⟨0, 0, 1, 0, -1, -1, 1, 0, 1⟩ : Board) HUMAN).1.2.2) (XScore.fin 0) = true :=
  nodeHumanLE 4 3 (⟨0, 0, 1, 0, -1, -1, 1, 0, 1⟩ : Board) (⟨0, 0, 1, -1, -1, -1, 1, 0, 1⟩ : Board) (XScore.fin 0) 1 0 rfl rfl (of_decide_eq_true rfl) rfl
    certLE0340

theorem certLE0342 : XScore.ble ((minimax 4 (⟨0, 0, 1, 0, -1, -1, 0, 1, 1⟩ : Board) HUMAN).1.2.2) (XScore.fin 0) = true :=
  nodeHumanLE 4 3 (⟨0, 0, 1, 0, -1, -1, 0, 1, 1⟩ : Board) (⟨0, 0, 1, -1, -1, -1, 0, 1, 1⟩ : Board) (XScore.fin 0) 1 0 rfl rfl (of_decide_eq_true rfl) rfl
    certLE0333

theorem certLE0343 : XScore.ble ((minimax 5 (⟨0, 0, 1, 0, -1, -1, 0, 0, 1⟩ : Board) COMP).1.2.2) (XScore.fin 0) = true :=
  nodeCompLE 5 4 (⟨0, 0, 1, 0, -1, -1, 0, 0, 1⟩ : Board) (XScore.fin 0)
    [(⟨1, 0, 1, 0, -1, -1, 0, 0, 1⟩ : Board),
     (⟨0, 1, 1, 0, -1, -1, 0, 0, 1⟩ : Board),
     (⟨0, 0, 1, 1, -1, -1, 0, 0, 1⟩ : Board),
     (⟨0, 0, 1, 0, -1, -1, 1, 0, 1⟩ : Board),
     (⟨0, 0, 1, 0, -1, -1, 0, 1, 1⟩ : Board)]
    rfl rfl rfl
    ⟨certLE0337, certLE0338, certLE0339, certLE0341, certLE0342, True.intro⟩

theorem certLE0344 : XScore.ble ((minimax 6 (⟨0, 0, 1, 0, -1, 0, 0, 0, 1⟩ : Board) HUMAN).1.2.2) (XScore.fin 0) = true :=
  nodeHumanLE 6 5 (⟨0, 0, 1, 0, -1, 0, 0, 0, 1⟩ : Board) (⟨0, 0, 1, 0, -1, -1, 0, 0, 1⟩ : Board) (XScore.fin 0) 1 2 rfl rfl (of_decide_eq_true rfl) rfl
    certLE0343

theorem certLE0345 : XScore.ble ((minimax 7 (⟨0, 0, 1, 0, -1, 0, 0, 0, 0⟩ : Board) COMP).1.2.2) (XScore.fin 0) = true :=
  nodeCompLE 7 6 (⟨0, 0, 1, 0, -1, 0, 0, 0, 0⟩ : Board) (XScore.fin 0)
    [(⟨1, 0, 1, 0, -1, 0, 0, 0, 0⟩ : Board),
     (⟨0, 1, 1, 0, -1, 0, 0, 0, 0⟩ : Board),
     (⟨0, 0, 1, 1, -1, 0, 0, 0, 0⟩ : Board),
     (⟨0, 0, 1, 0, -1, 1, 0, 0, 0⟩ : Board),
     (⟨0, 0, 1, 0, -1, 0, 1, 0, 0⟩ : Board),
     (⟨0, 0, 1, 0, -1, 0, 0, 1, 0⟩ : Board),
     (⟨0, 0, 1, 0, -1, 0, 0, 0, 1⟩ : Board)]
    rfl rfl rfl
    ⟨certLE0058, certLE0271, certLE0293, certLE0308, certLE0322, certLE0336, certLE0344, True.intro⟩

theorem certLE0346 : XScore.ble ((minimax 8 (⟨0, 0, 1, 0, 0, 0, 0, 0, 0⟩ : Board) HUMAN).1.2.2) (XScore.fin 0) = true :=
  nodeHumanLE 8 7 (⟨0, 0, 1, 0, 0, 0, 0, 0, 0⟩ : Board) (⟨0, 0, 1, 0, -1, 0, 0, 0, 0⟩ : Board) (XScore.fin 0) 1 1 rfl rfl (of_decide_eq_true rfl) rfl
    certLE0345

theorem certLE0347 : XScore.ble ((minimax 6 (⟨-1, 0, 1, 1, 0, 0, 0, 0, 0⟩ : Board) HUMAN).1.2.2) (XScore.fin 0) = true :=
  nodeHumanLE 6 5 (⟨-1, 0, 1, 1, 0, 0, 0, 0, 0⟩ : Board) (⟨-1, 0, 1, 1, -1, 0, 0, 0, 0⟩ : Board) (XScore.fin 0) 1 1 rfl rfl (of_decide_eq_true rfl) rfl
    certLE0292

theorem certLE0348 : XScore.ble ((minimax 4 (⟨-1, 1, 0, 1, 1, -1, 0, 0, 0⟩ : Board) HUMAN).1.2.2) (XScore.fin 0) = true :=
  nodeHumanLE 4 3 (⟨-1, 1, 0, 1, 1, -1, 0, 0, 0⟩ : Board) (⟨-1, 1, 0, 1, 1, -1, 0, -1, 0⟩ : Board) (XScore.fin 0) 2 1 rfl rfl (of_decide_eq_true rfl) rfl
    certLE0204

theorem certLE0349 : XScore.ble ((minimax 2 (⟨-1, 1, 1, 1, 1, -1, -1, 0, 0⟩ : Board) HUMAN).1.2.2) (XScore.fin 0) = true :=
  nodeHumanLE 2 1 (⟨-1, 1, 1, 1, 1, -1, -1, 0, 0⟩ : Board) (⟨-1, 1, 1, 1, 1, -1, -1, -1, 0⟩ : Board) (XScore.fin 0) 2 1 rfl rfl (of_decide_eq_true rfl) rfl
    certLE0190

theorem certLE0350 : XScore.ble ((minimax 0 (⟨-1, -1, 1, 1, 1, -1, -1, 1, 1⟩ : Board) HUMAN).1.2.2) (XScore.fin 0) = true :=
  leafLE 0 (⟨-1, -1, 1, 1, 1, -1, -1, 1, 1⟩ : Board) HUMAN (XScore.fin 0) (Or.inl rfl) rfl

theorem certLE0351 : XScore.ble ((minimax 1 (⟨-1, -1, 1, 1, 1, -1, -1, 1, 0⟩ : Board) COMP).1.2.2) (XScore.fin 0) = true :=
  nodeCompLE 1 0 (⟨-1, -1, 1, 1, 1, -1, -1, 1, 0⟩ : Board) (XScore.fin 0)
    [(⟨-1, -1, 1, 1, 1, -1, -1, 1, 1⟩ : Board)]
    rfl rfl rfl
    ⟨certLE0350, True.intro⟩

theorem certLE0352 : XScore.ble ((minimax 2 (⟨-1, 0, 1, 1, 1, -1, -1, 1, 0⟩ : Board) HUMAN).1.2.2) (XScore.fin 0) = true :=
  nodeHumanLE 2 1 (⟨-1, 0, 1, 1, 1, -1, -1, 1, 0⟩ : Board) (⟨-1, -1, 1, 1, 1, -1, -1, 1, 0⟩ : Board) (XScore.fin 0) 0 1 rfl rfl (of_decide_eq_true rfl) rfl
    certLE0351

theorem certLE0353 : XScore.ble ((minimax 1 (⟨-1, -1, 1, 1, 1, -1, -1, 0, 1⟩ : Board) COMP).1.2.2) (XScore.fin 0) = true :=
  nodeCompLE 1 0 (⟨-1, -1, 1, 1, 1, -1, -1, 0, 1⟩ : Board) (XScore.fin 0)
    [(⟨-1, -1, 1, 1, 1, -1, -1, 1, 1⟩ : Board)]
    rfl rfl rfl
    ⟨certLE0350, True.intro⟩

theorem certLE0354 : XScore.ble ((minimax 2 (⟨-1, 0, 1, 1, 1, -1, -1, 0, 1⟩ : Board) HUMAN).1.2.2) (XScore.fin 0) = true :=
  nodeHumanLE 2 1 (⟨-1, 0, 1, 1, 1, -1, -1, 0, 1⟩ : Board) (⟨-1, -1, 1, 1, 1, -1, -1, 0, 1⟩ : Board) (XScore.fin 0) 0 1 rfl rfl (of_decide_eq_true rfl) rfl
    certLE0353

theorem certLE0355 : XScore.ble ((minimax 3 (⟨-1, 0, 1, 1, 1, -1, -1, 0, 0⟩ : Board) COMP).1.2.2) (XScore.fin 0) = true :=
  nodeCompLE 3 2 (⟨-1, 0, 1, 1, 1, -1, -1, 0, 0⟩ : Board) (XScore.fin 0)
    [(⟨-1, 1, 1, 1, 1, -1, -1, 0, 0⟩ : Board),
     (⟨-1, 0, 1, 1, 1, -1, -1, 1, 0⟩ : Board),
     (⟨-1, 0, 1, 1, 1, -1, -1, 0, 1⟩ : Board)]
    rfl rfl rfl
    ⟨certLE0349, certLE0352, certLE0354, True.intro⟩

theorem certLE0356 : XScore.ble ((minimax 4 (⟨-1, 0, 1, 1, 1, -1, 0, 0, 0⟩ : Board) HUMAN).1.2.2) (XScore.fin 0) = true :=
  nodeHumanLE 4 3 (⟨-1, 0, 1, 1, 1, -1, 0, 0, 0⟩ : Board) (⟨-1, 0, 1, 1, 1, -1, -1, 0, 0⟩ : Board) (XScore.fin 0) 2 0 rfl rfl (of_decide_eq_true rfl) rfl
    certLE0355

theorem certLE0357 : XScore.ble ((minimax 2 (⟨-1, 1, -1, 1, 1, -1, 1, 0, 0⟩ : Board) HUMAN).1.2.2) (XScore.fin 0) = true :=
  nodeHumanLE 2 1 (⟨-1, 1, -1, 1, 1, -1, 1, 0, 0⟩ : Board) (⟨-1, 1, -1, 1, 1, -1, 1, -1, 0⟩ : Board) (XScore.fin 0) 2 1 rfl rfl (of_decide_eq_true rfl) rfl
    certLE0200

theorem certLE0358 : XScore.ble ((minimax 1 (⟨-1, -1, -1, 1, 1, -1, 1, 1, 0⟩ : Board) COMP).1.2.2) (XScore.fin 0) = true :=
  leafLE 1 (⟨-1, -1, -1, 1, 1, -1, 1, 1, 0⟩ : Board) COMP (XScore.fin 0) (Or.inr rfl) rfl

theorem certLE0359 : XScore.ble ((minimax 2 (⟨-1, 0, -1, 1, 1, -1, 1, 1, 0⟩ : Board) HUMAN).1.2.2) (XScore.fin 0) = true :=
  nodeHumanLE 2 1 (⟨-1, 0, -1, 1, 1, -1, 1, 1, 0⟩ : Board) (⟨-1, -1, -1, 1, 1, -1, 1, 1, 0⟩ : Board) (XScore.fin 0) 0 1 rfl rfl (of_decide_eq_true rfl) rfl
    certLE0358

theorem certLE0360 : XScore.ble ((minimax 1 (⟨-1, -1, -1, 1, 1, -1, 1, 0, 1⟩ : Board) COMP).1.2.2) (XScore.fin 0) = true :=
  leafLE 1 (⟨-1, -1, -1, 1, 1, -1, 1, 0, 1⟩ : Board) COMP (XScore.fin 0) (Or.inr rfl) rfl

theorem certLE0361 : XScore.ble ((minimax 2 (⟨-1, 0, -1, 1, 1, -1, 1, 0, 1⟩ : Board) HUMAN).1.2.2) (XScore.fin 0) = true :=
  nodeHumanLE 2 1 (⟨-1, 0, -1, 1, 1, -1, 1, 0, 1⟩ : Board) (⟨-1, -1, -1, 1, 1, -1, 1, 0, 1⟩ : Board) (XScore.fin 0) 0 1 rfl rfl (of_decide_eq_true rfl) rfl
    certLE0360

theorem certLE0362 : XScore.ble ((minimax 3 (⟨-1, 0, -1, 1, 1, -1, 1, 0, 0⟩ : Board) COMP).1.2.2) (XScore.fin 0) = true :=
  nodeCompLE 3 2 (⟨-1, 0, -1, 1, 1, -1, 1, 0, 0⟩ : Board) (XScore.fin 0)
    [(⟨-1, 1, -1, 1, 1, -1, 1, 0, 0⟩ : Board),
     (⟨-1, 0, -1, 1, 1, -1, 1, 1, 0⟩ : Board),
     (⟨-1, 0, -1, 1, 1, -1, 1, 0, 1⟩ : Board)]
    rfl rfl rfl
    ⟨certLE0357, certLE0359, certLE0361, True.intro⟩

theorem certLE0363 : XScore.ble ((minimax 4 (⟨-1, 0, 0, 1, 1, -1, 1, 0, 0⟩ : Board) HUMAN).1.2.2) (XScore.fin 0) = true :=
  nodeHumanLE 4 3 (⟨-1, 0, 0, 1, 1, -1, 1, 0, 0⟩ : Board) (⟨-1, 0, -1, 1, 1, -1, 1, 0, 0⟩ : Board) (XScore.fin 0) 0 2 rfl rfl (of_decide_eq_true rfl) rfl
    certLE0362

theorem certLE0364 : XScore.ble ((minimax 2 (⟨-1, -1, 1, 1, 1, -1, 0, 1, 0⟩ : Board) HUMAN).1.2.2) (XScore.fin 0) = true :=
  nodeHumanLE 2 1 (⟨-1, -1, 1, 1, 1, -1, 0, 1, 0⟩ : Board) (⟨-1, -1, 1, 1, 1, -1, -1, 1, 0⟩ : Board) (XScore.fin 0) 2 0 rfl rfl (of_decide_eq_true rfl) rfl
    certLE0351

theorem certLE0365 : XScore.ble ((minimax 2 (⟨-1, -1, 0, 1, 1, -1, 1, 1, 0⟩ : Board) HUMAN).1.2.2) (XScore.fin 0) = true :=
  nodeHumanLE 2 1 (⟨-1, -1, 0, 1, 1, -1, 1, 1, 0⟩ : Board) (⟨-1, -1, -1, 1, 1, -1, 1, 1, 0⟩ : Board) (XScore.fin 0) 0 2 rfl rfl (of_decide_eq_true rfl) rfl
    certLE0358

theorem certLE0366 : XScore.ble ((minimax 1 (⟨-1, -1, -1, 1, 1, -1, 0, 1, 1⟩ : Board) COMP).1.2.2) (XScore.fin 0) = true :=
  leafLE 1 (⟨-1, -1, -1, 1, 1, -1, 0, 1, 1⟩ : Board) COMP (XScore.fin 0) (Or.inr rfl) rfl

theorem certLE0367 : XScore.ble ((minimax 2 (⟨-1, -1, 0, 1, 1, -1, 0, 1, 1⟩ : Board) HUMAN).1.2.2) (XScore.fin 0) = true :=
  nodeHumanLE 2 1 (⟨-1, -1, 0, 1, 1, -1, 0, 1, 1⟩ : Board) (⟨-1, -1, -1, 1, 1, -1, 0, 1, 1⟩ : Board) (XScore.fin 0) 0 2 rfl rfl (of_decide_eq_true rfl) rfl
    certLE0366

theorem certLE0368 : XScore.ble ((minimax 3 (⟨-1, -1, 0, 1, 1, -1, 0, 1, 0⟩ : Board) COMP).1.2.2) (XScore.fin 0) = true :=
  nodeCompLE 3 2 (⟨-1, -1, 0, 1, 1, -1, 0, 1, 0⟩ : Board) (XScore.fin 0)
    [(⟨-1, -1, 1, 1, 1, -1, 0, 1, 0⟩ : Board),
     (⟨-1, -1, 0, 1, 1, -1, 1, 1, 0⟩ : Board),
     (⟨-1, -1, 0, 1, 1, -1, 0, 1, 1⟩ : Board)]
    rfl rfl rfl
    ⟨certLE0364, certLE0365, certLE0367, True.intro⟩

theorem certLE0369 : XScore.ble ((minimax 4 (⟨-1, 0, 0, 1, 1, -1, 0, 1, 0⟩ : Board) HUMAN).1.2.2) (XScore.fin 0) = true :=
  nodeHumanLE 4 3 (⟨-1, 0, 0, 1, 1, -1, 0, 1, 0⟩ : Board) (⟨-1, -1, 0, 1, 1, -1, 0, 1, 0⟩ : Board) (XScore.fin 0) 0 1 rfl rfl (of_decide_eq_true rfl) rfl
    certLE0368

theorem certLE0370 : XScore.ble ((minimax 2 (⟨-1, -1, 1, 1, 1, -1, 0, 0, 1⟩ : Board) HUMAN).1.2.2) (XScore.fin 0) = true :=
  nodeHumanLE 2 1 (⟨-1, -1, 1, 1, 1, -1, 0, 0, 1⟩ : Board) (⟨-1, -1, 1, 1, 1, -1, -1, 0, 1⟩ : Board) (XScore.fin 0) 2 0 rfl rfl (of_decide_eq_true rfl) rfl
    certLE0353

theorem certLE0371 : XScore.ble ((minimax 2 (⟨-1, -1, 0, 1, 1, -1, 1, 0, 1⟩ : Board) HUMAN).1.2.2) (XScore.fin 0) = true :=
  nodeHumanLE 2 1 (⟨-1, -1, 0, 1, 1, -1, 1, 0, 1⟩ : Board) (⟨-1, -1, -1, 1, 1, -1, 1, 0, 1⟩ : Board) (XScore.fin 0) 0 2 rfl rfl (of_decide_eq_true rfl) rfl
    certLE0360

theorem certLE0372 : XScore.ble ((minimax 3 (⟨-1, -1, 0, 1, 1, -1, 0, 0, 1⟩ : Board) COMP).1.2.2) (XScore.fin 0) = true :=
  nodeCompLE 3 2 (⟨-1, -1, 0, 1, 1, -1, 0, 0, 1⟩ : Board) (XScore.fin 0)
    [(⟨-1, -1, 1, 1, 1, -1, 0, 0, 1⟩ : Board),
     (⟨-1, -1, 0, 1, 1, -1, 1, 0, 1⟩ : Board),
     (⟨-1, -1, 0, 1, 1, -1, 0, 1, 1⟩ : Board)]
    rfl rfl rfl
    ⟨certLE0370, certLE0371, certLE0367, True.intro⟩

theorem certLE0373 : XScore.ble ((minimax 4 (⟨-1, 0, 0, 1, 1, -1, 0, 0, 1⟩ : Board) HUMAN).1.2.2) (XScore.fin 0) = true :=
  nodeHumanLE 4 3 (⟨-1, 0, 0, 1, 1, -1, 0, 0, 1⟩ : Board) (⟨-1, -1, 0, 1, 1, -1, 0, 0, 1⟩ : Board) (XScore.fin 0) 0 1 rfl rfl (of_decide_eq_true rfl) rfl
    certLE0372

theorem certLE0374 : XScore.ble ((minimax 5 (⟨-1, 0, 0, 1, 1, -1, 0, 0, 0⟩ : Board) COMP).1.2.2) (XScore.fin 0) = true :=
  nodeCompLE 5 4 (⟨-1, 0, 0, 1, 1, -1, 0, 0, 0⟩ : Board) (XScore.fin 0)
    [(⟨-1, 1, 0, 1, 1, -1, 0, 0, 0⟩ : Board),
     (⟨-1, 0, 1, 1, 1, -1, 0, 0, 0⟩ : Board),
     (⟨-1, 0, 0, 1, 1, -1, 1, 0, 0⟩ : Board),
     (⟨-1, 0, 0, 1, 1, -1, 0, 1, 0⟩ : Board),
     (⟨-1, 0, 0, 1, 1, -1, 0, 0, 1⟩ : Board)]
    rfl rfl rfl
    ⟨certLE0348, certLE0356, certLE0363, certLE0369, certLE0373, True.intro⟩

theorem certLE0375 : XScore.ble ((minimax 6 (⟨-1, 0, 0, 1, 1, 0, 0, 0, 0⟩ : Board) HUMAN).1.2.2) (XScore.fin 0) = true :=
  nodeHumanLE 6 5 (⟨-1, 0, 0, 1, 1, 0, 0, 0, 0⟩ : Board) (⟨-1, 0, 0, 1, 1, -1, 0, 0, 0⟩ : Board) (XScore.fin 0) 1 2 rfl rfl (of_decide_eq_true rfl) rfl
    certLE0374

theorem certLE0376 : XScore.ble ((minimax 1 (⟨-1, -1, -1, 1, -1, 1, 1, 1, 0⟩ : Board) COMP).1.2.2) (XScore.fin 0) = true :=
  leafLE 1 (⟨-1, -1, -1, 1, -1, 1, 1, 1, 0⟩ : Board) COMP (XScore.fin 0) (Or.inr rfl) rfl

theorem certLE0377 : XScore.ble ((minimax 2 (⟨-1, -1, 0, 1, -1, 1, 1, 1, 0⟩ : Board) HUMAN).1.2.2) (XScore.fin 0) = true :=
  nodeHumanLE 2 1 (⟨-1, -1, 0, 1, -1, 1, 1, 1, 0⟩ : Board) (⟨-1, -1, -1, 1, -1, 1, 1, 1, 0⟩ : Board) (XScore.fin 0) 0 2 rfl rfl (of_decide_eq_true rfl) rfl
    certLE0376

theorem certLE0378 : XScore.ble ((minimax 1 (⟨-1, -1, -1, 1, -1, 1, 1, 0, 1⟩ : Board) COMP).1.2.2) (XScore.fin 0) = true :=
  leafLE 1 (⟨-1, -1, -1, 1, -1, 1, 1, 0, 1⟩ : Board) COMP (XScore.fin 0) (Or.inr rfl) rfl

theorem certLE0379 : XScore.ble ((minimax 2 (⟨-1, -1, 0, 1, -1, 1, 1, 0, 1⟩ : Board) HUMAN).1.2.2) (XScore.fin 0) = true :=
  nodeHumanLE 2 1 (⟨-1, -1, 0, 1, -1, 1, 1, 0, 1⟩ : Board) (⟨-1, -1, -1, 1, -1, 1, 1, 0, 1⟩ : Board) (XScore.fin 0) 0 2 rfl rfl (of_decide_eq_true rfl) rfl
    certLE0378

theorem certLE0380 : XScore.ble ((minimax 3 (⟨-1, -1, 0, 1, -1, 1, 1, 0, 0⟩ : Board) COMP).1.2.2) (XScore.fin 0) = true :=
  nodeCompLE 3 2 (⟨-1, -1, 0, 1, -1, 1, 1, 0, 0⟩ : Board) (XScore.fin 0)
    [(⟨-1, -1, 1, 1, -1, 1, 1, 0, 0⟩ : Board),
     (⟨-1, -1, 0, 1, -1, 1, 1, 1, 0⟩ : Board),
     (⟨-1, -1, 0, 1, -1, 1, 1, 0, 1⟩ : Board)]
    rfl rfl rfl
    ⟨certLE0275, certLE0377, certLE0379, True.intro⟩

theorem certLE0381 : XScore.ble ((minimax 4 (⟨-1, 0, 0, 1, -1, 1, 1, 0, 0⟩ : Board) HUMAN).1.2.2) (XScore.fin 0) = true :=
  nodeHumanLE 4 3 (⟨-1, 0, 0, 1, -1, 1, 1, 0, 0⟩ : Board) (⟨-1, -1, 0, 1, -1, 1, 1, 0, 0⟩ : Board) (XScore.fin 0) 0 1 rfl rfl (of_decide_eq_true rfl) rfl
    certLE0380

theorem certLE0382 : XScore.ble ((minimax 1 (⟨-1, -1, 1, 1, -1, 1, 0, 1, -1⟩ : Board) COMP).1.2.2) (XScore.fin 0) = true :=
  leafLE 1 (⟨-1, -1, 1, 1, -1, 1, 0, 1, -1⟩ : Board) COMP (XScore.fin 0) (Or.inr rfl) rfl

theorem certLE0383 : XScore.ble ((minimax 2 (⟨-1, -1, 1, 1, -1, 1, 0, 1, 0⟩ : Board) HUMAN).1.2.2) (XScore.fin 0) = true :=
  nodeHumanLE 2 1 (⟨-1, -1, 1, 1, -1, 1, 0, 1, 0⟩ : Board) (⟨-1, -1, 1, 1, -1, 1, 0, 1, -1⟩ : Board) (XScore.fin 0) 2 2 rfl rfl (of_decide_eq_true rfl) rfl
    certLE0382

theorem certLE0384 : XScore.ble ((minimax 1 (⟨-1, -1, -1, 1, -1, 1, 0, 1, 1⟩ : Board) COMP).1.2.2) (XScore.fin 0) = true :=
  leafLE 1 (⟨-1, -1, -1, 1, -1, 1, 0, 1, 1⟩ : Board) COMP (XScore.fin 0) (Or.inr rfl) rfl

theorem certLE0385 : XScore.ble ((minimax 2 (⟨-1, -1, 0, 1, -1, 1, 0, 1, 1⟩ : Board) HUMAN).1.2.2) (XScore.fin 0) = true :=
  nodeHumanLE 2 1 (⟨-1, -1, 0, 1, -1, 1, 0, 1, 1⟩ : Board) (⟨-1, -1, -1, 1, -1, 1, 0, 1, 1⟩ : Board) (XScore.fin 0) 0 2 rfl rfl (of_decide_eq_true rfl) rfl
    certLE0384

theorem certLE0386 : XScore.ble ((minimax 3 (⟨-1, -1, 0, 1, -1, 1, 0, 1, 0⟩ : Board) COMP).1.2.2) (XScore.fin 0) = true :=
  nodeCompLE 3 2 (⟨-1, -1, 0, 1, -1, 1, 0, 1, 0⟩ : Board) (XScore.fin 0)
    [(⟨-1, -1, 1, 1, -1, 1, 0, 1, 0⟩ : Board),
     (⟨-1, -1, 0, 1, -1, 1, 1, 1, 0⟩ : Board),
     (⟨-1, -1, 0, 1, -1, 1, 0, 1, 1⟩ : Board)]
    rfl rfl rfl
    ⟨certLE0383, certLE0377, certLE0385, True.intro⟩

theorem certLE0387 : XScore.ble ((minimax 4 (⟨-1, 0, 0, 1, -1, 1, 0, 1, 0⟩ : Board) HUMAN).1.2.2) (XScore.fin 0) = true :=
  nodeHumanLE 4 3 (⟨-1, 0, 0, 1, -1, 1, 0, 1, 0⟩ : Board) (⟨-1, -1, 0, 1, -1, 1, 0, 1, 0⟩ : Board) (XScore.fin 0) 0 1 rfl rfl (of_decide_eq_true rfl) rfl
    certLE0386

theorem certLE0388 : XScore.ble ((minimax 2 (⟨-1, 0, -1, 1, -1, 1, 1, 0, 1⟩ : Board) HUMAN).1.2.2) (XScore.fin 0) = true :=
  nodeHumanLE 2 1 (⟨-1, 0, -1, 1, -1, 1, 1, 0, 1⟩ : Board) (⟨-1, -1, -1, 1, -1, 1, 1, 0, 1⟩ : Board) (XScore.fin 0) 0 1 rfl rfl (of_decide_eq_true rfl) rfl
    certLE0378

theorem certLE0389 : XScore.ble ((minimax 2 (⟨-1, 0, -1, 1, -1, 1, 0, 1, 1⟩ : Board) HUMAN).1.2.2) (XScore.fin 0) = true :=
  nodeHumanLE 2 1 (⟨-1, 0, -1, 1, -1, 1, 0, 1, 1⟩ : Board) (⟨-1, -1, -1, 1, -1, 1, 0, 1, 1⟩ : Board) (XScore.fin 0) 0 1 rfl rfl (of_decide_eq_true rfl) rfl
    certLE0384

theorem certLE0390 : XScore.ble ((minimax 3 (⟨-1, 0, -1, 1, -1, 1, 0, 0, 1⟩ : Board) COMP).1.2.2) (XScore.fin 0) = true :=
  nodeCompLE 3 2 (⟨-1, 0, -1, 1, -1, 1, 0, 0, 1⟩ : Board) (XScore.fin 0)
    [(⟨-1, 1, -1, 1, -1, 1, 0, 0, 1⟩ : Board),
     (⟨-1, 0, -1, 1, -1, 1, 1, 0, 1⟩ : Board),
     (⟨-1, 0, -1, 1, -1, 1, 0, 1, 1⟩ : Board)]
    rfl rfl rfl
    ⟨certLE0172, certLE0388, certLE0389, True.intro⟩

theorem certLE0391 : XScore.ble ((minimax 4 (⟨-1, 0, 0, 1, -1, 1, 0, 0, 1⟩ : Board) HUMAN).1.2.2) (XScore.fin 0) = true :=
  nodeHumanLE 4 3 (⟨-1, 0, 0, 1, -1, 1, 0, 0, 1⟩ : Board) (⟨-1, 0, -1, 1, -1, 1, 0, 0, 1⟩ : Board) (XScore.fin 0) 0 2 rfl rfl (of_decide_eq_true rfl) rfl
    certLE0390

theorem certLE0392 : XScore.ble ((minimax 5 (⟨-1, 0, 0, 1, -1, 1, 0, 0, 0⟩ : Board) COMP).1.2.2) (XScore.fin 0) = true :=
  nodeCompLE 5 4 (⟨-1, 0, 0, 1, -1, 1, 0, 0, 0⟩ : Board) (XScore.fin 0)
    [(⟨-1, 1, 0, 1, -1, 1, 0, 0, 0⟩ : Board),
     (⟨-1, 0, 1, 1, -1, 1, 0, 0, 0⟩ : Board),
     (⟨-1, 0, 0, 1, -1, 1, 1, 0, 0⟩ : Board),
     (⟨-1, 0, 0, 1, -1, 1, 0, 1, 0⟩ : Board),
     (⟨-1, 0, 0, 1, -1, 1, 0, 0, 1⟩ : Board)]
    rfl rfl rfl
    ⟨certLE0174, certLE0273, certLE0381, certLE0387, certLE0391, True.intro⟩

theorem certLE0393 : XScore.ble ((minimax 6 (⟨-1, 0, 0, 1, 0, 1, 0, 0, 0⟩ : Board) HUMAN).1.2.2) (XScore.fin 0) = true :=
  nodeHumanLE 6 5 (⟨-1, 0, 0, 1, 0, 1, 0, 0, 0⟩ : Board) (⟨-1, 0, 0, 1, -1, 1, 0, 0, 0⟩ : Board) (XScore.fin 0) 1 1 rfl rfl (of_decide_eq_true rfl) rfl
    certLE0392

theorem certLE0394 : XScore.ble ((minimax 4 (⟨-1, -1, 1, 1, 0, 0, 1, 0, 0⟩ : Board) HUMAN).1.2.2) (XScore.fin 0) = true :=
  nodeHumanLE 4 3 (⟨-1, -1, 1, 1, 0, 0, 1, 0, 0⟩ : Board) (⟨-1, -1, 1, 1, -1, 0, 1, 0, 0⟩ : Board) (XScore.fin 0) 1 1 rfl rfl (of_decide_eq_true rfl) rfl
    certLE0280

theorem certLE0395 : XScore.ble ((minimax 3 (⟨-1, -1, -1, 1, 1, 0, 1, 0, 0⟩ : Board) COMP).1.2.2) (XScore.fin 0) = true :=
  leafLE 3 (⟨-1, -1, -1, 1, 1, 0, 1, 0, 0⟩ : Board) COMP (XScore.fin 0) (Or.inr rfl) rfl

theorem certLE0396 : XScore.ble ((minimax 4 (⟨-1, -1, 0, 1, 1, 0, 1, 0, 0⟩ : Board) HUMAN).1.2.2) (XScore.fin 0) = true :=
  nodeHumanLE 4 3 (⟨-1, -1, 0, 1, 1, 0, 1, 0, 0⟩ : Board) (⟨-1, -1, -1, 1, 1, 0, 1, 0, 0⟩ : Board) (XScore.fin 0) 0 2 rfl rfl (of_decide_eq_true rfl) rfl
    certLE0395

theorem certLE0397 : XScore.ble ((minimax 3 (⟨-1, -1, -1, 1, 0, 1, 1, 0, 0⟩ : Board) COMP).1.2.2) (XScore.fin 0) = true :=
  leafLE 3 (⟨-1, -1, -1, 1, 0, 1, 1, 0, 0⟩ : Board) COMP (XScore.fin 0) (Or.inr rfl) rfl

theorem certLE0398 : XScore.ble ((minimax 4 (⟨-1, -1, 0, 1, 0, 1, 1, 0, 0⟩ : Board) HUMAN).1.2.2) (XScore.fin 0) = true :=
  nodeHumanLE 4 3 (⟨-1, -1, 0, 1, 0, 1, 1, 0, 0⟩ : Board) (⟨-1, -1, -1, 1, 0, 1, 1, 0, 0⟩ : Board) (XScore.fin 0) 0 2 rfl rfl (of_decide_eq_true rfl) rfl
    certLE0397

theorem certLE0399 : XScore.ble ((minimax 3 (⟨-1, -1, -1, 1, 0, 0, 1, 1, 0⟩ : Board) COMP).1.2.2) (XScore.fin 0) = true :=
  leafLE 3 (⟨-1, -1, -1, 1, 0, 0, 1, 1, 0⟩ : Board) COMP (XScore.fin 0) (Or.inr rfl) rfl

theorem certLE0400 : XScore.ble ((minimax 4 (⟨-1, -1, 0, 1, 0, 0, 1, 1, 0⟩ : Board) HUMAN).1.2.2) (XScore.fin 0) = true :=
  nodeHumanLE 4 3 (⟨-1, -1, 0, 1, 0, 0, 1, 1, 0⟩ : Board) (⟨-1, -1, -1, 1, 0, 0, 1, 1, 0⟩ : Board) (XScore.fin 0) 0 2 rfl rfl (of_decide_eq_true rfl) rfl
    certLE0399

theorem certLE0401 : XScore.ble ((minimax 3 (⟨-1, -1, -1, 1, 0, 0, 1, 0, 1⟩ : Board) COMP).1.2.2) (XScore.fin 0) = true :=
  leafLE 3 (⟨-1, -1, -1, 1, 0, 0, 1, 0, 1⟩ : Board) COMP (XScore.fin 0) (Or.inr rfl) rfl

theorem certLE0402 : XScore.ble ((minimax 4 (⟨-1, -1, 0, 1, 0, 0, 1, 0, 1⟩ : Board) HUMAN).1.2.2) (XScore.fin 0) = true :=
  nodeHumanLE 4 3 (⟨-1, -1, 0, 1, 0, 0, 1, 0, 1⟩ : Board) (⟨-1, -1, -1, 1, 0, 0, 1, 0, 1⟩ : Board) (XScore.fin 0) 0 2 rfl rfl (of_decide_eq_true rfl) rfl
    certLE0401

theorem certLE0403 : XScore.ble ((minimax 5 (⟨-1, -1, 0, 1, 0, 0, 1, 0, 0⟩ : Board) COMP).1.2.2) (XScore.fin 0) = true :=
  nodeCompLE 5 4 (⟨-1, -1, 0, 1, 0, 0, 1, 0, 0⟩ : Board) (XScore.fin 0)
    [(⟨-1, -1, 1, 1, 0, 0, 1, 0, 0⟩ : Board),
     (⟨-1, -1, 0, 1, 1, 0, 1, 0, 0⟩ : Board),
     (⟨-1, -1, 0, 1, 0, 1, 1, 0, 0⟩ : Board),
     (⟨-1, -1, 0, 1, 0, 0, 1, 1, 0⟩ : Board),
     (⟨-1, -1, 0, 1, 0, 0, 1, 0, 1⟩ : Board)]
    rfl rfl rfl
    ⟨certLE0394, certLE0396, certLE0398, certLE0400, certLE0402, True.intro⟩

theorem certLE0404 : XScore.ble ((minimax 6 (⟨-1, 0, 0, 1, 0, 0, 1, 0, 0⟩ : Board) HUMAN).1.2.2) (XScore.fin 0) = true :=
  nodeHumanLE 6 5 (⟨-1, 0, 0, 1, 0, 0, 1, 0, 0⟩ : Board) (⟨-1, -1, 0, 1, 0, 0, 1, 0, 0⟩ : Board) (XScore.fin 0) 0 1 rfl rfl (of_decide_eq_true rfl) rfl
    certLE0403

theorem certLE0405 : XScore.ble ((minimax 4 (⟨-1, 1, -1, 1, 0, 0, 0, 1, 0⟩ : Board) HUMAN).1.2.2) (XScore.fin 0) = true :=
  nodeHumanLE 4 3 (⟨-1, 1, -1, 1, 0, 0, 0, 1, 0⟩ : Board) (⟨-1, 1, -1, 1, -1, 0, 0, 1, 0⟩ : Board) (XScore.fin 0) 1 1 rfl rfl (of_decide_eq_true rfl) rfl
    certLE0183

theorem certLE0406 : XScore.ble ((minimax 3 (⟨-1, -1, -1, 1, 1, 0, 0, 1, 0⟩ : Board) COMP).1.2.2) (XScore.fin 0) = true :=
  leafLE 3 (⟨-1, -1, -1, 1, 1, 0, 0, 1, 0⟩ : Board) COMP (XScore.fin 0) (Or.inr rfl) rfl

theorem certLE0407 : XScore.ble ((minimax 4 (⟨-1, 0, -1, 1, 1, 0, 0, 1, 0⟩ : Board) HUMAN).1.2.2) (XScore.fin 0) = true :=
  nodeHumanLE 4 3 (⟨-1, 0, -1, 1, 1, 0, 0, 1, 0⟩ : Board) (⟨-1, -1, -1, 1, 1, 0, 0, 1, 0⟩ : Board) (XScore.fin 0) 0 1 rfl rfl (of_decide_eq_true rfl) rfl
    certLE0406

theorem certLE0408 : XScore.ble ((minimax 3 (⟨-1, -1, -1, 1, 0, 1, 0, 1, 0⟩ : Board) COMP).1.2.2) (XScore.fin 0) = true :=
  leafLE 3 (⟨-1, -1, -1, 1, 0, 1, 0, 1, 0⟩ : Board) COMP (XScore.fin 0) (Or.inr rfl) rfl

theorem certLE0409 : XScore.ble ((minimax 4 (⟨-1, 0, -1, 1, 0, 1, 0, 1, 0⟩ : Board) HUMAN).1.2.2) (XScore.fin 0) = true :=
  nodeHumanLE 4 3 (⟨-1, 0, -1, 1, 0, 1, 0, 1, 0⟩ : Board) (⟨-1, -1, -1, 1, 0, 1, 0, 1, 0⟩ : Board) (XScore.fin 0) 0 1 rfl rfl (of_decide_eq_true rfl) rfl
    certLE0408

theorem certLE0410 : XScore.ble ((minimax 4 (⟨-1, 0, -1, 1, 0, 0, 1, 1, 0⟩ : Board) HUMAN).1.2.2) (XScore.fin 0) = true :=
  nodeHumanLE 4 3 (⟨-1, 0, -1, 1, 0, 0, 1, 1, 0⟩ : Board) (⟨-1, -1, -1, 1, 0, 0, 1, 1, 0⟩ : Board) (XScore.fin 0) 0 1 rfl rfl (of_decide_eq_true rfl) rfl
    certLE0399

theorem certLE0411 : XScore.ble ((minimax 3 (⟨-1, -1, -1, 1, 0, 0, 0, 1, 1⟩ : Board) COMP).1.2.2) (XScore.fin 0) = true :=
  leafLE 3 (⟨-1, -1, -1, 1, 0, 0, 0, 1, 1⟩ : Board) COMP (XScore.fin 0) (Or.inr rfl) rfl

theorem certLE0412 : XScore.ble ((minimax 4 (⟨-1, 0, -1, 1, 0, 0, 0, 1, 1⟩ : Board) HUMAN).1.2.2) (XScore.fin 0) = true :=
  nodeHumanLE 4 3 (⟨-1, 0, -1, 1, 0, 0, 0, 1, 1⟩ : Board) (⟨-1, -1, -1, 1, 0, 0, 0, 1, 1⟩ : Board) (XScore.fin 0) 0 1 rfl rfl (of_decide_eq_true rfl) rfl
    certLE0411

theorem certLE0413 : XScore.ble ((minimax 5 (⟨-1, 0, -1, 1, 0, 0, 0, 1, 0⟩ : Board) COMP).1.2.2) (XScore.fin 0) = true :=
  nodeCompLE 5 4 (⟨-1, 0, -1, 1, 0, 0, 0, 1, 0⟩ : Board) (XScore.fin 0)
    [(⟨-1, 1, -1, 1, 0, 0, 0, 1, 0⟩ : Board),
     (⟨-1, 0, -1, 1, 1, 0, 0, 1, 0⟩ : Board),
     (⟨-1, 0, -1, 1, 0, 1, 0, 1, 0⟩ : Board),
     (⟨-1, 0, -1, 1, 0, 0, 1, 1, 0⟩ : Board),
     (⟨-1, 0, -1, 1, 0, 0, 0, 1, 1⟩ : Board)]
    rfl rfl rfl
    ⟨certLE0405, certLE0407, certLE0409, certLE0410, certLE0412, True.intro⟩

theorem certLE0414 : XScore.ble ((minimax 6 (⟨-1, 0, 0, 1, 0, 0, 0, 1, 0⟩ : Board) HUMAN).1.2.2) (XScore.fin 0) = true :=
  nodeHumanLE 6 5 (⟨-1, 0, 0, 1, 0, 0, 0, 1, 0⟩ : Board) (⟨-1, 0, -1, 1, 0, 0, 0, 1, 0⟩ : Board) (XScore.fin 0) 0 2 rfl rfl (of_decide_eq_true rfl) rfl
    certLE0413

theorem certLE0415 : XScore.ble ((minimax 4 (⟨-1, 1, -1, 1, 0, 0, 0, 0, 1⟩ : Board) HUMAN).1.2.2) (XScore.fin 0) = true :=
  nodeHumanLE 4 3 (⟨-1, 1, -1, 1, 0, 0, 0, 0, 1⟩ : Board) (⟨-1, 1, -1, 1, -1, 0, 0, 0, 1⟩ : Board) (XScore.fin 0) 1 1 rfl rfl (of_decide_eq_true rfl) rfl
    certLE0185

theorem certLE0416 : XScore.ble ((minimax 3 (⟨-1, -1, -1, 1, 1, 0, 0, 0, 1⟩ : Board) COMP).1.2.2) (XScore.fin 0) = true :=
  leafLE 3 (⟨-1, -1, -1, 1, 1, 0, 0, 0, 1⟩ : Board) COMP (XScore.fin 0) (Or.inr rfl) rfl

theorem certLE0417 : XScore.ble ((minimax 4 (⟨-1, 0, -1, 1, 1, 0, 0, 0, 1⟩ : Board) HUMAN).1.2.2) (XScore.fin 0) = true :=
  nodeHumanLE 4 3 (⟨-1, 0, -1, 1, 1, 0, 0, 0, 1⟩ : Board) (⟨-1, -1, -1, 1, 1, 0, 0, 0, 1⟩ : Board) (XScore.fin 0) 0 1 rfl rfl (of_decide_eq_true rfl) rfl
    certLE0416

theorem certLE0418 : XScore.ble ((minimax 3 (⟨-1, -1, -1, 1, 0, 1, 0, 0, 1⟩ : Board) COMP).1.2.2) (XScore.fin 0) = true :=
  leafLE 3 (⟨-1, -1, -1, 1, 0, 1, 0, 0, 1⟩ : Board) COMP (XScore.fin 0) (Or.inr rfl) rfl

theorem certLE0419 : XScore.ble ((minimax 4 (⟨-1, 0, -1, 1, 0, 1, 0, 0, 1⟩ : Board) HUMAN).1.2.2) (XScore.fin 0) = true :=
  nodeHumanLE 4 3 (⟨-1, 0, -1, 1, 0, 1, 0, 0, 1⟩ : Board) (⟨-1, -1, -1, 1, 0, 1, 0, 0, 1⟩ : Board) (XScore.fin 0) 0 1 rfl rfl (of_decide_eq_true rfl) rfl
    certLE0418

theorem certLE0420 : XScore.ble ((minimax 4 (⟨-1, 0, -1, 1, 0, 0, 1, 0, 1⟩ : Board) HUMAN).1.2.2) (XScore.fin 0) = true :=
  nodeHumanLE 4 3 (⟨-1, 0, -1, 1, 0, 0, 1, 0, 1⟩ : Board) (⟨-1, -1, -1, 1, 0, 0, 1, 0, 1⟩ : Board) (XScore.fin 0) 0 1 rfl rfl (of_decide_eq_true rfl) rfl
    certLE0401

theorem certLE0421 : XScore.ble ((minimax 5 (⟨-1, 0, -1, 1, 0, 0, 0, 0, 1⟩ : Board) COMP).1.2.2) (XScore.fin 0) = true :=
  nodeCompLE 5 4 (⟨-1, 0, -1, 1, 0, 0, 0, 0, 1⟩ : Board) (XScore.fin 0)
    [(⟨-1, 1, -1, 1, 0, 0, 0, 0, 1⟩ : Board),
     (⟨-1, 0, -1, 1, 1, 0, 0, 0, 1⟩ : Board),
     (⟨-1, 0, -1, 1, 0, 1, 0, 0, 1⟩ : Board),
     (⟨-1, 0, -1, 1, 0, 0, 1, 0, 1⟩ : Board),
     (⟨-1, 0, -1, 1, 0, 0, 0, 1, 1⟩ : Board)]
    rfl rfl rfl
    ⟨certLE0415, certLE0417, certLE0419, certLE0420, certLE0412, True.intro⟩

theorem certLE0422 : XScore.ble ((minimax 6 (⟨-1, 0, 0, 1, 0, 0, 0, 0, 1⟩ : Board) HUMAN).1.2.2) (XScore.fin 0) = true :=
  nodeHumanLE 6 5 (⟨-1, 0, 0, 1, 0, 0, 0, 0, 1⟩ : Board) (⟨-1, 0, -1, 1, 0, 0, 0, 0, 1⟩ : Board) (XScore.fin 0) 0 2 rfl rfl (of_decide_eq_true rfl) rfl
    certLE0421

theorem certLE0423 : XScore.ble ((minimax 7 (⟨-1, 0, 0, 1, 0, 0, 0, 0, 0⟩ : Board) COMP).1.2.2) (XScore.fin 0) = true :=
  nodeCompLE 7 6 (⟨-1, 0, 0, 1, 0, 0, 0, 0, 0⟩ : Board) (XScore.fin 0)
    [(⟨-1, 1, 0, 1, 0, 0, 0, 0, 0⟩ : Board),
     (⟨-1, 0, 1, 1, 0, 0, 0, 0, 0⟩ : Board),
     (⟨-1, 0, 0, 1, 1, 0, 0, 0, 0⟩ : Board),
     (⟨-1, 0, 0, 1, 0, 1, 0, 0, 0⟩ : Board),
     (⟨-1, 0, 0, 1, 0, 0, 1, 0, 0⟩ : Board),
     (⟨-1, 0, 0, 1, 0, 0, 0, 1, 0⟩ : Board),
     (⟨-1, 0, 0, 1, 0, 0, 0, 0, 1⟩ : Board)]
    rfl rfl rfl
    ⟨certLE0188, certLE0347, certLE0375, certLE0393, certLE0404, certLE0414, certLE0422, True.intro⟩

theorem certLE0424 : XScore.ble ((minimax 8 (⟨0, 0, 0, 1, 0, 0, 0, 0, 0⟩ : Board) HUMAN).1.2.2) (XScore.fin 0) = true :=
  nodeHumanLE 8 7 (⟨0, 0, 0, 1, 0, 0, 0, 0, 0⟩ : Board) (⟨-1, 0, 0, 1, 0, 0, 0, 0, 0⟩ : Board) (XScore.fin 0) 0 0 rfl rfl (of_decide_eq_true rfl) rfl
    certLE0423

theorem certLE0425 : XScore.ble ((minimax 4 (⟨-1, 1, 1, 0, 1, 0, -1, 0, 0⟩ : Board) HUMAN).1.2.2) (XScore.fin 0) = true :=
  nodeHumanLE 4 3 (⟨-1, 1, 1, 0, 1, 0, -1, 0, 0⟩ : Board) (⟨-1, 1, 1, -1, 1, 0, -1, 0, 0⟩ : Board) (XScore.fin 0) 1 0 rfl rfl (of_decide_eq_true rfl) rfl
    certLE0130

theorem certLE0426 : XScore.ble ((minimax 4 (⟨-1, 0, 1, 1, 1, 0, -1, 0, 0⟩ : Board) HUMAN).1.2.2) (XScore.fin 0) = true :=
  nodeHumanLE 4 3 (⟨-1, 0, 1, 1, 1, 0, -1, 0, 0⟩ : Board) (⟨-1, 0, 1, 1, 1, -1, -1, 0, 0⟩ : Board) (XScore.fin 0) 1 2 rfl rfl (of_decide_eq_true rfl) rfl
    certLE0355

theorem certLE0427 : XScore.ble ((minimax 3 (⟨-1, 0, 1, -1, 1, 1, -1, 0, 0⟩ : Board) COMP).1.2.2) (XScore.fin 0) = true :=
  leafLE 3 (⟨-1, 0, 1, -1, 1, 1, -1, 0, 0⟩ : Board) COMP (XScore.fin 0) (Or.inr rfl) rfl

theorem certLE0428 : XScore.ble ((minimax 4 (⟨-1, 0, 1, 0, 1, 1, -1, 0, 0⟩ : Board) HUMAN).1.2.2) (XScore.fin 0) = true :=
  nodeHumanLE 4 3 (⟨-1, 0, 1, 0, 1, 1, -1, 0, 0⟩ : Board) (⟨-1, 0, 1, -1, 1, 1, -1, 0, 0⟩ : Board) (XScore.fin 0) 1 0 rfl rfl (of_decide_eq_true rfl) rfl
    certLE0427

theorem certLE0429 : XScore.ble ((minimax 2 (⟨-1, -1, 1, 1, 1, 0, -1, 1, 0⟩ : Board) HUMAN).1.2.2) (XScore.fin 0) = true :=
  nodeHumanLE 2 1 (⟨-1, -1, 1, 1, 1, 0, -1, 1, 0⟩ : Board) (⟨-1, -1, 1, 1, 1, -1, -1, 1, 0⟩ : Board) (XScore.fin 0) 1 2 rfl rfl (of_decide_eq_true rfl) rfl
    certLE0351

theorem certLE0430 : XScore.ble ((minimax 1 (⟨-1, -1, 1, -1, 1, 1, -1, 1, 0⟩ : Board) COMP).1.2.2) (XScore.fin 0) = true :=
  leafLE 1 (⟨-1, -1, 1, -1, 1, 1, -1, 1, 0⟩ : Board) COMP (XScore.fin 0) (Or.inr rfl) rfl

theorem certLE0431 : XScore.ble ((minimax 2 (⟨-1, -1, 1, 0, 1, 1, -1, 1, 0⟩ : Board) HUMAN).1.2.2) (XScore.fin 0) = true :=
  nodeHumanLE 2 1 (⟨-1, -1, 1, 0, 1, 1, -1, 1, 0⟩ : Board) (⟨-1, -1, 1, -1, 1, 1, -1, 1, 0⟩ : Board) (XScore.fin 0) 1 0 rfl rfl (of_decide_eq_true rfl) rfl
    certLE0430

theorem certLE0432 : XScore.ble ((minimax 1 (⟨-1, -1, 1, -1, 1, 0, -1, 1, 1⟩ : Board) COMP).1.2.2) (XScore.fin 0) = true :=
  leafLE 1 (⟨-1, -1, 1, -1, 1, 0, -1, 1, 1⟩ : Board) COMP (XScore.fin 0) (Or.inr rfl) rfl

theorem certLE0433 : XScore.ble ((minimax 2 (⟨-1, -1, 1, 0, 1, 0, -1, 1, 1⟩ : Board) HUMAN).1.2.2) (XScore.fin 0) = true :=
  nodeHumanLE 2 1 (⟨-1, -1, 1, 0, 1, 0, -1, 1, 1⟩ : Board) (⟨-1, -1, 1, -1, 1, 0, -1, 1, 1⟩ : Board) (XScore.fin 0) 1 0 rfl rfl (of_decide_eq_true rfl) rfl
    certLE0432

theorem certLE0434 : XScore.ble ((minimax 3 (⟨-1, -1, 1, 0, 1, 0, -1, 1, 0⟩ : Board) COMP).1.2.2) (XScore.fin 0) = true :=
  nodeCompLE 3 2 (⟨-1, -1, 1, 0, 1, 0, -1, 1, 0⟩ : Board) (XScore.fin 0)
    [(⟨-1, -1, 1, 1, 1, 0, -1, 1, 0⟩ : Board),
     (⟨-1, -1, 1, 0, 1, 1, -1, 1, 0⟩ : Board),
     (⟨-1, -1, 1, 0, 1, 0, -1, 1, 1⟩ : Board)]
    rfl rfl rfl
    ⟨certLE0429, certLE0431, certLE0433, True.intro⟩

theorem certLE0435 : XScore.ble ((minimax 4 (⟨-1, 0, 1, 0, 1, 0, -1, 1, 0⟩ : Board) HUMAN).1.2.2) (XScore.fin 0) = true :=
  nodeHumanLE 4 3 (⟨-1, 0, 1, 0, 1, 0, -1, 1, 0⟩ : Board) (⟨-1, -1, 1, 0, 1, 0, -1, 1, 0⟩ : Board) (XScore.fin 0) 0 1 rfl rfl (of_decide_eq_true rfl) rfl
    certLE0434

theorem certLE0436 : XScore.ble ((minimax 3 (⟨-1, 0, 1, -1, 1, 0, -1, 0, 1⟩ : Board) COMP).1.2.2) (XScore.fin 0) = true :=
  leafLE 3 (⟨-1, 0, 1, -1, 1, 0, -1, 0, 1⟩ : Board) COMP (XScore.fin 0) (Or.inr rfl) rfl

theorem certLE0437 : XScore.ble ((minimax 4 (⟨-1, 0, 1, 0, 1, 0, -1, 0, 1⟩ : Board) HUMAN).1.2.2) (XScore.fin 0) = true :=
  nodeHumanLE 4 3 (⟨-1, 0, 1, 0, 1, 0, -1, 0, 1⟩ : Board) (⟨-1, 0, 1, -1, 1, 0, -1, 0, 1⟩ : Board) (XScore.fin 0) 1 0 rfl rfl (of_decide_eq_true rfl) rfl
    certLE0436

theorem certLE0438 : XScore.ble ((minimax 5 (⟨-1, 0, 1, 0, 1, 0, -1, 0, 0⟩ : Board) COMP).1.2.2) (XScore.fin 0) = true :=
  nodeCompLE 5 4 (⟨-1, 0, 1, 0, 1, 0, -1, 0, 0⟩ : Board) (XScore.fin 0)
    [(⟨-1, 1, 1, 0, 1, 0, -1, 0, 0⟩ : Board),
     (⟨-1, 0, 1, 1, 1, 0, -1, 0, 0⟩ : Board),
     (⟨-1, 0, 1, 0, 1, 1, -1, 0, 0⟩ : Board),
     (⟨-1, 0, 1, 0, 1, 0, -1, 1, 0⟩ : Board),
     (⟨-1, 0, 1, 0, 1, 0, -1, 0, 1⟩ : Board)]
    rfl rfl rfl
    ⟨certLE0425, certLE0426, certLE0428, certLE0435, certLE0437, True.intro⟩

theorem certLE0439 : XScore.ble ((minimax 6 (⟨-1, 0, 1, 0, 1, 0, 0, 0, 0⟩ : Board) HUMAN).1.2.2) (XScore.fin 0) = true :=
  nodeHumanLE 6 5 (⟨-1, 0, 1, 0, 1, 0, 0, 0, 0⟩ : Board) (⟨-1, 0, 1, 0, 1, 0, -1, 0, 0⟩ : Board) (XScore.fin 0) 2 0 rfl rfl (of_decide_eq_true rfl) rfl
    certLE0438

theorem certLE0440 : XScore.ble ((minimax 3 (⟨-1, 1, 0, -1, 1, 1, -1, 0, 0⟩ : Board) COMP).1.2.2) (XScore.fin 0) = true :=
  leafLE 3 (⟨-1, 1, 0, -1, 1, 1, -1, 0, 0⟩ : Board) COMP (XScore.fin 0) (Or.inr rfl) rfl

theorem certLE0441 : XScore.ble ((minimax 4 (⟨-1, 1, 0, -1, 1, 1, 0, 0, 0⟩ : Board) HUMAN).1.2.2) (XScore.fin 0) = true :=
  nodeHumanLE 4 3 (⟨-1, 1, 0, -1, 1, 1, 0, 0, 0⟩ : Board) (⟨-1, 1, 0, -1, 1, 1, -1, 0, 0⟩ : Board) (XScore.fin 0) 2 0 rfl rfl (of_decide_eq_true rfl) rfl
    certLE0440

theorem certLE0442 : XScore.ble ((minimax 4 (⟨-1, 0, 1, -1, 1, 1, 0, 0, 0⟩ : Board) HUMAN).1.2.2) (XScore.fin 0) = true :=
  nodeHumanLE 4 3 (⟨-1, 0, 1, -1, 1, 1, 0, 0, 0⟩ : Board) (⟨-1, 0, 1, -1, 1, 1, -1, 0, 0⟩ : Board) (XScore.fin 0) 2 0 rfl rfl (of_decide_eq_true rfl) rfl
    certLE0427

theorem certLE0443 : XScore.ble ((minimax 2 (⟨-1, 1, -1, -1, 1, 1, 1, 0, 0⟩ : Board) HUMAN).1.2.2) (XScore.fin 0) = true :=
  nodeHumanLE 2 1 (⟨-1, 1, -1, -1, 1, 1, 1, 0, 0⟩ : Board) (⟨-1, 1, -1, -1, 1, 1, 1, -1, 0⟩ : Board) (XScore.fin 0) 2 1 rfl rfl (of_decide_eq_true rfl) rfl
    certLE0208

theorem certLE0444 : XScore.ble ((minimax 1 (⟨-1, -1, -1, -1, 1, 1, 1, 1, 0⟩ : Board) COMP).1.2.2) (XScore.fin 0) = true :=
  leafLE 1 (⟨-1, -1, -1, -1, 1, 1, 1, 1, 0⟩ : Board) COMP (XScore.fin 0) (Or.inr rfl) rfl

theorem certLE0445 : XScore.ble ((minimax 2 (⟨-1, 0, -1, -1, 1, 1, 1, 1, 0⟩ : Board) HUMAN).1.2.2) (XScore.fin 0) = true :=
  nodeHumanLE 2 1 (⟨-1, 0, -1, -1, 1, 1, 1, 1, 0⟩ : Board) (⟨-1, -1, -1, -1, 1, 1, 1, 1, 0⟩ : Board) (XScore.fin 0) 0 1 rfl rfl (of_decide_eq_true rfl) rfl
    certLE0444

theorem certLE0446 : XScore.ble ((minimax 1 (⟨-1, -1, -1, -1, 1, 1, 1, 0, 1⟩ : Board) COMP).1.2.2) (XScore.fin 0) = true :=
  leafLE 1 (⟨-1, -1, -1, -1, 1, 1, 1, 0, 1⟩ : Board) COMP (XScore.fin 0) (Or.inr rfl) rfl

theorem certLE0447 : XScore.ble ((minimax 2 (⟨-1, 0, -1, -1, 1, 1, 1, 0, 1⟩ : Board) HUMAN).1.2.2) (XScore.fin 0) = true :=
  nodeHumanLE 2 1 (⟨-1, 0, -1, -1, 1, 1, 1, 0, 1⟩ : Board) (⟨-1, -1, -1, -1, 1, 1, 1, 0, 1⟩ : Board) (XScore.fin 0) 0 1 rfl rfl (of_decide_eq_true rfl) rfl
    certLE0446

theorem certLE0448 : XScore.ble ((minimax 3 (⟨-1, 0, -1, -1, 1, 1, 1, 0, 0⟩ : Board) COMP).1.2.2) (XScore.fin 0) = true :=
  nodeCompLE 3 2 (⟨-1, 0, -1, -1, 1, 1, 1, 0, 0⟩ : Board) (XScore.fin 0)
    [(⟨-1, 1, -1, -1, 1, 1, 1, 0, 0⟩ : Board),
     (⟨-1, 0, -1, -1, 1, 1, 1, 1, 0⟩ : Board),
     (⟨-1, 0, -1, -1, 1, 1, 1, 0, 1⟩ : Board)]
    rfl rfl rfl
    ⟨certLE0443, certLE0445, certLE0447, True.intro⟩

theorem certLE0449 : XScore.ble ((minimax 4 (⟨-1, 0, 0, -1, 1, 1, 1, 0, 0⟩ : Board) HUMAN).1.2.2) (XScore.fin 0) = true :=
  nodeHumanLE 4 3 (⟨-1, 0, 0, -1, 1, 1, 1, 0, 0⟩ : Board) (⟨-1, 0, -1, -1, 1, 1, 1, 0, 0⟩ : Board) (XScore.fin 0) 0 2 rfl rfl (of_decide_eq_true rfl) rfl
    certLE0448

theorem certLE0450 : XScore.ble ((minimax 2 (⟨-1, -1, 1, -1, 1, 1, 0, 1, 0⟩ : Board) HUMAN).1.2.2) (XScore.fin 0) = true :=
  nodeHumanLE 2 1 (⟨-1, -1, 1, -1, 1, 1, 0, 1, 0⟩ : Board) (⟨-1, -1, 1, -1, 1, 1, -1, 1, 0⟩ : Board) (XScore.fin 0) 2 0 rfl rfl (of_decide_eq_true rfl) rfl
    certLE0430

theorem certLE0451 : XScore.ble ((minimax 2 (⟨-1, -1, 0, -1, 1, 1, 1, 1, 0⟩ : Board) HUMAN).1.2.2) (XScore.fin 0) = true :=
  nodeHumanLE 2 1 (⟨-1, -1, 0, -1, 1, 1, 1, 1, 0⟩ : Board) (⟨-1, -1, -1, -1, 1, 1, 1, 1, 0⟩ : Board) (XScore.fin 0) 0 2 rfl rfl (of_decide_eq_true rfl) rfl
    certLE0444

theorem certLE0452 : XScore.ble ((minimax 1 (⟨-1, -1, -1, -1, 1, 1, 0, 1, 1⟩ : Board) COMP).1.2.2) (XScore.fin 0) = true :=
  leafLE 1 (⟨-1, -1, -1, -1, 1, 1, 0, 1, 1⟩ : Board) COMP (XScore.fin 0) (Or.inr rfl) rfl

theorem certLE0453 : XScore.ble ((minimax 2 (⟨-1, -1, 0, -1, 1, 1, 0, 1, 1⟩ : Board) HUMAN).1.2.2) (XScore.fin 0) = true :=
  nodeHumanLE 2 1 (⟨-1, -1, 0, -1, 1, 1, 0, 1, 1⟩ : Board) (⟨-1, -1, -1, -1, 1, 1, 0, 1, 1⟩ : Board) (XScore.fin 0) 0 2 rfl rfl (of_decide_eq_true rfl) rfl
    certLE0452

theorem certLE0454 : XScore.ble ((minimax 3 (⟨-1, -1, 0, -1, 1, 1, 0, 1, 0⟩ : Board) COMP).1.2.2) (XScore.fin 0) = true :=
  nodeCompLE 3 2 (⟨-1, -1, 0, -1, 1, 1, 0, 1, 0⟩ : Board) (XScore.fin 0)
    [(⟨-1, -1, 1, -1, 1, 1, 0, 1, 0⟩ : Board),
     (⟨-1, -1, 0, -1, 1, 1, 1, 1, 0⟩ : Board),
     (⟨-1, -1, 0, -1, 1, 1, 0, 1, 1⟩ : Board)]
    rfl rfl rfl
    ⟨certLE0450, certLE0451, certLE0453, True.intro⟩

theorem certLE0455 : XScore.ble ((minimax 4 (⟨-1, 0, 0, -1, 1, 1, 0, 1, 0⟩ : Board) HUMAN).1.2.2) (XScore.fin 0) = true :=
  nodeHumanLE 4 3 (⟨-1, 0, 0, -1, 1, 1, 0, 1, 0⟩ : Board) (⟨-1, -1, 0, -1, 1, 1, 0, 1, 0⟩ : Board) (XScore.fin 0) 0 1 rfl rfl (of_decide_eq_true rfl) rfl
    certLE0454

theorem certLE0456 : XScore.ble ((minimax 1 (⟨-1, 1, -1, -1, 1, 1, -1, 0, 1⟩ : Board) COMP).1.2.2) (XScore.fin 0) = true :=
  leafLE 1 (⟨-1, 1, -1, -1, 1, 1, -1, 0, 1⟩ : Board) COMP (XScore.fin 0) (Or.inr rfl) rfl

theorem certLE0457 : XScore.ble ((minimax 2 (⟨-1, 1, -1, -1, 1, 1, 0, 0, 1⟩ : Board) HUMAN).1.2.2) (XScore.fin 0) = true :=
  nodeHumanLE 2 1 (⟨-1, 1, -1, -1, 1, 1, 0, 0, 1⟩ : Board) (⟨-1, 1, -1, -1, 1, 1, -1, 0, 1⟩ : Board) (XScore.fin 0) 2 0 rfl rfl (of_decide_eq_true rfl) rfl
    certLE0456

theorem certLE0458 : XScore.ble ((minimax 2 (⟨-1, 0, -1, -1, 1, 1, 0, 1, 1⟩ : Board) HUMAN).1.2.2) (XScore.fin 0) = true :=
  nodeHumanLE 2 1 (⟨-1, 0, -1, -1, 1, 1, 0, 1, 1⟩ : Board) (⟨-1, -1, -1, -1, 1, 1, 0, 1, 1⟩ : Board) (XScore.fin 0) 0 1 rfl rfl (of_decide_eq_true rfl) rfl
    certLE0452

theorem certLE0459 : XScore.ble ((minimax 3 (⟨-1, 0, -1, -1, 1, 1, 0, 0, 1⟩ : Board) COMP).1.2.2) (XScore.fin 0) = true :=
  nodeCompLE 3 2 (⟨-1, 0, -1, -1, 1, 1, 0, 0, 1⟩ : Board) (XScore.fin 0)
    [(⟨-1, 1, -1, -1, 1, 1, 0, 0, 1⟩ : Board),
     (⟨-1, 0, -1, -1, 1, 1, 1, 0, 1⟩ : Board),
     (⟨-1, 0, -1, -1, 1, 1, 0, 1, 1⟩ : Board)]
    rfl rfl rfl
    ⟨certLE0457, certLE0447, certLE0458, True.intro⟩

theorem certLE0460 : XScore.ble ((minimax 4 (⟨-1, 0, 0, -1, 1, 1, 0, 0, 1⟩ : Board) HUMAN).1.2.2) (XScore.fin 0) = true :=
  nodeHumanLE 4 3 (⟨-1, 0, 0, -1, 1, 1, 0, 0, 1⟩ : Board) (⟨-1, 0, -1, -1, 1, 1, 0, 0, 1⟩ : Board) (XScore.fin 0) 0 2 rfl rfl (of_decide_eq_true rfl) rfl
    certLE0459

theorem certLE0461 : XScore.ble ((minimax 5 (⟨-1, 0, 0, -1, 1, 1, 0, 0, 0⟩ : Board) COMP).1.2.2) (XScore.fin 0) = true :=
  nodeCompLE 5 4 (⟨-1, 0, 0, -1, 1, 1, 0, 0, 0⟩ : Board) (XScore.fin 0)
    [(⟨-1, 1, 0, -1, 1, 1, 0, 0, 0⟩ : Board),
     (⟨-1, 0, 1, -1, 1, 1, 0, 0, 0⟩ : Board),
     (⟨-1, 0, 0, -1, 1, 1, 1, 0, 0⟩ : Board),
     (⟨-1, 0, 0, -1, 1, 1, 0, 1, 0⟩ : Board),
     (⟨-1, 0, 0, -1, 1, 1, 0, 0, 1⟩ : Board)]
    rfl rfl rfl
    ⟨certLE0441, certLE0442, certLE0449, certLE0455, certLE0460, True.intro⟩

theorem certLE0462 : XScore.ble ((minimax 6 (⟨-1, 0, 0, 0, 1, 1, 0, 0, 0⟩ : Board) HUMAN).1.2.2) (XScore.fin 0) = true :=
  nodeHumanLE 6 5 (⟨-1, 0, 0, 0, 1, 1, 0, 0, 0⟩ : Board) (⟨-1, 0, 0, -1, 1, 1, 0, 0, 0⟩ : Board) (XScore.fin 0) 1 0 rfl rfl (of_decide_eq_true rfl) rfl
    certLE0461

theorem certLE0463 : XScore.ble ((minimax 4 (⟨-1, 1, -1, 0, 1, 0, 1, 0, 0⟩ : Board) HUMAN).1.2.2) (XScore.fin 0) = true :=
  nodeHumanLE 4 3 (⟨-1, 1, -1, 0, 1, 0, 1, 0, 0⟩ : Board) (⟨-1, 1, -1, 0, 1, 0, 1, -1, 0⟩ : Board) (XScore.fin 0) 2 1 rfl rfl (of_decide_eq_true rfl) rfl
    certLE0218

theorem certLE0464 : XScore.ble ((minimax 4 (⟨-1, 0, -1, 1, 1, 0, 1, 0, 0⟩ : Board) HUMAN).1.2.2) (XScore.fin 0) = true :=
  nodeHumanLE 4 3 (⟨-1, 0, -1, 1, 1, 0, 1, 0, 0⟩ : Board) (⟨-1, -1, -1, 1, 1, 0, 1, 0, 0⟩ : Board) (XScore.fin 0) 0 1 rfl rfl (of_decide_eq_true rfl) rfl
    certLE0395

theorem certLE0465 : XScore.ble ((minimax 3 (⟨-1, -1, -1, 0, 1, 1, 1, 0, 0⟩ : Board) COMP).1.2.2) (XScore.fin 0) = true :=
  leafLE 3 (⟨-1, -1, -1, 0, 1, 1, 1, 0, 0⟩ : Board) COMP (XScore.fin 0) (Or.inr rfl) rfl

theorem certLE0466 : XScore.ble ((minimax 4 (⟨-1, 0, -1, 0, 1, 1, 1, 0, 0⟩ : Board) HUMAN).1.2.2) (XScore.fin 0) = true :=
  nodeHumanLE 4 3 (⟨-1, 0, -1, 0, 1, 1, 1, 0, 0⟩ : Board) (⟨-1, -1, -1, 0, 1, 1, 1, 0, 0⟩ : Board) (XScore.fin 0) 0 1 rfl rfl (of_decide_eq_true rfl) rfl
    certLE0465

theorem certLE0467 : XScore.ble ((minimax 3 (⟨-1, -1, -1, 0, 1, 0, 1, 1, 0⟩ : Board) COMP).1.2.2) (XScore.fin 0) = true :=
  leafLE 3 (⟨-1, -1, -1, 0, 1, 0, 1, 1, 0⟩ : Board) COMP (XScore.fin 0) (Or.inr rfl) rfl

theorem certLE0468 : XScore.ble ((minimax 4 (⟨-1, 0, -1, 0, 1, 0, 1, 1, 0⟩ : Board) HUMAN).1.2.2) (XScore.fin 0) = true :=
  nodeHumanLE 4 3 (⟨-1, 0, -1, 0, 1, 0, 1, 1, 0⟩ : Board) (⟨-1, -1, -1, 0, 1, 0, 1, 1, 0⟩ : Board) (XScore.fin 0) 0 1 rfl rfl (of_decide_eq_true rfl) rfl
    certLE0467

theorem certLE0469 : XScore.ble ((minimax 3 (⟨-1, -1, -1, 0, 1, 0, 1, 0, 1⟩ : Board) COMP).1.2.2) (XScore.fin 0) = true :=
  leafLE 3 (⟨-1, -1, -1, 0, 1, 0, 1, 0, 1⟩ : Board) COMP (XScore.fin 0) (Or.inr rfl) rfl

theorem certLE0470 : XScore.ble ((minimax 4 (⟨-1, 0, -1, 0, 1, 0, 1, 0, 1⟩ : Board) HUMAN).1.2.2) (XScore.fin 0) = true :=
  nodeHumanLE 4 3 (⟨-1, 0, -1, 0, 1, 0, 1, 0, 1⟩ : Board) (⟨-1, -1, -1, 0, 1, 0, 1, 0, 1⟩ : Board) (XScore.fin 0) 0 1 rfl rfl (of_decide_eq_true rfl) rfl
    certLE0469

theorem certLE0471 : XScore.ble ((minimax 5 (⟨-1, 0, -1, 0, 1, 0, 1, 0, 0⟩ : Board) COMP).1.2.2) (XScore.fin 0) = true :=
  nodeCompLE 5 4 (⟨-1, 0, -1, 0, 1, 0, 1, 0, 0⟩ : Board) (XScore.fin 0)
    [(⟨-1, 1, -1, 0, 1, 0, 1, 0, 0⟩ : Board),
     (⟨-1, 0, -1, 1, 1, 0, 1, 0, 0⟩ : Board),
     (⟨-1, 0, -1, 0, 1, 1, 1, 0, 0⟩ : Board),
     (⟨-1, 0, -1, 0, 1, 0, 1, 1, 0⟩ : Board),
     (⟨-1, 0, -1, 0, 1, 0, 1, 0, 1⟩ : Board)]
    rfl rfl rfl
    ⟨certLE0463, certLE0464, certLE0466, certLE0468, certLE0470, True.intro⟩

theorem certLE0472 : XScore.ble ((minimax 6 (⟨-1, 0, 0, 0, 1, 0, 1, 0, 0⟩ : Board) HUMAN).1.2.2) (XScore.fin 0) = true :=
  nodeHumanLE 6 5 (⟨-1, 0, 0, 0, 1, 0, 1, 0, 0⟩ : Board) (⟨-1, 0, -1, 0, 1, 0, 1, 0, 0⟩ : Board) (XScore.fin 0) 0 2 rfl rfl (of_decide_eq_true rfl) rfl
    certLE0471

theorem certLE0473 : XScore.ble ((minimax 4 (⟨-1, -1, 1, 0, 1, 0, 0, 1, 0⟩ : Board) HUMAN).1.2.2) (XScore.fin 0) = true :=
  nodeHumanLE 4 3 (⟨-1, -1, 1, 0, 1, 0, 0, 1, 0⟩ : Board) (⟨-1, -1, 1, 0, 1, 0, -1, 1, 0⟩ : Board) (XScore.fin 0) 2 0 rfl rfl (of_decide_eq_true rfl) rfl
    certLE0434

theorem certLE0474 : XScore.ble ((minimax 4 (⟨-1, -1, 0, 1, 1, 0, 0, 1, 0⟩ : Board) HUMAN).1.2.2) (XScore.fin 0) = true :=
  nodeHumanLE 4 3 (⟨-1, -1, 0, 1, 1, 0, 0, 1, 0⟩ : Board) (⟨-1, -1, -1, 1, 1, 0, 0, 1, 0⟩ : Board) (XScore.fin 0) 0 2 rfl rfl (of_decide_eq_true rfl) rfl
    certLE0406

theorem certLE0475 : XScore.ble ((minimax 3 (⟨-1, -1, -1, 0, 1, 1, 0, 1, 0⟩ : Board) COMP).1.2.2) (XScore.fin 0) = true :=
  leafLE 3 (⟨-1, -1, -1, 0, 1, 1, 0, 1, 0⟩ : Board) COMP (XScore.fin 0) (Or.inr rfl) rfl

theorem certLE0476 : XScore.ble ((minimax 4 (⟨-1, -1, 0, 0, 1, 1, 0, 1, 0⟩ : Board) HUMAN).1.2.2) (XScore.fin 0) = true :=
  nodeHumanLE 4 3 (⟨-1, -1, 0, 0, 1, 1, 0, 1, 0⟩ : Board) (⟨-1, -1, -1, 0, 1, 1, 0, 1, 0⟩ : Board) (XScore.fin 0) 0 2 rfl rfl (of_decide_eq_true rfl) rfl
    certLE0475

theorem certLE0477 : XScore.ble ((minimax 4 (⟨-1, -1, 0, 0, 1, 0, 1, 1, 0⟩ : Board) HUMAN).1.2.2) (XScore.fin 0) = true :=
  nodeHumanLE 4 3 (⟨-1, -1, 0, 0, 1, 0, 1, 1, 0⟩ : Board) (⟨-1, -1, -1, 0, 1, 0, 1, 1, 0⟩ : Board) (XScore.fin 0) 0 2 rfl rfl (of_decide_eq_true rfl) rfl
    certLE0467

theorem certLE0478 : XScore.ble ((minimax 3 (⟨-1, -1, -1, 0, 1, 0, 0, 1, 1⟩ : Board) COMP).1.2.2) (XScore.fin 0) = true :=
  leafLE 3 (⟨-1, -1, -1, 0, 1, 0, 0, 1, 1⟩ : Board) COMP (XScore.fin 0) (Or.inr rfl) rfl

theorem certLE0479 : XScore.ble ((minimax 4 (⟨-1, -1, 0, 0, 1, 0, 0, 1, 1⟩ : Board) HUMAN).1.2.2) (XScore.fin 0) = true :=
  nodeHumanLE 4 3 (⟨-1, -1, 0, 0, 1, 0, 0, 1, 1⟩ : Board) (⟨-1, -1, -1, 0, 1, 0, 0, 1, 1⟩ : Board) (XScore.fin 0) 0 2 rfl rfl (of_decide_eq_true rfl) rfl
    certLE0478

theorem certLE0480 : XScore.ble ((minimax 5 (⟨-1, -1, 0, 0, 1, 0, 0, 1, 0⟩ : Board) COMP).1.2.2) (XScore.fin 0) = true :=
  nodeCompLE 5 4 (⟨-1, -1, 0, 0, 1, 0, 0, 1, 0⟩ : Board) (XScore.fin 0)
    [(⟨-1, -1, 1, 0, 1, 0, 0, 1, 0⟩ : Board),
     (⟨-1, -1, 0, 1, 1, 0, 0, 1, 0⟩ : Board),
     (⟨-1, -1, 0, 0, 1, 1, 0, 1, 0⟩ : Board),
     (⟨-1, -1, 0, 0, 1, 0, 1, 1, 0⟩ : Board),
     (⟨-1, -1, 0, 0, 1, 0, 0, 1, 1⟩ : Board)]
    rfl rfl rfl
    ⟨certLE0473, certLE0474, certLE0476, certLE0477, certLE0479, True.intro⟩

theorem certLE0481 : XScore.ble ((minimax 6 (⟨-1, 0, 0, 0, 1, 0, 0, 1, 0⟩ : Board) HUMAN).1.2.2) (XScore.fin 0) = true :=
  nodeHumanLE 6 5 (⟨-1, 0, 0, 0, 1, 0, 0, 1, 0⟩ : Board) (⟨-1, -1, 0, 0, 1, 0, 0, 1, 0⟩ : Board) (XScore.fin 0) 0 1 rfl rfl (of_decide_eq_true rfl) rfl
    certLE0480

theorem certLE0482 : XScore.ble ((minimax 4 (⟨-1, 1, -1, 0, 1, 0, 0, 0, 1⟩ : Board) HUMAN).1.2.2) (XScore.fin 0) = true :=
  nodeHumanLE 4 3 (⟨-1, 1, -1, 0, 1, 0, 0, 0, 1⟩ : Board) (⟨-1, 1, -1, 0, 1, 0, 0, -1, 1⟩ : Board) (XScore.fin 0) 2 1 rfl rfl (of_decide_eq_true rfl) rfl
    certLE0222

theorem certLE0483 : XScore.ble ((minimax 3 (⟨-1, -1, -1, 0, 1, 1, 0, 0, 1⟩ : Board) COMP).1.2.2) (XScore.fin 0) = true :=
  leafLE 3 (⟨-1, -1, -1, 0, 1, 1, 0, 0, 1⟩ : Board) COMP (XScore.fin 0) (Or.inr rfl) rfl

theorem certLE0484 : XScore.ble ((minimax 4 (⟨-1, 0, -1, 0, 1, 1, 0, 0, 1⟩ : Board) HUMAN).1.2.2) (XScore.fin 0) = true :=
  nodeHumanLE 4 3 (⟨-1, 0, -1, 0, 1, 1, 0, 0, 1⟩ : Board) (⟨-1, -1, -1, 0, 1, 1, 0, 0, 1⟩ : Board) (XScore.fin 0) 0 1 rfl rfl (of_decide_eq_true rfl) rfl
    certLE0483

theorem certLE0485 : XScore.ble ((minimax 4 (⟨-1, 0, -1, 0, 1, 0, 0, 1, 1⟩ : Board) HUMAN).1.2.2) (XScore.fin 0) = true :=
  nodeHumanLE 4 3 (⟨-1, 0, -1, 0, 1, 0, 0, 1, 1⟩ : Board) (⟨-1, -1, -1, 0, 1, 0, 0, 1, 1⟩ : Board) (XScore.fin 0) 0 1 rfl rfl (of_decide_eq_true rfl) rfl
    certLE0478

theorem certLE0486 : XScore.ble ((minimax 5 (⟨-1, 0, -1, 0, 1, 0, 0, 0, 1⟩ : Board) COMP).1.2.2) (XScore.fin 0) = true :=
  nodeCompLE 5 4 (⟨-1, 0, -1, 0, 1, 0, 0, 0, 1⟩ : Board) (XScore.fin 0)
    [(⟨-1, 1, -1, 0, 1, 0, 0, 0, 1⟩ : Board),
     (⟨-1, 0, -1, 1, 1, 0, 0, 0, 1⟩ : Board),
     (⟨-1, 0, -1, 0, 1, 1, 0, 0, 1⟩ : Board),
     (⟨-1, 0, -1, 0, 1, 0, 1, 0, 1⟩ : Board),
     (⟨-1, 0, -1, 0, 1, 0, 0, 1, 1⟩ : Board)]
    rfl rfl rfl
    ⟨certLE0482, certLE0417, certLE0484, certLE0470, certLE0485, True.intro⟩

theorem certLE0487 : XScore.ble ((minimax 6 (⟨-1, 0, 0, 0, 1, 0, 0, 0, 1⟩ : Board) HUMAN).1.2.2) (XScore.fin 0) = true :=
  nodeHumanLE 6 5 (⟨-1, 0, 0, 0, 1, 0, 0, 0, 1⟩ : Board) (⟨-1, 0, -1, 0, 1, 0, 0, 0, 1⟩ : Board) (XScore.fin 0) 0 2 rfl rfl (of_decide_eq_true rfl) rfl
    certLE0486

theorem certLE0488 : XScore.ble ((minimax 7 (⟨-1, 0, 0, 0, 1, 0, 0, 0, 0⟩ : Board) COMP).1.2.2) (XScore.fin 0) = true :=
  nodeCompLE 7 6 (⟨-1, 0, 0, 0, 1, 0, 0, 0, 0⟩ : Board) (XScore.fin 0)
    [(⟨-1, 1, 0, 0, 1, 0, 0, 0, 0⟩ : Board),
     (⟨-1, 0, 1, 0, 1, 0, 0, 0, 0⟩ : Board),
     (⟨-1, 0, 0, 1, 1, 0, 0, 0, 0⟩ : Board),
     (⟨-1, 0, 0, 0, 1, 1, 0, 0, 0⟩ : Board),
     (⟨-1, 0, 0, 0, 1, 0, 1, 0, 0⟩ : Board),
     (⟨-1, 0, 0, 0, 1, 0, 0, 1, 0⟩ : Board),
     (⟨-1, 0, 0, 0, 1, 0, 0, 0, 1⟩ : Board)]
    rfl rfl rfl
    ⟨certLE0225, certLE0439, certLE0375, certLE0462, certLE0472, certLE0481, certLE0487, True.intro⟩

theorem certLE0489 : XScore.ble ((minimax 8 (⟨0, 0, 0, 0, 1, 0, 0, 0, 0⟩ : Board) HUMAN).1.2.2) (XScore.fin 0) = true :=
  nodeHumanLE 8 7 (⟨0, 0, 0, 0, 1, 0, 0, 0, 0⟩ : Board) (⟨-1, 0, 0, 0, 1, 0, 0, 0, 0⟩ : Board) (XScore.fin 0) 0 0 rfl rfl (of_decide_eq_true rfl) rfl
    certLE0488

theorem certLE0490 : XScore.ble ((minimax 4 (⟨1, 1, -1, -1, 0, 1, 0, 0, 0⟩ : Board) HUMAN).1.2.2) (XScore.fin 0) = true :=
  nodeHumanLE 4 3 (⟨1, 1, -1, -1, 0, 1, 0, 0, 0⟩ : Board) (⟨1, 1, -1, -1, -1, 1, 0, 0, 0⟩ : Board) (XScore.fin 0) 1 1 rfl rfl (of_decide_eq_true rfl) rfl
    certLE0010

theorem certLE0491 : XScore.ble ((minimax 0 (⟨1, 1, -1, -1, 1, 1, 1, -1, -1⟩ : Board) HUMAN).1.2.2) (XScore.fin 0) = true :=
  leafLE 0 (⟨1, 1, -1, -1, 1, 1, 1, -1, -1⟩ : Board) HUMAN (XScore.fin 0) (Or.inl rfl) rfl

theorem certLE0492 : XScore.ble ((minimax 1 (⟨1, 1, -1, -1, 1, 1, 0, -1, -1⟩ : Board) COMP).1.2.2) (XScore.fin 0) = true :=
  nodeCompLE 1 0 (⟨1, 1, -1, -1, 1, 1, 0, -1, -1⟩ : Board) (XScore.fin 0)
    [(⟨1, 1, -1, -1, 1, 1, 1, -1, -1⟩ : Board)]
    rfl rfl rfl
    ⟨certLE0491, True.intro⟩

theorem certLE0493 : XScore.ble ((minimax 2 (⟨1, 1, -1, -1, 1, 1, 0, 0, -1⟩ : Board) HUMAN).1.2.2) (XScore.fin 0) = true :=
  nodeHumanLE 2 1 (⟨1, 1, -1, -1, 1, 1, 0, 0, -1⟩ : Board) (⟨1, 1, -1, -1, 1, 1, 0, -1, -1⟩ : Board) (XScore.fin 0) 2 1 rfl rfl (of_decide_eq_true rfl) rfl
    certLE0492

theorem certLE0494 : XScore.ble ((minimax 0 (⟨1, -1, -1, -1, 1, 1, 1, 1, -1⟩ : Board) HUMAN).1.2.2) (XScore.fin 0) = true :=
  leafLE 0 (⟨1, -1, -1, -1, 1, 1, 1, 1, -1⟩ : Board) HUMAN (XScore.fin 0) (Or.inl rfl) rfl

theorem certLE0495 : XScore.ble ((minimax 1 (⟨1, -1, -1, -1, 1, 1, 1, 0, -1⟩ : Board) COMP).1.2.2) (XScore.fin 0) = true :=
  nodeCompLE 1 0 (⟨1, -1, -1, -1, 1, 1, 1, 0, -1⟩ : Board) (XScore.fin 0)
    [(⟨1, -1, -1, -1, 1, 1, 1, 1, -1⟩ : Board)]
    rfl rfl rfl
    ⟨certLE0494, True.intro⟩

theorem certLE0496 : XScore.ble ((minimax 2 (⟨1, 0, -1, -1, 1, 1, 1, 0, -1⟩ : Board) HUMAN).1.2.2) (XScore.fin 0) = true :=
  nodeHumanLE 2 1 (⟨1, 0, -1, -1, 1, 1, 1, 0, -1⟩ : Board) (⟨1, -1, -1, -1, 1, 1, 1, 0, -1⟩ : Board) (XScore.fin 0) 0 1 rfl rfl (of_decide_eq_true rfl) rfl
    certLE0495

theorem certLE0497 : XScore.ble ((minimax 1 (⟨1, -1, -1, -1, 1, 1, 0, 1, -1⟩ : Board) COMP).1.2.2) (XScore.fin 0) = true :=
  nodeCompLE 1 0 (⟨1, -1, -1, -1, 1, 1, 0, 1, -1⟩ : Board) (XScore.fin 0)
    [(⟨1, -1, -1, -1, 1, 1, 1, 1, -1⟩ : Board)]
    rfl rfl rfl
    ⟨certLE0494, True.intro⟩

theorem certLE0498 : XScore.ble ((minimax 2 (⟨1, 0, -1, -1, 1, 1, 0, 1, -1⟩ : Board) HUMAN).1.2.2) (XScore.fin 0) = true :=
  nodeHumanLE 2 1 (⟨1, 0, -1, -1, 1, 1, 0, 1, -1⟩ : Board) (⟨1, -1, -1, -1, 1, 1, 0, 1, -1⟩ : Board) (XScore.fin 0) 0 1 rfl rfl (of_decide_eq_true rfl) rfl
    certLE0497

theorem certLE0499 : XScore.ble ((minimax 3 (⟨1, 0, -1, -1, 1, 1, 0, 0, -1⟩ : Board) COMP).1.2.2) (XScore.fin 0) = true :=
  nodeCompLE 3 2 (⟨1, 0, -1, -1, 1, 1, 0, 0, -1⟩ : Board) (XScore.fin 0)
    [(⟨1, 1, -1, -1, 1, 1, 0, 0, -1⟩ : Board),
     (⟨1, 0, -1, -1, 1, 1, 1, 0, -1⟩ : Board),
     (⟨1, 0, -1, -1, 1, 1, 0, 1, -1⟩ : Board)]
    rfl rfl rfl
    ⟨certLE0493, certLE0496, certLE0498, True.intro⟩

theorem certLE0500 : XScore.ble ((minimax 4 (⟨1, 0, -1, -1, 1, 1, 0, 0, 0⟩ : Board) HUMAN).1.2.2) (XScore.fin 0) = true :=
  nodeHumanLE 4 3 (⟨1, 0, -1, -1, 1, 1, 0, 0, 0⟩ : Board) (⟨1, 0, -1, -1, 1, 1, 0, 0, -1⟩ : Board) (XScore.fin 0) 2 2 rfl rfl (of_decide_eq_true rfl) rfl
    certLE0499

theorem certLE0501 : XScore.ble ((minimax 1 (⟨1, 0, -1, -1, -1, 1, 1, -1, 1⟩ : Board) COMP).1.2.2) (XScore.fin 0) = true :=
  nodeCompLE 1 0 (⟨1, 0, -1, -1, -1, 1, 1, -1, 1⟩ : Board) (XScore.fin 0)
    [(⟨1, 1, -1, -1, -1, 1, 1, -1, 1⟩ : Board)]
    rfl rfl rfl
    ⟨certLE0003, True.intro⟩

theorem certLE0502 : XScore.ble ((minimax 2 (⟨1, 0, -1, -1, -1, 1, 1, 0, 1⟩ : Board) HUMAN).1.2.2) (XScore.fin 0) = true :=
  nodeHumanLE 2 1 (⟨1, 0, -1, -1, -1, 1, 1, 0, 1⟩ : Board) (⟨1, 0, -1, -1, -1, 1, 1, -1, 1⟩ : Board) (XScore.fin 0) 2 1 rfl rfl (of_decide_eq_true rfl) rfl
    certLE0501

theorem certLE0503 : XScore.ble ((minimax 3 (⟨1, 0, -1, -1, -1, 1, 1, 0, 0⟩ : Board) COMP).1.2.2) (XScore.fin 0) = true :=
  nodeCompLE 3 2 (⟨1, 0, -1, -1, -1, 1, 1, 0, 0⟩ : Board) (XScore.fin 0)
    [(⟨1, 1, -1, -1, -1, 1, 1, 0, 0⟩ : Board),
     (⟨1, 0, -1, -1, -1, 1, 1, 1, 0⟩ : Board),
     (⟨1, 0, -1, -1, -1, 1, 1, 0, 1⟩ : Board)]
    rfl rfl rfl
    ⟨certLE0005, certLE0110, certLE0502, True.intro⟩

theorem certLE0504 : XScore.ble ((minimax 4 (⟨1, 0, -1, -1, 0, 1, 1, 0, 0⟩ : Board) HUMAN).1.2.2) (XScore.fin 0) = true :=
  nodeHumanLE 4 3 (⟨1, 0, -1, -1, 0, 1, 1, 0, 0⟩ : Board) (⟨1, 0, -1, -1, -1, 1, 1, 0, 0⟩ : Board) (XScore.fin 0) 1 1 rfl rfl (of_decide_eq_true rfl) rfl
    certLE0503

theorem certLE0505 : XScore.ble ((minimax 4 (⟨1, 0, -1, -1, 0, 1, 0, 1, 0⟩ : Board) HUMAN).1.2.2) (XScore.fin 0) = true :=
  nodeHumanLE 4 3 (⟨1, 0, -1, -1, 0, 1, 0, 1, 0⟩ : Board) (⟨1, 0, -1, -1, -1, 1, 0, 1, 0⟩ : Board) (XScore.fin 0) 1 1 rfl rfl (of_decide_eq_true rfl) rfl
    certLE0113

theorem certLE0506 : XScore.ble ((minimax 3 (⟨1, 0, -1, -1, -1, 1, 0, 0, 1⟩ : Board) COMP).1.2.2) (XScore.fin 0) = true :=
  nodeCompLE 3 2 (⟨1, 0, -1, -1, -1, 1, 0, 0, 1⟩ : Board) (XScore.fin 0)
    [(⟨1, 1, -1, -1, -1, 1, 0, 0, 1⟩ : Board),
     (⟨1, 0, -1, -1, -1, 1, 1, 0, 1⟩ : Board),
     (⟨1, 0, -1, -1, -1, 1, 0, 1, 1⟩ : Board)]
    rfl rfl rfl
    ⟨certLE0009, certLE0502, certLE0112, True.intro⟩

theorem certLE0507 : XScore.ble ((minimax 4 (⟨1, 0, -1, -1, 0, 1, 0, 0, 1⟩ : Board) HUMAN).1.2.2) (XScore.fin 0) = true :=
  nodeHumanLE 4 3 (⟨1, 0, -1, -1, 0, 1, 0, 0, 1⟩ : Board) (⟨1, 0, -1, -1, -1, 1, 0, 0, 1⟩ : Board) (XScore.fin 0) 1 1 rfl rfl (of_decide_eq_true rfl) rfl
    certLE0506

theorem certLE0508 : XScore.ble ((minimax 5 (⟨1, 0, -1, -1, 0, 1, 0, 0, 0⟩ : Board) COMP).1.2.2) (XScore.fin 0) = true :=
  nodeCompLE 5 4 (⟨1, 0, -1, -1, 0, 1, 0, 0, 0⟩ : Board) (XScore.fin 0)
    [(⟨1, 1, -1, -1, 0, 1, 0, 0, 0⟩ : Board),
     (⟨1, 0, -1, -1, 1, 1, 0, 0, 0⟩ : Board),
     (⟨1, 0, -1, -1, 0, 1, 1, 0, 0⟩ : Board),
     (⟨1, 0, -1, -1, 0, 1, 0, 1, 0⟩ : Board),
     (⟨1, 0, -1, -1, 0, 1, 0, 0, 1⟩ : Board)]
    rfl rfl rfl
    ⟨certLE0490, certLE0500, certLE0504, certLE0505, certLE0507, True.intro⟩

theorem certLE0509 : XScore.ble ((minimax 6 (⟨1, 0, -1, 0, 0, 1, 0, 0, 0⟩ : Board) HUMAN).1.2.2) (XScore.fin 0) = true :=
  nodeHumanLE 6 5 (⟨1, 0, -1, 0, 0, 1, 0, 0, 0⟩ : Board) (⟨1, 0, -1, -1, 0, 1, 0, 0, 0⟩ : Board) (XScore.fin 0) 1 0 rfl rfl (of_decide_eq_true rfl) rfl
    certLE0508

theorem certLE0510 : XScore.ble ((minimax 2 (⟨1, 1, -1, -1, 1, 1, 0, -1, 0⟩ : Board) HUMAN).1.2.2) (XScore.fin 0) = true :=
  nodeHumanLE 2 1 (⟨1, 1, -1, -1, 1, 1, 0, -1, 0⟩ : Board) (⟨1, 1, -1, -1, 1, 1, 0, -1, -1⟩ : Board) (XScore.fin 0) 2 2 rfl rfl (of_decide_eq_true rfl) rfl
    certLE0492

theorem certLE0511 : XScore.ble ((minimax 2 (⟨0, 1, -1, -1, 1, 1, 1, -1, 0⟩ : Board) HUMAN).1.2.2) (XScore.fin 0) = true :=
  nodeHumanLE 2 1 (⟨0, 1, -1, -1, 1, 1, 1, -1, 0⟩ : Board) (⟨-1, 1, -1, -1, 1, 1, 1, -1, 0⟩ : Board) (XScore.fin 0) 0 0 rfl rfl (of_decide_eq_true rfl) rfl
    certLE0208

theorem certLE0512 : XScore.ble ((minimax 2 (⟨0, 1, -1, -1, 1, 1, 0, -1, 1⟩ : Board) HUMAN).1.2.2) (XScore.fin 0) = true :=
  nodeHumanLE 2 1 (⟨0, 1, -1, -1, 1, 1, 0, -1, 1⟩ : Board) (⟨-1, 1, -1, -1, 1, 1, 0, -1, 1⟩ : Board) (XScore.fin 0) 0 0 rfl rfl (of_decide_eq_true rfl) rfl
    certLE0210

theorem certLE0513 : XScore.ble ((minimax 3 (⟨0, 1, -1, -1, 1, 1, 0, -1, 0⟩ : Board) COMP).1.2.2) (XScore.fin 0) = true :=
  nodeCompLE 3 2 (⟨0, 1, -1, -1, 1, 1, 0, -1, 0⟩ : Board) (XScore.fin 0)
    [(⟨1, 1, -1, -1, 1, 1, 0, -1, 0⟩ : Board),
     (⟨0, 1, -1, -1, 1, 1, 1, -1, 0⟩ : Board),
     (⟨0, 1, -1, -1, 1, 1, 0, -1, 1⟩ : Board)]
    rfl rfl rfl
    ⟨certLE0510, certLE0511, certLE0512, True.intro⟩

theorem certLE0514 : XScore.ble ((minimax 4 (⟨0, 1, -1, -1, 1, 1, 0, 0, 0⟩ : Board) HUMAN).1.2.2) (XScore.fin 0) = true :=
  nodeHumanLE 4 3 (⟨0, 1, -1, -1, 1, 1, 0, 0, 0⟩ : Board) (⟨0, 1, -1, -1, 1, 1, 0, -1, 0⟩ : Board) (XScore.fin 0) 2 1 rfl rfl (of_decide_eq_true rfl) rfl
    certLE0513

theorem certLE0515 : XScore.ble ((minimax 1 (⟨0, 1, -1, -1, -1, 1, 1, 1, -1⟩ : Board) COMP).1.2.2) (XScore.fin 0) = true :=
  nodeCompLE 1 0 (⟨0, 1, -1, -1, -1, 1, 1, 1, -1⟩ : Board) (XScore.fin 0)
    [(⟨1, 1, -1, -1, -1, 1, 1, 1, -1⟩ : Board)]
    rfl rfl rfl
    ⟨certLE0108, True.intro⟩

theorem certLE0516 : XScore.ble ((minimax 2 (⟨0, 1, -1, -1, -1, 1, 1, 1, 0⟩ : Board) HUMAN).1.2.2) (XScore.fin 0) = true :=
  nodeHumanLE 2 1 (⟨0, 1, -1, -1, -1, 1, 1, 1, 0⟩ : Board) (⟨0, 1, -1, -1, -1, 1, 1, 1, -1⟩ : Board) (XScore.fin 0) 2 2 rfl rfl (of_decide_eq_true rfl) rfl
    certLE0515

theorem certLE0517 : XScore.ble ((minimax 1 (⟨0, 1, -1, -1, -1, 1, 1, -1, 1⟩ : Board) COMP).1.2.2) (XScore.fin 0) = true :=
  nodeCompLE 1 0 (⟨0, 1, -1, -1, -1, 1, 1, -1, 1⟩ : Board) (XScore.fin 0)
    [(⟨1, 1, -1, -1, -1, 1, 1, -1, 1⟩ : Board)]
    rfl rfl rfl
    ⟨certLE0003, True.intro⟩

theorem certLE0518 : XScore.ble ((minimax 2 (⟨0, 1, -1, -1, -1, 1, 1, 0, 1⟩ : Board) HUMAN).1.2.2) (XScore.fin 0) = true :=
  nodeHumanLE 2 1 (⟨0, 1, -1, -1, -1, 1, 1, 0, 1⟩ : Board) (⟨0, 1, -1, -1, -1, 1, 1, -1, 1⟩ : Board) (XScore.fin 0) 2 1 rfl rfl (of_decide_eq_true rfl) rfl
    certLE0517

theorem certLE0519 : XScore.ble ((minimax 3 (⟨0, 1, -1, -1, -1, 1, 1, 0, 0⟩ : Board) COMP).1.2.2) (XScore.fin 0) = true :=
  nodeCompLE 3 2 (⟨0, 1, -1, -1, -1, 1, 1, 0, 0⟩ : Board) (XScore.fin 0)
    [(⟨1, 1, -1, -1, -1, 1, 1, 0, 0⟩ : Board),
     (⟨0, 1, -1, -1, -1, 1, 1, 1, 0⟩ : Board),
     (⟨0, 1, -1, -1, -1, 1, 1, 0, 1⟩ : Board)]
    rfl rfl rfl
    ⟨certLE0005, certLE0516, certLE0518, True.intro⟩

theorem certLE0520 : XScore.ble ((minimax 4 (⟨0, 1, -1, -1, 0, 1, 1, 0, 0⟩ : Board) HUMAN).1.2.2) (XScore.fin 0) = true :=
  nodeHumanLE 4 3 (⟨0, 1, -1, -1, 0, 1, 1, 0, 0⟩ : Board) (⟨0, 1, -1, -1, -1, 1, 1, 0, 0⟩ : Board) (XScore.fin 0) 1 1 rfl rfl (of_decide_eq_true rfl) rfl
    certLE0519

theorem certLE0521 : XScore.ble ((minimax 1 (⟨0, 1, -1, -1, -1, 1, -1, 1, 1⟩ : Board) COMP).1.2.2) (XScore.fin 0) = true :=
  leafLE 1 (⟨0, 1, -1, -1, -1, 1, -1, 1, 1⟩ : Board) COMP (XScore.fin 0) (Or.inr rfl) rfl

theorem certLE0522 : XScore.ble ((minimax 2 (⟨0, 1, -1, -1, -1, 1, 0, 1, 1⟩ : Board) HUMAN).1.2.2) (XScore.fin 0) = true :=
  nodeHumanLE 2 1 (⟨0, 1, -1, -1, -1, 1, 0, 1, 1⟩ : Board) (⟨0, 1, -1, -1, -1, 1, -1, 1, 1⟩ : Board) (XScore.fin 0) 2 0 rfl rfl (of_decide_eq_true rfl) rfl
    certLE0521

theorem certLE0523 : XScore.ble ((minimax 3 (⟨0, 1, -1, -1, -1, 1, 0, 1, 0⟩ : Board) COMP).1.2.2) (XScore.fin 0) = true :=
  nodeCompLE 3 2 (⟨0, 1, -1, -1, -1, 1, 0, 1, 0⟩ : Board) (XScore.fin 0)
    [(⟨1, 1, -1, -1, -1, 1, 0, 1, 0⟩ : Board),
     (⟨0, 1, -1, -1, -1, 1, 1, 1, 0⟩ : Board),
     (⟨0, 1, -1, -1, -1, 1, 0, 1, 1⟩ : Board)]
    rfl rfl rfl
    ⟨certLE0007, certLE0516, certLE0522, True.intro⟩

theorem certLE0524 : XScore.ble ((minimax 4 (⟨0, 1, -1, -1, 0, 1, 0, 1, 0⟩ : Board) HUMAN).1.2.2) (XScore.fin 0) = true :=
  nodeHumanLE 4 3 (⟨0, 1, -1, -1, 0, 1, 0, 1, 0⟩ : Board) (⟨0, 1, -1, -1, -1, 1, 0, 1, 0⟩ : Board) (XScore.fin 0) 1 1 rfl rfl (of_decide_eq_true rfl) rfl
    certLE0523

theorem certLE0525 : XScore.ble ((minimax 1 (⟨-1, 1, -1, -1, 0, 1, 1, -1, 1⟩ : Board) COMP).1.2.2) (XScore.fin 0) = true :=
  nodeCompLE 1 0 (⟨-1, 1, -1, -1, 0, 1, 1, -1, 1⟩ : Board) (XScore.fin 0)
    [(⟨-1, 1, -1, -1, 1, 1, 1, -1, 1⟩ : Board)]
    rfl rfl rfl
    ⟨certLE0207, True.intro⟩

theorem certLE0526 : XScore.ble ((minimax 2 (⟨-1, 1, -1, -1, 0, 1, 1, 0, 1⟩ : Board) HUMAN).1.2.2) (XScore.fin 0) = true :=
  nodeHumanLE 2 1 (⟨-1, 1, -1, -1, 0, 1, 1, 0, 1⟩ : Board) (⟨-1, 1, -1, -1, 0, 1, 1, -1, 1⟩ : Board) (XScore.fin 0) 2 1 rfl rfl (of_decide_eq_true rfl) rfl
    certLE0525

theorem certLE0527 : XScore.ble ((minimax 1 (⟨-1, 1, -1, -1, 0, 1, -1, 1, 1⟩ : Board) COMP).1.2.2) (XScore.fin 0) = true :=
  leafLE 1 (⟨-1, 1, -1, -1, 0, 1, -1, 1, 1⟩ : Board) COMP (XScore.fin 0) (Or.inr rfl) rfl

theorem certLE0528 : XScore.ble ((minimax 2 (⟨-1, 1, -1, -1, 0, 1, 0, 1, 1⟩ : Board) HUMAN).1.2.2) (XScore.fin 0) = true :=
  nodeHumanLE 2 1 (⟨-1, 1, -1, -1, 0, 1, 0, 1, 1⟩ : Board) (⟨-1, 1, -1, -1, 0, 1, -1, 1, 1⟩ : Board) (XScore.fin 0) 2 0 rfl rfl (of_decide_eq_true rfl) rfl
    certLE0527

theorem certLE0529 : XScore.ble ((minimax 3 (⟨-1, 1, -1, -1, 0, 1, 0, 0, 1⟩ : Board) COMP).1.2.2) (XScore.fin 0) = true :=
  nodeCompLE 3 2 (⟨-1, 1, -1, -1, 0, 1, 0, 0, 1⟩ : Board) (XScore.fin 0)
    [(⟨-1, 1, -1, -1, 1, 1, 0, 0, 1⟩ : Board),
     (⟨-1, 1, -1, -1, 0, 1, 1, 0, 1⟩ : Board),
     (⟨-1, 1, -1, -1, 0, 1, 0, 1, 1⟩ : Board)]
    rfl rfl rfl
    ⟨certLE0457, certLE0526, certLE0528, True.intro⟩

theorem certLE0530 : XScore.ble ((minimax 4 (⟨0, 1, -1, -1, 0, 1, 0, 0, 1⟩ : Board) HUMAN).1.2.2) (XScore.fin 0) = true :=
  nodeHumanLE 4 3 (⟨0, 1, -1, -1, 0, 1, 0, 0, 1⟩ : Board) (⟨-1, 1, -1, -1, 0, 1, 0, 0, 1⟩ : Board) (XScore.fin 0) 0 0 rfl rfl (of_decide_eq_true rfl) rfl
    certLE0529

theorem certLE0531 : XScore.ble ((minimax 5 (⟨0, 1, -1, -1, 0, 1, 0, 0, 0⟩ : Board) COMP).1.2.2) (XScore.fin 0) = true :=
  nodeCompLE 5 4 (⟨0, 1, -1, -1, 0, 1, 0, 0, 0⟩ : Board) (XScore.fin 0)
    [(⟨1, 1, -1, -1, 0, 1, 0, 0, 0⟩ : Board),
     (⟨0, 1, -1, -1, 1, 1, 0, 0, 0⟩ : Board),
     (⟨0, 1, -1, -1, 0, 1, 1, 0, 0⟩ : Board),
     (⟨0, 1, -1, -1, 0, 1, 0, 1, 0⟩ : Board),
     (⟨0, 1, -1, -1, 0, 1, 0, 0, 1⟩ : Board)]
    rfl rfl rfl
    ⟨certLE0490, certLE0514, certLE0520, certLE0524, certLE0530, True.intro⟩

theorem certLE0532 : XScore.ble ((minimax 6 (⟨0, 1, -1, 0, 0, 1, 0, 0, 0⟩ : Board) HUMAN).1.2.2) (XScore.fin 0) = true :=
  nodeHumanLE 6 5 (⟨0, 1, -1, 0, 0, 1, 0, 0, 0⟩ : Board) (⟨0, 1, -1, -1, 0, 1, 0, 0, 0⟩ : Board) (XScore.fin 0) 1 0 rfl rfl (of_decide_eq_true rfl) rfl
    certLE0531

theorem certLE0533 : XScore.ble ((minimax 3 (⟨1, 0, -1, 1, -1, 1, -1, 0, 0⟩ : Board) COMP).1.2.2) (XScore.fin 0) = true :=
  leafLE 3 (⟨1, 0, -1, 1, -1, 1, -1, 0, 0⟩ : Board) COMP (XScore.fin 0) (Or.inr rfl) rfl

theorem certLE0534 : XScore.ble ((minimax 4 (⟨1, 0, -1, 1, -1, 1, 0, 0, 0⟩ : Board) HUMAN).1.2.2) (XScore.fin 0) = true :=
  nodeHumanLE 4 3 (⟨1, 0, -1, 1, -1, 1, 0, 0, 0⟩ : Board) (⟨1, 0, -1, 1, -1, 1, -1, 0, 0⟩ : Board) (XScore.fin 0) 2 0 rfl rfl (of_decide_eq_true rfl) rfl
    certLE0533

theorem certLE0535 : XScore.ble ((minimax 4 (⟨0, 1, -1, 1, -1, 1, 0, 0, 0⟩ : Board) HUMAN).1.2.2) (XScore.fin 0) = true :=
  nodeHumanLE 4 3 (⟨0, 1, -1, 1, -1, 1, 0, 0, 0⟩ : Board) (⟨-1, 1, -1, 1, -1, 1, 0, 0, 0⟩ : Board) (XScore.fin 0) 0 0 rfl rfl (of_decide_eq_true rfl) rfl
    certLE0173

theorem certLE0536 : XScore.ble ((minimax 2 (⟨-1, 0, -1, 1, -1, 1, 1, 1, 0⟩ : Board) HUMAN).1.2.2) (XScore.fin 0) = true :=
  nodeHumanLE 2 1 (⟨-1, 0, -1, 1, -1, 1, 1, 1, 0⟩ : Board) (⟨-1, -1, -1, 1, -1, 1, 1, 1, 0⟩ : Board) (XScore.fin 0) 0 1 rfl rfl (of_decide_eq_true rfl) rfl
    certLE0376

theorem certLE0537 : XScore.ble ((minimax 3 (⟨-1, 0, -1, 1, -1, 1, 1, 0, 0⟩ : Board) COMP).1.2.2) (XScore.fin 0) = true :=
  nodeCompLE 3 2 (⟨-1, 0, -1, 1, -1, 1, 1, 0, 0⟩ : Board) (XScore.fin 0)
    [(⟨-1, 1, -1, 1, -1, 1, 1, 0, 0⟩ : Board),
     (⟨-1, 0, -1, 1, -1, 1, 1, 1, 0⟩ : Board),
     (⟨-1, 0, -1, 1, -1, 1, 1, 0, 1⟩ : Board)]
    rfl rfl rfl
    ⟨certLE0168, certLE0536, certLE0388, True.intro⟩

theorem certLE0538 : XScore.ble ((minimax 4 (⟨0, 0, -1, 1, -1, 1, 1, 0, 0⟩ : Board) HUMAN).1.2.2) (XScore.fin 0) = true :=
  nodeHumanLE 4 3 (⟨0, 0, -1, 1, -1, 1, 1, 0, 0⟩ : Board) (⟨-1, 0, -1, 1, -1, 1, 1, 0, 0⟩ : Board) (XScore.fin 0) 0 0 rfl rfl (of_decide_eq_true rfl) rfl
    certLE0537

theorem certLE0539 : XScore.ble ((minimax 3 (⟨-1, 0, -1, 1, -1, 1, 0, 1, 0⟩ : Board) COMP).1.2.2) (XScore.fin 0) = true :=
  nodeCompLE 3 2 (⟨-1, 0, -1, 1, -1, 1, 0, 1, 0⟩ : Board) (XScore.fin 0)
    [(⟨-1, 1, -1, 1, -1, 1, 0, 1, 0⟩ : Board),
     (⟨-1, 0, -1, 1, -1, 1, 1, 1, 0⟩ : Board),
     (⟨-1, 0, -1, 1, -1, 1, 0, 1, 1⟩ : Board)]
    rfl rfl rfl
    ⟨certLE0170, certLE0536, certLE0389, True.intro⟩

theorem certLE0540 : XScore.ble ((minimax 4 (⟨0, 0, -1, 1, -1, 1, 0, 1, 0⟩ : Board) HUMAN).1.2.2) (XScore.fin 0) = true :=
  nodeHumanLE 4 3 (⟨0, 0, -1, 1, -1, 1, 0, 1, 0⟩ : Board) (⟨-1, 0, -1, 1, -1, 1, 0, 1, 0⟩ : Board) (XScore.fin 0) 0 0 rfl rfl (of_decide_eq_true rfl) rfl
    certLE0539

theorem certLE0541 : XScore.ble ((minimax 4 (⟨0, 0, -1, 1, -1, 1, 0, 0, 1⟩ : Board) HUMAN).1.2.2) (XScore.fin 0) = true :=
  nodeHumanLE 4 3 (⟨0, 0, -1, 1, -1, 1, 0, 0, 1⟩ : Board) (⟨-1, 0, -1, 1, -1, 1, 0, 0, 1⟩ : Board) (XScore.fin 0) 0 0 rfl rfl (of_decide_eq_true rfl) rfl
    certLE0390

theorem certLE0542 : XScore.ble ((minimax 5 (⟨0, 0, -1, 1, -1, 1, 0, 0, 0⟩ : Board) COMP).1.2.2) (XScore.fin 0) = true :=
  nodeCompLE 5 4 (⟨0, 0, -1, 1, -1, 1, 0, 0, 0⟩ : Board) (XScore.fin 0)
    [(⟨1, 0, -1, 1, -1, 1, 0, 0, 0⟩ : Board),
     (⟨0, 1, -1, 1, -1, 1, 0, 0, 0⟩ : Board),
     (⟨0, 0, -1, 1, -1, 1, 1, 0, 0⟩ : Board),
     (⟨0, 0, -1, 1, -1, 1, 0, 1, 0⟩ : Board),
     (⟨0, 0, -1, 1, -1, 1, 0, 0, 1⟩ : Board)]
    rfl rfl rfl
    ⟨certLE0534, certLE0535, certLE0538, certLE0540, certLE0541, True.intro⟩

theorem certLE0543 : XScore.ble ((minimax 6 (⟨0, 0, -1, 1, 0, 1, 0, 0, 0⟩ : Board) HUMAN).1.2.2) (XScore.fin 0) = true :=
  nodeHumanLE 6 5 (⟨0, 0, -1, 1, 0, 1, 0, 0, 0⟩ : Board) (⟨0, 0, -1, 1, -1, 1, 0, 0, 0⟩ : Board) (XScore.fin 0) 1 1 rfl rfl (of_decide_eq_true rfl) rfl
    certLE0542

theorem certLE0544 : XScore.ble ((minimax 4 (⟨0, 0, -1, -1, 1, 1, 1, 0, 0⟩ : Board) HUMAN).1.2.2) (XScore.fin 0) = true :=
  nodeHumanLE 4 3 (⟨0, 0, -1, -1, 1, 1, 1, 0, 0⟩ : Board) (⟨-1, 0, -1, -1, 1, 1, 1, 0, 0⟩ : Board) (XScore.fin 0) 0 0 rfl rfl (of_decide_eq_true rfl) rfl
    certLE0448

theorem certLE0545 : XScore.ble ((minimax 2 (⟨1, -1, -1, -1, 1, 1, 0, 1, 0⟩ : Board) HUMAN).1.2.2) (XScore.fin 0) = true :=
  nodeHumanLE 2 1 (⟨1, -1, -1, -1, 1, 1, 0, 1, 0⟩ : Board) (⟨1, -1, -1, -1, 1, 1, 0, 1, -1⟩ : Board) (XScore.fin 0) 2 2 rfl rfl (of_decide_eq_true rfl) rfl
    certLE0497

theorem certLE0546 : XScore.ble ((minimax 2 (⟨0, -1, -1, -1, 1, 1, 1, 1, 0⟩ : Board) HUMAN).1.2.2) (XScore.fin 0) = true :=
  nodeHumanLE 2 1 (⟨0, -1, -1, -1, 1, 1, 1, 1, 0⟩ : Board) (⟨-1, -1, -1, -1, 1, 1, 1, 1, 0⟩ : Board) (XScore.fin 0) 0 0 rfl rfl (of_decide_eq_true rfl) rfl
    certLE0444

theorem certLE0547 : XScore.ble ((minimax 2 (⟨0, -1, -1, -1, 1, 1, 0, 1, 1⟩ : Board) HUMAN).1.2.2) (XScore.fin 0) = true :=
  nodeHumanLE 2 1 (⟨0, -1, -1, -1, 1, 1, 0, 1, 1⟩ : Board) (⟨-1, -1, -1, -1, 1, 1, 0, 1, 1⟩ : Board) (XScore.fin 0) 0 0 rfl rfl (of_decide_eq_true rfl) rfl
    certLE0452

theorem certLE0548 : XScore.ble ((minimax 3 (⟨0, -1, -1, -1, 1, 1, 0, 1, 0⟩ : Board) COMP).1.2.2) (XScore.fin 0) = true :=
  nodeCompLE 3 2 (⟨0, -1, -1, -1, 1, 1, 0, 1, 0⟩ : Board) (XScore.fin 0)
    [(⟨1, -1, -1, -1, 1, 1, 0, 1, 0⟩ : Board),
     (⟨0, -1, -1, -1, 1, 1, 1, 1, 0⟩ : Board),
     (⟨0, -1, -1, -1, 1, 1, 0, 1, 1⟩ : Board)]
    rfl rfl rfl
    ⟨certLE0545, certLE0546, certLE0547, True.intro⟩

theorem certLE0549 : XScore.ble ((minimax 4 (⟨0, 0, -1, -1, 1, 1, 0, 1, 0⟩ : Board) HUMAN).1.2.2) (XScore.fin 0) = true :=
  nodeHumanLE 4 3 (⟨0, 0, -1, -1, 1, 1, 0, 1, 0⟩ : Board) (⟨0, -1, -1, -1, 1, 1, 0, 1, 0⟩ : Board) (XScore.fin 0) 0 1 rfl rfl (of_decide_eq_true rfl) rfl
    certLE0548

theorem certLE0550 : XScore.ble ((minimax 4 (⟨0, 0, -1, -1, 1, 1, 0, 0, 1⟩ : Board) HUMAN).1.2.2) (XScore.fin 0) = true :=
  nodeHumanLE 4 3 (⟨0, 0, -1, -1, 1, 1, 0, 0, 1⟩ : Board) (⟨-1, 0, -1, -1, 1, 1, 0, 0, 1⟩ : Board) (XScore.fin 0) 0 0 rfl rfl (of_decide_eq_true rfl) rfl
    certLE0459

theorem certLE0551 : XScore.ble ((minimax 5 (⟨0, 0, -1, -1, 1, 1, 0, 0, 0⟩ : Board) COMP).1.2.2) (XScore.fin 0) = true :=
  nodeCompLE 5 4 (⟨0, 0, -1, -1, 1, 1, 0, 0, 0⟩ : Board) (XScore.fin 0)
    [(⟨1, 0, -1, -1, 1, 1, 0, 0, 0⟩ : Board),
     (⟨0, 1, -1, -1, 1, 1, 0, 0, 0⟩ : Board),
     (⟨0, 0, -1, -1, 1, 1, 1, 0, 0⟩ : Board),
     (⟨0, 0, -1, -1, 1, 1, 0, 1, 0⟩ : Board),
     (⟨0, 0, -1, -1, 1, 1, 0, 0, 1⟩ : Board)]
    rfl rfl rfl
    ⟨certLE0500, certLE0514, certLE0544, certLE0549, certLE0550, True.intro⟩

theorem certLE0552 : XScore.ble ((minimax 6 (⟨0, 0, -1, 0, 1, 1, 0, 0, 0⟩ : Board) HUMAN).1.2.2) (XScore.fin 0) = true :=
  nodeHumanLE 6 5 (⟨0, 0, -1, 0, 1, 1, 0, 0, 0⟩ : Board) (⟨0, 0, -1, -1, 1, 1, 0, 0, 0⟩ : Board) (XScore.fin 0) 1 0 rfl rfl (of_decide_eq_true rfl) rfl
    certLE0551

theorem certLE0553 : XScore.ble ((minimax 4 (⟨-1, 1, -1, 0, 0, 1, 1, 0, 0⟩ : Board) HUMAN).1.2.2) (XScore.fin 0) = true :=
  nodeHumanLE 4 3 (⟨-1, 1, -1, 0, 0, 1, 1, 0, 0⟩ : Board) (⟨-1, 1, -1, 0, -1, 1, 1, 0, 0⟩ : Board) (XScore.fin 0) 1 1 rfl rfl (of_decide_eq_true rfl) rfl
    certLE0232

theorem certLE0554 : XScore.ble ((minimax 4 (⟨-1, 0, -1, 1, 0, 1, 1, 0, 0⟩ : Board) HUMAN).1.2.2) (XScore.fin 0) = true :=
  nodeHumanLE 4 3 (⟨-1, 0, -1, 1, 0, 1, 1, 0, 0⟩ : Board) (⟨-1, -1, -1, 1, 0, 1, 1, 0, 0⟩ : Board) (XScore.fin 0) 0 1 rfl rfl (of_decide_eq_true rfl) rfl
    certLE0397

theorem certLE0555 : XScore.ble ((minimax 3 (⟨-1, -1, -1, 0, 0, 1, 1, 1, 0⟩ : Board) COMP).1.2.2) (XScore.fin 0) = true :=
  leafLE 3 (⟨-1, -1, -1, 0, 0, 1, 1, 1, 0⟩ : Board) COMP (XScore.fin 0) (Or.inr rfl) rfl

theorem certLE0556 : XScore.ble ((minimax 4 (⟨-1, 0, -1, 0, 0, 1, 1, 1, 0⟩ : Board) HUMAN).1.2.2) (XScore.fin 0) = true :=
  nodeHumanLE 4 3 (⟨-1, 0, -1, 0, 0, 1, 1, 1, 0⟩ : Board) (⟨-1, -1, -1, 0, 0, 1, 1, 1, 0⟩ : Board) (XScore.fin 0) 0 1 rfl rfl (of_decide_eq_true rfl) rfl
    certLE0555

theorem certLE0557 : XScore.ble ((minimax 3 (⟨-1, -1, -1, 0, 0, 1, 1, 0, 1⟩ : Board) COMP).1.2.2) (XScore.fin 0) = true :=
  leafLE 3 (⟨-1, -1, -1, 0, 0, 1, 1, 0, 1⟩ : Board) COMP (XScore.fin 0) (Or.inr rfl) rfl

theorem certLE0558 : XScore.ble ((minimax 4 (⟨-1, 0, -1, 0, 0, 1, 1, 0, 1⟩ : Board) HUMAN).1.2.2) (XScore.fin 0) = true :=
  nodeHumanLE 4 3 (⟨-1, 0, -1, 0, 0, 1, 1, 0, 1⟩ : Board) (⟨-1, -1, -1, 0, 0, 1, 1, 0, 1⟩ : Board) (XScore.fin 0) 0 1 rfl rfl (of_decide_eq_true rfl) rfl
    certLE0557

theorem certLE0559 : XScore.ble ((minimax 5 (⟨-1, 0, -1, 0, 0, 1, 1, 0, 0⟩ : Board) COMP).1.2.2) (XScore.fin 0) = true :=
  nodeCompLE 5 4 (⟨-1, 0, -1, 0, 0, 1, 1, 0, 0⟩ : Board) (XScore.fin 0)
    [(⟨-1, 1, -1, 0, 0, 1, 1, 0, 0⟩ : Board),
     (⟨-1, 0, -1, 1, 0, 1, 1, 0, 0⟩ : Board),
     (⟨-1, 0, -1, 0, 1, 1, 1, 0, 0⟩ : Board),
     (⟨-1, 0, -1, 0, 0, 1, 1, 1, 0⟩ : Board),
     (⟨-1, 0, -1, 0, 0, 1, 1, 0, 1⟩ : Board)]
    rfl rfl rfl
    ⟨certLE0553, certLE0554, certLE0466, certLE0556, certLE0558, True.intro⟩

theorem certLE0560 : XScore.ble ((minimax 6 (⟨0, 0, -1, 0, 0, 1, 1, 0, 0⟩ : Board) HUMAN).1.2.2) (XScore.fin 0) = true :=
  nodeHumanLE 6 5 (⟨0, 0, -1, 0, 0, 1, 1, 0, 0⟩ : Board) (⟨-1, 0, -1, 0, 0, 1, 1, 0, 0⟩ : Board) (XScore.fin 0) 0 0 rfl rfl (of_decide_eq_true rfl) rfl
    certLE0559

theorem certLE0561 : XScore.ble ((minimax 4 (⟨-1, 1, -1, 0, 0, 1, 0, 1, 0⟩ : Board) HUMAN).1.2.2) (XScore.fin 0) = true :=
  nodeHumanLE 4 3 (⟨-1, 1, -1, 0, 0, 1, 0, 1, 0⟩ : Board) (⟨-1, 1, -1, 0, -1, 1, 0, 1, 0⟩ : Board) (XScore.fin 0) 1 1 rfl rfl (of_decide_eq_true rfl) rfl
    certLE0236

theorem certLE0562 : XScore.ble ((minimax 4 (⟨-1, 0, -1, 0, 1, 1, 0, 1, 0⟩ : Board) HUMAN).1.2.2) (XScore.fin 0) = true :=
  nodeHumanLE 4 3 (⟨-1, 0, -1, 0, 1, 1, 0, 1, 0⟩ : Board) (⟨-1, -1, -1, 0, 1, 1, 0, 1, 0⟩ : Board) (XScore.fin 0) 0 1 rfl rfl (of_decide_eq_true rfl) rfl
    certLE0475

theorem certLE0563 : XScore.ble ((minimax 3 (⟨-1, -1, -1, 0, 0, 1, 0, 1, 1⟩ : Board) COMP).1.2.2) (XScore.fin 0) = true :=
  leafLE 3 (⟨-1, -1, -1, 0, 0, 1, 0, 1, 1⟩ : Board) COMP (XScore.fin 0) (Or.inr rfl) rfl

theorem certLE0564 : XScore.ble ((minimax 4 (⟨-1, 0, -1, 0, 0, 1, 0, 1, 1⟩ : Board) HUMAN).1.2.2) (XScore.fin 0) = true :=
  nodeHumanLE 4 3 (⟨-1, 0, -1, 0, 0, 1, 0, 1, 1⟩ : Board) (⟨-1, -1, -1, 0, 0, 1, 0, 1, 1⟩ : Board) (XScore.fin 0) 0 1 rfl rfl (of_decide_eq_true rfl) rfl
    certLE0563

theorem certLE0565 : XScore.ble ((minimax 5 (⟨-1, 0, -1, 0, 0, 1, 0, 1, 0⟩ : Board) COMP).1.2.2) (XScore.fin 0) = true :=
  nodeCompLE 5 4 (⟨-1, 0, -1, 0, 0, 1, 0, 1, 0⟩ : Board) (XScore.fin 0)
    [(⟨-1, 1, -1, 0, 0, 1, 0, 1, 0⟩ : Board),
     (⟨-1, 0, -1, 1, 0, 1, 0, 1, 0⟩ : Board),
     (⟨-1, 0, -1, 0, 1, 1, 0, 1, 0⟩ : Board),
     (⟨-1, 0, -1, 0, 0, 1, 1, 1, 0⟩ : Board),
     (⟨-1, 0, -1, 0, 0, 1, 0, 1, 1⟩ : Board)]
    rfl rfl rfl
    ⟨certLE0561, certLE0409, certLE0562, certLE0556, certLE0564, True.intro⟩

theorem certLE0566 : XScore.ble ((minimax 6 (⟨0, 0, -1, 0, 0, 1, 0, 1, 0⟩ : Board) HUMAN).1.2.2) (XScore.fin 0) = true :=
  nodeHumanLE 6 5 (⟨0, 0, -1, 0, 0, 1, 0, 1, 0⟩ : Board) (⟨-1, 0, -1, 0, 0, 1, 0, 1, 0⟩ : Board) (XScore.fin 0) 0 0 rfl rfl (of_decide_eq_true rfl) rfl
    certLE0565

theorem certLE0567 : XScore.ble ((minimax 4 (⟨-1, 1, -1, 0, 0, 1, 0, 0, 1⟩ : Board) HUMAN).1.2.2) (XScore.fin 0) = true :=
  nodeHumanLE 4 3 (⟨-1, 1, -1, 0, 0, 1, 0, 0, 1⟩ : Board) (⟨-1, 1, -1, -1, 0, 1, 0, 0, 1⟩ : Board) (XScore.fin 0) 1 0 rfl rfl (of_decide_eq_true rfl) rfl
    certLE0529

theorem certLE0568 : XScore.ble ((minimax 5 (⟨-1, 0, -1, 0, 0, 1, 0, 0, 1⟩ : Board) COMP).1.2.2) (XScore.fin 0) = true :=
  nodeCompLE 5 4 (⟨-1, 0, -1, 0, 0, 1, 0, 0, 1⟩ : Board) (XScore.fin 0)
    [(⟨-1, 1, -1, 0, 0, 1, 0, 0, 1⟩ : Board),
     (⟨-1, 0, -1, 1, 0, 1, 0, 0, 1⟩ : Board),
     (⟨-1, 0, -1, 0, 1, 1, 0, 0, 1⟩ : Board),
     (⟨-1, 0, -1, 0, 0, 1, 1, 0, 1⟩ : Board),
     (⟨-1, 0, -1, 0, 0, 1, 0, 1, 1⟩ : Board)]
    rfl rfl rfl
    ⟨certLE0567, certLE0419, certLE0484, certLE0558, certLE0564, True.intro⟩

theorem certLE0569 : XScore.ble ((minimax 6 (⟨0, 0, -1, 0, 0, 1, 0, 0, 1⟩ : Board) HUMAN).1.2.2) (XScore.fin 0) = true :=
  nodeHumanLE 6 5 (⟨0, 0, -1, 0, 0, 1, 0, 0, 1⟩ : Board) (⟨-1, 0, -1, 0, 0, 1, 0, 0, 1⟩ : Board) (XScore.fin 0) 0 0 rfl rfl (of_decide_eq_true rfl) rfl
    certLE0568

theorem certLE0570 : XScore.ble ((minimax 7 (⟨0, 0, -1, 0, 0, 1, 0, 0, 0⟩ : Board) COMP).1.2.2) (XScore.fin 0) = true :=
  nodeCompLE 7 6 (⟨0, 0, -1, 0, 0, 1, 0, 0, 0⟩ : Board) (XScore.fin 0)
    [(⟨1, 0, -1, 0, 0, 1, 0, 0, 0⟩ : Board),
     (⟨0, 1, -1, 0, 0, 1, 0, 0, 0⟩ : Board),
     (⟨0, 0, -1, 1, 0, 1, 0, 0, 0⟩ : Board),
     (⟨0, 0, -1, 0, 1, 1, 0, 0, 0⟩ : Board),
     (⟨0, 0, -1, 0, 0, 1, 1, 0, 0⟩ : Board),
     (⟨0, 0, -1, 0, 0, 1, 0, 1, 0⟩ : Board),
     (⟨0, 0, -1, 0, 0, 1, 0, 0, 1⟩ : Board)]
    rfl rfl rfl
    ⟨certLE0509, certLE0532, certLE0543, certLE0552, certLE0560, certLE0566, certLE0569, True.intro⟩

theorem certLE0571 : XScore.ble ((minimax 8 (⟨0, 0, 0, 0, 0, 1, 0, 0, 0⟩ : Board) HUMAN).1.2.2) (XScore.fin 0) = true :=
  nodeHumanLE 8 7 (⟨0, 0, 0, 0, 0, 1, 0, 0, 0⟩ : Board) (⟨0, 0, -1, 0, 0, 1, 0, 0, 0⟩ : Board) (XScore.fin 0) 0 2 rfl rfl (of_decide_eq_true rfl) rfl
    certLE0570

theorem certLE0572 : XScore.ble ((minimax 6 (⟨0, 1, 0, 0, -1, 0, 1, 0, 0⟩ : Board) HUMAN).1.2.2) (XScore.fin 0) = true :=
  nodeHumanLE 6 5 (⟨0, 1, 0, 0, -1, 0, 1, 0, 0⟩ : Board) (⟨-1, 1, 0, 0, -1, 0, 1, 0, 0⟩ : Board) (XScore.fin 0) 0 0 rfl rfl (of_decide_eq_true rfl) rfl
    certLE0251

theorem certLE0573 : XScore.ble ((minimax 3 (⟨-1, 0, 0, 1, -1, 0, 1, 1, -1⟩ : Board) COMP).1.2.2) (XScore.fin 0) = true :=
  leafLE 3 (⟨-1, 0, 0, 1, -1, 0, 1, 1, -1⟩ : Board) COMP (XScore.fin 0) (Or.inr rfl) rfl

theorem certLE0574 : XScore.ble ((minimax 4 (⟨-1, 0, 0, 1, -1, 0, 1, 1, 0⟩ : Board) HUMAN).1.2.2) (XScore.fin 0) = true :=
  nodeHumanLE 4 3 (⟨-1, 0, 0, 1, -1, 0, 1, 1, 0⟩ : Board) (⟨-1, 0, 0, 1, -1, 0, 1, 1, -1⟩ : Board) (XScore.fin 0) 2 2 rfl rfl (of_decide_eq_true rfl) rfl
    certLE0573

theorem certLE0575 : XScore.ble ((minimax 2 (⟨-1, 0, 1, 1, -1, 0, 1, -1, 1⟩ : Board) HUMAN).1.2.2) (XScore.fin 0) = true :=
  nodeHumanLE 2 1 (⟨-1, 0, 1, 1, -1, 0, 1, -1, 1⟩ : Board) (⟨-1, -1, 1, 1, -1, 0, 1, -1, 1⟩ : Board) (XScore.fin 0) 0 1 rfl rfl (of_decide_eq_true rfl) rfl
    certLE0278

theorem certLE0576 : XScore.ble ((minimax 1 (⟨-1, -1, 0, 1, -1, 1, 1, -1, 1⟩ : Board) COMP).1.2.2) (XScore.fin 0) = true :=
  leafLE 1 (⟨-1, -1, 0, 1, -1, 1, 1, -1, 1⟩ : Board) COMP (XScore.fin 0) (Or.inr rfl) rfl

theorem certLE0577 : XScore.ble ((minimax 2 (⟨-1, 0, 0, 1, -1, 1, 1, -1, 1⟩ : Board) HUMAN).1.2.2) (XScore.fin 0) = true :=
  nodeHumanLE 2 1 (⟨-1, 0, 0, 1, -1, 1, 1, -1, 1⟩ : Board) (⟨-1, -1, 0, 1, -1, 1, 1, -1, 1⟩ : Board) (XScore.fin 0) 0 1 rfl rfl (of_decide_eq_true rfl) rfl
    certLE0576

theorem certLE0578 : XScore.ble ((minimax 3 (⟨-1, 0, 0, 1, -1, 0, 1, -1, 1⟩ : Board) COMP).1.2.2) (XScore.fin 0) = true :=
  nodeCompLE 3 2 (⟨-1, 0, 0, 1, -1, 0, 1, -1, 1⟩ : Board) (XScore.fin 0)
    [(⟨-1, 1, 0, 1, -1, 0, 1, -1, 1⟩ : Board),
     (⟨-1, 0, 1, 1, -1, 0, 1, -1, 1⟩ : Board),
     (⟨-1, 0, 0, 1, -1, 1, 1, -1, 1⟩ : Board)]
    rfl rfl rfl
    ⟨certLE0247, certLE0575, certLE0577, True.intro⟩

theorem certLE0579 : XScore.ble ((minimax 4 (⟨-1, 0, 0, 1, -1, 0, 1, 0, 1⟩ : Board) HUMAN).1.2.2) (XScore.fin 0) = true :=
  nodeHumanLE 4 3 (⟨-1, 0, 0, 1, -1, 0, 1, 0, 1⟩ : Board) (⟨-1, 0, 0, 1, -1, 0, 1, -1, 1⟩ : Board) (XScore.fin 0) 2 1 rfl rfl (of_decide_eq_true rfl) rfl
    certLE0578

theorem certLE0580 : XScore.ble ((minimax 5 (⟨-1, 0, 0, 1, -1, 0, 1, 0, 0⟩ : Board) COMP).1.2.2) (XScore.fin 0) = true :=
  nodeCompLE 5 4 (⟨-1, 0, 0, 1, -1, 0, 1, 0, 0⟩ : Board) (XScore.fin 0)
    [(⟨-1, 1, 0, 1, -1, 0, 1, 0, 0⟩ : Board),
     (⟨-1, 0, 1, 1, -1, 0, 1, 0, 0⟩ : Board),
     (⟨-1, 0, 0, 1, -1, 1, 1, 0, 0⟩ : Board),
     (⟨-1, 0, 0, 1, -1, 0, 1, 1, 0⟩ : Board),
     (⟨-1, 0, 0, 1, -1, 0, 1, 0, 1⟩ : Board)]
    rfl rfl rfl
    ⟨certLE0180, certLE0281, certLE0381, certLE0574, certLE0579, True.intro⟩

theorem certLE0581 : XScore.ble ((minimax 6 (⟨0, 0, 0, 1, -1, 0, 1, 0, 0⟩ : Board) HUMAN).1.2.2) (XScore.fin 0) = true :=
  nodeHumanLE 6 5 (⟨0, 0, 0, 1, -1, 0, 1, 0, 0⟩ : Board) (⟨-1, 0, 0, 1, -1, 0, 1, 0, 0⟩ : Board) (XScore.fin 0) 0 0 rfl rfl (of_decide_eq_true rfl) rfl
    certLE0580

theorem certLE0582 : XScore.ble ((minimax 4 (⟨0, -1, 0, 1, -1, 1, 1, 0, 0⟩ : Board) HUMAN).1.2.2) (XScore.fin 0) = true :=
  nodeHumanLE 4 3 (⟨0, -1, 0, 1, -1, 1, 1, 0, 0⟩ : Board) (⟨-1, -1, 0, 1, -1, 1, 1, 0, 0⟩ : Board) (XScore.fin 0) 0 0 rfl rfl (of_decide_eq_true rfl) rfl
    certLE0380

theorem certLE0583 : XScore.ble ((minimax 2 (⟨1, -1, 0, 0, -1, 1, 1, 1, -1⟩ : Board) HUMAN).1.2.2) (XScore.fin 0) = true :=
  nodeHumanLE 2 1 (⟨1, -1, 0, 0, -1, 1, 1, 1, -1⟩ : Board) (⟨1, -1, 0, -1, -1, 1, 1, 1, -1⟩ : Board) (XScore.fin 0) 1 0 rfl rfl (of_decide_eq_true rfl) rfl
    certLE0076

theorem certLE0584 : XScore.ble ((minimax 1 (⟨-1, -1, 0, 1, -1, 1, 1, 1, -1⟩ : Board) COMP).1.2.2) (XScore.fin 0) = true :=
  leafLE 1 (⟨-1, -1, 0, 1, -1, 1, 1, 1, -1⟩ : Board) COMP (XScore.fin 0) (Or.inr rfl) rfl

theorem certLE0585 : XScore.ble ((minimax 2 (⟨0, -1, 0, 1, -1, 1, 1, 1, -1⟩ : Board) HUMAN).1.2.2) (XScore.fin 0) = true :=
  nodeHumanLE 2 1 (⟨0, -1, 0, 1, -1, 1, 1, 1, -1⟩ : Board) (⟨-1, -1, 0, 1, -1, 1, 1, 1, -1⟩ : Board) (XScore.fin 0) 0 0 rfl rfl (of_decide_eq_true rfl) rfl
    certLE0584

theorem certLE0586 : XScore.ble ((minimax 3 (⟨0, -1, 0, 0, -1, 1, 1, 1, -1⟩ : Board) COMP).1.2.2) (XScore.fin 0) = true :=
  nodeCompLE 3 2 (⟨0, -1, 0, 0, -1, 1, 1, 1, -1⟩ : Board) (XScore.fin 0)
    [(⟨1, -1, 0, 0, -1, 1, 1, 1, -1⟩ : Board),
     (⟨0, -1, 1, 0, -1, 1, 1, 1, -1⟩ : Board),
     (⟨0, -1, 0, 1, -1, 1, 1, 1, -1⟩ : Board)]
    rfl rfl rfl
    ⟨certLE0583, certLE0316, certLE0585, True.intro⟩

theorem certLE0587 : XScore.ble ((minimax 4 (⟨0, -1, 0, 0, -1, 1, 1, 1, 0⟩ : Board) HUMAN).1.2.2) (XScore.fin 0) = true :=
  nodeHumanLE 4 3 (⟨0, -1, 0, 0, -1, 1, 1, 1, 0⟩ : Board) (⟨0, -1, 0, 0, -1, 1, 1, 1, -1⟩ : Board) (XScore.fin 0) 2 2 rfl rfl (of_decide_eq_true rfl) rfl
    certLE0586

theorem certLE0588 : XScore.ble ((minimax 3 (⟨0, -1, 0, 0, -1, 1, 1, -1, 1⟩ : Board) COMP).1.2.2) (XScore.fin 0) = true :=
  leafLE 3 (⟨0, -1, 0, 0, -1, 1, 1, -1, 1⟩ : Board) COMP (XScore.fin 0) (Or.inr rfl) rfl

theorem certLE0589 : XScore.ble ((minimax 4 (⟨0, -1, 0, 0, -1, 1, 1, 0, 1⟩ : Board) HUMAN).1.2.2) (XScore.fin 0) = true :=
  nodeHumanLE 4 3 (⟨0, -1, 0, 0, -1, 1, 1, 0, 1⟩ : Board) (⟨0, -1, 0, 0, -1, 1, 1, -1, 1⟩ : Board) (XScore.fin 0) 2 1 rfl rfl (of_decide_eq_true rfl) rfl
    certLE0588

theorem certLE0590 : XScore.ble ((minimax 5 (⟨0, -1, 0, 0, -1, 1, 1, 0, 0⟩ : Board) COMP).1.2.2) (XScore.fin 0) = true :=
  nodeCompLE 5 4 (⟨0, -1, 0, 0, -1, 1, 1, 0, 0⟩ : Board) (XScore.fin 0)
    [(⟨1, -1, 0, 0, -1, 1, 1, 0, 0⟩ : Board),
     (⟨0, -1, 1, 0, -1, 1, 1, 0, 0⟩ : Board),
     (⟨0, -1, 0, 1, -1, 1, 1, 0, 0⟩ : Board),
     (⟨0, -1, 0, 0, -1, 1, 1, 1, 0⟩ : Board),
     (⟨0, -1, 0, 0, -1, 1, 1, 0, 1⟩ : Board)]
    rfl rfl rfl
    ⟨certLE0081, certLE0311, certLE0582, certLE0587, certLE0589, True.intro⟩

theorem certLE0591 : XScore.ble ((minimax 6 (⟨0, 0, 0, 0, -1, 1, 1, 0, 0⟩ : Board) HUMAN).1.2.2) (XScore.fin 0) = true :=
  nodeHumanLE 6 5 (⟨0, 0, 0, 0, -1, 1, 1, 0, 0⟩ : Board) (⟨0, -1, 0, 0, -1, 1, 1, 0, 0⟩ : Board) (XScore.fin 0) 0 1 rfl rfl (of_decide_eq_true rfl) rfl
    certLE0590

theorem certLE0592 : XScore.ble ((minimax 1 (⟨1, 1, -1, -1, -1, 0, 1, 1, -1⟩ : Board) COMP).1.2.2) (XScore.fin 0) = true :=
  nodeCompLE 1 0 (⟨1, 1, -1, -1, -1, 0, 1, 1, -1⟩ : Board) (XScore.fin 0)
    [(⟨1, 1, -1, -1, -1, 1, 1, 1, -1⟩ : Board)]
    rfl rfl rfl
    ⟨certLE0108, True.intro⟩

theorem certLE0593 : XScore.ble ((minimax 2 (⟨1, 1, 0, -1, -1, 0, 1, 1, -1⟩ : Board) HUMAN).1.2.2) (XScore.fin 0) = true :=
  nodeHumanLE 2 1 (⟨1, 1, 0, -1, -1, 0, 1, 1, -1⟩ : Board) (⟨1, 1, -1, -1, -1, 0, 1, 1, -1⟩ : Board) (XScore.fin 0) 0 2 rfl rfl (of_decide_eq_true rfl) rfl
    certLE0592

theorem certLE0594 : XScore.ble ((minimax 2 (⟨1, 0, 1, -1, -1, 0, 1, 1, -1⟩ : Board) HUMAN).1.2.2) (XScore.fin 0) = true :=
  nodeHumanLE 2 1 (⟨1, 0, 1, -1, -1, 0, 1, 1, -1⟩ : Board) (⟨1, -1, 1, -1, -1, 0, 1, 1, -1⟩ : Board) (XScore.fin 0) 0 1 rfl rfl (of_decide_eq_true rfl) rfl
    certLE0312

theorem certLE0595 : XScore.ble ((minimax 2 (⟨1, 0, 0, -1, -1, 1, 1, 1, -1⟩ : Board) HUMAN).1.2.2) (XScore.fin 0) = true :=
  nodeHumanLE 2 1 (⟨1, 0, 0, -1, -1, 1, 1, 1, -1⟩ : Board) (⟨1, -1, 0, -1, -1, 1, 1, 1, -1⟩ : Board) (XScore.fin 0) 0 1 rfl rfl (of_decide_eq_true rfl) rfl
    certLE0076

theorem certLE0596 : XScore.ble ((minimax 3 (⟨1, 0, 0, -1, -1, 0, 1, 1, -1⟩ : Board) COMP).1.2.2) (XScore.fin 0) = true :=
  nodeCompLE 3 2 (⟨1, 0, 0, -1, -1, 0, 1, 1, -1⟩ : Board) (XScore.fin 0)
    [(⟨1, 1, 0, -1, -1, 0, 1, 1, -1⟩ : Board),
     (⟨1, 0, 1, -1, -1, 0, 1, 1, -1⟩ : Board),
     (⟨1, 0, 0, -1, -1, 1, 1, 1, -1⟩ : Board)]
    rfl rfl rfl
    ⟨certLE0593, certLE0594, certLE0595, True.intro⟩

theorem certLE0597 : XScore.ble ((minimax 4 (⟨1, 0, 0, 0, -1, 0, 1, 1, -1⟩ : Board) HUMAN).1.2.2) (XScore.fin 0) = true :=
  nodeHumanLE 4 3 (⟨1, 0, 0, 0, -1, 0, 1, 1, -1⟩ : Board) (⟨1, 0, 0, -1, -1, 0, 1, 1, -1⟩ : Board) (XScore.fin 0) 1 0 rfl rfl (of_decide_eq_true rfl) rfl
    certLE0596

theorem certLE0598 : XScore.ble ((minimax 4 (⟨0, 1, 0, 0, -1, 0, 1, 1, -1⟩ : Board) HUMAN).1.2.2) (XScore.fin 0) = true :=
  nodeHumanLE 4 3 (⟨0, 1, 0, 0, -1, 0, 1, 1, -1⟩ : Board) (⟨-1, 1, 0, 0, -1, 0, 1, 1, -1⟩ : Board) (XScore.fin 0) 0 0 rfl rfl (of_decide_eq_true rfl) rfl
    certLE0243

theorem certLE0599 : XScore.ble ((minimax 3 (⟨-1, 0, 1, 0, -1, 0, 1, 1, -1⟩ : Board) COMP).1.2.2) (XScore.fin 0) = true :=
  leafLE 3 (⟨-1, 0, 1, 0, -1, 0, 1, 1, -1⟩ : Board) COMP (XScore.fin 0) (Or.inr rfl) rfl

theorem certLE0600 : XScore.ble ((minimax 4 (⟨0, 0, 1, 0, -1, 0, 1, 1, -1⟩ : Board) HUMAN).1.2.2) (XScore.fin 0) = true :=
  nodeHumanLE 4 3 (⟨0, 0, 1, 0, -1, 0, 1, 1, -1⟩ : Board) (⟨-1, 0, 1, 0, -1, 0, 1, 1, -1⟩ : Board) (XScore.fin 0) 0 0 rfl rfl (of_decide_eq_true rfl) rfl
    certLE0599

theorem certLE0601 : XScore.ble ((minimax 4 (⟨0, 0, 0, 1, -1, 0, 1, 1, -1⟩ : Board) HUMAN).1.2.2) (XScore.fin 0) = true :=
  nodeHumanLE 4 3 (⟨0, 0, 0, 1, -1, 0, 1, 1, -1⟩ : Board) (⟨-1, 0, 0, 1, -1, 0, 1, 1, -1⟩ : Board) (XScore.fin 0) 0 0 rfl rfl (of_decide_eq_true rfl) rfl
    certLE0573

theorem certLE0602 : XScore.ble ((minimax 3 (⟨-1, 0, 0, 0, -1, 1, 1, 1, -1⟩ : Board) COMP).1.2.2) (XScore.fin 0) = true :=
  leafLE 3 (⟨-1, 0, 0, 0, -1, 1, 1, 1, -1⟩ : Board) COMP (XScore.fin 0) (Or.inr rfl) rfl

theorem certLE0603 : XScore.ble ((minimax 4 (⟨0, 0, 0, 0, -1, 1, 1, 1, -1⟩ : Board) HUMAN).1.2.2) (XScore.fin 0) = true :=
  nodeHumanLE 4 3 (⟨0, 0, 0, 0, -1, 1, 1, 1, -1⟩ : Board) (⟨-1, 0, 0, 0, -1, 1, 1, 1, -1⟩ : Board) (XScore.fin 0) 0 0 rfl rfl (of_decide_eq_true rfl) rfl
    certLE0602

theorem certLE0604 : XScore.ble ((minimax 5 (⟨0, 0, 0, 0, -1, 0, 1, 1, -1⟩ : Board) COMP).1.2.2) (XScore.fin 0) = true :=
  nodeCompLE 5 4 (⟨0, 0, 0, 0, -1, 0, 1, 1, -1⟩ : Board) (XScore.fin 0)
    [(⟨1, 0, 0, 0, -1, 0, 1, 1, -1⟩ : Board),
     (⟨0, 1, 0, 0, -1, 0, 1, 1, -1⟩ : Board),
     (⟨0, 0, 1, 0, -1, 0, 1, 1, -1⟩ : Board),
     (⟨0, 0, 0, 1, -1, 0, 1, 1, -1⟩ : Board),
     (⟨0, 0, 0, 0, -1, 1, 1, 1, -1⟩ : Board)]
    rfl rfl rfl
    ⟨certLE0597, certLE0598, certLE0600, certLE0601, certLE0603, True.intro⟩

theorem certLE0605 : XScore.ble ((minimax 6 (⟨0, 0, 0, 0, -1, 0, 1, 1, 0⟩ : Board) HUMAN).1.2.2) (XScore.fin 0) = true :=
  nodeHumanLE 6 5 (⟨0, 0, 0, 0, -1, 0, 1, 1, 0⟩ : Board) (⟨0, 0, 0, 0, -1, 0, 1, 1, -1⟩ : Board) (XScore.fin 0) 2 2 rfl rfl (of_decide_eq_true rfl) rfl
    certLE0604

theorem certLE0606 : XScore.ble ((minimax 4 (⟨1, 0, 0, 0, -1, 0, 1, -1, 1⟩ : Board) HUMAN).1.2.2) (XScore.fin 0) = true :=
  nodeHumanLE 4 3 (⟨1, 0, 0, 0, -1, 0, 1, -1, 1⟩ : Board) (⟨1, -1, 0, 0, -1, 0, 1, -1, 1⟩ : Board) (XScore.fin 0) 0 1 rfl rfl (of_decide_eq_true rfl) rfl
    certLE0120

theorem certLE0607 : XScore.ble ((minimax 4 (⟨0, 1, 0, 0, -1, 0, 1, -1, 1⟩ : Board) HUMAN).1.2.2) (XScore.fin 0) = true :=
  nodeHumanLE 4 3 (⟨0, 1, 0, 0, -1, 0, 1, -1, 1⟩ : Board) (⟨-1, 1, 0, 0, -1, 0, 1, -1, 1⟩ : Board) (XScore.fin 0) 0 0 rfl rfl (of_decide_eq_true rfl) rfl
    certLE0249

theorem certLE0608 : XScore.ble ((minimax 4 (⟨0, 0, 1, 0, -1, 0, 1, -1, 1⟩ : Board) HUMAN).1.2.2) (XScore.fin 0) = true :=
  nodeHumanLE 4 3 (⟨0, 0, 1, 0, -1, 0, 1, -1, 1⟩ : Board) (⟨0, -1, 1, 0, -1, 0, 1, -1, 1⟩ : Board) (XScore.fin 0) 0 1 rfl rfl (of_decide_eq_true rfl) rfl
    certLE0319

theorem certLE0609 : XScore.ble ((minimax 4 (⟨0, 0, 0, 1, -1, 0, 1, -1, 1⟩ : Board) HUMAN).1.2.2) (XScore.fin 0) = true :=
  nodeHumanLE 4 3 (⟨0, 0, 0, 1, -1, 0, 1, -1, 1⟩ : Board) (⟨-1, 0, 0, 1, -1, 0, 1, -1, 1⟩ : Board) (XScore.fin 0) 0 0 rfl rfl (of_decide_eq_true rfl) rfl
    certLE0578

theorem certLE0610 : XScore.ble ((minimax 4 (⟨0, 0, 0, 0, -1, 1, 1, -1, 1⟩ : Board) HUMAN).1.2.2) (XScore.fin 0) = true :=
  nodeHumanLE 4 3 (⟨0, 0, 0, 0, -1, 1, 1, -1, 1⟩ : Board) (⟨0, -1, 0, 0, -1, 1, 1, -1, 1⟩ : Board) (XScore.fin 0) 0 1 rfl rfl (of_decide_eq_true rfl) rfl
    certLE0588

theorem certLE0611 : XScore.ble ((minimax 5 (⟨0, 0, 0, 0, -1, 0, 1, -1, 1⟩ : Board) COMP).1.2.2) (XScore.fin 0) = true :=
  nodeCompLE 5 4 (⟨0, 0, 0, 0, -1, 0, 1, -1, 1⟩ : Board) (XScore.fin 0)
    [(⟨1, 0, 0, 0, -1, 0, 1, -1, 1⟩ : Board),
     (⟨0, 1, 0, 0, -1, 0, 1, -1, 1⟩ : Board),
     (⟨0, 0, 1, 0, -1, 0, 1, -1, 1⟩ : Board),
     (⟨0, 0, 0, 1, -1, 0, 1, -1, 1⟩ : Board),
     (⟨0, 0, 0, 0, -1, 1, 1, -1, 1⟩ : Board)]
    rfl rfl rfl
    ⟨certLE0606, certLE0607, certLE0608, certLE0609, certLE0610, True.intro⟩

theorem certLE0612 : XScore.ble ((minimax 6 (⟨0, 0, 0, 0, -1, 0, 1, 0, 1⟩ : Board) HUMAN).1.2.2) (XScore.fin 0) = true :=
  nodeHumanLE 6 5 (⟨0, 0, 0, 0, -1, 0, 1, 0, 1⟩ : Board) (⟨0, 0, 0, 0, -1, 0, 1, -1, 1⟩ : Board) (XScore.fin 0) 2 1 rfl rfl (of_decide_eq_true rfl) rfl
    certLE0611

theorem certLE0613 : XScore.ble ((minimax 7 (⟨0, 0, 0, 0, -1, 0, 1, 0, 0⟩ : Board) COMP).1.2.2) (XScore.fin 0) = true :=
  nodeCompLE 7 6 (⟨0, 0, 0, 0, -1, 0, 1, 0, 0⟩ : Board) (XScore.fin 0)
    [(⟨1, 0, 0, 0, -1, 0, 1, 0, 0⟩ : Board),
     (⟨0, 1, 0, 0, -1, 0, 1, 0, 0⟩ : Board),
     (⟨0, 0, 1, 0, -1, 0, 1, 0, 0⟩ : Board),
     (⟨0, 0, 0, 1, -1, 0, 1, 0, 0⟩ : Board),
     (⟨0, 0, 0, 0, -1, 1, 1, 0, 0⟩ : Board),
     (⟨0, 0, 0, 0, -1, 0, 1, 1, 0⟩ : Board),
     (⟨0, 0, 0, 0, -1, 0, 1, 0, 1⟩ : Board)]
    rfl rfl rfl
    ⟨certLE0105, certLE0572, certLE0322, certLE0581, certLE0591, certLE0605, certLE0612, True.intro⟩

theorem certLE0614 : XScore.ble ((minimax 8 (⟨0, 0, 0, 0, 0, 0, 1, 0, 0⟩ : Board) HUMAN).1.2.2) (XScore.fin 0) = true :=
  nodeHumanLE 8 7 (⟨0, 0, 0, 0, 0, 0, 1, 0, 0⟩ : Board) (⟨0, 0, 0, 0, -1, 0, 1, 0, 0⟩ : Board) (XScore.fin 0) 1 1 rfl rfl (of_decide_eq_true rfl) rfl
    certLE0613

theorem certLE0615 : XScore.ble ((minimax 3 (⟨1, -1, 1, 0, -1, 0, -1, 1, 0⟩ : Board) COMP).1.2.2) (XScore.fin 0) = true :=
  nodeCompLE 3 2 (⟨1, -1, 1, 0, -1, 0, -1, 1, 0⟩ : Board) (XScore.fin 0)
    [(⟨1, -1, 1, 1, -1, 0, -1, 1, 0⟩ : Board),
     (⟨1, -1, 1, 0, -1, 1, -1, 1, 0⟩ : Board),
     (⟨1, -1, 1, 0, -1, 0, -1, 1, 1⟩ : Board)]
    rfl rfl rfl
    ⟨certLE0030, certLE0084, certLE0123, True.intro⟩

theorem certLE0616 : XScore.ble ((minimax 4 (⟨1, -1, 1, 0, 0, 0, -1, 1, 0⟩ : Board) HUMAN).1.2.2) (XScore.fin 0) = true :=
  nodeHumanLE 4 3 (⟨1, -1, 1, 0, 0, 0, -1, 1, 0⟩ : Board) (⟨1, -1, 1, 0, -1, 0, -1, 1, 0⟩ : Board) (XScore.fin 0) 1 1 rfl rfl (of_decide_eq_true rfl) rfl
    certLE0615

theorem certLE0617 : XScore.ble ((minimax 4 (⟨1, -1, 0, 1, 0, 0, -1, 1, 0⟩ : Board) HUMAN).1.2.2) (XScore.fin 0) = true :=
  nodeHumanLE 4 3 (⟨1, -1, 0, 1, 0, 0, -1, 1, 0⟩ : Board) (⟨1, -1, 0, 1, -1, 0, -1, 1, 0⟩ : Board) (XScore.fin 0) 1 1 rfl rfl (of_decide_eq_true rfl) rfl
    certLE0069

theorem certLE0618 : XScore.ble ((minimax 0 (⟨1, -1, 1, -1, 1, 1, -1, 1, -1⟩ : Board) HUMAN).1.2.2) (XScore.fin 0) = true :=
  leafLE 0 (⟨1, -1, 1, -1, 1, 1, -1, 1, -1⟩ : Board) HUMAN (XScore.fin 0) (Or.inl rfl) rfl

theorem certLE0619 : XScore.ble ((minimax 1 (⟨1, -1, 1, -1, 1, 0, -1, 1, -1⟩ : Board) COMP).1.2.2) (XScore.fin 0) = true :=
  nodeCompLE 1 0 (⟨1, -1, 1, -1, 1, 0, -1, 1, -1⟩ : Board) (XScore.fin 0)
    [(⟨1, -1, 1, -1, 1, 1, -1, 1, -1⟩ : Board)]
    rfl rfl rfl
    ⟨certLE0618, True.intro⟩

theorem certLE0620 : XScore.ble ((minimax 2 (⟨1, -1, 1, 0, 1, 0, -1, 1, -1⟩ : Board) HUMAN).1.2.2) (XScore.fin 0) = true :=
  nodeHumanLE 2 1 (⟨1, -1, 1, 0, 1, 0, -1, 1, -1⟩ : Board) (⟨1, -1, 1, -1, 1, 0, -1, 1, -1⟩ : Board) (XScore.fin 0) 1 0 rfl rfl (of_decide_eq_true rfl) rfl
    certLE0619

theorem certLE0621 : XScore.ble ((minimax 0 (⟨1, -1, 1, 1, 1, -1, -1, 1, -1⟩ : Board) HUMAN).1.2.2) (XScore.fin 0) = true :=
  leafLE 0 (⟨1, -1, 1, 1, 1, -1, -1, 1, -1⟩ : Board) HUMAN (XScore.fin 0) (Or.inl rfl) rfl

theorem certLE0622 : XScore.ble ((minimax 1 (⟨1, -1, 0, 1, 1, -1, -1, 1, -1⟩ : Board) COMP).1.2.2) (XScore.fin 0) = true :=
  nodeCompLE 1 0 (⟨1, -1, 0, 1, 1, -1, -1, 1, -1⟩ : Board) (XScore.fin 0)
    [(⟨1, -1, 1, 1, 1, -1, -1, 1, -1⟩ : Board)]
    rfl rfl rfl
    ⟨certLE0621, True.intro⟩

theorem certLE0623 : XScore.ble ((minimax 2 (⟨1, -1, 0, 1, 1, 0, -1, 1, -1⟩ : Board) HUMAN).1.2.2) (XScore.fin 0) = true :=
  nodeHumanLE 2 1 (⟨1, -1, 0, 1, 1, 0, -1, 1, -1⟩ : Board) (⟨1, -1, 0, 1, 1, -1, -1, 1, -1⟩ : Board) (XScore.fin 0) 1 2 rfl rfl (of_decide_eq_true rfl) rfl
    certLE0622

theorem certLE0624 : XScore.ble ((minimax 1 (⟨1, -1, 0, -1, 1, 1, -1, 1, -1⟩ : Board) COMP).1.2.2) (XScore.fin 0) = true :=
  nodeCompLE 1 0 (⟨1, -1, 0, -1, 1, 1, -1, 1, -1⟩ : Board) (XScore.fin 0)
    [(⟨1, -1, 1, -1, 1, 1, -1, 1, -1⟩ : Board)]
    rfl rfl rfl
    ⟨certLE0618, True.intro⟩

theorem certLE0625 : XScore.ble ((minimax 2 (⟨1, -1, 0, 0, 1, 1, -1, 1, -1⟩ : Board) HUMAN).1.2.2) (XScore.fin 0) = true :=
  nodeHumanLE 2 1 (⟨1, -1, 0, 0, 1, 1, -1, 1, -1⟩ : Board) (⟨1, -1, 0, -1, 1, 1, -1, 1, -1⟩ : Board) (XScore.fin 0) 1 0 rfl rfl (of_decide_eq_true rfl) rfl
    certLE0624

theorem certLE0626 : XScore.ble ((minimax 3 (⟨1, -1, 0, 0, 1, 0, -1, 1, -1⟩ : Board) COMP).1.2.2) (XScore.fin 0) = true :=
  nodeCompLE 3 2 (⟨1, -1, 0, 0, 1, 0, -1, 1, -1⟩ : Board) (XScore.fin 0)
    [(⟨1, -1, 1, 0, 1, 0, -1, 1, -1⟩ : Board),
     (⟨1, -1, 0, 1, 1, 0, -1, 1, -1⟩ : Board),
     (⟨1, -1, 0, 0, 1, 1, -1, 1, -1⟩ : Board)]
    rfl rfl rfl
    ⟨certLE0620, certLE0623, certLE0625, True.intro⟩

theorem certLE0627 : XScore.ble ((minimax 4 (⟨1, -1, 0, 0, 1, 0, -1, 1, 0⟩ : Board) HUMAN).1.2.2) (XScore.fin 0) = true :=
  nodeHumanLE 4 3 (⟨1, -1, 0, 0, 1, 0, -1, 1, 0⟩ : Board) (⟨1, -1, 0, 0, 1, 0, -1, 1, -1⟩ : Board) (XScore.fin 0) 2 2 rfl rfl (of_decide_eq_true rfl) rfl
    certLE0626

theorem certLE0628 : XScore.ble ((minimax 4 (⟨1, -1, 0, 0, 0, 1, -1, 1, 0⟩ : Board) HUMAN).1.2.2) (XScore.fin 0) = true :=
  nodeHumanLE 4 3 (⟨1, -1, 0, 0, 0, 1, -1, 1, 0⟩ : Board) (⟨1, -1, 0, 0, -1, 1, -1, 1, 0⟩ : Board) (XScore.fin 0) 1 1 rfl rfl (of_decide_eq_true rfl) rfl
    certLE0087

theorem certLE0629 : XScore.ble ((minimax 4 (⟨1, -1, 0, 0, 0, 0, -1, 1, 1⟩ : Board) HUMAN).1.2.2) (XScore.fin 0) = true :=
  nodeHumanLE 4 3 (⟨1, -1, 0, 0, 0, 0, -1, 1, 1⟩ : Board) (⟨1, -1, 0, 0, -1, 0, -1, 1, 1⟩ : Board) (XScore.fin 0) 1 1 rfl rfl (of_decide_eq_true rfl) rfl
    certLE0124

theorem certLE0630 : XScore.ble ((minimax 5 (⟨1, -1, 0, 0, 0, 0, -1, 1, 0⟩ : Board) COMP).1.2.2) (XScore.fin 0) = true :=
  nodeCompLE 5 4 (⟨1, -1, 0, 0, 0, 0, -1, 1, 0⟩ : Board) (XScore.fin 0)
    [(⟨1, -1, 1, 0, 0, 0, -1, 1, 0⟩ : Board),
     (⟨1, -1, 0, 1, 0, 0, -1, 1, 0⟩ : Board),
     (⟨1, -1, 0, 0, 1, 0, -1, 1, 0⟩ : Board),
     (⟨1, -1, 0, 0, 0, 1, -1, 1, 0⟩ : Board),
     (⟨1, -1, 0, 0, 0, 0, -1, 1, 1⟩ : Board)]
    rfl rfl rfl
    ⟨certLE0616, certLE0617, certLE0627, certLE0628, certLE0629, True.intro⟩

theorem certLE0631 : XScore.ble ((minimax 6 (⟨1, -1, 0, 0, 0, 0, 0, 1, 0⟩ : Board) HUMAN).1.2.2) (XScore.fin 0) = true :=
  nodeHumanLE 6 5 (⟨1, -1, 0, 0, 0, 0, 0, 1, 0⟩ : Board) (⟨1, -1, 0, 0, 0, 0, -1, 1, 0⟩ : Board) (XScore.fin 0) 2 0 rfl rfl (of_decide_eq_true rfl) rfl
    certLE0630

theorem certLE0632 : XScore.ble ((minimax 1 (⟨0, -1, 1, 1, -1, 1, -1, 1, -1⟩ : Board) COMP).1.2.2) (XScore.fin 0) = true :=
  nodeCompLE 1 0 (⟨0, -1, 1, 1, -1, 1, -1, 1, -1⟩ : Board) (XScore.fin 0)
    [(⟨1, -1, 1, 1, -1, 1, -1, 1, -1⟩ : Board)]
    rfl rfl rfl
    ⟨certLE0082, True.intro⟩

theorem certLE0633 : XScore.ble ((minimax 2 (⟨0, -1, 1, 1, -1, 1, -1, 1, 0⟩ : Board) HUMAN).1.2.2) (XScore.fin 0) = true :=
  nodeHumanLE 2 1 (⟨0, -1, 1, 1, -1, 1, -1, 1, 0⟩ : Board) (⟨0, -1, 1, 1, -1, 1, -1, 1, -1⟩ : Board) (XScore.fin 0) 2 2 rfl rfl (of_decide_eq_true rfl) rfl
    certLE0632

theorem certLE0634 : XScore.ble ((minimax 1 (⟨0, -1, 1, 1, -1, -1, -1, 1, 1⟩ : Board) COMP).1.2.2) (XScore.fin 0) = true :=
  nodeCompLE 1 0 (⟨0, -1, 1, 1, -1, -1, -1, 1, 1⟩ : Board) (XScore.fin 0)
    [(⟨1, -1, 1, 1, -1, -1, -1, 1, 1⟩ : Board)]
    rfl rfl rfl
    ⟨certLE0028, True.intro⟩

theorem certLE0635 : XScore.ble ((minimax 2 (⟨0, -1, 1, 1, -1, 0, -1, 1, 1⟩ : Board) HUMAN).1.2.2) (XScore.fin 0) = true :=
  nodeHumanLE 2 1 (⟨0, -1, 1, 1, -1, 0, -1, 1, 1⟩ : Board) (⟨0, -1, 1, 1, -1, -1, -1, 1, 1⟩ : Board) (XScore.fin 0) 1 2 rfl rfl (of_decide_eq_true rfl) rfl
    certLE0634

theorem certLE0636 : XScore.ble ((minimax 3 (⟨0, -1, 1, 1, -1, 0, -1, 1, 0⟩ : Board) COMP).1.2.2) (XScore.fin 0) = true :=
  nodeCompLE 3 2 (⟨0, -1, 1, 1, -1, 0, -1, 1, 0⟩ : Board) (XScore.fin 0)
    [(⟨1, -1, 1, 1, -1, 0, -1, 1, 0⟩ : Board),
     (⟨0, -1, 1, 1, -1, 1, -1, 1, 0⟩ : Board),
     (⟨0, -1, 1, 1, -1, 0, -1, 1, 1⟩ : Board)]
    rfl rfl rfl
    ⟨certLE0030, certLE0633, certLE0635, True.intro⟩

theorem certLE0637 : XScore.ble ((minimax 4 (⟨0, -1, 1, 1, 0, 0, -1, 1, 0⟩ : Board) HUMAN).1.2.2) (XScore.fin 0) = true :=
  nodeHumanLE 4 3 (⟨0, -1, 1, 1, 0, 0, -1, 1, 0⟩ : Board) (⟨0, -1, 1, 1, -1, 0, -1, 1, 0⟩ : Board) (XScore.fin 0) 1 1 rfl rfl (of_decide_eq_true rfl) rfl
    certLE0636

theorem certLE0638 : XScore.ble ((minimax 4 (⟨0, -1, 1, 0, 1, 0, -1, 1, 0⟩ : Board) HUMAN).1.2.2) (XScore.fin 0) = true :=
  nodeHumanLE 4 3 (⟨0, -1, 1, 0, 1, 0, -1, 1, 0⟩ : Board) (⟨-1, -1, 1, 0, 1, 0, -1, 1, 0⟩ : Board) (XScore.fin 0) 0 0 rfl rfl (of_decide_eq_true rfl) rfl
    certLE0434

theorem certLE0639 : XScore.ble ((minimax 1 (⟨1, -1, 1, -1, 0, 1, -1, 1, -1⟩ : Board) COMP).1.2.2) (XScore.fin 0) = true :=
  nodeCompLE 1 0 (⟨1, -1, 1, -1, 0, 1, -1, 1, -1⟩ : Board) (XScore.fin 0)
    [(⟨1, -1, 1, -1, 1, 1, -1, 1, -1⟩ : Board)]
    rfl rfl rfl
    ⟨certLE0618, True.intro⟩

theorem certLE0640 : XScore.ble ((minimax 2 (⟨1, -1, 1, 0, 0, 1, -1, 1, -1⟩ : Board) HUMAN).1.2.2) (XScore.fin 0) = true :=
  nodeHumanLE 2 1 (⟨1, -1, 1, 0, 0, 1, -1, 1, -1⟩ : Board) (⟨1, -1, 1, -1, 0, 1, -1, 1, -1⟩ : Board) (XScore.fin 0) 1 0 rfl rfl (of_decide_eq_true rfl) rfl
    certLE0639

theorem certLE0641 : XScore.ble ((minimax 2 (⟨0, -1, 1, 1, 0, 1, -1, 1, -1⟩ : Board) HUMAN).1.2.2) (XScore.fin 0) = true :=
  nodeHumanLE 2 1 (⟨0, -1, 1, 1, 0, 1, -1, 1, -1⟩ : Board) (⟨0, -1, 1, 1, -1, 1, -1, 1, -1⟩ : Board) (XScore.fin 0) 1 1 rfl rfl (of_decide_eq_true rfl) rfl
    certLE0632

theorem certLE0642 : XScore.ble ((minimax 1 (⟨0, -1, 1, -1, 1, 1, -1, 1, -1⟩ : Board) COMP).1.2.2) (XScore.fin 0) = true :=
  nodeCompLE 1 0 (⟨0, -1, 1, -1, 1, 1, -1, 1, -1⟩ : Board) (XScore.fin 0)
    [(⟨1, -1, 1, -1, 1, 1, -1, 1, -1⟩ : Board)]
    rfl rfl rfl
    ⟨certLE0618, True.intro⟩

theorem certLE0643 : XScore.ble ((minimax 2 (⟨0, -1, 1, 0, 1, 1, -1, 1, -1⟩ : Board) HUMAN).1.2.2) (XScore.fin 0) = true :=
  nodeHumanLE 2 1 (⟨0, -1, 1, 0, 1, 1, -1, 1, -1⟩ : Board) (⟨0, -1, 1, -1, 1, 1, -1, 1, -1⟩ : Board) (XScore.fin 0) 1 0 rfl rfl (of_decide_eq_true rfl) rfl
    certLE0642

theorem certLE0644 : XScore.ble ((minimax 3 (⟨0, -1, 1, 0, 0, 1, -1, 1, -1⟩ : Board) COMP).1.2.2) (XScore.fin 0) = true :=
  nodeCompLE 3 2 (⟨0, -1, 1, 0, 0, 1, -1, 1, -1⟩ : Board) (XScore.fin 0)
    [(⟨1, -1, 1, 0, 0, 1, -1, 1, -1⟩ : Board),
     (⟨0, -1, 1, 1, 0, 1, -1, 1, -1⟩ : Board),
     (⟨0, -1, 1, 0, 1, 1, -1, 1, -1⟩ : Board)]
    rfl rfl rfl
    ⟨certLE0640, certLE0641, certLE0643, True.intro⟩

theorem certLE0645 : XScore.ble ((minimax 4 (⟨0, -1, 1, 0, 0, 1, -1, 1, 0⟩ : Board) HUMAN).1.2.2) (XScore.fin 0) = true :=
  nodeHumanLE 4 3 (⟨0, -1, 1, 0, 0, 1, -1, 1, 0⟩ : Board) (⟨0, -1, 1, 0, 0, 1, -1, 1, -1⟩ : Board) (XScore.fin 0) 2 2 rfl rfl (of_decide_eq_true rfl) rfl
    certLE0644

theorem certLE0646 : XScore.ble ((minimax 2 (⟨1, -1, 1, 0, 0, -1, -1, 1, 1⟩ : Board) HUMAN).1.2.2) (XScore.fin 0) = true :=
  nodeHumanLE 2 1 (⟨1, -1, 1, 0, 0, -1, -1, 1, 1⟩ : Board) (⟨1, -1, 1, 0, -1, -1, -1, 1, 1⟩ : Board) (XScore.fin 0) 1 1 rfl rfl (of_decide_eq_true rfl) rfl
    certLE0122

theorem certLE0647 : XScore.ble ((minimax 1 (⟨-1, -1, 1, 1, 0, -1, -1, 1, 1⟩ : Board) COMP).1.2.2) (XScore.fin 0) = true :=
  nodeCompLE 1 0 (⟨-1, -1, 1, 1, 0, -1, -1, 1, 1⟩ : Board) (XScore.fin 0)
    [(⟨-1, -1, 1, 1, 1, -1, -1, 1, 1⟩ : Board)]
    rfl rfl rfl
    ⟨certLE0350, True.intro⟩

theorem certLE0648 : XScore.ble ((minimax 2 (⟨0, -1, 1, 1, 0, -1, -1, 1, 1⟩ : Board) HUMAN).1.2.2) (XScore.fin 0) = true :=
  nodeHumanLE 2 1 (⟨0, -1, 1, 1, 0, -1, -1, 1, 1⟩ : Board) (⟨-1, -1, 1, 1, 0, -1, -1, 1, 1⟩ : Board) (XScore.fin 0) 0 0 rfl rfl (of_decide_eq_true rfl) rfl
    certLE0647

theorem certLE0649 : XScore.ble ((minimax 1 (⟨-1, -1, 1, 0, 1, -1, -1, 1, 1⟩ : Board) COMP).1.2.2) (XScore.fin 0) = true :=
  nodeCompLE 1 0 (⟨-1, -1, 1, 0, 1, -1, -1, 1, 1⟩ : Board) (XScore.fin 0)
    [(⟨-1, -1, 1, 1, 1, -1, -1, 1, 1⟩ : Board)]
    rfl rfl rfl
    ⟨certLE0350, True.intro⟩

theorem certLE0650 : XScore.ble ((minimax 2 (⟨0, -1, 1, 0, 1, -1, -1, 1, 1⟩ : Board) HUMAN).1.2.2) (XScore.fin 0) = true :=
  nodeHumanLE 2 1 (⟨0, -1, 1, 0, 1, -1, -1, 1, 1⟩ : Board) (⟨-1, -1, 1, 0, 1, -1, -1, 1, 1⟩ : Board) (XScore.fin 0) 0 0 rfl rfl (of_decide_eq_true rfl) rfl
    certLE0649

theorem certLE0651 : XScore.ble ((minimax 3 (⟨0, -1, 1, 0, 0, -1, -1, 1, 1⟩ : Board) COMP).1.2.2) (XScore.fin 0) = true :=
  nodeCompLE 3 2 (⟨0, -1, 1, 0, 0, -1, -1, 1, 1⟩ : Board) (XScore.fin 0)
    [(⟨1, -1, 1, 0, 0, -1, -1, 1, 1⟩ : Board),
     (⟨0, -1, 1, 1, 0, -1, -1, 1, 1⟩ : Board),
     (⟨0, -1, 1, 0, 1, -1, -1, 1, 1⟩ : Board)]
    rfl rfl rfl
    ⟨certLE0646, certLE0648, certLE0650, True.intro⟩

theorem certLE0652 : XScore.ble ((minimax 4 (⟨0, -1, 1, 0, 0, 0, -1, 1, 1⟩ : Board) HUMAN).1.2.2) (XScore.fin 0) = true :=
  nodeHumanLE 4 3 (⟨0, -1, 1, 0, 0, 0, -1, 1, 1⟩ : Board) (⟨0, -1, 1, 0, 0, -1, -1, 1, 1⟩ : Board) (XScore.fin 0) 1 2 rfl rfl (of_decide_eq_true rfl) rfl
    certLE0651

theorem certLE0653 : XScore.ble ((minimax 5 (⟨0, -1, 1, 0, 0, 0, -1, 1, 0⟩ : Board) COMP).1.2.2) (XScore.fin 0) = true :=
  nodeCompLE 5 4 (⟨0, -1, 1, 0, 0, 0, -1, 1, 0⟩ : Board) (XScore.fin 0)
    [(⟨1, -1, 1, 0, 0, 0, -1, 1, 0⟩ : Board),
     (⟨0, -1, 1, 1, 0, 0, -1, 1, 0⟩ : Board),
     (⟨0, -1, 1, 0, 1, 0, -1, 1, 0⟩ : Board),
     (⟨0, -1, 1, 0, 0, 1, -1, 1, 0⟩ : Board),
     (⟨0, -1, 1, 0, 0, 0, -1, 1, 1⟩ : Board)]
    rfl rfl rfl
    ⟨certLE0616, certLE0637, certLE0638, certLE0645, certLE0652, True.intro⟩

theorem certLE0654 : XScore.ble ((minimax 6 (⟨0, -1, 1, 0, 0, 0, 0, 1, 0⟩ : Board) HUMAN).1.2.2) (XScore.fin 0) = true :=
  nodeHumanLE 6 5 (⟨0, -1, 1, 0, 0, 0, 0, 1, 0⟩ : Board) (⟨0, -1, 1, 0, 0, 0, -1, 1, 0⟩ : Board) (XScore.fin 0) 2 0 rfl rfl (of_decide_eq_true rfl) rfl
    certLE0653

theorem certLE0655 : XScore.ble ((minimax 2 (⟨1, -1, 0, 1, 1, -1, -1, 1, 0⟩ : Board) HUMAN).1.2.2) (XScore.fin 0) = true :=
  nodeHumanLE 2 1 (⟨1, -1, 0, 1, 1, -1, -1, 1, 0⟩ : Board) (⟨1, -1, 0, 1, 1, -1, -1, 1, -1⟩ : Board) (XScore.fin 0) 2 2 rfl rfl (of_decide_eq_true rfl) rfl
    certLE0622

theorem certLE0656 : XScore.ble ((minimax 2 (⟨0, -1, 1, 1, 1, -1, -1, 1, 0⟩ : Board) HUMAN).1.2.2) (XScore.fin 0) = true :=
  nodeHumanLE 2 1 (⟨0, -1, 1, 1, 1, -1, -1, 1, 0⟩ : Board) (⟨-1, -1, 1, 1, 1, -1, -1, 1, 0⟩ : Board) (XScore.fin 0) 0 0 rfl rfl (of_decide_eq_true rfl) rfl
    certLE0351

theorem certLE0657 : XScore.ble ((minimax 1 (⟨-1, -1, 0, 1, 1, -1, -1, 1, 1⟩ : Board) COMP).1.2.2) (XScore.fin 0) = true :=
  nodeCompLE 1 0 (⟨-1, -1, 0, 1, 1, -1, -1, 1, 1⟩ : Board) (XScore.fin 0)
    [(⟨-1, -1, 1, 1, 1, -1, -1, 1, 1⟩ : Board)]
    rfl rfl rfl
    ⟨certLE0350, True.intro⟩

theorem certLE0658 : XScore.ble ((minimax 2 (⟨0, -1, 0, 1, 1, -1, -1, 1, 1⟩ : Board) HUMAN).1.2.2) (XScore.fin 0) = true :=
  nodeHumanLE 2 1 (⟨0, -1, 0, 1, 1, -1, -1, 1, 1⟩ : Board) (⟨-1, -1, 0, 1, 1, -1, -1, 1, 1⟩ : Board) (XScore.fin 0) 0 0 rfl rfl (of_decide_eq_true rfl) rfl
    certLE0657

theorem certLE0659 : XScore.ble ((minimax 3 (⟨0, -1, 0, 1, 1, -1, -1, 1, 0⟩ : Board) COMP).1.2.2) (XScore.fin 0) = true :=
  nodeCompLE 3 2 (⟨0, -1, 0, 1, 1, -1, -1, 1, 0⟩ : Board) (XScore.fin 0)
    [(⟨1, -1, 0, 1, 1, -1, -1, 1, 0⟩ : Board),
     (⟨0, -1, 1, 1, 1, -1, -1, 1, 0⟩ : Board),
     (⟨0, -1, 0, 1, 1, -1, -1, 1, 1⟩ : Board)]
    rfl rfl rfl
    ⟨certLE0655, certLE0656, certLE0658, True.intro⟩

theorem certLE0660 : XScore.ble ((minimax 4 (⟨0, -1, 0, 1, 1, 0, -1, 1, 0⟩ : Board) HUMAN).1.2.2) (XScore.fin 0) = true :=
  nodeHumanLE 4 3 (⟨0, -1, 0, 1, 1, 0, -1, 1, 0⟩ : Board) (⟨0, -1, 0, 1, 1, -1, -1, 1, 0⟩ : Board) (XScore.fin 0) 1 2 rfl rfl (of_decide_eq_true rfl) rfl
    certLE0659

theorem certLE0661 : XScore.ble ((minimax 1 (⟨0, -1, -1, 1, -1, 1, -1, 1, 1⟩ : Board) COMP).1.2.2) (XScore.fin 0) = true :=
  leafLE 1 (⟨0, -1, -1, 1, -1, 1, -1, 1, 1⟩ : Board) COMP (XScore.fin 0) (Or.inr rfl) rfl

theorem certLE0662 : XScore.ble ((minimax 2 (⟨0, -1, 0, 1, -1, 1, -1, 1, 1⟩ : Board) HUMAN).1.2.2) (XScore.fin 0) = true :=
  nodeHumanLE 2 1 (⟨0, -1, 0, 1, -1, 1, -1, 1, 1⟩ : Board) (⟨0, -1, -1, 1, -1, 1, -1, 1, 1⟩ : Board) (XScore.fin 0) 0 2 rfl rfl (of_decide_eq_true rfl) rfl
    certLE0661

theorem certLE0663 : XScore.ble ((minimax 3 (⟨0, -1, 0, 1, -1, 1, -1, 1, 0⟩ : Board) COMP).1.2.2) (XScore.fin 0) = true :=
  nodeCompLE 3 2 (⟨0, -1, 0, 1, -1, 1, -1, 1, 0⟩ : Board) (XScore.fin 0)
    [(⟨1, -1, 0, 1, -1, 1, -1, 1, 0⟩ : Board),
     (⟨0, -1, 1, 1, -1, 1, -1, 1, 0⟩ : Board),
     (⟨0, -1, 0, 1, -1, 1, -1, 1, 1⟩ : Board)]
    rfl rfl rfl
    ⟨certLE0062, certLE0633, certLE0662, True.intro⟩

theorem certLE0664 : XScore.ble ((minimax 4 (⟨0, -1, 0, 1, 0, 1, -1, 1, 0⟩ : Board) HUMAN).1.2.2) (XScore.fin 0) = true :=
  nodeHumanLE 4 3 (⟨0, -1, 0, 1, 0, 1, -1, 1, 0⟩ : Board) (⟨0, -1, 0, 1, -1, 1, -1, 1, 0⟩ : Board) (XScore.fin 0) 1 1 rfl rfl (of_decide_eq_true rfl) rfl
    certLE0663

theorem certLE0665 : XScore.ble ((minimax 2 (⟨-1, -1, 1, 1, 0, 0, -1, 1, 1⟩ : Board) HUMAN).1.2.2) (XScore.fin 0) = true :=
  nodeHumanLE 2 1 (⟨-1, -1, 1, 1, 0, 0, -1, 1, 1⟩ : Board) (⟨-1, -1, 1, 1, 0, -1, -1, 1, 1⟩ : Board) (XScore.fin 0) 1 2 rfl rfl (of_decide_eq_true rfl) rfl
    certLE0647

theorem certLE0666 : XScore.ble ((minimax 1 (⟨-1, -1, -1, 1, 1, 0, -1, 1, 1⟩ : Board) COMP).1.2.2) (XScore.fin 0) = true :=
  leafLE 1 (⟨-1, -1, -1, 1, 1, 0, -1, 1, 1⟩ : Board) COMP (XScore.fin 0) (Or.inr rfl) rfl

theorem certLE0667 : XScore.ble ((minimax 2 (⟨-1, -1, 0, 1, 1, 0, -1, 1, 1⟩ : Board) HUMAN).1.2.2) (XScore.fin 0) = true :=
  nodeHumanLE 2 1 (⟨-1, -1, 0, 1, 1, 0, -1, 1, 1⟩ : Board) (⟨-1, -1, -1, 1, 1, 0, -1, 1, 1⟩ : Board) (XScore.fin 0) 0 2 rfl rfl (of_decide_eq_true rfl) rfl
    certLE0666

theorem certLE0668 : XScore.ble ((minimax 1 (⟨-1, -1, -1, 1, 0, 1, -1, 1, 1⟩ : Board) COMP).1.2.2) (XScore.fin 0) = true :=
  leafLE 1 (⟨-1, -1, -1, 1, 0, 1, -1, 1, 1⟩ : Board) COMP (XScore.fin 0) (Or.inr rfl) rfl

theorem certLE0669 : XScore.ble ((minimax 2 (⟨-1, -1, 0, 1, 0, 1, -1, 1, 1⟩ : Board) HUMAN).1.2.2) (XScore.fin 0) = true :=
  nodeHumanLE 2 1 (⟨-1, -1, 0, 1, 0, 1, -1, 1, 1⟩ : Board) (⟨-1, -1, -1, 1, 0, 1, -1, 1, 1⟩ : Board) (XScore.fin 0) 0 2 rfl rfl (of_decide_eq_true rfl) rfl
    certLE0668

theorem certLE0670 : XScore.ble ((minimax 3 (⟨-1, -1, 0, 1, 0, 0, -1, 1, 1⟩ : Board) COMP).1.2.2) (XScore.fin 0) = true :=
  nodeCompLE 3 2 (⟨-1, -1, 0, 1, 0, 0, -1, 1, 1⟩ : Board) (XScore.fin 0)
    [(⟨-1, -1, 1, 1, 0, 0, -1, 1, 1⟩ : Board),
     (⟨-1, -1, 0, 1, 1, 0, -1, 1, 1⟩ : Board),
     (⟨-1, -1, 0, 1, 0, 1, -1, 1, 1⟩ : Board)]
    rfl rfl rfl
    ⟨certLE0665, certLE0667, certLE0669, True.intro⟩

theorem certLE0671 : XScore.ble ((minimax 4 (⟨0, -1, 0, 1, 0, 0, -1, 1, 1⟩ : Board) HUMAN).1.2.2) (XScore.fin 0) = true :=
  nodeHumanLE 4 3 (⟨0, -1, 0, 1, 0, 0, -1, 1, 1⟩ : Board) (⟨-1, -1, 0, 1, 0, 0, -1, 1, 1⟩ : Board) (XScore.fin 0) 0 0 rfl rfl (of_decide_eq_true rfl) rfl
    certLE0670

theorem certLE0672 : XScore.ble ((minimax 5 (⟨0, -1, 0, 1, 0, 0, -1, 1, 0⟩ : Board) COMP).1.2.2) (XScore.fin 0) = true :=
  nodeCompLE 5 4 (⟨0, -1, 0, 1, 0, 0, -1, 1, 0⟩ : Board) (XScore.fin 0)
    [(⟨1, -1, 0, 1, 0, 0, -1, 1, 0⟩ : Board),
     (⟨0, -1, 1, 1, 0, 0, -1, 1, 0⟩ : Board),
     (⟨0, -1, 0, 1, 1, 0, -1, 1, 0⟩ : Board),
     (⟨0, -1, 0, 1, 0, 1, -1, 1, 0⟩ : Board),
     (⟨0, -1, 0, 1, 0, 0, -1, 1, 1⟩ : Board)]
    rfl rfl rfl
    ⟨certLE0617, certLE0637, certLE0660, certLE0664, certLE0671, True.intro⟩

theorem certLE0673 : XScore.ble ((minimax 6 (⟨0, -1, 0, 1, 0, 0, 0, 1, 0⟩ : Board) HUMAN).1.2.2) (XScore.fin 0) = true :=
  nodeHumanLE 6 5 (⟨0, -1, 0, 1, 0, 0, 0, 1, 0⟩ : Board) (⟨0, -1, 0, 1, 0, 0, -1, 1, 0⟩ : Board) (XScore.fin 0) 2 0 rfl rfl (of_decide_eq_true rfl) rfl
    certLE0672

theorem certLE0674 : XScore.ble ((minimax 6 (⟨0, -1, 0, 0, 1, 0, 0, 1, 0⟩ : Board) HUMAN).1.2.2) (XScore.fin 0) = true :=
  nodeHumanLE 6 5 (⟨0, -1, 0, 0, 1, 0, 0, 1, 0⟩ : Board) (⟨-1, -1, 0, 0, 1, 0, 0, 1, 0⟩ : Board) (XScore.fin 0) 0 0 rfl rfl (of_decide_eq_true rfl) rfl
    certLE0480

theorem certLE0675 : XScore.ble ((minimax 2 (⟨1, -1, 0, -1, 1, 1, -1, 1, 0⟩ : Board) HUMAN).1.2.2) (XScore.fin 0) = true :=
  nodeHumanLE 2 1 (⟨1, -1, 0, -1, 1, 1, -1, 1, 0⟩ : Board) (⟨1, -1, 0, -1, 1, 1, -1, 1, -1⟩ : Board) (XScore.fin 0) 2 2 rfl rfl (of_decide_eq_true rfl) rfl
    certLE0624

theorem certLE0676 : XScore.ble ((minimax 2 (⟨0, -1, 1, -1, 1, 1, -1, 1, 0⟩ : Board) HUMAN).1.2.2) (XScore.fin 0) = true :=
  nodeHumanLE 2 1 (⟨0, -1, 1, -1, 1, 1, -1, 1, 0⟩ : Board) (⟨-1, -1, 1, -1, 1, 1, -1, 1, 0⟩ : Board) (XScore.fin 0) 0 0 rfl rfl (of_decide_eq_true rfl) rfl
    certLE0430

theorem certLE0677 : XScore.ble ((minimax 1 (⟨-1, -1, 0, -1, 1, 1, -1, 1, 1⟩ : Board) COMP).1.2.2) (XScore.fin 0) = true :=
  leafLE 1 (⟨-1, -1, 0, -1, 1, 1, -1, 1, 1⟩ : Board) COMP (XScore.fin 0) (Or.inr rfl) rfl

theorem certLE0678 : XScore.ble ((minimax 2 (⟨0, -1, 0, -1, 1, 1, -1, 1, 1⟩ : Board) HUMAN).1.2.2) (XScore.fin 0) = true :=
  nodeHumanLE 2 1 (⟨0, -1, 0, -1, 1, 1, -1, 1, 1⟩ : Board) (⟨-1, -1, 0, -1, 1, 1, -1, 1, 1⟩ : Board) (XScore.fin 0) 0 0 rfl rfl (of_decide_eq_true rfl) rfl
    certLE0677

theorem certLE0679 : XScore.ble ((minimax 3 (⟨0, -1, 0, -1, 1, 1, -1, 1, 0⟩ : Board) COMP).1.2.2) (XScore.fin 0) = true :=
  nodeCompLE 3 2 (⟨0, -1, 0, -1, 1, 1, -1, 1, 0⟩ : Board) (XScore.fin 0)
    [(⟨1, -1, 0, -1, 1, 1, -1, 1, 0⟩ : Board),
     (⟨0, -1, 1, -1, 1, 1, -1, 1, 0⟩ : Board),
     (⟨0, -1, 0, -1, 1, 1, -1, 1, 1⟩ : Board)]
    rfl rfl rfl
    ⟨certLE0675, certLE0676, certLE0678, True.intro⟩

theorem certLE0680 : XScore.ble ((minimax 4 (⟨0, -1, 0, 0, 1, 1, -1, 1, 0⟩ : Board) HUMAN).1.2.2) (XScore.fin 0) = true :=
  nodeHumanLE 4 3 (⟨0, -1, 0, 0, 1, 1, -1, 1, 0⟩ : Board) (⟨0, -1, 0, -1, 1, 1, -1, 1, 0⟩ : Board) (XScore.fin 0) 1 0 rfl rfl (of_decide_eq_true rfl) rfl
    certLE0679

theorem certLE0681 : XScore.ble ((minimax 2 (⟨1, -1, -1, 0, 0, 1, -1, 1, 1⟩ : Board) HUMAN).1.2.2) (XScore.fin 0) = true :=
  nodeHumanLE 2 1 (⟨1, -1, -1, 0, 0, 1, -1, 1, 1⟩ : Board) (⟨1, -1, -1, 0, -1, 1, -1, 1, 1⟩ : Board) (XScore.fin 0) 1 1 rfl rfl (of_decide_eq_true rfl) rfl
    certLE0085

theorem certLE0682 : XScore.ble ((minimax 2 (⟨0, -1, -1, 1, 0, 1, -1, 1, 1⟩ : Board) HUMAN).1.2.2) (XScore.fin 0) = true :=
  nodeHumanLE 2 1 (⟨0, -1, -1, 1, 0, 1, -1, 1, 1⟩ : Board) (⟨-1, -1, -1, 1, 0, 1, -1, 1, 1⟩ : Board) (XScore.fin 0) 0 0 rfl rfl (of_decide_eq_true rfl) rfl
    certLE0668

theorem certLE0683 : XScore.ble ((minimax 1 (⟨-1, -1, -1, 0, 1, 1, -1, 1, 1⟩ : Board) COMP).1.2.2) (XScore.fin 0) = true :=
  leafLE 1 (⟨-1, -1, -1, 0, 1, 1, -1, 1, 1⟩ : Board) COMP (XScore.fin 0) (Or.inr rfl) rfl

theorem certLE0684 : XScore.ble ((minimax 2 (⟨0, -1, -1, 0, 1, 1, -1, 1, 1⟩ : Board) HUMAN).1.2.2) (XScore.fin 0) = true :=
  nodeHumanLE 2 1 (⟨0, -1, -1, 0, 1, 1, -1, 1, 1⟩ : Board) (⟨-1, -1, -1, 0, 1, 1, -1, 1, 1⟩ : Board) (XScore.fin 0) 0 0 rfl rfl (of_decide_eq_true rfl) rfl
    certLE0683

theorem certLE0685 : XScore.ble ((minimax 3 (⟨0, -1, -1, 0, 0, 1, -1, 1, 1⟩ : Board) COMP).1.2.2) (XScore.fin 0) = true :=
  nodeCompLE 3 2 (⟨0, -1, -1, 0, 0, 1, -1, 1, 1⟩ : Board) (XScore.fin 0)
    [(⟨1, -1, -1, 0, 0, 1, -1, 1, 1⟩ : Board),
     (⟨0, -1, -1, 1, 0, 1, -1, 1, 1⟩ : Board),
     (⟨0, -1, -1, 0, 1, 1, -1, 1, 1⟩ : Board)]
    rfl rfl rfl
    ⟨certLE0681, certLE0682, certLE0684, True.intro⟩

theorem certLE0686 : XScore.ble ((minimax 4 (⟨0, -1, 0, 0, 0, 1, -1, 1, 1⟩ : Board) HUMAN).1.2.2) (XScore.fin 0) = true :=
  nodeHumanLE 4 3 (⟨0, -1, 0, 0, 0, 1, -1, 1, 1⟩ : Board) (⟨0, -1, -1, 0, 0, 1, -1, 1, 1⟩ : Board) (XScore.fin 0) 0 2 rfl rfl (of_decide_eq_true rfl) rfl
    certLE0685

theorem certLE0687 : XScore.ble ((minimax 5 (⟨0, -1, 0, 0, 0, 1, -1, 1, 0⟩ : Board) COMP).1.2.2) (XScore.fin 0) = true :=
  nodeCompLE 5 4 (⟨0, -1, 0, 0, 0, 1, -1, 1, 0⟩ : Board) (XScore.fin 0)
    [(⟨1, -1, 0, 0, 0, 1, -1, 1, 0⟩ : Board),
     (⟨0, -1, 1, 0, 0, 1, -1, 1, 0⟩ : Board),
     (⟨0, -1, 0, 1, 0, 1, -1, 1, 0⟩ : Board),
     (⟨0, -1, 0, 0, 1, 1, -1, 1, 0⟩ : Board),
     (⟨0, -1, 0, 0, 0, 1, -1, 1, 1⟩ : Board)]
    rfl rfl rfl
    ⟨certLE0628, certLE0645, certLE0664, certLE0680, certLE0686, True.intro⟩

theorem certLE0688 : XScore.ble ((minimax 6 (⟨0, -1, 0, 0, 0, 1, 0, 1, 0⟩ : Board) HUMAN).1.2.2) (XScore.fin 0) = true :=
  nodeHumanLE 6 5 (⟨0, -1, 0, 0, 0, 1, 0, 1, 0⟩ : Board) (⟨0, -1, 0, 0, 0, 1, -1, 1, 0⟩ : Board) (XScore.fin 0) 2 0 rfl rfl (of_decide_eq_true rfl) rfl
    certLE0687

theorem certLE0689 : XScore.ble ((minimax 2 (⟨1, -1, 1, -1, 0, 0, 1, 1, -1⟩ : Board) HUMAN).1.2.2) (XScore.fin 0) = true :=
  nodeHumanLE 2 1 (⟨1, -1, 1, -1, 0, 0, 1, 1, -1⟩ : Board) (⟨1, -1, 1, -1, -1, 0, 1, 1, -1⟩ : Board) (XScore.fin 0) 1 1 rfl rfl (of_decide_eq_true rfl) rfl
    certLE0312

theorem certLE0690 : XScore.ble ((minimax 1 (⟨1, -1, -1, -1, 1, 0, 1, 1, -1⟩ : Board) COMP).1.2.2) (XScore.fin 0) = true :=
  nodeCompLE 1 0 (⟨1, -1, -1, -1, 1, 0, 1, 1, -1⟩ : Board) (XScore.fin 0)
    [(⟨1, -1, -1, -1, 1, 1, 1, 1, -1⟩ : Board)]
    rfl rfl rfl
    ⟨certLE0494, True.intro⟩

theorem certLE0691 : XScore.ble ((minimax 2 (⟨1, -1, 0, -1, 1, 0, 1, 1, -1⟩ : Board) HUMAN).1.2.2) (XScore.fin 0) = true :=
  nodeHumanLE 2 1 (⟨1, -1, 0, -1, 1, 0, 1, 1, -1⟩ : Board) (⟨1, -1, -1, -1, 1, 0, 1, 1, -1⟩ : Board) (XScore.fin 0) 0 2 rfl rfl (of_decide_eq_true rfl) rfl
    certLE0690

theorem certLE0692 : XScore.ble ((minimax 1 (⟨1, -1, -1, -1, 0, 1, 1, 1, -1⟩ : Board) COMP).1.2.2) (XScore.fin 0) = true :=
  nodeCompLE 1 0 (⟨1, -1, -1, -1, 0, 1, 1, 1, -1⟩ : Board) (XScore.fin 0)
    [(⟨1, -1, -1, -1, 1, 1, 1, 1, -1⟩ : Board)]
    rfl rfl rfl
    ⟨certLE0494, True.intro⟩

theorem certLE0693 : XScore.ble ((minimax 2 (⟨1, -1, 0, -1, 0, 1, 1, 1, -1⟩ : Board) HUMAN).1.2.2) (XScore.fin 0) = true :=
  nodeHumanLE 2 1 (⟨1, -1, 0, -1, 0, 1, 1, 1, -1⟩ : Board) (⟨1, -1, -1, -1, 0, 1, 1, 1, -1⟩ : Board) (XScore.fin 0) 0 2 rfl rfl (of_decide_eq_true rfl) rfl
    certLE0692

theorem certLE0694 : XScore.ble ((minimax 3 (⟨1, -1, 0, -1, 0, 0, 1, 1, -1⟩ : Board) COMP).1.2.2) (XScore.fin 0) = true :=
  nodeCompLE 3 2 (⟨1, -1, 0, -1, 0, 0, 1, 1, -1⟩ : Board) (XScore.fin 0)
    [(⟨1, -1, 1, -1, 0, 0, 1, 1, -1⟩ : Board),
     (⟨1, -1, 0, -1, 1, 0, 1, 1, -1⟩ : Board),
     (⟨1, -1, 0, -1, 0, 1, 1, 1, -1⟩ : Board)]
    rfl rfl rfl
    ⟨certLE0689, certLE0691, certLE0693, True.intro⟩

theorem certLE0695 : XScore.ble ((minimax 4 (⟨1, -1, 0, 0, 0, 0, 1, 1, -1⟩ : Board) HUMAN).1.2.2) (XScore.fin 0) = true :=
  nodeHumanLE 4 3 (⟨1, -1, 0, 0, 0, 0, 1, 1, -1⟩ : Board) (⟨1, -1, 0, -1, 0, 0, 1, 1, -1⟩ : Board) (XScore.fin 0) 1 0 rfl rfl (of_decide_eq_true rfl) rfl
    certLE0694

theorem certLE0696 : XScore.ble ((minimax 4 (⟨0, -1, 1, 0, 0, 0, 1, 1, -1⟩ : Board) HUMAN).1.2.2) (XScore.fin 0) = true :=
  nodeHumanLE 4 3 (⟨0, -1, 1, 0, 0, 0, 1, 1, -1⟩ : Board) (⟨0, -1, 1, 0, -1, 0, 1, 1, -1⟩ : Board) (XScore.fin 0) 1 1 rfl rfl (of_decide_eq_true rfl) rfl
    certLE0317

theorem certLE0697 : XScore.ble ((minimax 2 (⟨-1, -1, 1, 1, 0, 0, 1, 1, -1⟩ : Board) HUMAN).1.2.2) (XScore.fin 0) = true :=
  nodeHumanLE 2 1 (⟨-1, -1, 1, 1, 0, 0, 1, 1, -1⟩ : Board) (⟨-1, -1, 1, 1, -1, 0, 1, 1, -1⟩ : Board) (XScore.fin 0) 1 1 rfl rfl (of_decide_eq_true rfl) rfl
    certLE0276

theorem certLE0698 : XScore.ble ((minimax 1 (⟨-1, -1, -1, 1, 1, 0, 1, 1, -1⟩ : Board) COMP).1.2.2) (XScore.fin 0) = true :=
  leafLE 1 (⟨-1, -1, -1, 1, 1, 0, 1, 1, -1⟩ : Board) COMP (XScore.fin 0) (Or.inr rfl) rfl

theorem certLE0699 : XScore.ble ((minimax 2 (⟨-1, -1, 0, 1, 1, 0, 1, 1, -1⟩ : Board) HUMAN).1.2.2) (XScore.fin 0) = true :=
  nodeHumanLE 2 1 (⟨-1, -1, 0, 1, 1, 0, 1, 1, -1⟩ : Board) (⟨-1, -1, -1, 1, 1, 0, 1, 1, -1⟩ : Board) (XScore.fin 0) 0 2 rfl rfl (of_decide_eq_true rfl) rfl
    certLE0698

theorem certLE0700 : XScore.ble ((minimax 1 (⟨-1, -1, -1, 1, 0, 1, 1, 1, -1⟩ : Board) COMP).1.2.2) (XScore.fin 0) = true :=
  leafLE 1 (⟨-1, -1, -1, 1, 0, 1, 1, 1, -1⟩ : Board) COMP (XScore.fin 0) (Or.inr rfl) rfl

theorem certLE0701 : XScore.ble ((minimax 2 (⟨-1, -1, 0, 1, 0, 1, 1, 1, -1⟩ : Board) HUMAN).1.2.2) (XScore.fin 0) = true :=
  nodeHumanLE 2 1 (⟨-1, -1, 0, 1, 0, 1, 1, 1, -1⟩ : Board) (⟨-1, -1, -1, 1, 0, 1, 1, 1, -1⟩ : Board) (XScore.fin 0) 0 2 rfl rfl (of_decide_eq_true rfl) rfl
    certLE0700

theorem certLE0702 : XScore.ble ((minimax 3 (⟨-1, -1, 0, 1, 0, 0, 1, 1, -1⟩ : Board) COMP).1.2.2) (XScore.fin 0) = true :=
  nodeCompLE 3 2 (⟨-1, -1, 0, 1, 0, 0, 1, 1, -1⟩ : Board) (XScore.fin 0)
    [(⟨-1, -1, 1, 1, 0, 0, 1, 1, -1⟩ : Board),
     (⟨-1, -1, 0, 1, 1, 0, 1, 1, -1⟩ : Board),
     (⟨-1, -1, 0, 1, 0, 1, 1, 1, -1⟩ : Board)]
    rfl rfl rfl
    ⟨certLE0697, certLE0699, certLE0701, True.intro⟩

theorem certLE0703 : XScore.ble ((minimax 4 (⟨0, -1, 0, 1, 0, 0, 1, 1, -1⟩ : Board) HUMAN).1.2.2) (XScore.fin 0) = true :=
  nodeHumanLE 4 3 (⟨0, -1, 0, 1, 0, 0, 1, 1, -1⟩ : Board) (⟨-1, -1, 0, 1, 0, 0, 1, 1, -1⟩ : Board) (XScore.fin 0) 0 0 rfl rfl (of_decide_eq_true rfl) rfl
    certLE0702

theorem certLE0704 : XScore.ble ((minimax 2 (⟨1, -1, -1, 0, 1, 0, 1, 1, -1⟩ : Board) HUMAN).1.2.2) (XScore.fin 0) = true :=
  nodeHumanLE 2 1 (⟨1, -1, -1, 0, 1, 0, 1, 1, -1⟩ : Board) (⟨1, -1, -1, -1, 1, 0, 1, 1, -1⟩ : Board) (XScore.fin 0) 1 0 rfl rfl (of_decide_eq_true rfl) rfl
    certLE0690

theorem certLE0705 : XScore.ble ((minimax 2 (⟨0, -1, -1, 1, 1, 0, 1, 1, -1⟩ : Board) HUMAN).1.2.2) (XScore.fin 0) = true :=
  nodeHumanLE 2 1 (⟨0, -1, -1, 1, 1, 0, 1, 1, -1⟩ : Board) (⟨-1, -1, -1, 1, 1, 0, 1, 1, -1⟩ : Board) (XScore.fin 0) 0 0 rfl rfl (of_decide_eq_true rfl) rfl
    certLE0698

theorem certLE0706 : XScore.ble ((minimax 1 (⟨-1, -1, -1, 0, 1, 1, 1, 1, -1⟩ : Board) COMP).1.2.2) (XScore.fin 0) = true :=
  leafLE 1 (⟨-1, -1, -1, 0, 1, 1, 1, 1, -1⟩ : Board) COMP (XScore.fin 0) (Or.inr rfl) rfl

theorem certLE0707 : XScore.ble ((minimax 2 (⟨0, -1, -1, 0, 1, 1, 1, 1, -1⟩ : Board) HUMAN).1.2.2) (XScore.fin 0) = true :=
  nodeHumanLE 2 1 (⟨0, -1, -1, 0, 1, 1, 1, 1, -1⟩ : Board) (⟨-1, -1, -1, 0, 1, 1, 1, 1, -1⟩ : Board) (XScore.fin 0) 0 0 rfl rfl (of_decide_eq_true rfl) rfl
    certLE0706

theorem certLE0708 : XScore.ble ((minimax 3 (⟨0, -1, -1, 0, 1, 0, 1, 1, -1⟩ : Board) COMP).1.2.2) (XScore.fin 0) = true :=
  nodeCompLE 3 2 (⟨0, -1, -1, 0, 1, 0, 1, 1, -1⟩ : Board) (XScore.fin 0)
    [(⟨1, -1, -1, 0, 1, 0, 1, 1, -1⟩ : Board),
     (⟨0, -1, -1, 1, 1, 0, 1, 1, -1⟩ : Board),
     (⟨0, -1, -1, 0, 1, 1, 1, 1, -1⟩ : Board)]
    rfl rfl rfl
    ⟨certLE0704, certLE0705, certLE0707, True.intro⟩

theorem certLE0709 : XScore.ble ((minimax 4 (⟨0, -1, 0, 0, 1, 0, 1, 1, -1⟩ : Board) HUMAN).1.2.2) (XScore.fin 0) = true :=
  nodeHumanLE 4 3 (⟨0, -1, 0, 0, 1, 0, 1, 1, -1⟩ : Board) (⟨0, -1, -1, 0, 1, 0, 1, 1, -1⟩ : Board) (XScore.fin 0) 0 2 rfl rfl (of_decide_eq_true rfl) rfl
    certLE0708

theorem certLE0710 : XScore.ble ((minimax 2 (⟨-1, -1, 1, 0, 0, 1, 1, 1, -1⟩ : Board) HUMAN).1.2.2) (XScore.fin 0) = true :=
  nodeHumanLE 2 1 (⟨-1, -1, 1, 0, 0, 1, 1, 1, -1⟩ : Board) (⟨-1, -1, 1, 0, -1, 1, 1, 1, -1⟩ : Board) (XScore.fin 0) 1 1 rfl rfl (of_decide_eq_true rfl) rfl
    certLE0315

theorem certLE0711 : XScore.ble ((minimax 2 (⟨-1, -1, 0, 0, 1, 1, 1, 1, -1⟩ : Board) HUMAN).1.2.2) (XScore.fin 0) = true :=
  nodeHumanLE 2 1 (⟨-1, -1, 0, 0, 1, 1, 1, 1, -1⟩ : Board) (⟨-1, -1, -1, 0, 1, 1, 1, 1, -1⟩ : Board) (XScore.fin 0) 0 2 rfl rfl (of_decide_eq_true rfl) rfl
    certLE0706

theorem certLE0712 : XScore.ble ((minimax 3 (⟨-1, -1, 0, 0, 0, 1, 1, 1, -1⟩ : Board) COMP).1.2.2) (XScore.fin 0) = true :=
  nodeCompLE 3 2 (⟨-1, -1, 0, 0, 0, 1, 1, 1, -1⟩ : Board) (XScore.fin 0)
    [(⟨-1, -1, 1, 0, 0, 1, 1, 1, -1⟩ : Board),
     (⟨-1, -1, 0, 1, 0, 1, 1, 1, -1⟩ : Board),
     (⟨-1, -1, 0, 0, 1, 1, 1, 1, -1⟩ : Board)]
    rfl rfl rfl
    ⟨certLE0710, certLE0701, certLE0711, True.intro⟩

theorem certLE0713 : XScore.ble ((minimax 4 (⟨0, -1, 0, 0, 0, 1, 1, 1, -1⟩ : Board) HUMAN).1.2.2) (XScore.fin 0) = true :=
  nodeHumanLE 4 3 (⟨0, -1, 0, 0, 0, 1, 1, 1, -1⟩ : Board) (⟨-1, -1, 0, 0, 0, 1, 1, 1, -1⟩ : Board) (XScore.fin 0) 0 0 rfl rfl (of_decide_eq_true rfl) rfl
    certLE0712

theorem certLE0714 : XScore.ble ((minimax 5 (⟨0, -1, 0, 0, 0, 0, 1, 1, -1⟩ : Board) COMP).1.2.2) (XScore.fin 0) = true :=
  nodeCompLE 5 4 (⟨0, -1, 0, 0, 0, 0, 1, 1, -1⟩ : Board) (XScore.fin 0)
    [(⟨1, -1, 0, 0, 0, 0, 1, 1, -1⟩ : Board),
     (⟨0, -1, 1, 0, 0, 0, 1, 1, -1⟩ : Board),
     (⟨0, -1, 0, 1, 0, 0, 1, 1, -1⟩ : Board),
     (⟨0, -1, 0, 0, 1, 0, 1, 1, -1⟩ : Board),
     (⟨0, -1, 0, 0, 0, 1, 1, 1, -1⟩ : Board)]
    rfl rfl rfl
    ⟨certLE0695, certLE0696, certLE0703, certLE0709, certLE0713, True.intro⟩

theorem certLE0715 : XScore.ble ((minimax 6 (⟨0, -1, 0, 0, 0, 0, 1, 1, 0⟩ : Board) HUMAN).1.2.2) (XScore.fin 0) = true :=
  nodeHumanLE 6 5 (⟨0, -1, 0, 0, 0, 0, 1, 1, 0⟩ : Board) (⟨0, -1, 0, 0, 0, 0, 1, 1, -1⟩ : Board) (XScore.fin 0) 2 2 rfl rfl (of_decide_eq_true rfl) rfl
    certLE0714

theorem certLE0716 : XScore.ble ((minimax 2 (⟨-1, -1, 0, 0, 1, 1, -1, 1, 1⟩ : Board) HUMAN).1.2.2) (XScore.fin 0) = true :=
  nodeHumanLE 2 1 (⟨-1, -1, 0, 0, 1, 1, -1, 1, 1⟩ : Board) (⟨-1, -1, -1, 0, 1, 1, -1, 1, 1⟩ : Board) (XScore.fin 0) 0 2 rfl rfl (of_decide_eq_true rfl) rfl
    certLE0683

theorem certLE0717 : XScore.ble ((minimax 3 (⟨-1, -1, 0, 0, 1, 0, -1, 1, 1⟩ : Board) COMP).1.2.2) (XScore.fin 0) = true :=
  nodeCompLE 3 2 (⟨-1, -1, 0, 0, 1, 0, -1, 1, 1⟩ : Board) (XScore.fin 0)
    [(⟨-1, -1, 1, 0, 1, 0, -1, 1, 1⟩ : Board),
     (⟨-1, -1, 0, 1, 1, 0, -1, 1, 1⟩ : Board),
     (⟨-1, -1, 0, 0, 1, 1, -1, 1, 1⟩ : Board)]
    rfl rfl rfl
    ⟨certLE0433, certLE0667, certLE0716, True.intro⟩

theorem certLE0718 : XScore.ble ((minimax 4 (⟨0, -1, 0, 0, 1, 0, -1, 1, 1⟩ : Board) HUMAN).1.2.2) (XScore.fin 0) = true :=
  nodeHumanLE 4 3 (⟨0, -1, 0, 0, 1, 0, -1, 1, 1⟩ : Board) (⟨-1, -1, 0, 0, 1, 0, -1, 1, 1⟩ : Board) (XScore.fin 0) 0 0 rfl rfl (of_decide_eq_true rfl) rfl
    certLE0717

theorem certLE0719 : XScore.ble ((minimax 5 (⟨0, -1, 0, 0, 0, 0, -1, 1, 1⟩ : Board) COMP).1.2.2) (XScore.fin 0) = true :=
  nodeCompLE 5 4 (⟨0, -1, 0, 0, 0, 0, -1, 1, 1⟩ : Board) (XScore.fin 0)
    [(⟨1, -1, 0, 0, 0, 0, -1, 1, 1⟩ : Board),
     (⟨0, -1, 1, 0, 0, 0, -1, 1, 1⟩ : Board),
     (⟨0, -1, 0, 1, 0, 0, -1, 1, 1⟩ : Board),
     (⟨0, -1, 0, 0, 1, 0, -1, 1, 1⟩ : Board),
     (⟨0, -1, 0, 0, 0, 1, -1, 1, 1⟩ : Board)]
    rfl rfl rfl
    ⟨certLE0629, certLE0652, certLE0671, certLE0718, certLE0686, True.intro⟩

theorem certLE0720 : XScore.ble ((minimax 6 (⟨0, -1, 0, 0, 0, 0, 0, 1, 1⟩ : Board) HUMAN).1.2.2) (XScore.fin 0) = true :=
  nodeHumanLE 6 5 (⟨0, -1, 0, 0, 0, 0, 0, 1, 1⟩ : Board) (⟨0, -1, 0, 0, 0, 0, -1, 1, 1⟩ : Board) (XScore.fin 0) 2 0 rfl rfl (of_decide_eq_true rfl) rfl
    certLE0719

theorem certLE0721 : XScore.ble ((minimax 7 (⟨0, -1, 0, 0, 0, 0, 0, 1, 0⟩ : Board) COMP).1.2.2) (XScore.fin 0) = true :=
  nodeCompLE 7 6 (⟨0, -1, 0, 0, 0, 0, 0, 1, 0⟩ : Board) (XScore.fin 0)
    [(⟨1, -1, 0, 0, 0, 0, 0, 1, 0⟩ : Board),
     (⟨0, -1, 1, 0, 0, 0, 0, 1, 0⟩ : Board),
     (⟨0, -1, 0, 1, 0, 0, 0, 1, 0⟩ : Board),
     (⟨0, -1, 0, 0, 1, 0, 0, 1, 0⟩ : Board),
     (⟨0, -1, 0, 0, 0, 1, 0, 1, 0⟩ : Board),
     (⟨0, -1, 0, 0, 0, 0, 1, 1, 0⟩ : Board),
     (⟨0, -1, 0, 0, 0, 0, 0, 1, 1⟩ : Board)]
    rfl rfl rfl
    ⟨certLE0631, certLE0654, certLE0673, certLE0674, certLE0688, certLE0715, certLE0720, True.intro⟩

theorem certLE0722 : XScore.ble ((minimax 8 (⟨0, 0, 0, 0, 0, 0, 0, 1, 0⟩ : Board) HUMAN).1.2.2) (XScore.fin 0) = true :=
  nodeHumanLE 8 7 (⟨0, 0, 0, 0, 0, 0, 0, 1, 0⟩ : Board) (⟨0, -1, 0, 0, 0, 0, 0, 1, 0⟩ : Board) (XScore.fin 0) 0 1 rfl rfl (of_decide_eq_true rfl) rfl
    certLE0721

theorem certLE0723 : XScore.ble ((minimax 6 (⟨0, 1, 0, 0, -1, 0, 0, 0, 1⟩ : Board) HUMAN).1.2.2) (XScore.fin 0) = true :=
  nodeHumanLE 6 5 (⟨0, 1, 0, 0, -1, 0, 0, 0, 1⟩ : Board) (⟨-1, 1, 0, 0, -1, 0, 0, 0, 1⟩ : Board) (XScore.fin 0) 0 0 rfl rfl (of_decide_eq_true rfl) rfl
    certLE0266

theorem certLE0724 : XScore.ble ((minimax 2 (⟨-1, 0, 1, 1, -1, 0, -1, 1, 1⟩ : Board) HUMAN).1.2.2) (XScore.fin 0) = true :=
  nodeHumanLE 2 1 (⟨-1, 0, 1, 1, -1, 0, -1, 1, 1⟩ : Board) (⟨-1, 0, 1, 1, -1, -1, -1, 1, 1⟩ : Board) (XScore.fin 0) 1 2 rfl rfl (of_decide_eq_true rfl) rfl
    certLE0284

theorem certLE0725 : XScore.ble ((minimax 1 (⟨-1, 0, -1, 1, -1, 1, -1, 1, 1⟩ : Board) COMP).1.2.2) (XScore.fin 0) = true :=
  leafLE 1 (⟨-1, 0, -1, 1, -1, 1, -1, 1, 1⟩ : Board) COMP (XScore.fin 0) (Or.inr rfl) rfl

theorem certLE0726 : XScore.ble ((minimax 2 (⟨-1, 0, 0, 1, -1, 1, -1, 1, 1⟩ : Board) HUMAN).1.2.2) (XScore.fin 0) = true :=
  nodeHumanLE 2 1 (⟨-1, 0, 0, 1, -1, 1, -1, 1, 1⟩ : Board) (⟨-1, 0, -1, 1, -1, 1, -1, 1, 1⟩ : Board) (XScore.fin 0) 0 2 rfl rfl (of_decide_eq_true rfl) rfl
    certLE0725

theorem certLE0727 : XScore.ble ((minimax 3 (⟨-1, 0, 0, 1, -1, 0, -1, 1, 1⟩ : Board) COMP).1.2.2) (XScore.fin 0) = true :=
  nodeCompLE 3 2 (⟨-1, 0, 0, 1, -1, 0, -1, 1, 1⟩ : Board) (XScore.fin 0)
    [(⟨-1, 1, 0, 1, -1, 0, -1, 1, 1⟩ : Board),
     (⟨-1, 0, 1, 1, -1, 0, -1, 1, 1⟩ : Board),
     (⟨-1, 0, 0, 1, -1, 1, -1, 1, 1⟩ : Board)]
    rfl rfl rfl
    ⟨certLE0256, certLE0724, certLE0726, True.intro⟩

theorem certLE0728 : XScore.ble ((minimax 4 (⟨-1, 0, 0, 1, -1, 0, 0, 1, 1⟩ : Board) HUMAN).1.2.2) (XScore.fin 0) = true :=
  nodeHumanLE 4 3 (⟨-1, 0, 0, 1, -1, 0, 0, 1, 1⟩ : Board) (⟨-1, 0, 0, 1, -1, 0, -1, 1, 1⟩ : Board) (XScore.fin 0) 2 0 rfl rfl (of_decide_eq_true rfl) rfl
    certLE0727

theorem certLE0729 : XScore.ble ((minimax 5 (⟨-1, 0, 0, 1, -1, 0, 0, 0, 1⟩ : Board) COMP).1.2.2) (XScore.fin 0) = true :=
  nodeCompLE 5 4 (⟨-1, 0, 0, 1, -1, 0, 0, 0, 1⟩ : Board) (XScore.fin 0)
    [(⟨-1, 1, 0, 1, -1, 0, 0, 0, 1⟩ : Board),
     (⟨-1, 0, 1, 1, -1, 0, 0, 0, 1⟩ : Board),
     (⟨-1, 0, 0, 1, -1, 1, 0, 0, 1⟩ : Board),
     (⟨-1, 0, 0, 1, -1, 0, 1, 0, 1⟩ : Board),
     (⟨-1, 0, 0, 1, -1, 0, 0, 1, 1⟩ : Board)]
    rfl rfl rfl
    ⟨certLE0186, certLE0291, certLE0391, certLE0579, certLE0728, True.intro⟩

theorem certLE0730 : XScore.ble ((minimax 6 (⟨0, 0, 0, 1, -1, 0, 0, 0, 1⟩ : Board) HUMAN).1.2.2) (XScore.fin 0) = true :=
  nodeHumanLE 6 5 (⟨0, 0, 0, 1, -1, 0, 0, 0, 1⟩ : Board) (⟨-1, 0, 0, 1, -1, 0, 0, 0, 1⟩ : Board) (XScore.fin 0) 0 0 rfl rfl (of_decide_eq_true rfl) rfl
    certLE0729

theorem certLE0731 : XScore.ble ((minimax 4 (⟨1, 0, -1, 0, -1, 1, 0, 0, 1⟩ : Board) HUMAN).1.2.2) (XScore.fin 0) = true :=
  nodeHumanLE 4 3 (⟨1, 0, -1, 0, -1, 1, 0, 0, 1⟩ : Board) (⟨1, -1, -1, 0, -1, 1, 0, 0, 1⟩ : Board) (XScore.fin 0) 0 1 rfl rfl (of_decide_eq_true rfl) rfl
    certLE0093

theorem certLE0732 : XScore.ble ((minimax 4 (⟨0, 1, -1, 0, -1, 1, 0, 0, 1⟩ : Board) HUMAN).1.2.2) (XScore.fin 0) = true :=
  nodeHumanLE 4 3 (⟨0, 1, -1, 0, -1, 1, 0, 0, 1⟩ : Board) (⟨-1, 1, -1, 0, -1, 1, 0, 0, 1⟩ : Board) (XScore.fin 0) 0 0 rfl rfl (of_decide_eq_true rfl) rfl
    certLE0238

theorem certLE0733 : XScore.ble ((minimax 2 (⟨1, 0, -1, 0, -1, 1, 1, -1, 1⟩ : Board) HUMAN).1.2.2) (XScore.fin 0) = true :=
  nodeHumanLE 2 1 (⟨1, 0, -1, 0, -1, 1, 1, -1, 1⟩ : Board) (⟨1, -1, -1, 0, -1, 1, 1, -1, 1⟩ : Board) (XScore.fin 0) 0 1 rfl rfl (of_decide_eq_true rfl) rfl
    certLE0090

theorem certLE0734 : XScore.ble ((minimax 2 (⟨0, 1, -1, 0, -1, 1, 1, -1, 1⟩ : Board) HUMAN).1.2.2) (XScore.fin 0) = true :=
  nodeHumanLE 2 1 (⟨0, 1, -1, 0, -1, 1, 1, -1, 1⟩ : Board) (⟨-1, 1, -1, 0, -1, 1, 1, -1, 1⟩ : Board) (XScore.fin 0) 0 0 rfl rfl (of_decide_eq_true rfl) rfl
    certLE0230

theorem certLE0735 : XScore.ble ((minimax 1 (⟨-1, 0, -1, 1, -1, 1, 1, -1, 1⟩ : Board) COMP).1.2.2) (XScore.fin 0) = true :=
  nodeCompLE 1 0 (⟨-1, 0, -1, 1, -1, 1, 1, -1, 1⟩ : Board) (XScore.fin 0)
    [(⟨-1, 1, -1, 1, -1, 1, 1, -1, 1⟩ : Board)]
    rfl rfl rfl
    ⟨certLE0166, True.intro⟩

theorem certLE0736 : XScore.ble ((minimax 2 (⟨0, 0, -1, 1, -1, 1, 1, -1, 1⟩ : Board) HUMAN).1.2.2) (XScore.fin 0) = true :=
  nodeHumanLE 2 1 (⟨0, 0, -1, 1, -1, 1, 1, -1, 1⟩ : Board) (⟨-1, 0, -1, 1, -1, 1, 1, -1, 1⟩ : Board) (XScore.fin 0) 0 0 rfl rfl (of_decide_eq_true rfl) rfl
    certLE0735

theorem certLE0737 : XScore.ble ((minimax 3 (⟨0, 0, -1, 0, -1, 1, 1, -1, 1⟩ : Board) COMP).1.2.2) (XScore.fin 0) = true :=
  nodeCompLE 3 2 (⟨0, 0, -1, 0, -1, 1, 1, -1, 1⟩ : Board) (XScore.fin 0)
    [(⟨1, 0, -1, 0, -1, 1, 1, -1, 1⟩ : Board),
     (⟨0, 1, -1, 0, -1, 1, 1, -1, 1⟩ : Board),
     (⟨0, 0, -1, 1, -1, 1, 1, -1, 1⟩ : Board)]
    rfl rfl rfl
    ⟨certLE0733, certLE0734, certLE0736, True.intro⟩

theorem certLE0738 : XScore.ble ((minimax 4 (⟨0, 0, -1, 0, -1, 1, 1, 0, 1⟩ : Board) HUMAN).1.2.2) (XScore.fin 0) = true :=
  nodeHumanLE 4 3 (⟨0, 0, -1, 0, -1, 1, 1, 0, 1⟩ : Board) (⟨0, 0, -1, 0, -1, 1, 1, -1, 1⟩ : Board) (XScore.fin 0) 2 1 rfl rfl (of_decide_eq_true rfl) rfl
    certLE0737

theorem certLE0739 : XScore.ble ((minimax 3 (⟨0, 0, -1, 0, -1, 1, -1, 1, 1⟩ : Board) COMP).1.2.2) (XScore.fin 0) = true :=
  leafLE 3 (⟨0, 0, -1, 0, -1, 1, -1, 1, 1⟩ : Board) COMP (XScore.fin 0) (Or.inr rfl) rfl

theorem certLE0740 : XScore.ble ((minimax 4 (⟨0, 0, -1, 0, -1, 1, 0, 1, 1⟩ : Board) HUMAN).1.2.2) (XScore.fin 0) = true :=
  nodeHumanLE 4 3 (⟨0, 0, -1, 0, -1, 1, 0, 1, 1⟩ : Board) (⟨0, 0, -1, 0, -1, 1, -1, 1, 1⟩ : Board) (XScore.fin 0) 2 0 rfl rfl (of_decide_eq_true rfl) rfl
    certLE0739

theorem certLE0741 : XScore.ble ((minimax 5 (⟨0, 0, -1, 0, -1, 1, 0, 0, 1⟩ : Board) COMP).1.2.2) (XScore.fin 0) = true :=
  nodeCompLE 5 4 (⟨0, 0, -1, 0, -1, 1, 0, 0, 1⟩ : Board) (XScore.fin 0)
    [(⟨1, 0, -1, 0, -1, 1, 0, 0, 1⟩ : Board),
     (⟨0, 1, -1, 0, -1, 1, 0, 0, 1⟩ : Board),
     (⟨0, 0, -1, 1, -1, 1, 0, 0, 1⟩ : Board),
     (⟨0, 0, -1, 0, -1, 1, 1, 0, 1⟩ : Board),
     (⟨0, 0, -1, 0, -1, 1, 0, 1, 1⟩ : Board)]
    rfl rfl rfl
    ⟨certLE0731, certLE0732, certLE0541, certLE0738, certLE0740, True.intro⟩

theorem certLE0742 : XScore.ble ((minimax 6 (⟨0, 0, 0, 0, -1, 1, 0, 0, 1⟩ : Board) HUMAN).1.2.2) (XScore.fin 0) = true :=
  nodeHumanLE 6 5 (⟨0, 0, 0, 0, -1, 1, 0, 0, 1⟩ : Board) (⟨0, 0, -1, 0, -1, 1, 0, 0, 1⟩ : Board) (XScore.fin 0) 0 2 rfl rfl (of_decide_eq_true rfl) rfl
    certLE0741

theorem certLE0743 : XScore.ble ((minimax 4 (⟨1, 0, 0, 0, -1, 0, -1, 1, 1⟩ : Board) HUMAN).1.2.2) (XScore.fin 0) = true :=
  nodeHumanLE 4 3 (⟨1, 0, 0, 0, -1, 0, -1, 1, 1⟩ : Board) (⟨1, -1, 0, 0, -1, 0, -1, 1, 1⟩ : Board) (XScore.fin 0) 0 1 rfl rfl (of_decide_eq_true rfl) rfl
    certLE0124

theorem certLE0744 : XScore.ble ((minimax 4 (⟨0, 1, 0, 0, -1, 0, -1, 1, 1⟩ : Board) HUMAN).1.2.2) (XScore.fin 0) = true :=
  nodeHumanLE 4 3 (⟨0, 1, 0, 0, -1, 0, -1, 1, 1⟩ : Board) (⟨-1, 1, 0, 0, -1, 0, -1, 1, 1⟩ : Board) (XScore.fin 0) 0 0 rfl rfl (of_decide_eq_true rfl) rfl
    certLE0258

theorem certLE0745 : XScore.ble ((minimax 2 (⟨1, 0, 1, 0, -1, -1, -1, 1, 1⟩ : Board) HUMAN).1.2.2) (XScore.fin 0) = true :=
  nodeHumanLE 2 1 (⟨1, 0, 1, 0, -1, -1, -1, 1, 1⟩ : Board) (⟨1, -1, 1, 0, -1, -1, -1, 1, 1⟩ : Board) (XScore.fin 0) 0 1 rfl rfl (of_decide_eq_true rfl) rfl
    certLE0122

theorem certLE0746 : XScore.ble ((minimax 1 (⟨-1, 1, 1, 0, -1, -1, -1, 1, 1⟩ : Board) COMP).1.2.2) (XScore.fin 0) = true :=
  nodeCompLE 1 0 (⟨-1, 1, 1, 0, -1, -1, -1, 1, 1⟩ : Board) (XScore.fin 0)
    [(⟨-1, 1, 1, 1, -1, -1, -1, 1, 1⟩ : Board)]
    rfl rfl rfl
    ⟨certLE0159, True.intro⟩

theorem certLE0747 : XScore.ble ((minimax 2 (⟨0, 1, 1, 0, -1, -1, -1, 1, 1⟩ : Board) HUMAN).1.2.2) (XScore.fin 0) = true :=
  nodeHumanLE 2 1 (⟨0, 1, 1, 0, -1, -1, -1, 1, 1⟩ : Board) (⟨-1, 1, 1, 0, -1, -1, -1, 1, 1⟩ : Board) (XScore.fin 0) 0 0 rfl rfl (of_decide_eq_true rfl) rfl
    certLE0746

theorem certLE0748 : XScore.ble ((minimax 2 (⟨0, 0, 1, 1, -1, -1, -1, 1, 1⟩ : Board) HUMAN).1.2.2) (XScore.fin 0) = true :=
  nodeHumanLE 2 1 (⟨0, 0, 1, 1, -1, -1, -1, 1, 1⟩ : Board) (⟨-1, 0, 1, 1, -1, -1, -1, 1, 1⟩ : Board) (XScore.fin 0) 0 0 rfl rfl (of_decide_eq_true rfl) rfl
    certLE0284

theorem certLE0749 : XScore.ble ((minimax 3 (⟨0, 0, 1, 0, -1, -1, -1, 1, 1⟩ : Board) COMP).1.2.2) (XScore.fin 0) = true :=
  nodeCompLE 3 2 (⟨0, 0, 1, 0, -1, -1, -1, 1, 1⟩ : Board) (XScore.fin 0)
    [(⟨1, 0, 1, 0, -1, -1, -1, 1, 1⟩ : Board),
     (⟨0, 1, 1, 0, -1, -1, -1, 1, 1⟩ : Board),
     (⟨0, 0, 1, 1, -1, -1, -1, 1, 1⟩ : Board)]
    rfl rfl rfl
    ⟨certLE0745, certLE0747, certLE0748, True.intro⟩

theorem certLE0750 : XScore.ble ((minimax 4 (⟨0, 0, 1, 0, -1, 0, -1, 1, 1⟩ : Board) HUMAN).1.2.2) (XScore.fin 0) = true :=
  nodeHumanLE 4 3 (⟨0, 0, 1, 0, -1, 0, -1, 1, 1⟩ : Board) (⟨0, 0, 1, 0, -1, -1, -1, 1, 1⟩ : Board) (XScore.fin 0) 1 2 rfl rfl (of_decide_eq_true rfl) rfl
    certLE0749

theorem certLE0751 : XScore.ble ((minimax 4 (⟨0, 0, 0, 1, -1, 0, -1, 1, 1⟩ : Board) HUMAN).1.2.2) (XScore.fin 0) = true :=
  nodeHumanLE 4 3 (⟨0, 0, 0, 1, -1, 0, -1, 1, 1⟩ : Board) (⟨-1, 0, 0, 1, -1, 0, -1, 1, 1⟩ : Board) (XScore.fin 0) 0 0 rfl rfl (of_decide_eq_true rfl) rfl
    certLE0727

theorem certLE0752 : XScore.ble ((minimax 4 (⟨0, 0, 0, 0, -1, 1, -1, 1, 1⟩ : Board) HUMAN).1.2.2) (XScore.fin 0) = true :=
  nodeHumanLE 4 3 (⟨0, 0, 0, 0, -1, 1, -1, 1, 1⟩ : Board) (⟨0, 0, -1, 0, -1, 1, -1, 1, 1⟩ : Board) (XScore.fin 0) 0 2 rfl rfl (of_decide_eq_true rfl) rfl
    certLE0739

theorem certLE0753 : XScore.ble ((minimax 5 (⟨0, 0, 0, 0, -1, 0, -1, 1, 1⟩ : Board) COMP).1.2.2) (XScore.fin 0) = true :=
  nodeCompLE 5 4 (⟨0, 0, 0, 0, -1, 0, -1, 1, 1⟩ : Board) (XScore.fin 0)
    [(⟨1, 0, 0, 0, -1, 0, -1, 1, 1⟩ : Board),
     (⟨0, 1, 0, 0, -1, 0, -1, 1, 1⟩ : Board),
     (⟨0, 0, 1, 0, -1, 0, -1, 1, 1⟩ : Board),
     (⟨0, 0, 0, 1, -1, 0, -1, 1, 1⟩ : Board),
     (⟨0, 0, 0, 0, -1, 1, -1, 1, 1⟩ : Board)]
    rfl rfl rfl
    ⟨certLE0743, certLE0744, certLE0750, certLE0751, certLE0752, True.intro⟩

theorem certLE0754 : XScore.ble ((minimax 6 (⟨0, 0, 0, 0, -1, 0, 0, 1, 1⟩ : Board) HUMAN).1.2.2) (XScore.fin 0) = true :=
  nodeHumanLE 6 5 (⟨0, 0, 0, 0, -1, 0, 0, 1, 1⟩ : Board) (⟨0, 0, 0, 0, -1, 0, -1, 1, 1⟩ : Board) (XScore.fin 0) 2 0 rfl rfl (of_decide_eq_true rfl) rfl
    certLE0753

theorem certLE0755 : XScore.ble ((minimax 7 (⟨0, 0, 0, 0, -1, 0, 0, 0, 1⟩ : Board) COMP).1.2.2) (XScore.fin 0) = true :=
  nodeCompLE 7 6 (⟨0, 0, 0, 0, -1, 0, 0, 0, 1⟩ : Board) (XScore.fin 0)
    [(⟨1, 0, 0, 0, -1, 0, 0, 0, 1⟩ : Board),
     (⟨0, 1, 0, 0, -1, 0, 0, 0, 1⟩ : Board),
     (⟨0, 0, 1, 0, -1, 0, 0, 0, 1⟩ : Board),
     (⟨0, 0, 0, 1, -1, 0, 0, 0, 1⟩ : Board),
     (⟨0, 0, 0, 0, -1, 1, 0, 0, 1⟩ : Board),
     (⟨0, 0, 0, 0, -1, 0, 1, 0, 1⟩ : Board),
     (⟨0, 0, 0, 0, -1, 0, 0, 1, 1⟩ : Board)]
    rfl rfl rfl
    ⟨certLE0127, certLE0723, certLE0344, certLE0730, certLE0742, certLE0612, certLE0754, True.intro⟩

theorem certLE0756 : XScore.ble ((minimax 8 (⟨0, 0, 0, 0, 0, 0, 0, 0, 1⟩ : Board) HUMAN).1.2.2) (XScore.fin 0) = true :=
  nodeHumanLE 8 7 (⟨0, 0, 0, 0, 0, 0, 0, 0, 1⟩ : Board) (⟨0, 0, 0, 0, -1, 0, 0, 0, 1⟩ : Board) (XScore.fin 0) 1 1 rfl rfl (of_decide_eq_true rfl) rfl
    certLE0755

theorem certLE0757 : XScore.ble ((minimax 9 (⟨0, 0, 0, 0, 0, 0, 0, 0, 0⟩ : Board) COMP).1.2.2) (XScore.fin 0) = true :=
  nodeCompLE 9 8 (⟨0, 0, 0, 0, 0, 0, 0, 0, 0⟩ : Board) (XScore.fin 0)
    [(⟨1, 0, 0, 0, 0, 0, 0, 0, 0⟩ : Board),
     (⟨0, 1, 0, 0, 0, 0, 0, 0, 0⟩ : Board),
     (⟨0, 0, 1, 0, 0, 0, 0, 0, 0⟩ : Board),
     (⟨0, 0, 0, 1, 0, 0, 0, 0, 0⟩ : Board),
     (⟨0, 0, 0, 0, 1, 0, 0, 0, 0⟩ : Board),
     (⟨0, 0, 0, 0, 0, 1, 0, 0, 0⟩ : Board),
     (⟨0, 0, 0, 0, 0, 0, 1, 0, 0⟩ : Board),
     (⟨0, 0, 0, 0, 0, 0, 0, 1, 0⟩ : Board),
     (⟨0, 0, 0, 0, 0, 0, 0, 0, 1⟩ : Board)]
    rfl rfl rfl
    ⟨certLE0129, certLE0269, certLE0346, certLE0424, certLE0489, certLE0571, certLE0614, certLE0722, certLE0756, True.intro⟩

theorem certGE0758 : XScore.ble (XScore.fin 0) ((minimax 2 (⟨1, -1, 1, -1, 1, -1, 1, 0, 0⟩ : Board) HUMAN).1.2.2) = true :=
  leafGE 2 (⟨1, -1, 1, -1, 1, -1, 1, 0, 0⟩ : Board) HUMAN (XScore.fin 0) (Or.inr rfl) rfl

theorem certGE0759 : XScore.ble (XScore.fin 0) ((minimax 3 (⟨1, -1, 1, -1, 1, -1, 0, 0, 0⟩ : Board) COMP).1.2.2) = true :=
  nodeCompGE 3 2 (⟨1, -1, 1, -1, 1, -1, 0, 0, 0⟩ : Board) (⟨1, -1, 1, -1, 1, -1, 1, 0, 0⟩ : Board) (XScore.fin 0) 2 0 rfl rfl (of_decide_eq_true rfl) rfl
    certGE0758

theorem certGE0760 : XScore.ble (XScore.fin 0) ((minimax 0 (⟨1, -1, 1, -1, 1, 1, -1, -1, 1⟩ : Board) HUMAN).1.2.2) = true :=
  leafGE 0 (⟨1, -1, 1, -1, 1, 1, -1, -1, 1⟩ : Board) HUMAN (XScore.fin 0) (Or.inl rfl) rfl

theorem certGE0761 : XScore.ble (XScore.fin 0) ((minimax 1 (⟨1, -1, 1, -1, 1, 1, -1, -1, 0⟩ : Board) COMP).1.2.2) = true :=
  nodeCompGE 1 0 (⟨1, -1, 1, -1, 1, 1, -1, -1, 0⟩ : Board) (⟨1, -1, 1, -1, 1, 1, -1, -1, 1⟩ : Board) (XScore.fin 0) 2 2 rfl rfl (of_decide_eq_true rfl) rfl
    certGE0760

theorem certGE0762 : XScore.ble (XScore.fin 0) ((minimax 0 (⟨1, -1, 1, -1, 1, 1, -1, 1, -1⟩ : Board) HUMAN).1.2.2) = true :=
  leafGE 0 (⟨1, -1, 1, -1, 1, 1, -1, 1, -1⟩ : Board) HUMAN (XScore.fin 0) (Or.inl rfl) rfl

theorem certGE0763 : XScore.ble (XScore.fin 0) ((minimax 1 (⟨1, -1, 1, -1, 1, 1, -1, 0, -1⟩ : Board) COMP).1.2.2) = true :=
  nodeCompGE 1 0 (⟨1, -1, 1, -1, 1, 1, -1, 0, -1⟩ : Board) (⟨1, -1, 1, -1, 1, 1, -1, 1, -1⟩ : Board) (XScore.fin 0) 2 1 rfl rfl (of_decide_eq_true rfl) rfl
    certGE0762

theorem certGE0764 : XScore.ble (XScore.fin 0) ((minimax 2 (⟨1, -1, 1, -1, 1, 1, -1, 0, 0⟩ : Board) HUMAN).1.2.2) = true :=
  nodeHumanGE 2 1 (⟨1, -1, 1, -1, 1, 1, -1, 0, 0⟩ : Board) (XScore.fin 0)
    [(⟨1, -1, 1, -1, 1, 1, -1, -1, 0⟩ : Board),
     (⟨1, -1, 1, -1, 1, 1, -1, 0, -1⟩ : Board)]
    rfl rfl rfl
    ⟨certGE0761, certGE0763, True.intro⟩

theorem certGE0765 : XScore.ble (XScore.fin 0) ((minimax 3 (⟨1, -1, 1, -1, 1, 0, -1, 0, 0⟩ : Board) COMP).1.2.2) = true :=
  nodeCompGE 3 2 (⟨1, -1, 1, -1, 1, 0, -1, 0, 0⟩ : Board) (⟨1, -1, 1, -1, 1, 1, -1, 0, 0⟩ : Board) (XScore.fin 0) 1 2 rfl rfl (of_decide_eq_true rfl) rfl
    certGE0764

theorem certGE0766 : XScore.ble (XScore.fin 0) ((minimax 0 (⟨1, -1, 1, -1, 1, 1, 1, -1, -1⟩ : Board) HUMAN).1.2.2) = true :=
  leafGE 0 (⟨1, -1, 1, -1, 1, 1, 1, -1, -1⟩ : Board) HUMAN (XScore.fin 0) (Or.inl rfl) rfl

theorem certGE0767 : XScore.ble (XScore.fin 0) ((minimax 1 (⟨1, -1, 1, -1, 1, 1, 0, -1, -1⟩ : Board) COMP).1.2.2) = true :=
  nodeCompGE 1 0 (⟨1, -1, 1, -1, 1, 1, 0, -1, -1⟩ : Board) (⟨1, -1, 1, -1, 1, 1, 1, -1, -1⟩ : Board) (XScore.fin 0) 2 0 rfl rfl (of_decide_eq_true rfl) rfl
    certGE0766

theorem certGE0768 : XScore.ble (XScore.fin 0) ((minimax 2 (⟨1, -1, 1, -1, 1, 1, 0, -1, 0⟩ : Board) HUMAN).1.2.2) = true :=
  nodeHumanGE 2 1 (⟨1, -1, 1, -1, 1, 1, 0, -1, 0⟩ : Board) (XScore.fin 0)
    [(⟨1, -1, 1, -1, 1, 1, -1, -1, 0⟩ : Board),
     (⟨1, -1, 1, -1, 1, 1, 0, -1, -1⟩ : Board)]
    rfl rfl rfl
    ⟨certGE0761, certGE0767, True.intro⟩

theorem certGE0769 : XScore.ble (XScore.fin 0) ((minimax 3 (⟨1, -1, 1, -1, 1, 0, 0, -1, 0⟩ : Board) COMP).1.2.2) = true :=
  nodeCompGE 3 2 (⟨1, -1, 1, -1, 1, 0, 0, -1, 0⟩ : Board) (⟨1, -1, 1, -1, 1, 1, 0, -1, 0⟩ : Board) (XScore.fin 0) 1 2 rfl rfl (of_decide_eq_true rfl) rfl
    certGE0768

theorem certGE0770 : XScore.ble (XScore.fin 0) ((minimax 2 (⟨1, -1, 1, -1, 1, 1, 0, 0, -1⟩ : Board) HUMAN).1.2.2) = true :=
  nodeHumanGE 2 1 (⟨1, -1, 1, -1, 1, 1, 0, 0, -1⟩ : Board) (XScore.fin 0)
    [(⟨1, -1, 1, -1, 1, 1, -1, 0, -1⟩ : Board),
     (⟨1, -1, 1, -1, 1, 1, 0, -1, -1⟩ : Board)]
    rfl rfl rfl
    ⟨certGE0763, certGE0767, True.intro⟩

theorem certGE0771 : XScore.ble (XScore.fin 0) ((minimax 3 (⟨1, -1, 1, -1, 1, 0, 0, 0, -1⟩ : Board) COMP).1.2.2) = true :=
  nodeCompGE 3 2 (⟨1, -1, 1, -1, 1, 0, 0, 0, -1⟩ : Board) (⟨1, -1, 1, -1, 1, 1, 0, 0, -1⟩ : Board) (XScore.fin 0) 1 2 rfl rfl (of_decide_eq_true rfl) rfl
    certGE0770

theorem certGE0772 : XScore.ble (XScore.fin 0) ((minimax 4 (⟨1, -1, 1, -1, 1, 0, 0, 0, 0⟩ : Board) HUMAN).1.2.2) = true :=
  nodeHumanGE 4 3 (⟨1, -1, 1, -1, 1, 0, 0, 0, 0⟩ : Board) (XScore.fin 0)
    [(⟨1, -1, 1, -1, 1, -1, 0, 0, 0⟩ : Board),
     (⟨1, -1, 1, -1, 1, 0, -1, 0, 0⟩ : Board),
     (⟨1, -1, 1, -1, 1, 0, 0, -1, 0⟩ : Board),
     (⟨1, -1, 1, -1, 1, 0, 0, 0, -1⟩ : Board)]
    rfl rfl rfl
    ⟨certGE0759, certGE0765, certGE0769, certGE0771, True.intro⟩

theorem certGE0773 : XScore.ble (XScore.fin 0) ((minimax 5 (⟨1, -1, 1, -1, 0, 0, 0, 0, 0⟩ : Board) COMP).1.2.2) = true :=
  nodeCompGE 5 4 (⟨1, -1, 1, -1, 0, 0, 0, 0, 0⟩ : Board) (⟨1, -1, 1, -1, 1, 0, 0, 0, 0⟩ : Board) (XScore.fin 0) 1 1 rfl rfl (of_decide_eq_true rfl) rfl
    certGE0772

theorem certGE0774 : XScore.ble (XScore.fin 0) ((minimax 0 (⟨1, -1, 1, -1, -1, 1, -1, 1, 1⟩ : Board) HUMAN).1.2.2) = true :=
  leafGE 0 (⟨1, -1, 1, -1, -1, 1, -1, 1, 1⟩ : Board) HUMAN (XScore.fin 0) (Or.inl rfl) rfl

theorem certGE0775 : XScore.ble (XScore.fin 0) ((minimax 1 (⟨1, -1, 1, -1, -1, 1, -1, 1, 0⟩ : Board) COMP).1.2.2) = true :=
  nodeCompGE 1 0 (⟨1, -1, 1, -1, -1, 1, -1, 1, 0⟩ : Board) (⟨1, -1, 1, -1, -1, 1, -1, 1, 1⟩ : Board) (XScore.fin 0) 2 2 rfl rfl (of_decide_eq_true rfl) rfl
    certGE0774

theorem certGE0776 : XScore.ble (XScore.fin 0) ((minimax 0 (⟨1, -1, 1, -1, -1, 1, 1, 1, -1⟩ : Board) HUMAN).1.2.2) = true :=
  leafGE 0 (⟨1, -1, 1, -1, -1, 1, 1, 1, -1⟩ : Board) HUMAN (XScore.fin 0) (Or.inl rfl) rfl

theorem certGE0777 : XScore.ble (XScore.fin 0) ((minimax 1 (⟨1, -1, 1, -1, -1, 1, 0, 1, -1⟩ : Board) COMP).1.2.2) = true :=
  nodeCompGE 1 0 (⟨1, -1, 1, -1, -1, 1, 0, 1, -1⟩ : Board) (⟨1, -1, 1, -1, -1, 1, 1, 1, -1⟩ : Board) (XScore.fin 0) 2 0 rfl rfl (of_decide_eq_true rfl) rfl
    certGE0776

theorem certGE0778 : XScore.ble (XScore.fin 0) ((minimax 2 (⟨1, -1, 1, -1, -1, 1, 0, 1, 0⟩ : Board) HUMAN).1.2.2) = true :=
  nodeHumanGE 2 1 (⟨1, -1, 1, -1, -1, 1, 0, 1, 0⟩ : Board) (XScore.fin 0)
    [(⟨1, -1, 1, -1, -1, 1, -1, 1, 0⟩ : Board),
     (⟨1, -1, 1, -1, -1, 1, 0, 1, -1⟩ : Board)]
    rfl rfl rfl
    ⟨certGE0775, certGE0777, True.intro⟩

theorem certGE0779 : XScore.ble (XScore.fin 0) ((minimax 3 (⟨1, -1, 1, -1, -1, 0, 0, 1, 0⟩ : Board) COMP).1.2.2) = true :=
  nodeCompGE 3 2 (⟨1, -1, 1, -1, -1, 0, 0, 1, 0⟩ : Board) (⟨1, -1, 1, -1, -1, 1, 0, 1, 0⟩ : Board) (XScore.fin 0) 1 2 rfl rfl (of_decide_eq_true rfl) rfl
    certGE0778

theorem certGE0780 : XScore.ble (XScore.fin 0) ((minimax 0 (⟨1, -1, 1, 1, -1, -1, -1, 1, 1⟩ : Board) HUMAN).1.2.2) = true :=
  leafGE 0 (⟨1, -1, 1, 1, -1, -1, -1, 1, 1⟩ : Board) HUMAN (XScore.fin 0) (Or.inl rfl) rfl

theorem certGE0781 : XScore.ble (XScore.fin 0) ((minimax 1 (⟨1, -1, 1, 1, -1, -1, -1, 1, 0⟩ : Board) COMP).1.2.2) = true :=
  nodeCompGE 1 0 (⟨1, -1, 1, 1, -1, -1, -1, 1, 0⟩ : Board) (⟨1, -1, 1, 1, -1, -1, -1, 1, 1⟩ : Board) (XScore.fin 0) 2 2 rfl rfl (of_decide_eq_true rfl) rfl
    certGE0780

theorem certGE0782 : XScore.ble (XScore.fin 0) ((minimax 0 (⟨1, -1, 1, 1, -1, -1, 1, 1, -1⟩ : Board) HUMAN).1.2.2) = true :=
  leafGE 0 (⟨1, -1, 1, 1, -1, -1, 1, 1, -1⟩ : Board) HUMAN (XScore.fin 0) (Or.inl rfl) rfl

theorem certGE0783 : XScore.ble (XScore.fin 0) ((minimax 1 (⟨1, -1, 1, 1, -1, -1, 0, 1, -1⟩ : Board) COMP).1.2.2) = true :=
  nodeCompGE 1 0 (⟨1, -1, 1, 1, -1, -1, 0, 1, -1⟩ : Board) (⟨1, -1, 1, 1, -1, -1, 1, 1, -1⟩ : Board) (XScore.fin 0) 2 0 rfl rfl (of_decide_eq_true rfl) rfl
    certGE0782

theorem certGE0784 : XScore.ble (XScore.fin 0) ((minimax 2 (⟨1, -1, 1, 1, -1, -1, 0, 1, 0⟩ : Board) HUMAN).1.2.2) = true :=
  nodeHumanGE 2 1 (⟨1, -1, 1, 1, -1, -1, 0, 1, 0⟩ : Board) (XScore.fin 0)
    [(⟨1, -1, 1, 1, -1, -1, -1, 1, 0⟩ : Board),
     (⟨1, -1, 1, 1, -1, -1, 0, 1, -1⟩ : Board)]
    rfl rfl rfl
    ⟨certGE0781, certGE0783, True.intro⟩

theorem certGE0785 : XScore.ble (XScore.fin 0) ((minimax 3 (⟨1, -1, 1, 0, -1, -1, 0, 1, 0⟩ : Board) COMP).1.2.2) = true :=
  nodeCompGE 3 2 (⟨1, -1, 1, 0, -1, -1, 0, 1, 0⟩ : Board) (⟨1, -1, 1, 1, -1, -1, 0, 1, 0⟩ : Board) (XScore.fin 0) 1 0 rfl rfl (of_decide_eq_true rfl) rfl
    certGE0784

theorem certGE0786 : XScore.ble (XScore.fin 0) ((minimax 0 (⟨1, -1, 1, 1, -1, 1, -1, 1, -1⟩ : Board) HUMAN).1.2.2) = true :=
  leafGE 0 (⟨1, -1, 1, 1, -1, 1, -1, 1, -1⟩ : Board) HUMAN (XScore.fin 0) (Or.inl rfl) rfl

theorem certGE0787 : XScore.ble (XScore.fin 0) ((minimax 1 (⟨1, -1, 1, 1, -1, 0, -1, 1, -1⟩ : Board) COMP).1.2.2) = true :=
  nodeCompGE 1 0 (⟨1, -1, 1, 1, -1, 0, -1, 1, -1⟩ : Board) (⟨1, -1, 1, 1, -1, 1, -1, 1, -1⟩ : Board) (XScore.fin 0) 1 2 rfl rfl (of_decide_eq_true rfl) rfl
    certGE0786

theorem certGE0788 : XScore.ble (XScore.fin 0) ((minimax 2 (⟨1, -1, 1, 1, -1, 0, -1, 1, 0⟩ : Board) HUMAN).1.2.2) = true :=
  nodeHumanGE 2 1 (⟨1, -1, 1, 1, -1, 0, -1, 1, 0⟩ : Board) (XScore.fin 0)
    [(⟨1, -1, 1, 1, -1, -1, -1, 1, 0⟩ : Board),
     (⟨1, -1, 1, 1, -1, 0, -1, 1, -1⟩ : Board)]
    rfl rfl rfl
    ⟨certGE0781, certGE0787, True.intro⟩

theorem certGE0789 : XScore.ble (XScore.fin 0) ((minimax 3 (⟨1, -1, 1, 0, -1, 0, -1, 1, 0⟩ : Board) COMP).1.2.2) = true :=
  nodeCompGE 3 2 (⟨1, -1, 1, 0, -1, 0, -1, 1, 0⟩ : Board) (⟨1, -1, 1, 1, -1, 0, -1, 1, 0⟩ : Board) (XScore.fin 0) 1 0 rfl rfl (of_decide_eq_true rfl) rfl
    certGE0788

theorem certGE0790 : XScore.ble (XScore.fin 0) ((minimax 2 (⟨1, -1, 1, 1, -1, 0, 0, 1, -1⟩ : Board) HUMAN).1.2.2) = true :=
  nodeHumanGE 2 1 (⟨1, -1, 1, 1, -1, 0, 0, 1, -1⟩ : Board) (XScore.fin 0)
    [(⟨1, -1, 1, 1, -1, -1, 0, 1, -1⟩ : Board),
     (⟨1, -1, 1, 1, -1, 0, -1, 1, -1⟩ : Board)]
    rfl rfl rfl
    ⟨certGE0783, certGE0787, True.intro⟩

theorem certGE0791 : XScore.ble (XScore.fin 0) ((minimax 3 (⟨1, -1, 1, 0, -1, 0, 0, 1, -1⟩ : Board) COMP).1.2.2) = true :=
  nodeCompGE 3 2 (⟨1, -1, 1, 0, -1, 0, 0, 1, -1⟩ : Board) (⟨1, -1, 1, 1, -1, 0, 0, 1, -1⟩ : Board) (XScore.fin 0) 1 0 rfl rfl (of_decide_eq_true rfl) rfl
    certGE0790

theorem certGE0792 : XScore.ble (XScore.fin 0) ((minimax 4 (⟨1, -1, 1, 0, -1, 0, 0, 1, 0⟩ : Board) HUMAN).1.2.2) = true :=
  nodeHumanGE 4 3 (⟨1, -1, 1, 0, -1, 0, 0, 1, 0⟩ : Board) (XScore.fin 0)
    [(⟨1, -1, 1, -1, -1, 0, 0, 1, 0⟩ : Board),
     (⟨1, -1, 1, 0, -1, -1, 0, 1, 0⟩ : Board),
     (⟨1, -1, 1, 0, -1, 0, -1, 1, 0⟩ : Board),
     (⟨1, -1, 1, 0, -1, 0, 0, 1, -1⟩ : Board)]
    rfl rfl rfl
    ⟨certGE0779, certGE0785, certGE0789, certGE0791, True.intro⟩

theorem certGE0793 : XScore.ble (XScore.fin 0) ((minimax 5 (⟨1, -1, 1, 0, -1, 0, 0, 0, 0⟩ : Board) COMP).1.2.2) = true :=
  nodeCompGE 5 4 (⟨1, -1, 1, 0, -1, 0, 0, 0, 0⟩ : Board) (⟨1, -1, 1, 0, -1, 0, 0, 1, 0⟩ : Board) (XScore.fin 0) 2 1 rfl rfl (of_decide_eq_true rfl) rfl
    certGE0792

theorem certGE0794 : XScore.ble (XScore.fin 0) ((minimax 2 (⟨1, -1, 1, 1, -1, -1, 1, 0, 0⟩ : Board) HUMAN).1.2.2) = true :=
  leafGE 2 (⟨1, -1, 1, 1, -1, -1, 1, 0, 0⟩ : Board) HUMAN (XScore.fin 0) (Or.inr rfl) rfl

theorem certGE0795 : XScore.ble (XScore.fin 0) ((minimax 3 (⟨1, -1, 1, 1, -1, -1, 0, 0, 0⟩ : Board) COMP).1.2.2) = true :=
  nodeCompGE 3 2 (⟨1, -1, 1, 1, -1, -1, 0, 0, 0⟩ : Board) (⟨1, -1, 1, 1, -1, -1, 1, 0, 0⟩ : Board) (XScore.fin 0) 2 0 rfl rfl (of_decide_eq_true rfl) rfl
    certGE0794

theorem certGE0796 : XScore.ble (XScore.fin 0) ((minimax 0 (⟨1, -1, 1, 1, 1, -1, -1, -1, 1⟩ : Board) HUMAN).1.2.2) = true :=
  leafGE 0 (⟨1, -1, 1, 1, 1, -1, -1, -1, 1⟩ : Board) HUMAN (XScore.fin 0) (Or.inl rfl) rfl

theorem certGE0797 : XScore.ble (XScore.fin 0) ((minimax 1 (⟨1, -1, 1, 1, 1, -1, -1, -1, 0⟩ : Board) COMP).1.2.2) = true :=
  nodeCompGE 1 0 (⟨1, -1, 1, 1, 1, -1, -1, -1, 0⟩ : Board) (⟨1, -1, 1, 1, 1, -1, -1, -1, 1⟩ : Board) (XScore.fin 0) 2 2 rfl rfl (of_decide_eq_true rfl) rfl
    certGE0796

theorem certGE0798 : XScore.ble (XScore.fin 0) ((minimax 0 (⟨1, -1, 1, 1, 1, -1, -1, 1, -1⟩ : Board) HUMAN).1.2.2) = true :=
  leafGE 0 (⟨1, -1, 1, 1, 1, -1, -1, 1, -1⟩ : Board) HUMAN (XScore.fin 0) (Or.inl rfl) rfl

theorem certGE0799 : XScore.ble (XScore.fin 0) ((minimax 1 (⟨1, -1, 1, 1, 1, -1, -1, 0, -1⟩ : Board) COMP).1.2.2) = true :=
  nodeCompGE 1 0 (⟨1, -1, 1, 1, 1, -1, -1, 0, -1⟩ : Board) (⟨1, -1, 1, 1, 1, -1, -1, 1, -1⟩ : Board) (XScore.fin 0) 2 1 rfl rfl (of_decide_eq_true rfl) rfl
    certGE0798

theorem certGE0800 : XScore.ble (XScore.fin 0) ((minimax 2 (⟨1, -1, 1, 1, 1, -1, -1, 0, 0⟩ : Board) HUMAN).1.2.2) = true :=
  nodeHumanGE 2 1 (⟨1, -1, 1, 1, 1, -1, -1, 0, 0⟩ : Board) (XScore.fin 0)
    [(⟨1, -1, 1, 1, 1, -1, -1, -1, 0⟩ : Board),
     (⟨1, -1, 1, 1, 1, -1, -1, 0, -1⟩ : Board)]
    rfl rfl rfl
    ⟨certGE0797, certGE0799, True.intro⟩

theorem certGE0801 : XScore.ble (XScore.fin 0) ((minimax 3 (⟨1, -1, 1, 1, 0, -1, -1, 0, 0⟩ : Board) COMP).1.2.2) = true :=
  nodeCompGE 3 2 (⟨1, -1, 1, 1, 0, -1, -1, 0, 0⟩ : Board) (⟨1, -1, 1, 1, 1, -1, -1, 0, 0⟩ : Board) (XScore.fin 0) 1 1 rfl rfl (of_decide_eq_true rfl) rfl
    certGE0800

theorem certGE0802 : XScore.ble (XScore.fin 0) ((minimax 0 (⟨1, -1, 1, 1, 1, -1, 1, -1, -1⟩ : Board) HUMAN).1.2.2) = true :=
  leafGE 0 (⟨1, -1, 1, 1, 1, -1, 1, -1, -1⟩ : Board) HUMAN (XScore.fin 0) (Or.inl rfl) rfl

theorem certGE0803 : XScore.ble (XScore.fin 0) ((minimax 1 (⟨1, -1, 1, 1, 1, -1, 0, -1, -1⟩ : Board) COMP).1.2.2) = true :=
  nodeCompGE 1 0 (⟨1, -1, 1, 1, 1, -1, 0, -1, -1⟩ : Board) (⟨1, -1, 1, 1, 1, -1, 1, -1, -1⟩ : Board) (XScore.fin 0) 2 0 rfl rfl (of_decide_eq_true rfl) rfl
    certGE0802

theorem certGE0804 : XScore.ble (XScore.fin 0) ((minimax 2 (⟨1, -1, 1, 1, 1, -1, 0, -1, 0⟩ : Board) HUMAN).1.2.2) = true :=
  nodeHumanGE 2 1 (⟨1, -1, 1, 1, 1, -1, 0, -1, 0⟩ : Board) (XScore.fin 0)
    [(⟨1, -1, 1, 1, 1, -1, -1, -1, 0⟩ : Board),
     (⟨1, -1, 1, 1, 1, -1, 0, -1, -1⟩ : Board)]
    rfl rfl rfl
    ⟨certGE0797, certGE0803, True.intro⟩

theorem certGE0805 : XScore.ble (XScore.fin 0) ((minimax 3 (⟨1, -1, 1, 1, 0, -1, 0, -1, 0⟩ : Board) COMP).1.2.2) = true :=
  nodeCompGE 3 2 (⟨1, -1, 1, 1, 0, -1, 0, -1, 0⟩ : Board) (⟨1, -1, 1, 1, 1, -1, 0, -1, 0⟩ : Board) (XScore.fin 0) 1 1 rfl rfl (of_decide_eq_true rfl) rfl
    certGE0804

theorem certGE0806 : XScore.ble (XScore.fin 0) ((minimax 2 (⟨1, -1, 1, 1, 1, -1, 0, 0, -1⟩ : Board) HUMAN).1.2.2) = true :=
  nodeHumanGE 2 1 (⟨1, -1, 1, 1, 1, -1, 0, 0, -1⟩ : Board) (XScore.fin 0)
    [(⟨1, -1, 1, 1, 1, -1, -1, 0, -1⟩ : Board),
     (⟨1, -1, 1, 1, 1, -1, 0, -1, -1⟩ : Board)]
    rfl rfl rfl
    ⟨certGE0799, certGE0803, True.intro⟩

theorem certGE0807 : XScore.ble (XScore.fin 0) ((minimax 3 (⟨1, -1, 1, 1, 0, -1, 0, 0, -1⟩ : Board) COMP).1.2.2) = true :=
  nodeCompGE 3 2 (⟨1, -1, 1, 1, 0, -1, 0, 0, -1⟩ : Board) (⟨1, -1, 1, 1, 1, -1, 0, 0, -1⟩ : Board) (XScore.fin 0) 1 1 rfl rfl (of_decide_eq_true rfl) rfl
    certGE0806

theorem certGE0808 : XScore.ble (XScore.fin 0) ((minimax 4 (⟨1, -1, 1, 1, 0, -1, 0, 0, 0⟩ : Board) HUMAN).1.2.2) = true :=
  nodeHumanGE 4 3 (⟨1, -1, 1, 1, 0, -1, 0, 0, 0⟩ : Board) (XScore.fin 0)
    [(⟨1, -1, 1, 1, -1, -1, 0, 0, 0⟩ : Board),
     (⟨1, -1, 1, 1, 0, -1, -1, 0, 0⟩ : Board),
     (⟨1, -1, 1, 1, 0, -1, 0, -1, 0⟩ : Board),
     (⟨1, -1, 1, 1, 0, -1, 0, 0, -1⟩ : Board)]
    rfl rfl rfl
    ⟨certGE0795, certGE0801, certGE0805, certGE0807, True.intro⟩

theorem certGE0809 : XScore.ble (XScore.fin 0) ((minimax 5 (⟨1, -1, 1, 0, 0, -1, 0, 0, 0⟩ : Board) COMP).1.2.2) = true :=
  nodeCompGE 5 4 (⟨1, -1, 1, 0, 0, -1, 0, 0, 0⟩ : Board) (⟨1, -1, 1, 1, 0, -1, 0, 0, 0⟩ : Board) (XScore.fin 0) 1 0 rfl rfl (of_decide_eq_true rfl) rfl
    certGE0808

theorem certGE0810 : XScore.ble (XScore.fin 0) ((minimax 3 (⟨1, -1, 1, 0, 1, -1, -1, 0, 0⟩ : Board) COMP).1.2.2) = true :=
  nodeCompGE 3 2 (⟨1, -1, 1, 0, 1, -1, -1, 0, 0⟩ : Board) (⟨1, -1, 1, 1, 1, -1, -1, 0, 0⟩ : Board) (XScore.fin 0) 1 0 rfl rfl (of_decide_eq_true rfl) rfl
    certGE0800

theorem certGE0811 : XScore.ble (XScore.fin 0) ((minimax 2 (⟨1, -1, 1, 0, 1, 0, -1, -1, 1⟩ : Board) HUMAN).1.2.2) = true :=
  leafGE 2 (⟨1, -1, 1, 0, 1, 0, -1, -1, 1⟩ : Board) HUMAN (XScore.fin 0) (Or.inr rfl) rfl

theorem certGE0812 : XScore.ble (XScore.fin 0) ((minimax 3 (⟨1, -1, 1, 0, 1, 0, -1, -1, 0⟩ : Board) COMP).1.2.2) = true :=
  nodeCompGE 3 2 (⟨1, -1, 1, 0, 1, 0, -1, -1, 0⟩ : Board) (⟨1, -1, 1, 0, 1, 0, -1, -1, 1⟩ : Board) (XScore.fin 0) 2 2 rfl rfl (of_decide_eq_true rfl) rfl
    certGE0811

theorem certGE0813 : XScore.ble (XScore.fin 0) ((minimax 1 (⟨1, -1, 1, -1, 1, 0, -1, 1, -1⟩ : Board) COMP).1.2.2) = true :=
  nodeCompGE 1 0 (⟨1, -1, 1, -1, 1, 0, -1, 1, -1⟩ : Board) (⟨1, -1, 1, -1, 1, 1, -1, 1, -1⟩ : Board) (XScore.fin 0) 1 2 rfl rfl (of_decide_eq_true rfl) rfl
    certGE0762

theorem certGE0814 : XScore.ble (XScore.fin 0) ((minimax 1 (⟨1, -1, 1, 0, 1, -1, -1, 1, -1⟩ : Board) COMP).1.2.2) = true :=
  nodeCompGE 1 0 (⟨1, -1, 1, 0, 1, -1, -1, 1, -1⟩ : Board) (⟨1, -1, 1, 1, 1, -1, -1, 1, -1⟩ : Board) (XScore.fin 0) 1 0 rfl rfl (of_decide_eq_true rfl) rfl
    certGE0798

theorem certGE0815 : XScore.ble (XScore.fin 0) ((minimax 2 (⟨1, -1, 1, 0, 1, 0, -1, 1, -1⟩ : Board) HUMAN).1.2.2) = true :=
  nodeHumanGE 2 1 (⟨1, -1, 1, 0, 1, 0, -1, 1, -1⟩ : Board) (XScore.fin 0)
    [(⟨1, -1, 1, -1, 1, 0, -1, 1, -1⟩ : Board),
     (⟨1, -1, 1, 0, 1, -1, -1, 1, -1⟩ : Board)]
    rfl rfl rfl
    ⟨certGE0813, certGE0814, True.intro⟩

theorem certGE0816 : XScore.ble (XScore.fin 0) ((minimax 3 (⟨1, -1, 1, 0, 1, 0, -1, 0, -1⟩ : Board) COMP).1.2.2) = true :=
  nodeCompGE 3 2 (⟨1, -1, 1, 0, 1, 0, -1, 0, -1⟩ : Board) (⟨1, -1, 1, 0, 1, 0, -1, 1, -1⟩ : Board) (XScore.fin 0) 2 1 rfl rfl (of_decide_eq_true rfl) rfl
    certGE0815

theorem certGE0817 : XScore.ble (XScore.fin 0) ((minimax 4 (⟨1, -1, 1, 0, 1, 0, -1, 0, 0⟩ : Board) HUMAN).1.2.2) = true :=
  nodeHumanGE 4 3 (⟨1, -1, 1, 0, 1, 0, -1, 0, 0⟩ : Board) (XScore.fin 0)
    [(⟨1, -1, 1, -1, 1, 0, -1, 0, 0⟩ : Board),
     (⟨1, -1, 1, 0, 1, -1, -1, 0, 0⟩ : Board),
     (⟨1, -1, 1, 0, 1, 0, -1, -1, 0⟩ : Board),
     (⟨1, -1, 1, 0, 1, 0, -1, 0, -1⟩ : Board)]
    rfl rfl rfl
    ⟨certGE0765, certGE0810, certGE0812, certGE0816, True.intro⟩

theorem certGE0818 : XScore.ble (XScore.fin 0) ((minimax 5 (⟨1, -1, 1, 0, 0, 0, -1, 0, 0⟩ : Board) COMP).1.2.2) = true :=
  nodeCompGE 5 4 (⟨1, -1, 1, 0, 0, 0, -1, 0, 0⟩ : Board) (⟨1, -1, 1, 0, 1, 0, -1, 0, 0⟩ : Board) (XScore.fin 0) 1 1 rfl rfl (of_decide_eq_true rfl) rfl
    certGE0817

theorem certGE0819 : XScore.ble (XScore.fin 0) ((minimax 3 (⟨1, -1, 1, 0, 1, -1, 0, -1, 0⟩ : Board) COMP).1.2.2) = true :=
  nodeCompGE 3 2 (⟨1, -1, 1, 0, 1, -1, 0, -1, 0⟩ : Board) (⟨1, -1, 1, 1, 1, -1, 0, -1, 0⟩ : Board) (XScore.fin 0) 1 0 rfl rfl (of_decide_eq_true rfl) rfl
    certGE0804

theorem certGE0820 : XScore.ble (XScore.fin 0) ((minimax 2 (⟨1, -1, 1, 0, 1, 0, 1, -1, -1⟩ : Board) HUMAN).1.2.2) = true :=
  leafGE 2 (⟨1, -1, 1, 0, 1, 0, 1, -1, -1⟩ : Board) HUMAN (XScore.fin 0) (Or.inr rfl) rfl

theorem certGE0821 : XScore.ble (XScore.fin 0) ((minimax 3 (⟨1, -1, 1, 0, 1, 0, 0, -1, -1⟩ : Board) COMP).1.2.2) = true :=
  nodeCompGE 3 2 (⟨1, -1, 1, 0, 1, 0, 0, -1, -1⟩ : Board) (⟨1, -1, 1, 0, 1, 0, 1, -1, -1⟩ : Board) (XScore.fin 0) 2 0 rfl rfl (of_decide_eq_true rfl) rfl
    certGE0820

theorem certGE0822 : XScore.ble (XScore.fin 0) ((minimax 4 (⟨1, -1, 1, 0, 1, 0, 0, -1, 0⟩ : Board) HUMAN).1.2.2) = true :=
  nodeHumanGE 4 3 (⟨1, -1, 1, 0, 1, 0, 0, -1, 0⟩ : Board) (XScore.fin 0)
    [(⟨1, -1, 1, -1, 1, 0, 0, -1, 0⟩ : Board),
     (⟨1, -1, 1, 0, 1, -1, 0, -1, 0⟩ : Board),
     (⟨1, -1, 1, 0, 1, 0, -1, -1, 0⟩ : Board),
     (⟨1, -1, 1, 0, 1, 0, 0, -1, -1⟩ : Board)]
    rfl rfl rfl
    ⟨certGE0769, certGE0819, certGE0812, certGE0821, True.intro⟩

theorem certGE0823 : XScore.ble (XScore.fin 0) ((minimax 5 (⟨1, -1, 1, 0, 0, 0, 0, -1, 0⟩ : Board) COMP).1.2.2) = true :=
  nodeCompGE 5 4 (⟨1, -1, 1, 0, 0, 0, 0, -1, 0⟩ : Board) (⟨1, -1, 1, 0, 1, 0, 0, -1, 0⟩ : Board) (XScore.fin 0) 1 1 rfl rfl (of_decide_eq_true rfl) rfl
    certGE0822

theorem certGE0824 : XScore.ble (XScore.fin 0) ((minimax 2 (⟨1, -1, 1, 1, -1, 0, 1, 0, -1⟩ : Board) HUMAN).1.2.2) = true :=
  leafGE 2 (⟨1, -1, 1, 1, -1, 0, 1, 0, -1⟩ : Board) HUMAN (XScore.fin 0) (Or.inr rfl) rfl

theorem certGE0825 : XScore.ble (XScore.fin 0) ((minimax 3 (⟨1, -1, 1, 1, -1, 0, 0, 0, -1⟩ : Board) COMP).1.2.2) = true :=
  nodeCompGE 3 2 (⟨1, -1, 1, 1, -1, 0, 0, 0, -1⟩ : Board) (⟨1, -1, 1, 1, -1, 0, 1, 0, -1⟩ : Board) (XScore.fin 0) 2 0 rfl rfl (of_decide_eq_true rfl) rfl
    certGE0824

theorem certGE0826 : XScore.ble (XScore.fin 0) ((minimax 1 (⟨1, -1, 1, 1, 0, -1, -1, 1, -1⟩ : Board) COMP).1.2.2) = true :=
  nodeCompGE 1 0 (⟨1, -1, 1, 1, 0, -1, -1, 1, -1⟩ : Board) (⟨1, -1, 1, 1, 1, -1, -1, 1, -1⟩ : Board) (XScore.fin 0) 1 1 rfl rfl (of_decide_eq_true rfl) rfl
    certGE0798

theorem certGE0827 : XScore.ble (XScore.fin 0) ((minimax 2 (⟨1, -1, 1, 1, 0, 0, -1, 1, -1⟩ : Board) HUMAN).1.2.2) = true :=
  nodeHumanGE 2 1 (⟨1, -1, 1, 1, 0, 0, -1, 1, -1⟩ : Board) (XScore.fin 0)
    [(⟨1, -1, 1, 1, -1, 0, -1, 1, -1⟩ : Board),
     (⟨1, -1, 1, 1, 0, -1, -1, 1, -1⟩ : Board)]
    rfl rfl rfl
    ⟨certGE0787, certGE0826, True.intro⟩

theorem certGE0828 : XScore.ble (XScore.fin 0) ((minimax 3 (⟨1, -1, 1, 1, 0, 0, -1, 0, -1⟩ : Board) COMP).1.2.2) = true :=
  nodeCompGE 3 2 (⟨1, -1, 1, 1, 0, 0, -1, 0, -1⟩ : Board) (⟨1, -1, 1, 1, 0, 0, -1, 1, -1⟩ : Board) (XScore.fin 0) 2 1 rfl rfl (of_decide_eq_true rfl) rfl
    certGE0827

theorem certGE0829 : XScore.ble (XScore.fin 0) ((minimax 2 (⟨1, -1, 1, 1, 0, 0, 1, -1, -1⟩ : Board) HUMAN).1.2.2) = true :=
  leafGE 2 (⟨1, -1, 1, 1, 0, 0, 1, -1, -1⟩ : Board) HUMAN (XScore.fin 0) (Or.inr rfl) rfl

theorem certGE0830 : XScore.ble (XScore.fin 0) ((minimax 3 (⟨1, -1, 1, 1, 0, 0, 0, -1, -1⟩ : Board) COMP).1.2.2) = true :=
  nodeCompGE 3 2 (⟨1, -1, 1, 1, 0, 0, 0, -1, -1⟩ : Board) (⟨1, -1, 1, 1, 0, 0, 1, -1, -1⟩ : Board) (XScore.fin 0) 2 0 rfl rfl (of_decide_eq_true rfl) rfl
    certGE0829

theorem certGE0831 : XScore.ble (XScore.fin 0) ((minimax 4 (⟨1, -1, 1, 1, 0, 0, 0, 0, -1⟩ : Board) HUMAN).1.2.2) = true :=
  nodeHumanGE 4 3 (⟨1, -1, 1, 1, 0, 0, 0, 0, -1⟩ : Board) (XScore.fin 0)
    [(⟨1, -1, 1, 1, -1, 0, 0, 0, -1⟩ : Board),
     (⟨1, -1, 1, 1, 0, -1, 0, 0, -1⟩ : Board),
     (⟨1, -1, 1, 1, 0, 0, -1, 0, -1⟩ : Board),
     (⟨1, -1, 1, 1, 0, 0, 0, -1, -1⟩ : Board)]
    rfl rfl rfl
    ⟨certGE0825, certGE0807, certGE0828, certGE0830, True.intro⟩

theorem certGE0832 : XScore.ble (XScore.fin 0) ((minimax 5 (⟨1, -1, 1, 0, 0, 0, 0, 0, -1⟩ : Board) COMP).1.2.2) = true :=
  nodeCompGE 5 4 (⟨1, -1, 1, 0, 0, 0, 0, 0, -1⟩ : Board) (⟨1, -1, 1, 1, 0, 0, 0, 0, -1⟩ : Board) (XScore.fin 0) 1 0 rfl rfl (of_decide_eq_true rfl) rfl
    certGE0831

theorem certGE0833 : XScore.ble (XScore.fin 0) ((minimax 6 (⟨1, -1, 1, 0, 0, 0, 0, 0, 0⟩ : Board) HUMAN).1.2.2) = true :=
  nodeHumanGE 6 5 (⟨1, -1, 1, 0, 0, 0, 0, 0, 0⟩ : Board) (XScore.fin 0)
    [(⟨1, -1, 1, -1, 0, 0, 0, 0, 0⟩ : Board),
     (⟨1, -1, 1, 0, -1, 0, 0, 0, 0⟩ : Board),
     (⟨1, -1, 1, 0, 0, -1, 0, 0, 0⟩ : Board),
     (⟨1, -1, 1, 0, 0, 0, -1, 0, 0⟩ : Board),
     (⟨1, -1, 1, 0, 0, 0, 0, -1, 0⟩ : Board),
     (⟨1, -1, 1, 0, 0, 0, 0, 0, -1⟩ : Board)]
    rfl rfl rfl
    ⟨certGE0773, certGE0793, certGE0809, certGE0818, certGE0823, certGE0832, True.intro⟩

theorem certGE0834 : XScore.ble (XScore.fin 0) ((minimax 7 (⟨1, -1, 0, 0, 0, 0, 0, 0, 0⟩ : Board) COMP).1.2.2) = true :=
  nodeCompGE 7 6 (⟨1, -1, 0, 0, 0, 0, 0, 0, 0⟩ : Board) (⟨1, -1, 1, 0, 0, 0, 0, 0, 0⟩ : Board) (XScore.fin 0) 0 2 rfl rfl (of_decide_eq_true rfl) rfl
    certGE0833

theorem certGE0835 : XScore.ble (XScore.fin 0) ((minimax 2 (⟨1, -1, -1, 1, 1, -1, 1, 0, 0⟩ : Board) HUMAN).1.2.2) = true :=
  leafGE 2 (⟨1, -1, -1, 1, 1, -1, 1, 0, 0⟩ : Board) HUMAN (XScore.fin 0) (Or.inr rfl) rfl

theorem certGE0836 : XScore.ble (XScore.fin 0) ((minimax 3 (⟨1, -1, -1, 1, 1, -1, 0, 0, 0⟩ : Board) COMP).1.2.2) = true :=
  nodeCompGE 3 2 (⟨1, -1, -1, 1, 1, -1, 0, 0, 0⟩ : Board) (⟨1, -1, -1, 1, 1, -1, 1, 0, 0⟩ : Board) (XScore.fin 0) 2 0 rfl rfl (of_decide_eq_true rfl) rfl
    certGE0835

theorem certGE0837 : XScore.ble (XScore.fin 0) ((minimax 2 (⟨1, -1, -1, 1, 1, 1, -1, 0, 0⟩ : Board) HUMAN).1.2.2) = true :=
  leafGE 2 (⟨1, -1, -1, 1, 1, 1, -1, 0, 0⟩ : Board) HUMAN (XScore.fin 0) (Or.inr rfl) rfl

theorem certGE0838 : XScore.ble (XScore.fin 0) ((minimax 3 (⟨1, -1, -1, 1, 1, 0, -1, 0, 0⟩ : Board) COMP).1.2.2) = true :=
  nodeCompGE 3 2 (⟨1, -1, -1, 1, 1, 0, -1, 0, 0⟩ : Board) (⟨1, -1, -1, 1, 1, 1, -1, 0, 0⟩ : Board) (XScore.fin 0) 1 2 rfl rfl (of_decide_eq_true rfl) rfl
    certGE0837

theorem certGE0839 : XScore.ble (XScore.fin 0) ((minimax 2 (⟨1, -1, -1, 1, 1, 1, 0, -1, 0⟩ : Board) HUMAN).1.2.2) = true :=
  leafGE 2 (⟨1, -1, -1, 1, 1, 1, 0, -1, 0⟩ : Board) HUMAN (XScore.fin 0) (Or.inr rfl) rfl

theorem certGE0840 : XScore.ble (XScore.fin 0) ((minimax 3 (⟨1, -1, -1, 1, 1, 0, 0, -1, 0⟩ : Board) COMP).1.2.2) = true :=
  nodeCompGE 3 2 (⟨1, -1, -1, 1, 1, 0, 0, -1, 0⟩ : Board) (⟨1, -1, -1, 1, 1, 1, 0, -1, 0⟩ : Board) (XScore.fin 0) 1 2 rfl rfl (of_decide_eq_true rfl) rfl
    certGE0839

theorem certGE0841 : XScore.ble (XScore.fin 0) ((minimax 2 (⟨1, -1, -1, 1, 1, 1, 0, 0, -1⟩ : Board) HUMAN).1.2.2) = true :=
  leafGE 2 (⟨1, -1, -1, 1, 1, 1, 0, 0, -1⟩ : Board) HUMAN (XScore.fin 0) (Or.inr rfl) rfl

theorem certGE0842 : XScore.ble (XScore.fin 0) ((minimax 3 (⟨1, -1, -1, 1, 1, 0, 0, 0, -1⟩ : Board) COMP).1.2.2) = true :=
  nodeCompGE 3 2 (⟨1, -1, -1, 1, 1, 0, 0, 0, -1⟩ : Board) (⟨1, -1, -1, 1, 1, 1, 0, 0, -1⟩ : Board) (XScore.fin 0) 1 2 rfl rfl (of_decide_eq_true rfl) rfl
    certGE0841

theorem certGE0843 : XScore.ble (XScore.fin 0) ((minimax 4 (⟨1, -1, -1, 1, 1, 0, 0, 0, 0⟩ : Board) HUMAN).1.2.2) = true :=
  nodeHumanGE 4 3 (⟨1, -1, -1, 1, 1, 0, 0, 0, 0⟩ : Board) (XScore.fin 0)
    [(⟨1, -1, -1, 1, 1, -1, 0, 0, 0⟩ : Board),
     (⟨1, -1, -1, 1, 1, 0, -1, 0, 0⟩ : Board),
     (⟨1, -1, -1, 1, 1, 0, 0, -1, 0⟩ : Board),
     (⟨1, -1, -1, 1, 1, 0, 0, 0, -1⟩ : Board)]
    rfl rfl rfl
    ⟨certGE0836, certGE0838, certGE0840, certGE0842, True.intro⟩

theorem certGE0844 : XScore.ble (XScore.fin 0) ((minimax 5 (⟨1, -1, -1, 1, 0, 0, 0, 0, 0⟩ : Board) COMP).1.2.2) = true :=
  nodeCompGE 5 4 (⟨1, -1, -1, 1, 0, 0, 0, 0, 0⟩ : Board) (⟨1, -1, -1, 1, 1, 0, 0, 0, 0⟩ : Board) (XScore.fin 0) 1 1 rfl rfl (of_decide_eq_true rfl) rfl
    certGE0843

theorem certGE0845 : XScore.ble (XScore.fin 0) ((minimax 4 (⟨1, 0, -1, 1, -1, 0, 1, 0, 0⟩ : Board) HUMAN).1.2.2) = true :=
  leafGE 4 (⟨1, 0, -1, 1, -1, 0, 1, 0, 0⟩ : Board) HUMAN (XScore.fin 0) (Or.inr rfl) rfl

theorem certGE0846 : XScore.ble (XScore.fin 0) ((minimax 5 (⟨1, 0, -1, 1, -1, 0, 0, 0, 0⟩ : Board) COMP).1.2.2) = true :=
  nodeCompGE 5 4 (⟨1, 0, -1, 1, -1, 0, 0, 0, 0⟩ : Board) (⟨1, 0, -1, 1, -1, 0, 1, 0, 0⟩ : Board) (XScore.fin 0) 2 0 rfl rfl (of_decide_eq_true rfl) rfl
    certGE0845

theorem certGE0847 : XScore.ble (XScore.fin 0) ((minimax 4 (⟨1, 0, -1, 1, 0, -1, 1, 0, 0⟩ : Board) HUMAN).1.2.2) = true :=
  leafGE 4 (⟨1, 0, -1, 1, 0, -1, 1, 0, 0⟩ : Board) HUMAN (XScore.fin 0) (Or.inr rfl) rfl

theorem certGE0848 : XScore.ble (XScore.fin 0) ((minimax 5 (⟨1, 0, -1, 1, 0, -1, 0, 0, 0⟩ : Board) COMP).1.2.2) = true :=
  nodeCompGE 5 4 (⟨1, 0, -1, 1, 0, -1, 0, 0, 0⟩ : Board) (⟨1, 0, -1, 1, 0, -1, 1, 0, 0⟩ : Board) (XScore.fin 0) 2 0 rfl rfl (of_decide_eq_true rfl) rfl
    certGE0847

theorem certGE0849 : XScore.ble (XScore.fin 0) ((minimax 2 (⟨1, 0, -1, 1, 1, -1, -1, 0, 1⟩ : Board) HUMAN).1.2.2) = true :=
  leafGE 2 (⟨1, 0, -1, 1, 1, -1, -1, 0, 1⟩ : Board) HUMAN (XScore.fin 0) (Or.inr rfl) rfl

theorem certGE0850 : XScore.ble (XScore.fin 0) ((minimax 3 (⟨1, 0, -1, 1, 1, -1, -1, 0, 0⟩ : Board) COMP).1.2.2) = true :=
  nodeCompGE 3 2 (⟨1, 0, -1, 1, 1, -1, -1, 0, 0⟩ : Board) (⟨1, 0, -1, 1, 1, -1, -1, 0, 1⟩ : Board) (XScore.fin 0) 2 2 rfl rfl (of_decide_eq_true rfl) rfl
    certGE0849

theorem certGE0851 : XScore.ble (XScore.fin 0) ((minimax 2 (⟨1, 0, -1, 1, 1, 1, -1, -1, 0⟩ : Board) HUMAN).1.2.2) = true :=
  leafGE 2 (⟨1, 0, -1, 1, 1, 1, -1, -1, 0⟩ : Board) HUMAN (XScore.fin 0) (Or.inr rfl) rfl

theorem certGE0852 : XScore.ble (XScore.fin 0) ((minimax 3 (⟨1, 0, -1, 1, 1, 0, -1, -1, 0⟩ : Board) COMP).1.2.2) = true :=
  nodeCompGE 3 2 (⟨1, 0, -1, 1, 1, 0, -1, -1, 0⟩ : Board) (⟨1, 0, -1, 1, 1, 1, -1, -1, 0⟩ : Board) (XScore.fin 0) 1 2 rfl rfl (of_decide_eq_true rfl) rfl
    certGE0851

theorem certGE0853 : XScore.ble (XScore.fin 0) ((minimax 2 (⟨1, 0, -1, 1, 1, 1, -1, 0, -1⟩ : Board) HUMAN).1.2.2) = true :=
  leafGE 2 (⟨1, 0, -1, 1, 1, 1, -1, 0, -1⟩ : Board) HUMAN (XScore.fin 0) (Or.inr rfl) rfl

theorem certGE0854 : XScore.ble (XScore.fin 0) ((minimax 3 (⟨1, 0, -1, 1, 1, 0, -1, 0, -1⟩ : Board) COMP).1.2.2) = true :=
  nodeCompGE 3 2 (⟨1, 0, -1, 1, 1, 0, -1, 0, -1⟩ : Board) (⟨1, 0, -1, 1, 1, 1, -1, 0, -1⟩ : Board) (XScore.fin 0) 1 2 rfl rfl (of_decide_eq_true rfl) rfl
    certGE0853

theorem certGE0855 : XScore.ble (XScore.fin 0) ((minimax 4 (⟨1, 0, -1, 1, 1, 0, -1, 0, 0⟩ : Board) HUMAN).1.2.2) = true :=
  nodeHumanGE 4 3 (⟨1, 0, -1, 1, 1, 0, -1, 0, 0⟩ : Board) (XScore.fin 0)
    [(⟨1, -1, -1, 1, 1, 0, -1, 0, 0⟩ : Board),
     (⟨1, 0, -1, 1, 1, -1, -1, 0, 0⟩ : Board),
     (⟨1, 0, -1, 1, 1, 0, -1, -1, 0⟩ : Board),
     (⟨1, 0, -1, 1, 1, 0, -1, 0, -1⟩ : Board)]
    rfl rfl rfl
    ⟨certGE0838, certGE0850, certGE0852, certGE0854, True.intro⟩

theorem certGE0856 : XScore.ble (XScore.fin 0) ((minimax 5 (⟨1, 0, -1, 1, 0, 0, -1, 0, 0⟩ : Board) COMP).1.2.2) = true :=
  nodeCompGE 5 4 (⟨1, 0, -1, 1, 0, 0, -1, 0, 0⟩ : Board) (⟨1, 0, -1, 1, 1, 0, -1, 0, 0⟩ : Board) (XScore.fin 0) 1 1 rfl rfl (of_decide_eq_true rfl) rfl
    certGE0855

theorem certGE0857 : XScore.ble (XScore.fin 0) ((minimax 2 (⟨1, 0, -1, 1, 1, -1, 1, -1, 0⟩ : Board) HUMAN).1.2.2) = true :=
  leafGE 2 (⟨1, 0, -1, 1, 1, -1, 1, -1, 0⟩ : Board) HUMAN (XScore.fin 0) (Or.inr rfl) rfl

theorem certGE0858 : XScore.ble (XScore.fin 0) ((minimax 3 (⟨1, 0, -1, 1, 1, -1, 0, -1, 0⟩ : Board) COMP).1.2.2) = true :=
  nodeCompGE 3 2 (⟨1, 0, -1, 1, 1, -1, 0, -1, 0⟩ : Board) (⟨1, 0, -1, 1, 1, -1, 1, -1, 0⟩ : Board) (XScore.fin 0) 2 0 rfl rfl (of_decide_eq_true rfl) rfl
    certGE0857

theorem certGE0859 : XScore.ble (XScore.fin 0) ((minimax 2 (⟨1, 0, -1, 1, 1, 1, 0, -1, -1⟩ : Board) HUMAN).1.2.2) = true :=
  leafGE 2 (⟨1, 0, -1, 1, 1, 1, 0, -1, -1⟩ : Board) HUMAN (XScore.fin 0) (Or.inr rfl) rfl

theorem certGE0860 : XScore.ble (XScore.fin 0) ((minimax 3 (⟨1, 0, -1, 1, 1, 0, 0, -1, -1⟩ : Board) COMP).1.2.2) = true :=
  nodeCompGE 3 2 (⟨1, 0, -1, 1, 1, 0, 0, -1, -1⟩ : Board) (⟨1, 0, -1, 1, 1, 1, 0, -1, -1⟩ : Board) (XScore.fin 0) 1 2 rfl rfl (of_decide_eq_true rfl) rfl
    certGE0859

theorem certGE0861 : XScore.ble (XScore.fin 0) ((minimax 4 (⟨1, 0, -1, 1, 1, 0, 0, -1, 0⟩ : Board) HUMAN).1.2.2) = true :=
  nodeHumanGE 4 3 (⟨1, 0, -1, 1, 1, 0, 0, -1, 0⟩ : Board) (XScore.fin 0)
    [(⟨1, -1, -1, 1, 1, 0, 0, -1, 0⟩ : Board),
     (⟨1, 0, -1, 1, 1, -1, 0, -1, 0⟩ : Board),
     (⟨1, 0, -1, 1, 1, 0, -1, -1, 0⟩ : Board),
     (⟨1, 0, -1, 1, 1, 0, 0, -1, -1⟩ : Board)]
    rfl rfl rfl
    ⟨certGE0840, certGE0858, certGE0852, certGE0860, True.intro⟩

theorem certGE0862 : XScore.ble (XScore.fin 0) ((minimax 5 (⟨1, 0, -1, 1, 0, 0, 0, -1, 0⟩ : Board) COMP).1.2.2) = true :=
  nodeCompGE 5 4 (⟨1, 0, -1, 1, 0, 0, 0, -1, 0⟩ : Board) (⟨1, 0, -1, 1, 1, 0, 0, -1, 0⟩ : Board) (XScore.fin 0) 1 1 rfl rfl (of_decide_eq_true rfl) rfl
    certGE0861

theorem certGE0863 : XScore.ble (XScore.fin 0) ((minimax 3 (⟨1, -1, -1, 1, 0, 1, 0, 0, -1⟩ : Board) COMP).1.2.2) = true :=
  nodeCompGE 3 2 (⟨1, -1, -1, 1, 0, 1, 0, 0, -1⟩ : Board) (⟨1, -1, -1, 1, 1, 1, 0, 0, -1⟩ : Board) (XScore.fin 0) 1 1 rfl rfl (of_decide_eq_true rfl) rfl
    certGE0841

theorem certGE0864 : XScore.ble (XScore.fin 0) ((minimax 2 (⟨1, 0, -1, 1, -1, 1, 1, 0, -1⟩ : Board) HUMAN).1.2.2) = true :=
  leafGE 2 (⟨1, 0, -1, 1, -1, 1, 1, 0, -1⟩ : Board) HUMAN (XScore.fin 0) (Or.inr rfl) rfl

theorem certGE0865 : XScore.ble (XScore.fin 0) ((minimax 3 (⟨1, 0, -1, 1, -1, 1, 0, 0, -1⟩ : Board) COMP).1.2.2) = true :=
  nodeCompGE 3 2 (⟨1, 0, -1, 1, -1, 1, 0, 0, -1⟩ : Board) (⟨1, 0, -1, 1, -1, 1, 1, 0, -1⟩ : Board) (XScore.fin 0) 2 0 rfl rfl (of_decide_eq_true rfl) rfl
    certGE0864

theorem certGE0866 : XScore.ble (XScore.fin 0) ((minimax 3 (⟨1, 0, -1, 1, 0, 1, -1, 0, -1⟩ : Board) COMP).1.2.2) = true :=
  nodeCompGE 3 2 (⟨1, 0, -1, 1, 0, 1, -1, 0, -1⟩ : Board) (⟨1, 0, -1, 1, 1, 1, -1, 0, -1⟩ : Board) (XScore.fin 0) 1 1 rfl rfl (of_decide_eq_true rfl) rfl
    certGE0853

theorem certGE0867 : XScore.ble (XScore.fin 0) ((minimax 3 (⟨1, 0, -1, 1, 0, 1, 0, -1, -1⟩ : Board) COMP).1.2.2) = true :=
  nodeCompGE 3 2 (⟨1, 0, -1, 1, 0, 1, 0, -1, -1⟩ : Board) (⟨1, 0, -1, 1, 1, 1, 0, -1, -1⟩ : Board) (XScore.fin 0) 1 1 rfl rfl (of_decide_eq_true rfl) rfl
    certGE0859

theorem certGE0868 : XScore.ble (XScore.fin 0) ((minimax 4 (⟨1, 0, -1, 1, 0, 1, 0, 0, -1⟩ : Board) HUMAN).1.2.2) = true :=
  nodeHumanGE 4 3 (⟨1, 0, -1, 1, 0, 1, 0, 0, -1⟩ : Board) (XScore.fin 0)
    [(⟨1, -1, -1, 1, 0, 1, 0, 0, -1⟩ : Board),
     (⟨1, 0, -1, 1, -1, 1, 0, 0, -1⟩ : Board),
     (⟨1, 0, -1, 1, 0, 1, -1, 0, -1⟩ : Board),
     (⟨1, 0, -1, 1, 0, 1, 0, -1, -1⟩ : Board)]
    rfl rfl rfl
    ⟨certGE0863, certGE0865, certGE0866, certGE0867, True.intro⟩

theorem certGE0869 : XScore.ble (XScore.fin 0) ((minimax 5 (⟨1, 0, -1, 1, 0, 0, 0, 0, -1⟩ : Board) COMP).1.2.2) = true :=
  nodeCompGE 5 4 (⟨1, 0, -1, 1, 0, 0, 0, 0, -1⟩ : Board) (⟨1, 0, -1, 1, 0, 1, 0, 0, -1⟩ : Board) (XScore.fin 0) 1 2 rfl rfl (of_decide_eq_true rfl) rfl
    certGE0868

theorem certGE0870 : XScore.ble (XScore.fin 0) ((minimax 6 (⟨1, 0, -1, 1, 0, 0, 0, 0, 0⟩ : Board) HUMAN).1.2.2) = true :=
  nodeHumanGE 6 5 (⟨1, 0, -1, 1, 0, 0, 0, 0, 0⟩ : Board) (XScore.fin 0)
    [(⟨1, -1, -1, 1, 0, 0, 0, 0, 0⟩ : Board),
     (⟨1, 0, -1, 1, -1, 0, 0, 0, 0⟩ : Board),
     (⟨1, 0, -1, 1, 0, -1, 0, 0, 0⟩ : Board),
     (⟨1, 0, -1, 1, 0, 0, -1, 0, 0⟩ : Board),
     (⟨1, 0, -1, 1, 0, 0, 0, -1, 0⟩ : Board),
     (⟨1, 0, -1, 1, 0, 0, 0, 0, -1⟩ : Board)]
    rfl rfl rfl
    ⟨certGE0844, certGE0846, certGE0848, certGE0856, certGE0862, certGE0869, True.intro⟩

theorem certGE0871 : XScore.ble (XScore.fin 0) ((minimax 7 (⟨1, 0, -1, 0, 0, 0, 0, 0, 0⟩ : Board) COMP).1.2.2) = true :=
  nodeCompGE 7 6 (⟨1, 0, -1, 0, 0, 0, 0, 0, 0⟩ : Board) (⟨1, 0, -1, 1, 0, 0, 0, 0, 0⟩ : Board) (XScore.fin 0) 1 0 rfl rfl (of_decide_eq_true rfl) rfl
    certGE0870

theorem certGE0872 : XScore.ble (XScore.fin 0) ((minimax 2 (⟨1, 1, -1, -1, 1, -1, 0, 1, 0⟩ : Board) HUMAN).1.2.2) = true :=
  leafGE 2 (⟨1, 1, -1, -1, 1, -1, 0, 1, 0⟩ : Board) HUMAN (XScore.fin 0) (Or.inr rfl) rfl

theorem certGE0873 : XScore.ble (XScore.fin 0) ((minimax 3 (⟨1, 1, -1, -1, 1, -1, 0, 0, 0⟩ : Board) COMP).1.2.2) = true :=
  nodeCompGE 3 2 (⟨1, 1, -1, -1, 1, -1, 0, 0, 0⟩ : Board) (⟨1, 1, -1, -1, 1, -1, 0, 1, 0⟩ : Board) (XScore.fin 0) 2 1 rfl rfl (of_decide_eq_true rfl) rfl
    certGE0872

theorem certGE0874 : XScore.ble (XScore.fin 0) ((minimax 0 (⟨1, 1, -1, -1, 1, 1, -1, -1, 1⟩ : Board) HUMAN).1.2.2) = true :=
  leafGE 0 (⟨1, 1, -1, -1, 1, 1, -1, -1, 1⟩ : Board) HUMAN (XScore.fin 0) (Or.inl rfl) rfl

theorem certGE0875 : XScore.ble (XScore.fin 0) ((minimax 1 (⟨1, 1, -1, -1, 1, 1, -1, -1, 0⟩ : Board) COMP).1.2.2) = true :=
  nodeCompGE 1 0 (⟨1, 1, -1, -1, 1, 1, -1, -1, 0⟩ : Board) (⟨1, 1, -1, -1, 1, 1, -1, -1, 1⟩ : Board) (XScore.fin 0) 2 2 rfl rfl (of_decide_eq_true rfl) rfl
    certGE0874

theorem certGE0876 : XScore.ble (XScore.fin 0) ((minimax 0 (⟨1, 1, -1, -1, 1, 1, -1, 1, -1⟩ : Board) HUMAN).1.2.2) = true :=
  leafGE 0 (⟨1, 1, -1, -1, 1, 1, -1, 1, -1⟩ : Board) HUMAN (XScore.fin 0) (Or.inl rfl) rfl

theorem certGE0877 : XScore.ble (XScore.fin 0) ((minimax 1 (⟨1, 1, -1, -1, 1, 1, -1, 0, -1⟩ : Board) COMP).1.2.2) = true :=
  nodeCompGE 1 0 (⟨1, 1, -1, -1, 1, 1, -1, 0, -1⟩ : Board) (⟨1, 1, -1, -1, 1, 1, -1, 1, -1⟩ : Board) (XScore.fin 0) 2 1 rfl rfl (of_decide_eq_true rfl) rfl
    certGE0876

theorem certGE0878 : XScore.ble (XScore.fin 0) ((minimax 2 (⟨1, 1, -1, -1, 1, 1, -1, 0, 0⟩ : Board) HUMAN).1.2.2) = true :=
  nodeHumanGE 2 1 (⟨1, 1, -1, -1, 1, 1, -1, 0, 0⟩ : Board) (XScore.fin 0)
    [(⟨1, 1, -1, -1, 1, 1, -1, -1, 0⟩ : Board),
     (⟨1, 1, -1, -1, 1, 1, -1, 0, -1⟩ : Board)]
    rfl rfl rfl
    ⟨certGE0875, certGE0877, True.intro⟩

theorem certGE0879 : XScore.ble (XScore.fin 0) ((minimax 3 (⟨1, 1, -1, -1, 1, 0, -1, 0, 0⟩ : Board) COMP).1.2.2) = true :=
  nodeCompGE 3 2 (⟨1, 1, -1, -1, 1, 0, -1, 0, 0⟩ : Board) (⟨1, 1, -1, -1, 1, 1, -1, 0, 0⟩ : Board) (XScore.fin 0) 1 2 rfl rfl (of_decide_eq_true rfl) rfl
    certGE0878

theorem certGE0880 : XScore.ble (XScore.fin 0) ((minimax 0 (⟨1, 1, -1, -1, 1, 1, 1, -1, -1⟩ : Board) HUMAN).1.2.2) = true :=
  leafGE 0 (⟨1, 1, -1, -1, 1, 1, 1, -1, -1⟩ : Board) HUMAN (XScore.fin 0) (Or.inl rfl) rfl

theorem certGE0881 : XScore.ble (XScore.fin 0) ((minimax 1 (⟨1, 1, -1, -1, 1, 1, 0, -1, -1⟩ : Board) COMP).1.2.2) = true :=
  nodeCompGE 1 0 (⟨1, 1, -1, -1, 1, 1, 0, -1, -1⟩ : Board) (⟨1, 1, -1, -1, 1, 1, 1, -1, -1⟩ : Board) (XScore.fin 0) 2 0 rfl rfl (of_decide_eq_true rfl) rfl
    certGE0880

theorem certGE0882 : XScore.ble (XScore.fin 0) ((minimax 2 (⟨1, 1, -1, -1, 1, 1, 0, -1, 0⟩ : Board) HUMAN).1.2.2) = true :=
  nodeHumanGE 2 1 (⟨1, 1, -1, -1, 1, 1, 0, -1, 0⟩ : Board) (XScore.fin 0)
    [(⟨1, 1, -1, -1, 1, 1, -1, -1, 0⟩ : Board),
     (⟨1, 1, -1, -1, 1, 1, 0, -1, -1⟩ : Board)]
    rfl rfl rfl
    ⟨certGE0875, certGE0881, True.intro⟩

theorem certGE0883 : XScore.ble (XScore.fin 0) ((minimax 3 (⟨1, 1, -1, -1, 1, 0, 0, -1, 0⟩ : Board) COMP).1.2.2) = true :=
  nodeCompGE 3 2 (⟨1, 1, -1, -1, 1, 0, 0, -1, 0⟩ : Board) (⟨1, 1, -1, -1, 1, 1, 0, -1, 0⟩ : Board) (XScore.fin 0) 1 2 rfl rfl (of_decide_eq_true rfl) rfl
    certGE0882

theorem certGE0884 : XScore.ble (XScore.fin 0) ((minimax 2 (⟨1, 1, -1, -1, 1, 1, 0, 0, -1⟩ : Board) HUMAN).1.2.2) = true :=
  nodeHumanGE 2 1 (⟨1, 1, -1, -1, 1, 1, 0, 0, -1⟩ : Board) (XScore.fin 0)
    [(⟨1, 1, -1, -1, 1, 1, -1, 0, -1⟩ : Board),
     (⟨1, 1, -1, -1, 1, 1, 0, -1, -1⟩ : Board)]
    rfl rfl rfl
    ⟨certGE0877, certGE0881, True.intro⟩

theorem certGE0885 : XScore.ble (XScore.fin 0) ((minimax 3 (⟨1, 1, -1, -1, 1, 0, 0, 0, -1⟩ : Board) COMP).1.2.2) = true :=
  nodeCompGE 3 2 (⟨1, 1, -1, -1, 1, 0, 0, 0, -1⟩ : Board) (⟨1, 1, -1, -1, 1, 1, 0, 0, -1⟩ : Board) (XScore.fin 0) 1 2 rfl rfl (of_decide_eq_true rfl) rfl
    certGE0884

theorem certGE0886 : XScore.ble (XScore.fin 0) ((minimax 4 (⟨1, 1, -1, -1, 1, 0, 0, 0, 0⟩ : Board) HUMAN).1.2.2) = true :=
  nodeHumanGE 4 3 (⟨1, 1, -1, -1, 1, 0, 0, 0, 0⟩ : Board) (XScore.fin 0)
    [(⟨1, 1, -1, -1, 1, -1, 0, 0, 0⟩ : Board),
     (⟨1, 1, -1, -1, 1, 0, -1, 0, 0⟩ : Board),
     (⟨1, 1, -1, -1, 1, 0, 0, -1, 0⟩ : Board),
     (⟨1, 1, -1, -1, 1, 0, 0, 0, -1⟩ : Board)]
    rfl rfl rfl
    ⟨certGE0873, certGE0879, certGE0883, certGE0885, True.intro⟩

theorem certGE0887 : XScore.ble (XScore.fin 0) ((minimax 5 (⟨1, 1, -1, -1, 0, 0, 0, 0, 0⟩ : Board) COMP).1.2.2) = true :=
  nodeCompGE 5 4 (⟨1, 1, -1, -1, 0, 0, 0, 0, 0⟩ : Board) (⟨1, 1, -1, -1, 1, 0, 0, 0, 0⟩ : Board) (XScore.fin 0) 1 1 rfl rfl (of_decide_eq_true rfl) rfl
    certGE0886

theorem certGE0888 : XScore.ble (XScore.fin 0) ((minimax 4 (⟨1, 1, 1, -1, -1, 0, 0, 0, 0⟩ : Board) HUMAN).1.2.2) = true :=
  leafGE 4 (⟨1, 1, 1, -1, -1, 0, 0, 0, 0⟩ : Board) HUMAN (XScore.fin 0) (Or.inr rfl) rfl

theorem certGE0889 : XScore.ble (XScore.fin 0) ((minimax 5 (⟨1, 1, 0, -1, -1, 0, 0, 0, 0⟩ : Board) COMP).1.2.2) = true :=
  nodeCompGE 5 4 (⟨1, 1, 0, -1, -1, 0, 0, 0, 0⟩ : Board) (⟨1, 1, 1, -1, -1, 0, 0, 0, 0⟩ : Board) (XScore.fin 0) 0 2 rfl rfl (of_decide_eq_true rfl) rfl
    certGE0888

theorem certGE0890 : XScore.ble (XScore.fin 0) ((minimax 4 (⟨1, 1, 1, -1, 0, -1, 0, 0, 0⟩ : Board) HUMAN).1.2.2) = true :=
  leafGE 4 (⟨1, 1, 1, -1, 0, -1, 0, 0, 0⟩ : Board) HUMAN (XScore.fin 0) (Or.inr rfl) rfl

theorem certGE0891 : XScore.ble (XScore.fin 0) ((minimax 5 (⟨1, 1, 0, -1, 0, -1, 0, 0, 0⟩ : Board) COMP).1.2.2) = true :=
  nodeCompGE 5 4 (⟨1, 1, 0, -1, 0, -1, 0, 0, 0⟩ : Board) (⟨1, 1, 1, -1, 0, -1, 0, 0, 0⟩ : Board) (XScore.fin 0) 0 2 rfl rfl (of_decide_eq_true rfl) rfl
    certGE0890

theorem certGE0892 : XScore.ble (XScore.fin 0) ((minimax 4 (⟨1, 1, 1, -1, 0, 0, -1, 0, 0⟩ : Board) HUMAN).1.2.2) = true :=
  leafGE 4 (⟨1, 1, 1, -1, 0, 0, -1, 0, 0⟩ : Board) HUMAN (XScore.fin 0) (Or.inr rfl) rfl

theorem certGE0893 : XScore.ble (XScore.fin 0) ((minimax 5 (⟨1, 1, 0, -1, 0, 0, -1, 0, 0⟩ : Board) COMP).1.2.2) = true :=
  nodeCompGE 5 4 (⟨1, 1, 0, -1, 0, 0, -1, 0, 0⟩ : Board) (⟨1, 1, 1, -1, 0, 0, -1, 0, 0⟩ : Board) (XScore.fin 0) 0 2 rfl rfl (of_decide_eq_true rfl) rfl
    certGE0892

theorem certGE0894 : XScore.ble (XScore.fin 0) ((minimax 4 (⟨1, 1, 1, -1, 0, 0, 0, -1, 0⟩ : Board) HUMAN).1.2.2) = true :=
  leafGE 4 (⟨1, 1, 1, -1, 0, 0, 0, -1, 0⟩ : Board) HUMAN (XScore.fin 0) (Or.inr rfl) rfl

theorem certGE0895 : XScore.ble (XScore.fin 0) ((minimax 5 (⟨1, 1, 0, -1, 0, 0, 0, -1, 0⟩ : Board) COMP).1.2.2) = true :=
  nodeCompGE 5 4 (⟨1, 1, 0, -1, 0, 0, 0, -1, 0⟩ : Board) (⟨1, 1, 1, -1, 0, 0, 0, -1, 0⟩ : Board) (XScore.fin 0) 0 2 rfl rfl (of_decide_eq_true rfl) rfl
    certGE0894

theorem certGE0896 : XScore.ble (XScore.fin 0) ((minimax 4 (⟨1, 1, 1, -1, 0, 0, 0, 0, -1⟩ : Board) HUMAN).1.2.2) = true :=
  leafGE 4 (⟨1, 1, 1, -1, 0, 0, 0, 0, -1⟩ : Board) HUMAN (XScore.fin 0) (Or.inr rfl) rfl

theorem certGE0897 : XScore.ble (XScore.fin 0) ((minimax 5 (⟨1, 1, 0, -1, 0, 0, 0, 0, -1⟩ : Board) COMP).1.2.2) = true :=
  nodeCompGE 5 4 (⟨1, 1, 0, -1, 0, 0, 0, 0, -1⟩ : Board) (⟨1, 1, 1, -1, 0, 0, 0, 0, -1⟩ : Board) (XScore.fin 0) 0 2 rfl rfl (of_decide_eq_true rfl) rfl
    certGE0896

theorem certGE0898 : XScore.ble (XScore.fin 0) ((minimax 6 (⟨1, 1, 0, -1, 0, 0, 0, 0, 0⟩ : Board) HUMAN).1.2.2) = true :=
  nodeHumanGE 6 5 (⟨1, 1, 0, -1, 0, 0, 0, 0, 0⟩ : Board) (XScore.fin 0)
    [(⟨1, 1, -1, -1, 0, 0, 0, 0, 0⟩ : Board),
     (⟨1, 1, 0, -1, -1, 0, 0, 0, 0⟩ : Board),
     (⟨1, 1, 0, -1, 0, -1, 0, 0, 0⟩ : Board),
     (⟨1, 1, 0, -1, 0, 0, -1, 0, 0⟩ : Board),
     (⟨1, 1, 0, -1, 0, 0, 0, -1, 0⟩ : Board),
     (⟨1, 1, 0, -1, 0, 0, 0, 0, -1⟩ : Board)]
    rfl rfl rfl
    ⟨certGE0887, certGE0889, certGE0891, certGE0893, certGE0895, certGE0897, True.intro⟩

theorem certGE0899 : XScore.ble (XScore.fin 0) ((minimax 7 (⟨1, 0, 0, -1, 0, 0, 0, 0, 0⟩ : Board) COMP).1.2.2) = true :=
  nodeCompGE 7 6 (⟨1, 0, 0, -1, 0, 0, 0, 0, 0⟩ : Board) (⟨1, 1, 0, -1, 0, 0, 0, 0, 0⟩ : Board) (XScore.fin 0) 0 1 rfl rfl (of_decide_eq_true rfl) rfl
    certGE0898

theorem certGE0900 : XScore.ble (XScore.fin 0) ((minimax 0 (⟨1, 1, -1, -1, -1, 1, 1, -1, 1⟩ : Board) HUMAN).1.2.2) = true :=
  leafGE 0 (⟨1, 1, -1, -1, -1, 1, 1, -1, 1⟩ : Board) HUMAN (XScore.fin 0) (Or.inl rfl) rfl

theorem certGE0901 : XScore.ble (XScore.fin 0) ((minimax 1 (⟨1, 1, -1, -1, -1, 1, 1, -1, 0⟩ : Board) COMP).1.2.2) = true :=
  nodeCompGE 1 0 (⟨1, 1, -1, -1, -1, 1, 1, -1, 0⟩ : Board) (⟨1, 1, -1, -1, -1, 1, 1, -1, 1⟩ : Board) (XScore.fin 0) 2 2 rfl rfl (of_decide_eq_true rfl) rfl
    certGE0900

theorem certGE0902 : XScore.ble (XScore.fin 0) ((minimax 0 (⟨1, 1, -1, -1, -1, 1, 1, 1, -1⟩ : Board) HUMAN).1.2.2) = true :=
  leafGE 0 (⟨1, 1, -1, -1, -1, 1, 1, 1, -1⟩ : Board) HUMAN (XScore.fin 0) (Or.inl rfl) rfl

theorem certGE0903 : XScore.ble (XScore.fin 0) ((minimax 1 (⟨1, 1, -1, -1, -1, 1, 1, 0, -1⟩ : Board) COMP).1.2.2) = true :=
  nodeCompGE 1 0 (⟨1, 1, -1, -1, -1, 1, 1, 0, -1⟩ : Board) (⟨1, 1, -1, -1, -1, 1, 1, 1, -1⟩ : Board) (XScore.fin 0) 2 1 rfl rfl (of_decide_eq_true rfl) rfl
    certGE0902

theorem certGE0904 : XScore.ble (XScore.fin 0) ((minimax 2 (⟨1, 1, -1, -1, -1, 1, 1, 0, 0⟩ : Board) HUMAN).1.2.2) = true :=
  nodeHumanGE 2 1 (⟨1, 1, -1, -1, -1, 1, 1, 0, 0⟩ : Board) (XScore.fin 0)
    [(⟨1, 1, -1, -1, -1, 1, 1, -1, 0⟩ : Board),
     (⟨1, 1, -1, -1, -1, 1, 1, 0, -1⟩ : Board)]
    rfl rfl rfl
    ⟨certGE0901, certGE0903, True.intro⟩

theorem certGE0905 : XScore.ble (XScore.fin 0) ((minimax 3 (⟨1, 1, -1, -1, -1, 0, 1, 0, 0⟩ : Board) COMP).1.2.2) = true :=
  nodeCompGE 3 2 (⟨1, 1, -1, -1, -1, 0, 1, 0, 0⟩ : Board) (⟨1, 1, -1, -1, -1, 1, 1, 0, 0⟩ : Board) (XScore.fin 0) 1 2 rfl rfl (of_decide_eq_true rfl) rfl
    certGE0904

theorem certGE0906 : XScore.ble (XScore.fin 0) ((minimax 2 (⟨1, 1, -1, 1, -1, -1, 1, 0, 0⟩ : Board) HUMAN).1.2.2) = true :=
  leafGE 2 (⟨1, 1, -1, 1, -1, -1, 1, 0, 0⟩ : Board) HUMAN (XScore.fin 0) (Or.inr rfl) rfl

theorem certGE0907 : XScore.ble (XScore.fin 0) ((minimax 3 (⟨1, 1, -1, 0, -1, -1, 1, 0, 0⟩ : Board) COMP).1.2.2) = true :=
  nodeCompGE 3 2 (⟨1, 1, -1, 0, -1, -1, 1, 0, 0⟩ : Board) (⟨1, 1, -1, 1, -1, -1, 1, 0, 0⟩ : Board) (XScore.fin 0) 1 0 rfl rfl (of_decide_eq_true rfl) rfl
    certGE0906

theorem certGE0908 : XScore.ble (XScore.fin 0) ((minimax 2 (⟨1, 1, -1, 1, -1, 0, 1, -1, 0⟩ : Board) HUMAN).1.2.2) = true :=
  leafGE 2 (⟨1, 1, -1, 1, -1, 0, 1, -1, 0⟩ : Board) HUMAN (XScore.fin 0) (Or.inr rfl) rfl

theorem certGE0909 : XScore.ble (XScore.fin 0) ((minimax 3 (⟨1, 1, -1, 0, -1, 0, 1, -1, 0⟩ : Board) COMP).1.2.2) = true :=
  nodeCompGE 3 2 (⟨1, 1, -1, 0, -1, 0, 1, -1, 0⟩ : Board) (⟨1, 1, -1, 1, -1, 0, 1, -1, 0⟩ : Board) (XScore.fin 0) 1 0 rfl rfl (of_decide_eq_true rfl) rfl
    certGE0908

theorem certGE0910 : XScore.ble (XScore.fin 0) ((minimax 2 (⟨1, 1, -1, 1, -1, 0, 1, 0, -1⟩ : Board) HUMAN).1.2.2) = true :=
  leafGE 2 (⟨1, 1, -1, 1, -1, 0, 1, 0, -1⟩ : Board) HUMAN (XScore.fin 0) (Or.inr rfl) rfl

theorem certGE0911 : XScore.ble (XScore.fin 0) ((minimax 3 (⟨1, 1, -1, 0, -1, 0, 1, 0, -1⟩ : Board) COMP).1.2.2) = true :=
  nodeCompGE 3 2 (⟨1, 1, -1, 0, -1, 0, 1, 0, -1⟩ : Board) (⟨1, 1, -1, 1, -1, 0, 1, 0, -1⟩ : Board) (XScore.fin 0) 1 0 rfl rfl (of_decide_eq_true rfl) rfl
    certGE0910

theorem certGE0912 : XScore.ble (XScore.fin 0) ((minimax 4 (⟨1, 1, -1, 0, -1, 0, 1, 0, 0⟩ : Board) HUMAN).1.2.2) = true :=
  nodeHumanGE 4 3 (⟨1, 1, -1, 0, -1, 0, 1, 0, 0⟩ : Board) (XScore.fin 0)
    [(⟨1, 1, -1, -1, -1, 0, 1, 0, 0⟩ : Board),
     (⟨1, 1, -1, 0, -1, -1, 1, 0, 0⟩ : Board),
     (⟨1, 1, -1, 0, -1, 0, 1, -1, 0⟩ : Board),
     (⟨1, 1, -1, 0, -1, 0, 1, 0, -1⟩ : Board)]
    rfl rfl rfl
    ⟨certGE0905, certGE0907, certGE0909, certGE0911, True.intro⟩

theorem certGE0913 : XScore.ble (XScore.fin 0) ((minimax 5 (⟨1, 1, -1, 0, -1, 0, 0, 0, 0⟩ : Board) COMP).1.2.2) = true :=
  nodeCompGE 5 4 (⟨1, 1, -1, 0, -1, 0, 0, 0, 0⟩ : Board) (⟨1, 1, -1, 0, -1, 0, 1, 0, 0⟩ : Board) (XScore.fin 0) 2 0 rfl rfl (of_decide_eq_true rfl) rfl
    certGE0912

theorem certGE0914 : XScore.ble (XScore.fin 0) ((minimax 4 (⟨1, 1, 1, 0, -1, -1, 0, 0, 0⟩ : Board) HUMAN).1.2.2) = true :=
  leafGE 4 (⟨1, 1, 1, 0, -1, -1, 0, 0, 0⟩ : Board) HUMAN (XScore.fin 0) (Or.inr rfl) rfl

theorem certGE0915 : XScore.ble (XScore.fin 0) ((minimax 5 (⟨1, 1, 0, 0, -1, -1, 0, 0, 0⟩ : Board) COMP).1.2.2) = true :=
  nodeCompGE 5 4 (⟨1, 1, 0, 0, -1, -1, 0, 0, 0⟩ : Board) (⟨1, 1, 1, 0, -1, -1, 0, 0, 0⟩ : Board) (XScore.fin 0) 0 2 rfl rfl (of_decide_eq_true rfl) rfl
    certGE0914

theorem certGE0916 : XScore.ble (XScore.fin 0) ((minimax 4 (⟨1, 1, 1, 0, -1, 0, -1, 0, 0⟩ : Board) HUMAN).1.2.2) = true :=
  leafGE 4 (⟨1, 1, 1, 0, -1, 0, -1, 0, 0⟩ : Board) HUMAN (XScore.fin 0) (Or.inr rfl) rfl

theorem certGE0917 : XScore.ble (XScore.fin 0) ((minimax 5 (⟨1, 1, 0, 0, -1, 0, -1, 0, 0⟩ : Board) COMP).1.2.2) = true :=
  nodeCompGE 5 4 (⟨1, 1, 0, 0, -1, 0, -1, 0, 0⟩ : Board) (⟨1, 1, 1, 0, -1, 0, -1, 0, 0⟩ : Board) (XScore.fin 0) 0 2 rfl rfl (of_decide_eq_true rfl) rfl
    certGE0916

theorem certGE0918 : XScore.ble (XScore.fin 0) ((minimax 4 (⟨1, 1, 1, 0, -1, 0, 0, -1, 0⟩ : Board) HUMAN).1.2.2) = true :=
  leafGE 4 (⟨1, 1, 1, 0, -1, 0, 0, -1, 0⟩ : Board) HUMAN (XScore.fin 0) (Or.inr rfl) rfl

theorem certGE0919 : XScore.ble (XScore.fin 0) ((minimax 5 (⟨1, 1, 0, 0, -1, 0, 0, -1, 0⟩ : Board) COMP).1.2.2) = true :=
  nodeCompGE 5 4 (⟨1, 1, 0, 0, -1, 0, 0, -1, 0⟩ : Board) (⟨1, 1, 1, 0, -1, 0, 0, -1, 0⟩ : Board) (XScore.fin 0) 0 2 rfl rfl (of_decide_eq_true rfl) rfl
    certGE0918

theorem certGE0920 : XScore.ble (XScore.fin 0) ((minimax 4 (⟨1, 1, 1, 0, -1, 0, 0, 0, -1⟩ : Board) HUMAN).1.2.2) = true :=
  leafGE 4 (⟨1, 1, 1, 0, -1, 0, 0, 0, -1⟩ : Board) HUMAN (XScore.fin 0) (Or.inr rfl) rfl

theorem certGE0921 : XScore.ble (XScore.fin 0) ((minimax 5 (⟨1, 1, 0, 0, -1, 0, 0, 0, -1⟩ : Board) COMP).1.2.2) = true :=
  nodeCompGE 5 4 (⟨1, 1, 0, 0, -1, 0, 0, 0, -1⟩ : Board) (⟨1, 1, 1, 0, -1, 0, 0, 0, -1⟩ : Board) (XScore.fin 0) 0 2 rfl rfl (of_decide_eq_true rfl) rfl
    certGE0920

theorem certGE0922 : XScore.ble (XScore.fin 0) ((minimax 6 (⟨1, 1, 0, 0, -1, 0, 0, 0, 0⟩ : Board) HUMAN).1.2.2) = true :=
  nodeHumanGE 6 5 (⟨1, 1, 0, 0, -1, 0, 0, 0, 0⟩ : Board) (XScore.fin 0)
    [(⟨1, 1, -1, 0, -1, 0, 0, 0, 0⟩ : Board),
     (⟨1, 1, 0, -1, -1, 0, 0, 0, 0⟩ : Board),
     (⟨1, 1, 0, 0, -1, -1, 0, 0, 0⟩ : Board),
     (⟨1, 1, 0, 0, -1, 0, -1, 0, 0⟩ : Board),
     (⟨1, 1, 0, 0, -1, 0, 0, -1, 0⟩ : Board),
     (⟨1, 1, 0, 0, -1, 0, 0, 0, -1⟩ : Board)]
    rfl rfl rfl
    ⟨certGE0913, certGE0889, certGE0915, certGE0917, certGE0919, certGE0921, True.intro⟩

theorem certGE0923 : XScore.ble (XScore.fin 0) ((minimax 7 (⟨1, 0, 0, 0, -1, 0, 0, 0, 0⟩ : Board) COMP).1.2.2) = true :=
  nodeCompGE 7 6 (⟨1, 0, 0, 0, -1, 0, 0, 0, 0⟩ : Board) (⟨1, 1, 0, 0, -1, 0, 0, 0, 0⟩ : Board) (XScore.fin 0) 0 1 rfl rfl (of_decide_eq_true rfl) rfl
    certGE0922

theorem certGE0924 : XScore.ble (XScore.fin 0) ((minimax 5 (⟨1, 0, 1, -1, 0, -1, 0, 0, 0⟩ : Board) COMP).1.2.2) = true :=
  nodeCompGE 5 4 (⟨1, 0, 1, -1, 0, -1, 0, 0, 0⟩ : Board) (⟨1, 1, 1, -1, 0, -1, 0, 0, 0⟩ : Board) (XScore.fin 0) 0 1 rfl rfl (of_decide_eq_true rfl) rfl
    certGE0890

theorem certGE0925 : XScore.ble (XScore.fin 0) ((minimax 5 (⟨1, 0, 1, 0, -1, -1, 0, 0, 0⟩ : Board) COMP).1.2.2) = true :=
  nodeCompGE 5 4 (⟨1, 0, 1, 0, -1, -1, 0, 0, 0⟩ : Board) (⟨1, 1, 1, 0, -1, -1, 0, 0, 0⟩ : Board) (XScore.fin 0) 0 1 rfl rfl (of_decide_eq_true rfl) rfl
    certGE0914

theorem certGE0926 : XScore.ble (XScore.fin 0) ((minimax 4 (⟨1, 1, 1, 0, 0, -1, -1, 0, 0⟩ : Board) HUMAN).1.2.2) = true :=
  leafGE 4 (⟨1, 1, 1, 0, 0, -1, -1, 0, 0⟩ : Board) HUMAN (XScore.fin 0) (Or.inr rfl) rfl

theorem certGE0927 : XScore.ble (XScore.fin 0) ((minimax 5 (⟨1, 0, 1, 0, 0, -1, -1, 0, 0⟩ : Board) COMP).1.2.2) = true :=
  nodeCompGE 5 4 (⟨1, 0, 1, 0, 0, -1, -1, 0, 0⟩ : Board) (⟨1, 1, 1, 0, 0, -1, -1, 0, 0⟩ : Board) (XScore.fin 0) 0 1 rfl rfl (of_decide_eq_true rfl) rfl
    certGE0926

theorem certGE0928 : XScore.ble (XScore.fin 0) ((minimax 4 (⟨1, 1, 1, 0, 0, -1, 0, -1, 0⟩ : Board) HUMAN).1.2.2) = true :=
  leafGE 4 (⟨1, 1, 1, 0, 0, -1, 0, -1, 0⟩ : Board) HUMAN (XScore.fin 0) (Or.inr rfl) rfl

theorem certGE0929 : XScore.ble (XScore.fin 0) ((minimax 5 (⟨1, 0, 1, 0, 0, -1, 0, -1, 0⟩ : Board) COMP).1.2.2) = true :=
  nodeCompGE 5 4 (⟨1, 0, 1, 0, 0, -1, 0, -1, 0⟩ : Board) (⟨1, 1, 1, 0, 0, -1, 0, -1, 0⟩ : Board) (XScore.fin 0) 0 1 rfl rfl (of_decide_eq_true rfl) rfl
    certGE0928

theorem certGE0930 : XScore.ble (XScore.fin 0) ((minimax 4 (⟨1, 1, 1, 0, 0, -1, 0, 0, -1⟩ : Board) HUMAN).1.2.2) = true :=
  leafGE 4 (⟨1, 1, 1, 0, 0, -1, 0, 0, -1⟩ : Board) HUMAN (XScore.fin 0) (Or.inr rfl) rfl

theorem certGE0931 : XScore.ble (XScore.fin 0) ((minimax 5 (⟨1, 0, 1, 0, 0, -1, 0, 0, -1⟩ : Board) COMP).1.2.2) = true :=
  nodeCompGE 5 4 (⟨1, 0, 1, 0, 0, -1, 0, 0, -1⟩ : Board) (⟨1, 1, 1, 0, 0, -1, 0, 0, -1⟩ : Board) (XScore.fin 0) 0 1 rfl rfl (of_decide_eq_true rfl) rfl
    certGE0930

theorem certGE0932 : XScore.ble (XScore.fin 0) ((minimax 6 (⟨1, 0, 1, 0, 0, -1, 0, 0, 0⟩ : Board) HUMAN).1.2.2) = true :=
  nodeHumanGE 6 5 (⟨1, 0, 1, 0, 0, -1, 0, 0, 0⟩ : Board) (XScore.fin 0)
    [(⟨1, -1, 1, 0, 0, -1, 0, 0, 0⟩ : Board),
     (⟨1, 0, 1, -1, 0, -1, 0, 0, 0⟩ : Board),
     (⟨1, 0, 1, 0, -1, -1, 0, 0, 0⟩ : Board),
     (⟨1, 0, 1, 0, 0, -1, -1, 0, 0⟩ : Board),
     (⟨1, 0, 1, 0, 0, -1, 0, -1, 0⟩ : Board),
     (⟨1, 0, 1, 0, 0, -1, 0, 0, -1⟩ : Board)]
    rfl rfl rfl
    ⟨certGE0809, certGE0924, certGE0925, certGE0927, certGE0929, certGE0931, True.intro⟩

theorem certGE0933 : XScore.ble (XScore.fin 0) ((minimax 7 (⟨1, 0, 0, 0, 0, -1, 0, 0, 0⟩ : Board) COMP).1.2.2) = true :=
  nodeCompGE 7 6 (⟨1, 0, 0, 0, 0, -1, 0, 0, 0⟩ : Board) (⟨1, 0, 1, 0, 0, -1, 0, 0, 0⟩ : Board) (XScore.fin 0) 0 2 rfl rfl (of_decide_eq_true rfl) rfl
    certGE0932

theorem certGE0934 : XScore.ble (XScore.fin 0) ((minimax 2 (⟨1, 1, -1, 0, 1, -1, -1, 1, 0⟩ : Board) HUMAN).1.2.2) = true :=
  leafGE 2 (⟨1, 1, -1, 0, 1, -1, -1, 1, 0⟩ : Board) HUMAN (XScore.fin 0) (Or.inr rfl) rfl

theorem certGE0935 : XScore.ble (XScore.fin 0) ((minimax 3 (⟨1, 1, -1, 0, 1, -1, -1, 0, 0⟩ : Board) COMP).1.2.2) = true :=
  nodeCompGE 3 2 (⟨1, 1, -1, 0, 1, -1, -1, 0, 0⟩ : Board) (⟨1, 1, -1, 0, 1, -1, -1, 1, 0⟩ : Board) (XScore.fin 0) 2 1 rfl rfl (of_decide_eq_true rfl) rfl
    certGE0934

theorem certGE0936 : XScore.ble (XScore.fin 0) ((minimax 2 (⟨1, 1, -1, 0, 1, 0, -1, -1, 1⟩ : Board) HUMAN).1.2.2) = true :=
  leafGE 2 (⟨1, 1, -1, 0, 1, 0, -1, -1, 1⟩ : Board) HUMAN (XScore.fin 0) (Or.inr rfl) rfl

theorem certGE0937 : XScore.ble (XScore.fin 0) ((minimax 3 (⟨1, 1, -1, 0, 1, 0, -1, -1, 0⟩ : Board) COMP).1.2.2) = true :=
  nodeCompGE 3 2 (⟨1, 1, -1, 0, 1, 0, -1, -1, 0⟩ : Board) (⟨1, 1, -1, 0, 1, 0, -1, -1, 1⟩ : Board) (XScore.fin 0) 2 2 rfl rfl (of_decide_eq_true rfl) rfl
    certGE0936

theorem certGE0938 : XScore.ble (XScore.fin 0) ((minimax 2 (⟨1, 1, -1, 0, 1, 0, -1, 1, -1⟩ : Board) HUMAN).1.2.2) = true :=
  leafGE 2 (⟨1, 1, -1, 0, 1, 0, -1, 1, -1⟩ : Board) HUMAN (XScore.fin 0) (Or.inr rfl) rfl

theorem certGE0939 : XScore.ble (XScore.fin 0) ((minimax 3 (⟨1, 1, -1, 0, 1, 0, -1, 0, -1⟩ : Board) COMP).1.2.2) = true :=
  nodeCompGE 3 2 (⟨1, 1, -1, 0, 1, 0, -1, 0, -1⟩ : Board) (⟨1, 1, -1, 0, 1, 0, -1, 1, -1⟩ : Board) (XScore.fin 0) 2 1 rfl rfl (of_decide_eq_true rfl) rfl
    certGE0938

theorem certGE0940 : XScore.ble (XScore.fin 0) ((minimax 4 (⟨1, 1, -1, 0, 1, 0, -1, 0, 0⟩ : Board) HUMAN).1.2.2) = true :=
  nodeHumanGE 4 3 (⟨1, 1, -1, 0, 1, 0, -1, 0, 0⟩ : Board) (XScore.fin 0)
    [(⟨1, 1, -1, -1, 1, 0, -1, 0, 0⟩ : Board),
     (⟨1, 1, -1, 0, 1, -1, -1, 0, 0⟩ : Board),
     (⟨1, 1, -1, 0, 1, 0, -1, -1, 0⟩ : Board),
     (⟨1, 1, -1, 0, 1, 0, -1, 0, -1⟩ : Board)]
    rfl rfl rfl
    ⟨certGE0879, certGE0935, certGE0937, certGE0939, True.intro⟩

theorem certGE0941 : XScore.ble (XScore.fin 0) ((minimax 5 (⟨1, 1, -1, 0, 0, 0, -1, 0, 0⟩ : Board) COMP).1.2.2) = true :=
  nodeCompGE 5 4 (⟨1, 1, -1, 0, 0, 0, -1, 0, 0⟩ : Board) (⟨1, 1, -1, 0, 1, 0, -1, 0, 0⟩ : Board) (XScore.fin 0) 1 1 rfl rfl (of_decide_eq_true rfl) rfl
    certGE0940

theorem certGE0942 : XScore.ble (XScore.fin 0) ((minimax 5 (⟨1, 1, 0, 0, 0, -1, -1, 0, 0⟩ : Board) COMP).1.2.2) = true :=
  nodeCompGE 5 4 (⟨1, 1, 0, 0, 0, -1, -1, 0, 0⟩ : Board) (⟨1, 1, 1, 0, 0, -1, -1, 0, 0⟩ : Board) (XScore.fin 0) 0 2 rfl rfl (of_decide_eq_true rfl) rfl
    certGE0926

theorem certGE0943 : XScore.ble (XScore.fin 0) ((minimax 4 (⟨1, 1, 1, 0, 0, 0, -1, -1, 0⟩ : Board) HUMAN).1.2.2) = true :=
  leafGE 4 (⟨1, 1, 1, 0, 0, 0, -1, -1, 0⟩ : Board) HUMAN (XScore.fin 0) (Or.inr rfl) rfl

theorem certGE0944 : XScore.ble (XScore.fin 0) ((minimax 5 (⟨1, 1, 0, 0, 0, 0, -1, -1, 0⟩ : Board) COMP).1.2.2) = true :=
  nodeCompGE 5 4 (⟨1, 1, 0, 0, 0, 0, -1, -1, 0⟩ : Board) (⟨1, 1, 1, 0, 0, 0, -1, -1, 0⟩ : Board) (XScore.fin 0) 0 2 rfl rfl (of_decide_eq_true rfl) rfl
    certGE0943

theorem certGE0945 : XScore.ble (XScore.fin 0) ((minimax 4 (⟨1, 1, 1, 0, 0, 0, -1, 0, -1⟩ : Board) HUMAN).1.2.2) = true :=
  leafGE 4 (⟨1, 1, 1, 0, 0, 0, -1, 0, -1⟩ : Board) HUMAN (XScore.fin 0) (Or.inr rfl) rfl

theorem certGE0946 : XScore.ble (XScore.fin 0) ((minimax 5 (⟨1, 1, 0, 0, 0, 0, -1, 0, -1⟩ : Board) COMP).1.2.2) = true :=
  nodeCompGE 5 4 (⟨1, 1, 0, 0, 0, 0, -1, 0, -1⟩ : Board) (⟨1, 1, 1, 0, 0, 0, -1, 0, -1⟩ : Board) (XScore.fin 0) 0 2 rfl rfl (of_decide_eq_true rfl) rfl
    certGE0945

theorem certGE0947 : XScore.ble (XScore.fin 0) ((minimax 6 (⟨1, 1, 0, 0, 0, 0, -1, 0, 0⟩ : Board) HUMAN).1.2.2) = true :=
  nodeHumanGE 6 5 (⟨1, 1, 0, 0, 0, 0, -1, 0, 0⟩ : Board) (XScore.fin 0)
    [(⟨1, 1, -1, 0, 0, 0, -1, 0, 0⟩ : Board),
     (⟨1, 1, 0, -1, 0, 0, -1, 0, 0⟩ : Board),
     (⟨1, 1, 0, 0, -1, 0, -1, 0, 0⟩ : Board),
     (⟨1, 1, 0, 0, 0, -1, -1, 0, 0⟩ : Board),
     (⟨1, 1, 0, 0, 0, 0, -1, -1, 0⟩ : Board),
     (⟨1, 1, 0, 0, 0, 0, -1, 0, -1⟩ : Board)]
    rfl rfl rfl
    ⟨certGE0941, certGE0893, certGE0917, certGE0942, certGE0944, certGE0946, True.intro⟩

theorem certGE0948 : XScore.ble (XScore.fin 0) ((minimax 7 (⟨1, 0, 0, 0, 0, 0, -1, 0, 0⟩ : Board) COMP).1.2.2) = true :=
  nodeCompGE 7 6 (⟨1, 0, 0, 0, 0, 0, -1, 0, 0⟩ : Board) (⟨1, 1, 0, 0, 0, 0, -1, 0, 0⟩ : Board) (XScore.fin 0) 0 1 rfl rfl (of_decide_eq_true rfl) rfl
    certGE0947

theorem certGE0949 : XScore.ble (XScore.fin 0) ((minimax 0 (⟨1, 1, -1, -1, 1, -1, 1, -1, 1⟩ : Board) HUMAN).1.2.2) = true :=
  leafGE 0 (⟨1, 1, -1, -1, 1, -1, 1, -1, 1⟩ : Board) HUMAN (XScore.fin 0) (Or.inl rfl) rfl

theorem certGE0950 : XScore.ble (XScore.fin 0) ((minimax 1 (⟨1, 1, -1, -1, 1, -1, 1, -1, 0⟩ : Board) COMP).1.2.2) = true :=
  nodeCompGE 1 0 (⟨1, 1, -1, -1, 1, -1, 1, -1, 0⟩ : Board) (⟨1, 1, -1, -1, 1, -1, 1, -1, 1⟩ : Board) (XScore.fin 0) 2 2 rfl rfl (of_decide_eq_true rfl) rfl
    certGE0949

theorem certGE0951 : XScore.ble (XScore.fin 0) ((minimax 1 (⟨1, 1, -1, -1, 1, 0, 1, -1, -1⟩ : Board) COMP).1.2.2) = true :=
  nodeCompGE 1 0 (⟨1, 1, -1, -1, 1, 0, 1, -1, -1⟩ : Board) (⟨1, 1, -1, -1, 1, 1, 1, -1, -1⟩ : Board) (XScore.fin 0) 1 2 rfl rfl (of_decide_eq_true rfl) rfl
    certGE0880

theorem certGE0952 : XScore.ble (XScore.fin 0) ((minimax 2 (⟨1, 1, -1, -1, 1, 0, 1, -1, 0⟩ : Board) HUMAN).1.2.2) = true :=
  nodeHumanGE 2 1 (⟨1, 1, -1, -1, 1, 0, 1, -1, 0⟩ : Board) (XScore.fin 0)
    [(⟨1, 1, -1, -1, 1, -1, 1, -1, 0⟩ : Board),
     (⟨1, 1, -1, -1, 1, 0, 1, -1, -1⟩ : Board)]
    rfl rfl rfl
    ⟨certGE0950, certGE0951, True.intro⟩

theorem certGE0953 : XScore.ble (XScore.fin 0) ((minimax 3 (⟨1, 1, -1, -1, 0, 0, 1, -1, 0⟩ : Board) COMP).1.2.2) = true :=
  nodeCompGE 3 2 (⟨1, 1, -1, -1, 0, 0, 1, -1, 0⟩ : Board) (⟨1, 1, -1, -1, 1, 0, 1, -1, 0⟩ : Board) (XScore.fin 0) 1 1 rfl rfl (of_decide_eq_true rfl) rfl
    certGE0952

theorem certGE0954 : XScore.ble (XScore.fin 0) ((minimax 2 (⟨1, 1, -1, 1, 0, -1, 1, -1, 0⟩ : Board) HUMAN).1.2.2) = true :=
  leafGE 2 (⟨1, 1, -1, 1, 0, -1, 1, -1, 0⟩ : Board) HUMAN (XScore.fin 0) (Or.inr rfl) rfl

theorem certGE0955 : XScore.ble (XScore.fin 0) ((minimax 3 (⟨1, 1, -1, 0, 0, -1, 1, -1, 0⟩ : Board) COMP).1.2.2) = true :=
  nodeCompGE 3 2 (⟨1, 1, -1, 0, 0, -1, 1, -1, 0⟩ : Board) (⟨1, 1, -1, 1, 0, -1, 1, -1, 0⟩ : Board) (XScore.fin 0) 1 0 rfl rfl (of_decide_eq_true rfl) rfl
    certGE0954

theorem certGE0956 : XScore.ble (XScore.fin 0) ((minimax 2 (⟨1, 1, -1, 1, 0, 0, 1, -1, -1⟩ : Board) HUMAN).1.2.2) = true :=
  leafGE 2 (⟨1, 1, -1, 1, 0, 0, 1, -1, -1⟩ : Board) HUMAN (XScore.fin 0) (Or.inr rfl) rfl

theorem certGE0957 : XScore.ble (XScore.fin 0) ((minimax 3 (⟨1, 1, -1, 0, 0, 0, 1, -1, -1⟩ : Board) COMP).1.2.2) = true :=
  nodeCompGE 3 2 (⟨1, 1, -1, 0, 0, 0, 1, -1, -1⟩ : Board) (⟨1, 1, -1, 1, 0, 0, 1, -1, -1⟩ : Board) (XScore.fin 0) 1 0 rfl rfl (of_decide_eq_true rfl) rfl
    certGE0956

theorem certGE0958 : XScore.ble (XScore.fin 0) ((minimax 4 (⟨1, 1, -1, 0, 0, 0, 1, -1, 0⟩ : Board) HUMAN).1.2.2) = true :=
  nodeHumanGE 4 3 (⟨1, 1, -1, 0, 0, 0, 1, -1, 0⟩ : Board) (XScore.fin 0)
    [(⟨1, 1, -1, -1, 0, 0, 1, -1, 0⟩ : Board),
     (⟨1, 1, -1, 0, -1, 0, 1, -1, 0⟩ : Board),
     (⟨1, 1, -1, 0, 0, -1, 1, -1, 0⟩ : Board),
     (⟨1, 1, -1, 0, 0, 0, 1, -1, -1⟩ : Board)]
    rfl rfl rfl
    ⟨certGE0953, certGE0909, certGE0955, certGE0957, True.intro⟩

theorem certGE0959 : XScore.ble (XScore.fin 0) ((minimax 5 (⟨1, 1, -1, 0, 0, 0, 0, -1, 0⟩ : Board) COMP).1.2.2) = true :=
  nodeCompGE 5 4 (⟨1, 1, -1, 0, 0, 0, 0, -1, 0⟩ : Board) (⟨1, 1, -1, 0, 0, 0, 1, -1, 0⟩ : Board) (XScore.fin 0) 2 0 rfl rfl (of_decide_eq_true rfl) rfl
    certGE0958

theorem certGE0960 : XScore.ble (XScore.fin 0) ((minimax 5 (⟨1, 1, 0, 0, 0, -1, 0, -1, 0⟩ : Board) COMP).1.2.2) = true :=
  nodeCompGE 5 4 (⟨1, 1, 0, 0, 0, -1, 0, -1, 0⟩ : Board) (⟨1, 1, 1, 0, 0, -1, 0, -1, 0⟩ : Board) (XScore.fin 0) 0 2 rfl rfl (of_decide_eq_true rfl) rfl
    certGE0928

theorem certGE0961 : XScore.ble (XScore.fin 0) ((minimax 4 (⟨1, 1, 1, 0, 0, 0, 0, -1, -1⟩ : Board) HUMAN).1.2.2) = true :=
  leafGE 4 (⟨1, 1, 1, 0, 0, 0, 0, -1, -1⟩ : Board) HUMAN (XScore.fin 0) (Or.inr rfl) rfl

theorem certGE0962 : XScore.ble (XScore.fin 0) ((minimax 5 (⟨1, 1, 0, 0, 0, 0, 0, -1, -1⟩ : Board) COMP).1.2.2) = true :=
  nodeCompGE 5 4 (⟨1, 1, 0, 0, 0, 0, 0, -1, -1⟩ : Board) (⟨1, 1, 1, 0, 0, 0, 0, -1, -1⟩ : Board) (XScore.fin 0) 0 2 rfl rfl (of_decide_eq_true rfl) rfl
    certGE0961

theorem certGE0963 : XScore.ble (XScore.fin 0) ((minimax 6 (⟨1, 1, 0, 0, 0, 0, 0, -1, 0⟩ : Board) HUMAN).1.2.2) = true :=
  nodeHumanGE 6 5 (⟨1, 1, 0, 0, 0, 0, 0, -1, 0⟩ : Board) (XScore.fin 0)
    [(⟨1, 1, -1, 0, 0, 0, 0, -1, 0⟩ : Board),
     (⟨1, 1, 0, -1, 0, 0, 0, -1, 0⟩ : Board),
     (⟨1, 1, 0, 0, -1, 0, 0, -1, 0⟩ : Board),
     (⟨1, 1, 0, 0, 0, -1, 0, -1, 0⟩ : Board),
     (⟨1, 1, 0, 0, 0, 0, -1, -1, 0⟩ : Board),
     (⟨1, 1, 0, 0, 0, 0, 0, -1, -1⟩ : Board)]
    rfl rfl rfl
    ⟨certGE0959, certGE0895, certGE0919, certGE0960, certGE0944, certGE0962, True.intro⟩

theorem certGE0964 : XScore.ble (XScore.fin 0) ((minimax 7 (⟨1, 0, 0, 0, 0, 0, 0, -1, 0⟩ : Board) COMP).1.2.2) = true :=
  nodeCompGE 7 6 (⟨1, 0, 0, 0, 0, 0, 0, -1, 0⟩ : Board) (⟨1, 1, 0, 0, 0, 0, 0, -1, 0⟩ : Board) (XScore.fin 0) 0 1 rfl rfl (of_decide_eq_true rfl) rfl
    certGE0963

theorem certGE0965 : XScore.ble (XScore.fin 0) ((minimax 5 (⟨1, 0, 1, -1, 0, 0, 0, 0, -1⟩ : Board) COMP).1.2.2) = true :=
  nodeCompGE 5 4 (⟨1, 0, 1, -1, 0, 0, 0, 0, -1⟩ : Board) (⟨1, 1, 1, -1, 0, 0, 0, 0, -1⟩ : Board) (XScore.fin 0) 0 1 rfl rfl (of_decide_eq_true rfl) rfl
    certGE0896

theorem certGE0966 : XScore.ble (XScore.fin 0) ((minimax 5 (⟨1, 0, 1, 0, -1, 0, 0, 0, -1⟩ : Board) COMP).1.2.2) = true :=
  nodeCompGE 5 4 (⟨1, 0, 1, 0, -1, 0, 0, 0, -1⟩ : Board) (⟨1, 1, 1, 0, -1, 0, 0, 0, -1⟩ : Board) (XScore.fin 0) 0 1 rfl rfl (of_decide_eq_true rfl) rfl
    certGE0920

theorem certGE0967 : XScore.ble (XScore.fin 0) ((minimax 5 (⟨1, 0, 1, 0, 0, 0, -1, 0, -1⟩ : Board) COMP).1.2.2) = true :=
  nodeCompGE 5 4 (⟨1, 0, 1, 0, 0, 0, -1, 0, -1⟩ : Board) (⟨1, 1, 1, 0, 0, 0, -1, 0, -1⟩ : Board) (XScore.fin 0) 0 1 rfl rfl (of_decide_eq_true rfl) rfl
    certGE0945

theorem certGE0968 : XScore.ble (XScore.fin 0) ((minimax 5 (⟨1, 0, 1, 0, 0, 0, 0, -1, -1⟩ : Board) COMP).1.2.2) = true :=
  nodeCompGE 5 4 (⟨1, 0, 1, 0, 0, 0, 0, -1, -1⟩ : Board) (⟨1, 1, 1, 0, 0, 0, 0, -1, -1⟩ : Board) (XScore.fin 0) 0 1 rfl rfl (of_decide_eq_true rfl) rfl
    certGE0961

theorem certGE0969 : XScore.ble (XScore.fin 0) ((minimax 6 (⟨1, 0, 1, 0, 0, 0, 0, 0, -1⟩ : Board) HUMAN).1.2.2) = true :=
  nodeHumanGE 6 5 (⟨1, 0, 1, 0, 0, 0, 0, 0, -1⟩ : Board) (XScore.fin 0)
    [(⟨1, -1, 1, 0, 0, 0, 0, 0, -1⟩ : Board),
     (⟨1, 0, 1, -1, 0, 0, 0, 0, -1⟩ : Board),
     (⟨1, 0, 1, 0, -1, 0, 0, 0, -1⟩ : Board),
     (⟨1, 0, 1, 0, 0, -1, 0, 0, -1⟩ : Board),
     (⟨1, 0, 1, 0, 0, 0, -1, 0, -1⟩ : Board),
     (⟨1, 0, 1, 0, 0, 0, 0, -1, -1⟩ : Board)]
    rfl rfl rfl
    ⟨certGE0832, certGE0965, certGE0966, certGE0931, certGE0967, certGE0968, True.intro⟩

theorem certGE0970 : XScore.ble (XScore.fin 0) ((minimax 7 (⟨1, 0, 0, 0, 0, 0, 0, 0, -1⟩ : Board) COMP).1.2.2) = true :=
  nodeCompGE 7 6 (⟨1, 0, 0, 0, 0, 0, 0, 0, -1⟩ : Board) (⟨1, 0, 1, 0, 0, 0, 0, 0, -1⟩ : Board) (XScore.fin 0) 0 2 rfl rfl (of_decide_eq_true rfl) rfl
    certGE0969

theorem certGE0971 : XScore.ble (XScore.fin 0) ((minimax 8 (⟨1, 0, 0, 0, 0, 0, 0, 0, 0⟩ : Board) HUMAN).1.2.2) = true :=
  nodeHumanGE 8 7 (⟨1, 0, 0, 0, 0, 0, 0, 0, 0⟩ : Board) (XScore.fin 0)
    [(⟨1, -1, 0, 0, 0, 0, 0, 0, 0⟩ : Board),
     (⟨1, 0, -1, 0, 0, 0, 0, 0, 0⟩ : Board),
     (⟨1, 0, 0, -1, 0, 0, 0, 0, 0⟩ : Board),
     (⟨1, 0, 0, 0, -1, 0, 0, 0, 0⟩ : Board),
     (⟨1, 0, 0, 0, 0, -1, 0, 0, 0⟩ : Board),
     (⟨1, 0, 0, 0, 0, 0, -1, 0, 0⟩ : Board),
     (⟨1, 0, 0, 0, 0, 0, 0, -1, 0⟩ : Board),
     (⟨1, 0, 0, 0, 0, 0, 0, 0, -1⟩ : Board)]
    rfl rfl rfl
    ⟨certGE0834, certGE0871, certGE0899, certGE0923, certGE0933, certGE0948, certGE0964, certGE0970, True.intro⟩

theorem certGE0972 : XScore.ble (XScore.fin 0) ((minimax 9 (⟨0, 0, 0, 0, 0, 0, 0, 0, 0⟩ : Board) COMP).1.2.2) = true :=
  nodeCompGE 9 8 (⟨0, 0, 0, 0, 0, 0, 0, 0, 0⟩ : Board) (⟨1, 0, 0, 0, 0, 0, 0, 0, 0⟩ : Board) (XScore.fin 0) 0 0 rfl rfl (of_decide_eq_true rfl) rfl
    certGE0971

end ZeroX

namespace ZeroX

/-- Characterisation of `wins`: the membership test over the eight fixed
lines holds exactly when one of the three rows, three columns or two
diagonals is uniformly `p`. -/
theorem wins_iff_aux (s : Board) (p : Int) :
    wins s p = true ↔
      ((s.a00 = p ∧ s.a01 = p ∧ s.a02 = p) ∨
       (s.a10 = p ∧ s.a11 = p ∧ s.a12 = p) ∨
       (s.a20 = p ∧ s.a21 = p ∧ s.a22 = p) ∨
       (s.a00 = p ∧ s.a10 = p ∧ s.a20 = p) ∨
       (s.a01 = p ∧ s.a11 = p ∧ s.a21 = p) ∨
       (s.a02 = p ∧ s.a12 = p ∧ s.a22 = p) ∨
       (s.a00 = p ∧ s.a11 = p ∧ s.a22 = p) ∨
       (s.a20 = p ∧ s.a11 = p ∧ s.a02 = p)) := by
  simp only [wins, win_state, decide_eq_true_eq, List.mem_cons, List.not_mem_nil,
    or_false, List.cons.injEq, and_true]
  constructor
  · rintro (h | h | h | h | h | h | h | h) <;>
      [exact Or.inl ⟨h.1.symm, h.2.1.symm, h.2.2.symm⟩;
       exact Or.inr (Or.inl ⟨h.1.symm, h.2.1.symm, h.2.2.symm⟩);
       exact Or.inr (Or.inr (Or.inl ⟨h.1.symm, h.2.1.symm, h.2.2.symm⟩));
       exact Or.inr (Or.inr (Or.inr (Or.inl ⟨h.1.symm, h.2.1.symm, h.2.2.symm⟩)));
       exact Or.inr (Or.inr (Or.inr (Or.inr (Or.inl ⟨h.1.symm, h.2.1.symm, h.2.2.symm⟩))));
       exact Or.inr (Or.inr (Or.inr (Or.inr (Or.inr (Or.inl ⟨h.1.symm, h.2.1.symm, h.2.2.symm⟩)))));
       exact Or.inr (Or.inr (Or.inr (Or.inr (Or.inr (Or.inr (Or.inl ⟨h.1.symm, h.2.1.symm, h.2.2.symm⟩))))));
       exact Or.inr (Or.inr (Or.inr (Or.inr (Or.inr (Or.inr (Or.inr ⟨h.1.symm, h.2.1.symm, h.2.2.symm⟩))))))]
  · rintro (h | h | h | h | h | h | h | h) <;>
      [exact Or.inl ⟨h.1.symm, h.2.1.symm, h.2.2.symm⟩;
       exact Or.inr (Or.inl ⟨h.1.symm, h.2.1.symm, h.2.2.symm⟩);
       exact Or.inr (Or.inr (Or.inl ⟨h.1.symm, h.2.1.symm, h.2.2.symm⟩));
       exact Or.inr (Or.inr (Or.inr (Or.inl ⟨h.1.symm, h.2.1.symm, h.2.2.symm⟩)));
       exact Or.inr (Or.inr (Or.inr (Or.inr (Or.inl ⟨h.1.symm, h.2.1.symm, h.2.2.symm⟩))));
       exact Or.inr (Or.inr (Or.inr (Or.inr (Or.inr (Or.inl ⟨h.1.symm, h.2.1.symm, h.2.2.symm⟩)))));
       exact Or.inr (Or.inr (Or.inr (Or.inr (Or.inr (Or.inr (Or.inl ⟨h.1.symm, h.2.1.symm, h.2.2.symm⟩))))));
       exact Or.inr (Or.inr (Or.inr (Or.inr (Or.inr (Or.inr (Or.inr ⟨h.1.symm, h.2.1.symm, h.2.2.symm⟩))))))]

/-- C1: for every board state, every depth and every player, the board
after a call to `minimax(state, depth, player)` equals the board before
the call: the speculative place/revert pair inside the candidate loop
leaves no visible mutation on any exit path. -/
theorem minimax_board_unchanged (d : Nat) (s : Board) (p : Int) :
    (minimax d s p).2 = s :=
  minimax_state d s p

/-- C2 counterexample: on a full drawn board with depth 1 the candidate
loop runs over no cells and `minimax` returns the initial sentinel
`[-1, -1, -infinity]`, not the leaf result `(-1, -1, evaluate(state))`
the claim promises for "no empty cells and depth > 0". -/
theorem minimax_full_draw_cex :
    empty_cells fullDraw = [] ∧ game_over fullDraw = false ∧
      (minimax 1 fullDraw COMP).1 ≠ (-1, -1, XScore.fin (evaluate fullDraw)) ∧
      (minimax 1 fullDraw COMP).1 = (-1, -1, XScore.negInf) := by
  decide

/-- C2 (amended): every already-terminal board state, and every state at
depth 0, yields the immediate leaf `(-1, -1, evaluate(state))`; a full but
non-terminal board searched with depth > 0 instead yields the untouched
initial sentinel, `(-1, -1, -infinity)` for COMPUTER and
`(-1, -1, +infinity)` for HUMAN. -/
theorem minimax_leaf_return (s : Board) (d : Nat) (p : Int) :
    ((d = 0 ∨ game_over s = true) →
        (minimax d s p).1 = (-1, -1, XScore.fin (evaluate s))) ∧
    (game_over s = false → empty_cells s = [] → 0 < d →
        (minimax d s p).1 =
          (if p = COMP then (-1, -1, XScore.negInf)
           else (-1, -1, XScore.posInf))) := by
  constructor
  · exact minimax_leaf d s p
  · intro hgo hempty hd
    obtain ⟨e, rfl⟩ : ∃ e, d = e + 1 := ⟨d - 1, by omega⟩
    rw [minimax_succ e s p hgo, hempty, mmStep_nil]
    rfl

/-- C2 witness: the leaf clause at a terminal board of depth 3, and the
sentinel clause at the full drawn board of depth 1. -/
theorem minimax_leaf_return_witness :
    (minimax 3 bothWin COMP).1 = (-1, -1, XScore.fin (evaluate bothWin)) ∧
    (minimax 1 fullDraw COMP).1 =
      (if COMP = COMP then (-1, -1, XScore.negInf)
       else (-1, -1, XScore.posInf)) :=
  ⟨(minimax_leaf_return bothWin 3 COMP).1 (Or.inr (by decide)),
   (minimax_leaf_return fullDraw 1 COMP).2 (by decide) (by decide) (by decide)⟩

set_option maxRecDepth 40000 in
/-- C3 counterexample: with depth 0 on the empty board, and with depth 3
on a two-empty-cell drawn position, `minimax` returns the no-move marker
`(-1, -1)`, which `valid_move` rejects, although the board is non-terminal
and has empty cells. -/
theorem minimax_valid_move_cex :
    (game_over board = false ∧ empty_cells board ≠ [] ∧
      (minimax 0 board COMP).1 = (-1, -1, XScore.fin 0) ∧
      valid_move board (-1) (-1) = false) ∧
    (game_over cB = false ∧ empty_cells cB ≠ [] ∧
      (minimax 3 cB HUMAN).1 = (-1, -1, XScore.posInf) ∧
      valid_move cB (-1) (-1) = false) := by
  refine ⟨⟨by decide, by decide, by decide, by decide⟩,
    ⟨by decide, by decide, by decide, by decide⟩⟩

/-- C3 (amended): for every board state with at least one empty cell that
is not terminal, and every depth with 0 < depth ≤ number of empty cells,
`minimax(state, depth, player)` returns coordinates denoting an in-bounds
empty cell of the state, i.e. `is_valid_move` holds for them; at depth 0,
and at depths exceeding the empty-cell count, the no-move marker `(-1,-1)`
can be returned instead. -/
theorem minimax_returns_valid_move (s : Board) (d : Nat) (p : Int)
    (hgo : game_over s = false) (hd1 : 0 < d)
    (hd2 : d ≤ (empty_cells s).length) :
    valid_move s (minimax d s p).1.1 (minimax d s p).1.2.1 = true := by
  obtain ⟨e, rfl⟩ : ∃ e, d = e + 1 := ⟨d - 1, by omega⟩
  have hfin := minimax_fin (e + 1) s p hd2
  rw [minimax_succ e s p hgo] at hfin ⊢
  rcases mmStep_coords (minimax e) p (empty_cells s) (mmInit p) s with
    h | ⟨x, y, hmem, hco⟩
  · exfalso
    rw [h] at hfin
    by_cases hp : p = COMP <;> simp [mmInit, hp, XScore.isFin] at hfin
  · unfold valid_move
    rw [hco]
    exact decide_eq_true hmem

/-- C3 witness: on Scenario 1's board with depth equal to its five empty
cells, the returned move is valid. -/
theorem minimax_returns_valid_move_witness :
    valid_move sc1 (minimax 5 sc1 COMP).1.1 (minimax 5 sc1 COMP).1.2.1 = true :=
  minimax_returns_valid_move sc1 5 COMP (by decide) (by decide) (by decide)

/-- C4: minimax on the all-empty board with depth 9 and player COMPUTER
returns a result whose score component is 0: optimal play by both sides
from the empty board forces a draw. -/
theorem minimax_empty_board_draw : (minimax 9 board COMP).1.2.2 = XScore.fin 0 := by
  rw [show board = (⟨0, 0, 0, 0, 0, 0, 0, 0, 0⟩ : Board) from rfl]
  exact XScore.ble_antisymm _ _ certLE0757 certGE0972

set_option maxRecDepth 200000 in
set_option maxHeartbeats 8000000 in
/-- C5: on the board [[COMP,COMP,EMPTY],[HUMAN,HUMAN,EMPTY],[EMPTY,EMPTY,EMPTY]],
`minimax(state, 7, COMP)` returns exactly the move (0,2) with score +1: the
computer completes the winning top row. -/
theorem minimax_scenario1 : (minimax 7 sc1 COMP).1 = (0, 2, XScore.fin 1) := by
  decide

/-- C6: for every board state and every player, `has_won(state, player)` is
true iff at least one of the 8 fixed winning lines (3 rows, 3 columns, 2
diagonals) is entirely occupied by that player, and false when none is. -/
theorem wins_iff_lines (s : Board) (p : Int) :
    wins s p = true ↔
      ((s.a00 = p ∧ s.a01 = p ∧ s.a02 = p) ∨
       (s.a10 = p ∧ s.a11 = p ∧ s.a12 = p) ∨
       (s.a20 = p ∧ s.a21 = p ∧ s.a22 = p) ∨
       (s.a00 = p ∧ s.a10 = p ∧ s.a20 = p) ∨
       (s.a01 = p ∧ s.a11 = p ∧ s.a21 = p) ∨
       (s.a02 = p ∧ s.a12 = p ∧ s.a22 = p) ∨
       (s.a00 = p ∧ s.a11 = p ∧ s.a22 = p) ∨
       (s.a20 = p ∧ s.a11 = p ∧ s.a02 = p)) :=
  wins_iff_aux s p

/-- C7: `is_terminal(state)` is true iff `has_won(state, HUMAN)` or
`has_won(state, COMP)`; in particular a full board with no winning line is
not flagged terminal by this predicate (its exhaustion is visible only
through `empty_cells` being empty), and it evaluates to 0. -/
theorem game_over_iff_wins :
    (∀ s : Board, game_over s = true ↔
      (wins s HUMAN = true ∨ wins s COMP = true)) ∧
    game_over fullDraw = false ∧ empty_cells fullDraw = [] ∧
      evaluate fullDraw = 0 := by
  refine ⟨fun s => ?_, by decide, by decide, by decide⟩
  simp [game_over]

/-- C8 counterexample: on the representable board where both players have
complete lines, `evaluate` returns +1 even though HUMAN has won, so the
clause "-1 if HUMAN has won" fails as stated. -/
theorem evaluate_both_win_cex :
    wins bothWin HUMAN = true ∧ wins bothWin COMP = true ∧
      evaluate bothWin = 1 := by
  decide

/-- C8 (amended): for every board state, `evaluate` returns exactly one of
{-1, 0, +1}: +1 if COMPUTER has won, -1 if HUMAN has won and COMPUTER has
not, and 0 when neither has won (draws and non-terminal states included). -/
theorem evaluate_cases (s : Board) :
    (evaluate s = -1 ∨ evaluate s = 0 ∨ evaluate s = 1) ∧
    (wins s COMP = true → evaluate s = 1) ∧
    (wins s COMP = false → wins s HUMAN = true → evaluate s = -1) ∧
    (wins s COMP = false → wins s HUMAN = false → evaluate s = 0) := by
  unfold evaluate
  split_ifs with h1 h2 <;> simp_all

/-- C9: if the move is valid (in-bounds and empty cell), `set_move` writes
the player's mark into exactly that cell and reports true; otherwise
(out-of-range coordinates or occupied cell) it reports false and the board
is unchanged. -/
theorem set_move_spec (b : Board) (x y p : Int) :
    (valid_move b x y = true →
      (set_move b x y p).1 = true ∧
      getCell (set_move b x y p).2 x y = p ∧
      (∀ u v : Int, (u, v) ∈ allCoords → ¬(u = x ∧ v = y) →
        getCell (set_move b x y p).2 u v = getCell b u v) ∧
      (∀ u v : Int, (u, v) ∉ allCoords →
        getCell (set_move b x y p).2 u v = getCell b u v)) ∧
    (valid_move b x y = false →
      (set_move b x y p).1 = false ∧ (set_move b x y p).2 = b) := by
  constructor
  · intro hv
    have hmem : (x, y) ∈ empty_cells b := of_decide_eq_true hv
    have hsm : set_move b x y p = (true, setCell b x y p) := by
      simp [set_move, hv]
    rw [hsm]
    exact ⟨rfl, getCell_setCell_same b x y p hmem,
      fun u v hco huv => getCell_setCell_other b x y p u v hmem hco huv,
      fun u v hnco => by rw [getCell_oob _ u v hnco, getCell_oob b u v hnco]⟩
  · intro hv
    have hsm : set_move b x y p = (false, b) := by
      simp [set_move, hv]
    rw [hsm]
    exact ⟨rfl, rfl⟩

/-- C9 witness: a valid placement on the empty board's centre, an occupied
cell and an out-of-range coordinate on Scenario 1's board. -/
theorem set_move_spec_witness :
    (set_move board 1 1 COMP).1 = true ∧
    getCell (set_move board 1 1 COMP).2 1 1 = COMP ∧
    (set_move sc1 0 0 COMP).1 = false ∧ (set_move sc1 0 0 COMP).2 = sc1 ∧
    (set_move sc1 (-2) 5 COMP).1 = false ∧ (set_move sc1 (-2) 5 COMP).2 = sc1 :=
  ⟨((set_move_spec board 1 1 COMP).1 (by decide)).1,
   ((set_move_spec board 1 1 COMP).1 (by decide)).2.1,
   ((set_move_spec sc1 0 0 COMP).2 (by decide)).1,
   ((set_move_spec sc1 0 0 COMP).2 (by decide)).2,
   ((set_move_spec sc1 (-2) 5 COMP).2 (by decide)).1,
   ((set_move_spec sc1 (-2) 5 COMP).2 (by decide)).2⟩

/-- C10: the win test does not require its player argument to be HUMAN or
COMP: `wins(state, 0)` is true whenever some winning line consists
entirely of empty cells, so `has_won` is only meaningful for
player ∈ {HUMAN, COMP}. -/
theorem wins_empty_marker (s : Board)
    (h : (s.a00 = 0 ∧ s.a01 = 0 ∧ s.a02 = 0) ∨
         (s.a10 = 0 ∧ s.a11 = 0 ∧ s.a12 = 0) ∨
         (s.a20 = 0 ∧ s.a21 = 0 ∧ s.a22 = 0) ∨
         (s.a00 = 0 ∧ s.a10 = 0 ∧ s.a20 = 0) ∨
         (s.a01 = 0 ∧ s.a11 = 0 ∧ s.a21 = 0) ∨
         (s.a02 = 0 ∧ s.a12 = 0 ∧ s.a22 = 0) ∨
         (s.a00 = 0 ∧ s.a11 = 0 ∧ s.a22 = 0) ∨
         (s.a20 = 0 ∧ s.a11 = 0 ∧ s.a02 = 0)) :
    wins s 0 = true :=
  (wins_iff_aux s 0).2 h

/-- C10 witness: the all-empty board satisfies `wins` for the EMPTY
marker. -/
theorem wins_empty_marker_witness : wins board 0 = true :=
  wins_empty_marker board (Or.inl ⟨rfl, rfl, rfl⟩)

end ZeroX
